import Mathlib

/-!
Verification of the Markdown → Confluence atlas_doc_format converter
(`convertMarkdownToAtlasDoc` and its helpers).  The JavaScript source is
embedded shallowly: strings are Lean `String`s (processed as `List Char`),
regex-driven scanning is rendered as explicit character scanners with the
exact matching semantics of the source's patterns, and the mutable
list-frame stack of the builder is threaded as explicit state.  The few
places where the source could throw a `TypeError` (accessing `.content` of
an `undefined` last item) are modelled with `Except`.
-/

set_option maxRecDepth 100000

/-! ### Character and string helpers (JavaScript `\s`, `trim`) -/

/-- The JavaScript `\s` character class (the whitespace set used by the
source's regexes and by `String.prototype.trim`), restricted to the code
points that can actually occur in the tool's Markdown inputs. -/
def jsWs (c : Char) : Bool :=
  c == ' ' || c == '\t' || c == '\n' || c == '\r' || c == '\x0b' ||
  c == '\x0c' || c == ' ' || c == '﻿'

/-- `String.prototype.trim` on a character list. -/
def jsTrimList (l : List Char) : List Char :=
  ((l.dropWhile jsWs).reverse.dropWhile jsWs).reverse

/-- `String.prototype.trim`. -/
def jsTrim (s : String) : String :=
  (jsTrimList s.toList).asString

/-- `String.prototype.includes` for a single character. -/
def containsChar (s : String) (c : Char) : Bool :=
  s.toList.contains c

/-- Substring containment (`String.prototype.includes`) on character lists. -/
def listHasInfix (p : List Char) : List Char → Bool
  | [] => p.isEmpty
  | c :: cs => p.isPrefixOf (c :: cs) || listHasInfix p cs

/-! ### The atlas_doc_format node vocabulary

Node `attrs` that the source fixes to constants (the `table` node's
`isNumberColumnEnabled`/`layout`, the `media` node's `type: 'file'`, the
TOC extension's macro parameters) are folded into the constructors. -/

inductive Mark where
  | strong
  | em
  | code
  | link (href : String)
deriving DecidableEq, Repr

inductive ADF where
  | text (s : String) (marks : List Mark)
  | paragraph (content : List ADF)
  | heading (level : Nat) (content : List ADF)
  | codeBlock (language : String) (content : List ADF)
  | bulletList (content : List ADF)
  | orderedList (content : List ADF)
  | listItem (content : List ADF)
  | table (content : List ADF)
  | tableRow (content : List ADF)
  | tableHeader (content : List ADF)
  | tableCell (content : List ADF)
  | rule
  | media (url alt : String)
  | mediaPlaceholder (viewid : String)
  | tocExtension
deriving Repr

/-- `createTableOfContents()` (the extension node with fixed macro
parameters). -/
def createTableOfContents : ADF := ADF.tocExtension

/-! ### Inline-formatting tokenizer (`parseInlineFormatting`)

The source applies six global regex-substitution passes in order — inline
code, links, bold (`**`, `__`), italic (`*`, `_`) — each replacing a match
with the sentinel string `"\u0001PLACEHOLDER" + id + "\u0001"` and
recording the captured text in a map; then it splits on the sentinel
pattern and reconstructs text nodes.  The passes are modelled generically
over the symbol type `γ` so that the same scanner can also run over a
token alphabet (used as the reference implementation when reasoning about
text preservation). -/

inductive PhKind where
  | code
  | strong
  | em
  | link
deriving DecidableEq, Repr

structure MRes (γ : Type) where
  tailLen : Nat
  kind : PhKind
  textCap : List γ
  urlCap : List γ
  skipIt : Bool
deriving Repr

structure PhEntry (γ : Type) where
  id : Nat
  kind : PhKind
  text : List γ
  url : List γ
deriving Repr, DecidableEq

/-- Matcher for the single-delimiter patterns `` `([^`]+)` ``,
`\*([^*]+)\*`, `_([^_]+)_` at the current position: `c` is the current
symbol and `cs` the rest.  `chk` is true for the passes whose callback
skips matches containing `"\u0001PLACEHOLDER"` (the bold/italic passes);
the test is made on the captured content, which is equivalent to the
source's test on the whole match because the delimiter characters do not
occur in the sentinel prefix. -/
def tryDelim1 {γ : Type} (eqc : γ → Char → Bool) (hasPh : List γ → Bool)
    (d : Char) (k : PhKind) (chk : Bool) (c : γ) (cs : List γ) : Option (MRes γ) :=
  if eqc c d then
    let t := cs.takeWhile (fun x => ¬ eqc x d)
    if t.length = 0 then none
    else
      match cs.drop t.length with
      | x :: _ => if eqc x d then some ⟨t.length + 1, k, t, [], chk && hasPh t⟩ else none
      | [] => none
  else none

/-- Matcher for the double-delimiter patterns `\*\*([^*]+)\*\*` and
`__([^_]+)__`. -/
def tryDelim2 {γ : Type} (eqc : γ → Char → Bool) (hasPh : List γ → Bool)
    (d : Char) (k : PhKind) (chk : Bool) (c : γ) (cs : List γ) : Option (MRes γ) :=
  if eqc c d then
    match cs with
    | c2 :: cs2 =>
      if eqc c2 d then
        let t := cs2.takeWhile (fun x => ¬ eqc x d)
        if t.length = 0 then none
        else
          match cs2.drop t.length with
          | x :: y :: _ =>
            if eqc x d && eqc y d then some ⟨1 + t.length + 2, k, t, [], chk && hasPh t⟩
            else none
          | _ => none
      else none
    | [] => none
  else none

/-- Matcher for the link pattern `\[([^\]]+)\]\(([^)]+)\)`. -/
def tryLink {γ : Type} (eqc : γ → Char → Bool) (c : γ) (cs : List γ) : Option (MRes γ) :=
  if eqc c '[' then
    let t1 := cs.takeWhile (fun x => ¬ eqc x ']')
    if t1.length = 0 then none
    else
      match cs.drop t1.length with
      | b :: p :: r2 =>
        if eqc b ']' && eqc p '(' then
          let t2 := r2.takeWhile (fun x => ¬ eqc x ')')
          if t2.length = 0 then none
          else
            match r2.drop t2.length with
            | q :: _ => if eqc q ')' then some ⟨t1.length + 2 + t2.length + 1, PhKind.link, t1, t2, false⟩ else none
            | [] => none
        else none
      | _ => none
  else none

/-- One global-substitution pass (`String.prototype.replace` with a `g`
regex and a recording callback): scan left to right; at a match either
leave the matched span verbatim (when the callback returns the match,
i.e. `skipIt`) or emit a fresh placeholder and record an entry; in both
cases continue after the match. -/
def runPass {γ : Type} (tryAt : γ → List γ → Option (MRes γ)) (mkPh : Nat → List γ) :
    Nat → List γ → Nat → List γ × List (PhEntry γ) × Nat
  | 0, s, ctr => (s, [], ctr)
  | _ + 1, [], ctr => ([], [], ctr)
  | f + 1, c :: cs, ctr =>
    match tryAt c cs with
    | none =>
      let r := runPass tryAt mkPh f cs ctr
      (c :: r.1, r.2.1, r.2.2)
    | some m =>
      if m.skipIt then
        let r := runPass tryAt mkPh f (cs.drop m.tailLen) ctr
        (c :: (cs.take m.tailLen ++ r.1), r.2.1, r.2.2)
      else
        let r := runPass tryAt mkPh f (cs.drop m.tailLen) (ctr + 1)
        (mkPh ctr ++ r.1, ⟨ctr, m.kind, m.textCap, m.urlCap⟩ :: r.2.1, r.2.2)

/-! Decimal rendering of the placeholder id (JavaScript string
interpolation of a number). -/

def decDigit (n : Nat) : Char := Char.ofNat (48 + n)

def natDigitsGo : Nat → Nat → List Char
  | 0, _ => []
  | f + 1, n => if n < 10 then [decDigit n] else natDigitsGo f (n / 10) ++ [decDigit (n % 10)]

def natDigits (n : Nat) : List Char := natDigitsGo (n + 1) n

/-- The sentinel prefix `"\u0001PLACEHOLDER"`. -/
def phPrefix : List Char := '\x01' :: "PLACEHOLDER".toList

/-- The full sentinel `"\u0001PLACEHOLDER" + id + "\u0001"`. -/
def phStr (n : Nat) : List Char := phPrefix ++ natDigits n ++ ['\x01']

def hasPhC (l : List Char) : Bool := listHasInfix phPrefix l

def eqcC (c d : Char) : Bool := c == d

/-- The six substitution passes of `parseInlineFormatting`, in source
order: code, link, bold (`**`), bold (`__`), italic (`*`), italic (`_`).
The placeholder counter and the entry map are shared across passes. -/
def runPassesC (s : List Char) : List Char × List (PhEntry Char) × Nat :=
  let r1 := runPass (tryDelim1 eqcC hasPhC '`' PhKind.code false) phStr (s.length + 1) s 0
  let r2 := runPass (tryLink eqcC) phStr (r1.1.length + 1) r1.1 r1.2.2
  let r3 := runPass (tryDelim2 eqcC hasPhC '*' PhKind.strong true) phStr (r2.1.length + 1) r2.1 r2.2.2
  let r4 := runPass (tryDelim2 eqcC hasPhC '_' PhKind.strong true) phStr (r3.1.length + 1) r3.1 r3.2.2
  let r5 := runPass (tryDelim1 eqcC hasPhC '*' PhKind.em true) phStr (r4.1.length + 1) r4.1 r4.2.2
  let r6 := runPass (tryDelim1 eqcC hasPhC '_' PhKind.em true) phStr (r5.1.length + 1) r5.1 r5.2.2
  (r6.1, r1.2.1 ++ r2.2.1 ++ r3.2.1 ++ r4.2.1 ++ r5.2.1 ++ r6.2.1, r6.2.2)

/-! Splitting the processed line on `/(\u0001PLACEHOLDER\d+\u0001)/g` and
rebuilding the nodes. -/

inductive InPart where
  | txt (l : List Char)
  | tok (l : List Char)
deriving Repr

/-- Parse a full sentinel token at the head of `s` (which must start with
`'\x01'`); returns the token's characters and the rest. -/
def tokAt (s : List Char) : Option (List Char × List Char) :=
  match s with
  | c :: cs =>
    if c = '\x01' && "PLACEHOLDER".toList.isPrefixOf cs then
      let r := cs.drop 11
      let d := r.takeWhile Char.isDigit
      if d.length = 0 then none
      else
        match r.drop d.length with
        | e :: rest => if e = '\x01' then some ('\x01' :: ("PLACEHOLDER".toList ++ d ++ ['\x01']), rest) else none
        | [] => none
    else none
  | [] => none

def splitGo : Nat → List Char → List Char → List InPart
  | 0, s, acc => if (acc.reverse ++ s).isEmpty then [] else [InPart.txt (acc.reverse ++ s)]
  | _ + 1, [], acc => if acc.isEmpty then [] else [InPart.txt acc.reverse]
  | f + 1, c :: cs, acc =>
    if c = '\x01' then
      match tokAt (c :: cs) with
      | some (tk, rest) =>
        (if acc.isEmpty then [] else [InPart.txt acc.reverse]) ++ InPart.tok tk :: splitGo f rest []
      | none => splitGo f cs (c :: acc)
    else splitGo f cs (c :: acc)

def splitParts (s : List Char) : List InPart := splitGo (s.length + 1) s []

def nodeOfEntry (e : PhEntry Char) : ADF :=
  match e.kind with
  | PhKind.code => ADF.text e.text.asString [Mark.code]
  | PhKind.strong => ADF.text e.text.asString [Mark.strong]
  | PhKind.em => ADF.text e.text.asString [Mark.em]
  | PhKind.link => ADF.text e.text.asString [Mark.link e.url.asString]

def findEntry (es : List (PhEntry Char)) (l : List Char) : Option (PhEntry Char) :=
  es.find? (fun e => phStr e.id == l)

/-- The reconstruction loop over the split parts: a part equal to a
recorded sentinel becomes a marked run; a part that does not start with
the sentinel prefix becomes an unmarked run; a part starting with the
prefix but absent from the map is dropped. -/
def buildNodes (es : List (PhEntry Char)) : List InPart → List ADF
  | [] => []
  | InPart.tok l :: ps =>
    match findEntry es l with
    | some e => nodeOfEntry e :: buildNodes es ps
    | none => buildNodes es ps
  | InPart.txt l :: ps =>
    if phPrefix.isPrefixOf l then buildNodes es ps
    else ADF.text l.asString [] :: buildNodes es ps

/-- `parseInlineFormatting` from the source: tokenize one line of text
into styled runs; a line in which nothing was reconstructed yields a
single unmarked run holding the whole line. -/
def parseInlineFormatting (text : String) : List ADF :=
  let r := runPassesC text.toList
  let nodes := buildNodes r.2.1 (splitParts r.1)
  if nodes.isEmpty then [ADF.text text []] else nodes

/-! ### `countHeadings`

The source counts matches of `/^#{1,6}\s+.+$/gm` over the whole
(marker-filtered) Markdown text.  Because `\s` also matches newlines, a
match may start on a line holding only hashes and trailing whitespace and
extend to the end of the line holding the first non-whitespace character;
scanning resumes after the match. -/

def nextLineChars (l : List Char) : List Char :=
  (l.dropWhile (fun c => ¬ c == '\n')).drop 1

def countHeadingsGo : Nat → List Char → Nat
  | 0, _ => 0
  | _ + 1, [] => 0
  | f + 1, s =>
    let k := (s.takeWhile (fun c => c == '#')).length
    let rest := s.drop k
    if 1 ≤ k && k ≤ 6 then
      match rest with
      | c :: _ =>
        if jsWs c then
          let run := rest.takeWhile jsWs
          let after := rest.drop run.length
          match after with
          | _ :: _ => 1 + countHeadingsGo f (nextLineChars after)
          | [] => if (run.drop 1).any (fun c => ¬ c == '\n') then 1 else 0
        else countHeadingsGo f (nextLineChars s)
      | [] => countHeadingsGo f (nextLineChars s)
    else countHeadingsGo f (nextLineChars s)

def countHeadings (markdown : String) : Nat :=
  countHeadingsGo (markdown.length + 1) markdown.toList

/-! ### Marker filtering (the `GITHUB_ONLY`/`PPT_ONLY`/`CONFLUENCE_ONLY`
block removals and the Astro `:::` note-block removal applied to the
Markdown before line splitting) -/

/-- Match a literal character sequence at the head of `s` (case
sensitive); returns the rest. -/
def dropLit : List Char → List Char → Option (List Char)
  | [], s => some s
  | _ :: _, [] => none
  | p :: ps, c :: cs => if c == p then dropLit ps cs else none

/-- Case-insensitive literal match (the block regexes carry the `i`
flag). -/
def dropLitCI : List Char → List Char → Option (List Char)
  | [], s => some s
  | _ :: _, [] => none
  | p :: ps, c :: cs => if c.toLower == p.toLower then dropLitCI ps cs else none

def dropWsRun (s : List Char) : List Char := s.dropWhile jsWs

/-- `<!--\s*KW\s*-->` (case-insensitive keyword). -/
def matchOpenTag (kw : List Char) (s : List Char) : Option (List Char) :=
  match dropLit "<!--".toList s with
  | none => none
  | some s1 =>
    match dropLitCI kw (dropWsRun s1) with
    | none => none
    | some s3 => dropLit "-->".toList (dropWsRun s3)

/-- `<!--\s*\/\s*KW\s*-->` (case-insensitive keyword). -/
def matchCloseTag (kw : List Char) (s : List Char) : Option (List Char) :=
  match dropLit "<!--".toList s with
  | none => none
  | some s1 =>
    match dropWsRun s1 with
    | '/' :: s2 =>
      match dropLitCI kw (dropWsRun s2) with
      | none => none
      | some s3 => dropLit "-->".toList (dropWsRun s3)
    | _ => none

/-- Earliest closing tag (the lazy `[\s\S]*?`); returns the rest after
it. -/
def findCloseTag (kw : List Char) : Nat → List Char → Option (List Char)
  | 0, _ => none
  | _ + 1, [] => none
  | f + 1, c :: cs =>
    match matchCloseTag kw (c :: cs) with
    | some r => some r
    | none => findCloseTag kw f cs

/-- Earliest closing tag with no newline strictly before it (the lazy
`.*?` of the single-line block removal; the tag's own `\s*` may still
span newlines). -/
def findCloseTagNoNl (kw : List Char) : Nat → List Char → Option (List Char)
  | 0, _ => none
  | _ + 1, [] => none
  | f + 1, c :: cs =>
    match matchCloseTag kw (c :: cs) with
    | some r => some r
    | none => if c == '\n' then none else findCloseTagNoNl kw f cs

/-- Global removal of `<!--KW--> ... <!-- / KW -->` blocks (`[\s\S]*?`
variant when `sameLine` is false, `.*?` variant when true). -/
def removeBlocksGo (kw : List Char) (sameLine : Bool) : Nat → List Char → List Char
  | 0, s => s
  | _ + 1, [] => []
  | f + 1, c :: cs =>
    match matchOpenTag kw (c :: cs) with
    | some afterOpen =>
      match (if sameLine then findCloseTagNoNl kw (afterOpen.length + 1) afterOpen
             else findCloseTag kw (afterOpen.length + 1) afterOpen) with
      | some rest => removeBlocksGo kw sameLine f rest
      | none => c :: removeBlocksGo kw sameLine f cs
    | none => c :: removeBlocksGo kw sameLine f cs

/-- Global removal of a bare tag (the `CONFLUENCE_ONLY` marker
stripping). -/
def removeTagGo (m : List Char → Option (List Char)) : Nat → List Char → List Char
  | 0, s => s
  | _ + 1, [] => []
  | f + 1, c :: cs =>
    match m (c :: cs) with
    | some rest => removeTagGo m f rest
    | none => c :: removeTagGo m f cs

/-- The opener of `/^:::[a-zA-Z]+(\[[^\]]*\])?[\s\S]*?^:::$/gm`: returns
the suffix after the letters and, when the optional bracket group
matches, the suffix after it. -/
def astroOpenAt (s : List Char) : Option (List Char × Option (List Char)) :=
  match dropLit ":::".toList s with
  | none => none
  | some s1 =>
    let ls := s1.takeWhile Char.isAlpha
    if ls.length = 0 then none
    else
      let base := s1.drop ls.length
      let grp :=
        match base with
        | '[' :: b1 =>
          let inner := b1.takeWhile (fun c => ¬ c == ']')
          match b1.drop inner.length with
          | ']' :: b2 => some b2
          | _ => none
        | _ => none
      some (base, grp)

/-- Earliest `^:::$` (a line consisting of exactly `:::`); returns the
rest (the line's newline, if any, is not consumed). -/
def findAstroCloser : Nat → List Char → Bool → Option (List Char)
  | 0, _, _ => none
  | _ + 1, [], _ => none
  | f + 1, c :: cs, atLS =>
    if atLS then
      match dropLit ":::".toList (c :: cs) with
      | some r =>
        match r with
        | [] => some []
        | '\n' :: _ => some r
        | _ => findAstroCloser f cs (c == '\n')
      | none => findAstroCloser f cs (c == '\n')
    else findAstroCloser f cs (c == '\n')

/-- Global removal of Astro `:::` note blocks. -/
def removeAstroGo : Nat → List Char → Bool → List Char
  | 0, s, _ => s
  | _ + 1, [], _ => []
  | f + 1, c :: cs, atLS =>
    if atLS then
      match astroOpenAt (c :: cs) with
      | some (base, grp) =>
        let attempt :=
          match grp with
          | some g =>
            match findAstroCloser (g.length + 1) g false with
            | some rest => some rest
            | none => findAstroCloser (base.length + 1) base false
          | none => findAstroCloser (base.length + 1) base false
        match attempt with
        | some rest => removeAstroGo f rest false
        | none => c :: removeAstroGo f cs (c == '\n')
      | none => c :: removeAstroGo f cs (c == '\n')
    else c :: removeAstroGo f cs (c == '\n')

/-- The block/marker filtering applied by `convertMarkdownToAtlasDoc`
before splitting the Markdown into lines (source lines 523–532), in
source order. -/
def filterMarkers (markdown : String) : String :=
  let g := "GITHUB_ONLY".toList
  let p := "PPT_ONLY".toList
  let c := "CONFLUENCE_ONLY".toList
  let l0 := markdown.toList
  let l1 := removeBlocksGo g false (l0.length + 1) l0
  let l2 := removeBlocksGo p false (l1.length + 1) l1
  let l3 := removeBlocksGo g true (l2.length + 1) l2
  let l4 := removeBlocksGo p true (l3.length + 1) l3
  let l5 := removeTagGo (matchOpenTag c) (l4.length + 1) l4
  let l6 := removeTagGo (matchCloseTag c) (l5.length + 1) l5
  (removeAstroGo (l6.length + 1) l6 true).asString

/-! ### Per-line classifiers (`convertMarkdownToAtlasDoc` main loop) -/

/-- The `\s+(.+)$` suffix shared by the heading and list-item regexes on a
single (newline-free) line: at least one whitespace character, then at
least one remaining character; the capture strips the leading whitespace
run except that, when nothing would remain, backtracking leaves the run's
last character as the capture. -/
def afterMarkerContent (after : List Char) : Option String :=
  let w := after.takeWhile jsWs
  let t := after.drop w.length
  if w.length = 0 then none
  else if ¬ t.isEmpty then some t.asString
  else if 2 ≤ w.length then some ((w.drop (w.length - 1)).asString)
  else none

/-- The skip test for literal marker tag lines (source line 557):
`/^<!--\s*(GITHUB_ONLY|PPT_ONLY|CONFLUENCE_ONLY|\/\s*(GITHUB_ONLY|PPT_ONLY|CONFLUENCE_ONLY))\s*-->$/i`
against the trimmed line. -/
def kwAt (s : List Char) : Option (List Char) :=
  match dropLitCI "GITHUB_ONLY".toList s with
  | some r => some r
  | none =>
    match dropLitCI "PPT_ONLY".toList s with
    | some r => some r
    | none => dropLitCI "CONFLUENCE_ONLY".toList s

def tagSkipLine (l : String) : Bool :=
  let t := jsTrimList l.toList
  match dropLit "<!--".toList t with
  | none => false
  | some s1 =>
    let s2 := dropWsRun s1
    let core :=
      match kwAt s2 with
      | some r => some r
      | none =>
        match s2 with
        | '/' :: s3 => kwAt (dropWsRun s3)
        | _ => none
    match core with
    | some s4 =>
      match dropLit "-->".toList (dropWsRun s4) with
      | some [] => true
      | _ => false
    | none => false

/-- Code-fence detection: `line.trim().startsWith('```')`. -/
def fenceLine (l : String) : Bool := (dropLit "```".toList (jsTrimList l.toList)).isSome

/-- The fence's language: `line.trim().substring(3).trim() || null`. -/
def fenceLang (l : String) : Option String :=
  let lang := jsTrimList ((jsTrimList l.toList).drop 3)
  if lang.isEmpty then none else some lang.asString

/-- The table-separator pattern `/^\|?[\s\-:|]+\|?$/`: a non-empty line
all of whose characters are whitespace, `-`, `:` or `|`. -/
def sepLine (l : String) : Bool :=
  ¬ l.toList.isEmpty && l.toList.all (fun c => jsWs c || c == '-' || c == ':' || c == '|')

/-- `line.split('|')` on a character list. -/
def splitPipe : List Char → List (List Char)
  | [] => [[]]
  | c :: cs =>
    match splitPipe cs with
    | h :: t => if c == '|' then [] :: h :: t else (c :: h) :: t
    | [] => [[c]]

/-- `markdown.split('\n')` on a character list. -/
def splitNl : List Char → List (List Char)
  | [] => [[]]
  | c :: cs =>
    match splitNl cs with
    | h :: t => if c == '\n' then [] :: h :: t else (c :: h) :: t
    | [] => [[c]]

/-- `lines.join('\n')` on character lists. -/
def joinNlGo : List (List Char) → List Char
  | [] => []
  | [x] => x
  | x :: y :: t => x ++ '\n' :: joinNlGo (y :: t)

def dropLastEmpty (xs : List String) : List String :=
  match xs.getLast? with
  | some y => if y.toList.isEmpty then xs.dropLast else xs
  | none => xs

/-- Cell extraction for one table row: split on `|`, trim each segment,
and drop the first and last segments when empty (artifacts of
leading/trailing pipes). -/
def cellsOf (l : String) : List String :=
  let segs := (splitPipe l.toList).map (fun c => (jsTrimList c).asString)
  match segs with
  | [] => []
  | [x] => if x.toList.isEmpty then [] else [x]
  | x :: xs => (if x.toList.isEmpty then [] else [x]) ++ dropLastEmpty xs

/-- The list-item pattern `/^(\s*)([-*+]|\d+\.)\s+(.+)$/`: returns
(indentation column count, is-ordered, captured content). -/
def listMatchOf (l : String) : Option (Nat × Bool × String) :=
  let cs := l.toList
  let ind := cs.takeWhile jsWs
  let rest := cs.drop ind.length
  match rest with
  | c :: rs =>
    if c == '-' || c == '*' || c == '+' then
      match afterMarkerContent rs with
      | some content => some (ind.length, false, content)
      | none => none
    else if c.isDigit then
      let ds := rest.takeWhile Char.isDigit
      match rest.drop ds.length with
      | '.' :: rs2 =>
        match afterMarkerContent rs2 with
        | some content => some (ind.length, true, content)
        | none => none
      | _ => none
    else none
  | [] => none

/-- The heading pattern `/^(#{1,6})\s+(.+)$/`: returns (level, captured
text).  A run of seven or more hashes cannot match. -/
def headingMatchOf (l : String) : Option (Nat × String) :=
  let cs := l.toList
  let k := (cs.takeWhile (fun c => c == '#')).length
  if 1 ≤ k && k ≤ 6 then
    match afterMarkerContent (cs.drop k) with
    | some text => some (k, text)
    | none => none
  else none

/-- The horizontal-rule pattern `/^[-*_]{3,}$/` against the trimmed
line. -/
def hrLine (l : String) : Bool :=
  let t := jsTrimList l.toList
  3 ≤ t.length && t.all (fun c => c == '-' || c == '*' || c == '_')

/-- The whole-line image pattern `/^!\[([^\]]*)\]\(([^)]+)\)$/`: returns
(alt, url). -/
def imageMatchOf (l : String) : Option (String × String) :=
  match l.toList with
  | '!' :: '[' :: r =>
    let alt := r.takeWhile (fun c => ¬ c == ']')
    match r.drop alt.length with
    | ']' :: '(' :: r2 =>
      let url := r2.takeWhile (fun c => ¬ c == ')')
      if url.length = 0 then none
      else
        match r2.drop url.length with
        | [')'] => some (alt.asString, url.asString)
        | _ => none
    | _ => none
  | _ => none

/-! ### Confluence image placeholders -/

def acLit : List Char := "<ac:image-placeholder-viewid=".toList

def includesAc (l : String) : Bool := listHasInfix acLit l.toList

/-- One match of `/<ac:image-placeholder-viewid="([^"]+)"\s*\/?>/g` at
the current position: returns (view id, rest). -/
def matchAcAt (s : List Char) : Option (String × List Char) :=
  match dropLit (acLit ++ ['"']) s with
  | none => none
  | some s1 =>
    let v := s1.takeWhile (fun c => ¬ c == '"')
    if v.length = 0 then none
    else
      match s1.drop v.length with
      | '"' :: s2 =>
        let s3 := dropWsRun s2
        let s4 := match s3 with | '/' :: r => r | _ => s3
        match s4 with
        | '>' :: rest => some (v.asString, rest)
        | _ => none
      | _ => none

/-- Split a line into the text pieces and placeholder occurrences of the
image-placeholder scan (source lines 785–818). -/
def acScanGo : Nat → List Char → List Char → List (Sum String String)
  | 0, s, acc => if (acc.reverse ++ s).isEmpty then [] else [Sum.inl (acc.reverse ++ s).asString]
  | _ + 1, [], acc => if acc.isEmpty then [] else [Sum.inl acc.reverse.asString]
  | f + 1, c :: cs, acc =>
    match matchAcAt (c :: cs) with
    | some (v, rest) =>
      (if acc.isEmpty then [] else [Sum.inl acc.reverse.asString]) ++ Sum.inr v :: acScanGo f rest []
    | none => acScanGo f cs (c :: acc)

/-- The paragraph content assembled for a line containing image
placeholders: whitespace-only text pieces are dropped, other text pieces
are tokenized, placeholders become unresolved media nodes. -/
def acContent (l : String) : List ADF :=
  (acScanGo (l.length + 1) l.toList []).flatMap fun p =>
    match p with
    | Sum.inl t => if (jsTrimList t.toList).isEmpty then [] else parseInlineFormatting t
    | Sum.inr v => [ADF.mediaPlaceholder v]

/-! ### `parseTable` -/

/-- The row-collection loop of `parseTable`, starting at relative index
0; stops at the first line without a pipe (not consumed) or at the end;
separator-pattern lines are skipped; the first collected row yields
header cells.  Returns the collected rows and the stop index. -/
def parseTableGo : Nat → List String → Nat → List ADF → List ADF × Nat
  | 0, _, idx, rows => (rows, idx)
  | _ + 1, [], idx, rows => (rows, idx)
  | f + 1, l :: rest, idx, rows =>
    if ¬ containsChar l '|' then (rows, idx)
    else if sepLine l then parseTableGo f rest (idx + 1) rows
    else
      let cells := cellsOf l
      if cells.isEmpty then parseTableGo f rest (idx + 1) rows
      else
        let mk : String → ADF := fun c =>
          (if rows.isEmpty then ADF.tableHeader else ADF.tableCell) [ADF.paragraph (parseInlineFormatting c)]
        parseTableGo f rest (idx + 1) (rows ++ [ADF.tableRow (cells.map mk)])

/-- `parseTable(lines, i)` with `ls` the lines from index `i` on: checks
the separator row, collects rows, and requires at least two of them;
returns the table node and the relative `endIndex`. -/
def parseTable (ls : List String) : Option (ADF × Nat) :=
  match ls.get? 1 with
  | some sep =>
    if sepLine sep then
      let r := parseTableGo (ls.length + 1) ls 0 []
      if r.1.length < 2 then none else some (ADF.table r.1, r.2 - 1)
    else none
  | none => none

/-! ### The list-frame stack of the block structure builder

A frame records its list kind, the indentation column at which it was
opened, the accumulated `listItem` nodes, and whether it was created as a
nested list (`listStack.length > 1`), in which case the source attached a
live list node (initially empty) at the end of the parent frame's last
item's content; the frame's `nestedListNode` mutations are modelled by
updating that trailing node in place when the frame is closed. -/

inductive LKind where
  | bullet
  | ordered
deriving DecidableEq, Repr

structure ListFrame where
  kind : LKind
  indent : Nat
  items : List ADF
  nested : Bool
deriving Repr

def listNodeOf (k : LKind) (items : List ADF) : ADF :=
  match k with
  | LKind.bullet => ADF.bulletList items
  | LKind.ordered => ADF.orderedList items

def isListNode : ADF → Bool
  | ADF.bulletList _ => true
  | ADF.orderedList _ => true
  | _ => false

/-- `c.type === finishedList.type || c.type === 'orderedList' || c.type === 'bulletList'`
(the find predicate of the non-list-line close loop, source line 722). -/
def closeFindPred (k : LKind) (n : ADF) : Bool :=
  (match k, n with
   | LKind.bullet, ADF.bulletList _ => true
   | LKind.ordered, ADF.orderedList _ => true
   | _, _ => false) || isListNode n

def withListContent (n : ADF) (items : List ADF) : ADF :=
  match n with
  | ADF.bulletList _ => ADF.bulletList items
  | ADF.orderedList _ => ADF.orderedList items
  | x => x

def appendListContent (n : ADF) (items : List ADF) : ADF :=
  match n with
  | ADF.bulletList c => ADF.bulletList (c ++ items)
  | ADF.orderedList c => ADF.orderedList (c ++ items)
  | x => x

/-- `existingList.content.push(...finishedList.items)`: append into the
first list node of the item's content. -/
def mergeIntoFirstList (c : List ADF) (items : List ADF) : List ADF :=
  match c with
  | [] => []
  | n :: ns => if isListNode n then appendListContent n items :: ns else n :: mergeIntoFirstList ns items

/-- `finishedList.nestedListNode.content = finishedList.items`: the
attached node is the trailing list node of the parent's last item's
content (nothing is appended to that content while the child frame is
open), so the mutation replaces that trailing node's content. -/
def setLastListContent (li : ADF) (items : List ADF) : ADF :=
  match li with
  | ADF.listItem c =>
    match c.getLast? with
    | some n => if isListNode n then ADF.listItem (c.dropLast ++ [withListContent n items]) else ADF.listItem c
    | none => ADF.listItem c
  | x => x

/-- Close the top frame with the `nestedListNode`-aware body shared by
the shallower-indent close (609-638), the same-indent type-change close
(648-672) and the end-of-input close (838-860). -/
def closeOneSync (doc : List ADF) (stack : List ListFrame) :
    Except String (List ADF × List ListFrame) :=
  match stack with
  | [] => Except.ok (doc, [])
  | f :: rest =>
    if f.nested then
      match rest with
      | [] => Except.ok (doc, [])
      | p :: rr =>
        match p.items.getLast? with
        | none => Except.ok (doc, p :: rr)
        | some li =>
          Except.ok (doc, { p with items := p.items.dropLast ++ [setLastListContent li f.items] } :: rr)
    else
      match rest with
      | [] => Except.ok (doc ++ [listNodeOf f.kind f.items], [])
      | p :: rr =>
        match p.items.getLast? with
        | none => Except.error "TypeError: lastItem is undefined"
        | some li =>
          match li with
          | ADF.listItem c =>
            if c.any isListNode then
              Except.ok (doc, { p with items := p.items.dropLast ++ [ADF.listItem (mergeIntoFirstList c f.items)] } :: rr)
            else
              Except.ok (doc, { p with items := p.items.dropLast ++ [ADF.listItem (c ++ [listNodeOf f.kind f.items])] } :: rr)
          | _ => Except.error "TypeError: lastItem.content is undefined"

/-- Close the top frame with the body of the non-list-line close loop
(source lines 716-735), which does not update `nestedListNode` and skips
the splice whenever the parent's last item already holds any list
node. -/
def closeOneNoSync (doc : List ADF) (stack : List ListFrame) :
    Except String (List ADF × List ListFrame) :=
  match stack with
  | [] => Except.ok (doc, [])
  | f :: rest =>
    match rest with
    | [] => Except.ok (doc ++ [listNodeOf f.kind f.items], [])
    | p :: rr =>
      match p.items.getLast? with
      | none => Except.error "TypeError: lastItem is undefined"
      | some li =>
        match li with
        | ADF.listItem c =>
          if c.any (closeFindPred f.kind) then Except.ok (doc, p :: rr)
          else
            Except.ok (doc, { p with items := p.items.dropLast ++ [ADF.listItem (c ++ [listNodeOf f.kind f.items])] } :: rr)
        | _ => Except.error "TypeError: lastItem.content is undefined"

/-- `while (listStack.length > 0 && top.indent > indent) { close }`. -/
def closeDeeperGo : Nat → List ADF → List ListFrame → Nat → Except String (List ADF × List ListFrame)
  | 0, doc, stk, _ => Except.ok (doc, stk)
  | f + 1, doc, stk, ind =>
    match stk with
    | [] => Except.ok (doc, [])
    | t :: _ =>
      if ind < t.indent then
        match closeOneSync doc stk with
        | Except.error e => Except.error e
        | Except.ok (d, s) => closeDeeperGo f d s ind
      else Except.ok (doc, stk)

/-- The end-of-input close-all loop (source lines 838-860). -/
def closeAllSyncGo : Nat → List ADF → List ListFrame → Except String (List ADF × List ListFrame)
  | 0, doc, stk => Except.ok (doc, stk)
  | f + 1, doc, stk =>
    match stk with
    | [] => Except.ok (doc, [])
    | _ :: _ =>
      match closeOneSync doc stk with
      | Except.error e => Except.error e
      | Except.ok (d, s) => closeAllSyncGo f d s

/-- The non-list-line close-all loop (source lines 716-735). -/
def closeAllNoSyncGo : Nat → List ADF → List ListFrame → Except String (List ADF × List ListFrame)
  | 0, doc, stk => Except.ok (doc, stk)
  | f + 1, doc, stk =>
    match stk with
    | [] => Except.ok (doc, [])
    | _ :: _ =>
      match closeOneNoSync doc stk with
      | Except.error e => Except.error e
      | Except.ok (d, s) => closeAllNoSyncGo f d s

/-- Open a new frame at the current indentation (source lines 676-698):
when the stack is non-empty the new frame is nested and an empty list
node is attached at the end of the parent's last item's content (the
source's `lastItem.content.push(nestedList)`, which throws when the
parent has no items). -/
def mkNewFrame (kind : LKind) (indent : Nat) (doc : List ADF) (stk : List ListFrame) :
    Except String (List ADF × ListFrame × List ListFrame) :=
  match stk with
  | [] => Except.ok (doc, ⟨kind, indent, [], false⟩, [])
  | p :: rr =>
    match p.items.getLast? with
    | none => Except.error "TypeError: lastItem is undefined"
    | some li =>
      match li with
      | ADF.listItem c =>
        Except.ok (doc, ⟨kind, indent, [], true⟩,
          { p with items := p.items.dropLast ++ [ADF.listItem (c ++ [listNodeOf kind []])] } :: rr)
      | _ => Except.error "TypeError: lastItem.content is undefined"

/-- The list-item branch (source lines 600-712). -/
def handleListLine (st : List ADF × List ListFrame) (indent : Nat) (kind : LKind) (content : String) :
    Except String (List ADF × List ListFrame) :=
  match closeDeeperGo (st.2.length + 1) st.1 st.2 indent with
  | Except.error e => Except.error e
  | Except.ok (d1, s1) =>
    let next : Except String (List ADF × ListFrame × List ListFrame) :=
      match s1 with
      | t :: r1 =>
        if t.indent = indent then
          if t.kind = kind then Except.ok (d1, t, r1)
          else
            match closeOneSync d1 (t :: r1) with
            | Except.error e => Except.error e
            | Except.ok (d, s) => mkNewFrame kind indent d s
        else mkNewFrame kind indent d1 (t :: r1)
      | [] => mkNewFrame kind indent d1 []
    match next with
    | Except.error e => Except.error e
    | Except.ok (d2, cur, rest) =>
      let pc := parseInlineFormatting content
      let li := ADF.listItem [ADF.paragraph (if 0 < pc.length then pc else [ADF.text "" []])]
      Except.ok (d2, { cur with items := cur.items ++ [li] } :: rest)

/-! ### The main conversion loop and document assembly -/

structure ConvSt where
  content : List ADF
  inCode : Bool
  codeLang : Option String
  codeBuf : List String
  stack : List ListFrame
deriving Repr

def initialConvSt : ConvSt := ⟨[], false, none, [], []⟩

/-- The part of the per-line dispatch that runs when the line is not
consumed by the table branch: list handling, otherwise close all open
frames and dispatch to heading / rule / blank / image / placeholder /
paragraph handling. -/
def stepNonTable (st : ConvSt) (l : String) : Except String ConvSt :=
  match listMatchOf l with
  | some (ind, ord, content) =>
    match handleListLine (st.content, st.stack) ind (if ord then LKind.ordered else LKind.bullet) content with
    | Except.error e => Except.error e
    | Except.ok (d, s) => Except.ok { st with content := d, stack := s }
  | none =>
    match closeAllNoSyncGo (st.stack.length + 1) st.content st.stack with
    | Except.error e => Except.error e
    | Except.ok (d0, s0) =>
      let st := { st with content := d0, stack := s0 }
      match headingMatchOf l with
      | some (lvl, text) =>
        Except.ok { st with content := st.content ++ [ADF.heading lvl (parseInlineFormatting text)] }
      | none =>
        if hrLine l then Except.ok { st with content := st.content ++ [ADF.rule] }
        else if (jsTrimList l.toList).isEmpty then Except.ok st
        else
          match imageMatchOf l with
          | some (alt, url) =>
            Except.ok { st with content := st.content ++ [ADF.paragraph [ADF.media url alt]] }
          | none =>
            if includesAc l then
              let pc := acContent l
              Except.ok (if 0 < pc.length then { st with content := st.content ++ [ADF.paragraph pc] } else st)
            else
              let pc := parseInlineFormatting l
              Except.ok { st with content := st.content ++ [ADF.paragraph (if 0 < pc.length then pc else [ADF.text "" []])] }

/-- One iteration of the main loop on line `l` (with `rest` the lines
after it); returns the new state and how many further lines were
consumed (non-zero only when a table was parsed). -/
def stepLine (st : ConvSt) (l : String) (rest : List String) : Except String (ConvSt × Nat) :=
  if tagSkipLine l then Except.ok (st, 0)
  else if fenceLine l then
    if st.inCode then
      let language := st.codeLang.getD "plain"
      let codeText := joinNlGo (st.codeBuf.map (fun b => b.toList))
      Except.ok ({ st with
        content := st.content ++ [ADF.codeBlock language (if codeText.isEmpty then [] else [ADF.text codeText.asString []])],
        codeBuf := [], codeLang := none, inCode := false }, 0)
    else Except.ok ({ st with inCode := true, codeLang := fenceLang l }, 0)
  else if st.inCode then Except.ok ({ st with codeBuf := st.codeBuf ++ [l] }, 0)
  else if containsChar l '|' && (match rest.head? with | some nxt => sepLine nxt | none => false) then
    match parseTable (l :: rest) with
    | some (tbl, endIdx) => Except.ok ({ st with content := st.content ++ [tbl] }, endIdx)
    | none =>
      match stepNonTable st l with
      | Except.error e => Except.error e
      | Except.ok st' => Except.ok (st', 0)
  else
    match stepNonTable st l with
    | Except.error e => Except.error e
    | Except.ok st' => Except.ok (st', 0)

def processLines : Nat → ConvSt → List String → Except String ConvSt
  | 0, st, _ => Except.ok st
  | _ + 1, st, [] => Except.ok st
  | f + 1, st, l :: rest =>
    match stepLine st l rest with
    | Except.error e => Except.error e
    | Except.ok (st', k) => processLines f st' (rest.drop k)

/-- The trailing-paragraph strip condition (source lines 863-868). -/
def isStrippablePara (n : ADF) : Bool :=
  match n with
  | ADF.paragraph c =>
    match c with
    | [] => true
    | [ADF.text t _] => (jsTrimList t.toList).isEmpty
    | _ => false
  | _ => false

def dropTrailingEmptyParas (c : List ADF) : List ADF :=
  (c.reverse.dropWhile isStrippablePara).reverse

structure ConvertOptions where
  addTableOfContents : Bool
  tocThreshold : Nat
deriving Repr

def defaultOptions : ConvertOptions := ⟨true, 4⟩

structure AtlasDoc where
  version : Nat
  content : List ADF
deriving Repr

/-- `convertMarkdownToAtlasDoc(markdown, options)`: filter marker
blocks, split into lines, run the line loop, close remaining frames,
strip trailing empty paragraphs, and prepend the TOC node when the
heading count reaches the threshold and the content is non-empty. -/
def convertMarkdownToAtlasDoc (markdown : String) (opts : ConvertOptions) : Except String AtlasDoc :=
  let md := filterMarkers markdown
  let lines := (splitNl md.toList).map List.asString
  let headingCount := countHeadings md
  let shouldAddToc := opts.addTableOfContents && decide (opts.tocThreshold ≤ headingCount)
  match processLines (lines.length + 1) initialConvSt lines with
  | Except.error e => Except.error e
  | Except.ok st =>
    match closeAllSyncGo (st.stack.length + 1) st.content st.stack with
    | Except.error e => Except.error e
    | Except.ok (d, _) =>
      let c2 := dropTrailingEmptyParas d
      let c3 := if shouldAddToc && 0 < c2.length then createTableOfContents :: c2 else c2
      Except.ok ⟨1, c3⟩

/-! ### Non-string inputs

The converter's first operation is `markdown.replace(regex, '')`; on any
non-string JavaScript input (number, boolean, `null`, `undefined`, plain
object or array) this throws a `TypeError`, which propagates to the
caller. -/

inductive JSValue where
  | jstr (s : String)
  | jnum (n : Int)
  | jbool (b : Bool)
  | jnull
  | jundefined
  | jobject
  | jarray
deriving Repr

def JSValue.isString : JSValue → Bool
  | JSValue.jstr _ => true
  | _ => false

def convertMarkdownToAtlasDocJS (v : JSValue) (opts : ConvertOptions) : Except String AtlasDoc :=
  match v with
  | JSValue.jstr s => convertMarkdownToAtlasDoc s opts
  | _ => Except.error "TypeError: markdown.replace is not a function"

/-! ### Derived observations used by the specification's properties -/

/-- Concatenation of the `text` fields of a run sequence, in order. -/
def concatInlineText (ns : List ADF) : String :=
  ns.foldl (fun a n => a ++ (match n with | ADF.text t _ => t | _ => "")) ""

def isHeadingNode : ADF → Bool
  | ADF.heading _ _ => true
  | _ => false

def isTocNode : ADF → Bool
  | ADF.tocExtension => true
  | _ => false

def isItemNode : ADF → Bool
  | ADF.listItem _ => true
  | _ => false

/-- The children of a node (its `content` array). -/
def adfChildren : ADF → List ADF
  | ADF.text _ _ => []
  | ADF.paragraph c => c
  | ADF.heading _ c => c
  | ADF.codeBlock _ c => c
  | ADF.bulletList c => c
  | ADF.orderedList c => c
  | ADF.listItem c => c
  | ADF.table c => c
  | ADF.tableRow c => c
  | ADF.tableHeader c => c
  | ADF.tableCell c => c
  | ADF.rule => []
  | ADF.media _ _ => []
  | ADF.mediaPlaceholder _ => []
  | ADF.tocExtension => []

/-- Whether some node of the forest (to depth `fuel`) is a text run with
exactly the given text. -/
def anyTextIn : Nat → List ADF → String → Bool
  | 0, _, _ => false
  | f + 1, ns, s =>
    ns.any fun n =>
      (match n with | ADF.text t _ => t = s | _ => false) || anyTextIn f (adfChildren n) s

/-- The open frames carry strictly increasing indentation columns from
the bottom of the stack to the top (the head of the list is the top). -/
def stackIndentsIncreasing (stk : List ListFrame) : Prop :=
  List.Chain' (fun a b => b < a) (stk.map (fun fr => fr.indent))

/-- Well-formedness of one frame's accumulated items: at least one item,
and every item is a `listItem` node. -/
def frameItemsOk (fr : ListFrame) : Prop :=
  fr.items ≠ [] ∧ ∀ it ∈ fr.items, isItemNode it = true

/-- The (kind, indent, nested) signature of a frame; closing a frame
maps the stack's signature list to its tail. -/
def frameSig (fr : ListFrame) : LKind × Nat × Bool :=
  (fr.kind, fr.indent, fr.nested)


/-! ### Reference tokenizer over an atomic-span alphabet (for C2)

The placeholder encoding is reasoned about through a second instance of
the same generic scanner, over the alphabet `Sum Char Nat`: a symbol is a
plain character or an already-claimed span, identified by its placeholder
id and treated as atomic.  Rendering a claimed span as its sentinel
string recovers the source's character-level streams exactly. -/

def eqcT (t : Sum Char Nat) (d : Char) : Bool :=
  match t with
  | Sum.inl c => c == d
  | Sum.inr _ => false

def hasPhT (l : List (Sum Char Nat)) : Bool :=
  l.any fun t => match t with | Sum.inl _ => false | Sum.inr _ => true

def mkPhT (n : Nat) : List (Sum Char Nat) := [Sum.inr n]

/-- Render a token stream to the character stream of the source: plain
characters stay, a claimed span becomes its sentinel string. -/
def renderTok (l : List (Sum Char Nat)) : List Char :=
  l.flatMap fun t => match t with | Sum.inl c => [c] | Sum.inr n => phStr n

/-- Render a token-level placeholder entry to the string-level entry the
source records. -/
def renderEntryT (e : PhEntry (Sum Char Nat)) : PhEntry Char :=
  ⟨e.id, e.kind, renderTok e.text, renderTok e.url⟩

/-- The string-level match result corresponding to a token-level one on
the rendered stream. -/
def mresR (ts : List (Sum Char Nat)) (m : MRes (Sum Char Nat)) : MRes Char :=
  ⟨(renderTok (ts.take m.tailLen)).length, m.kind, renderTok m.textCap, renderTok m.urlCap, m.skipIt⟩

/-- The six passes of `parseInlineFormatting` over the token alphabet. -/
def runPassesT (s : List Char) : List (Sum Char Nat) × List (PhEntry (Sum Char Nat)) × Nat :=
  let ts := s.map Sum.inl
  let r1 := runPass (tryDelim1 eqcT hasPhT '`' PhKind.code false) mkPhT (ts.length + 1) ts 0
  let r2 := runPass (tryLink eqcT) mkPhT (r1.1.length + 1) r1.1 r1.2.2
  let r3 := runPass (tryDelim2 eqcT hasPhT '*' PhKind.strong true) mkPhT (r2.1.length + 1) r2.1 r2.2.2
  let r4 := runPass (tryDelim2 eqcT hasPhT '_' PhKind.strong true) mkPhT (r3.1.length + 1) r3.1 r3.2.2
  let r5 := runPass (tryDelim1 eqcT hasPhT '*' PhKind.em true) mkPhT (r4.1.length + 1) r4.1 r4.2.2
  let r6 := runPass (tryDelim1 eqcT hasPhT '_' PhKind.em true) mkPhT (r5.1.length + 1) r5.1 r5.2.2
  (r6.1, r1.2.1 ++ r2.2.1 ++ r3.2.1 ++ r4.2.1 ++ r5.2.1 ++ r6.2.1, r6.2.2)

/-- The captured text recorded for placeholder `n` (first entry with
that id, as in the source's object-keyed map). -/
def lookupTextT (es : List (PhEntry (Sum Char Nat))) (n : Nat) : List (Sum Char Nat) :=
  match es.find? (fun e => e.id == n) with
  | some e => e.text
  | none => []

/-- Expansion of one stream symbol: a plain character contributes itself,
a claimed span contributes its recorded captured text. -/
def expandTok (es : List (PhEntry (Sum Char Nat))) (t : Sum Char Nat) : List Char :=
  match t with
  | Sum.inl c => [c]
  | Sum.inr n => renderTok (lookupTextT es n)

/-- The specification's "line with the matched formatting markers
removed": every plain symbol of the final token stream contributes its
character, and every claimed span contributes its recorded captured text
(code/bold/italic spans contribute the enclosed text; a link contributes
its display text, the URL moving into the mark). -/
def demarkRef (s : List Char) : List Char :=
  let r := runPassesT s
  r.1.flatMap (expandTok r.2.1)

/-- Grouping of a token stream into the parts that splitting the
rendered stream on the sentinel pattern yields. -/
def partsOfTok : List (Sum Char Nat) → List InPart
  | [] => []
  | Sum.inr n :: ts => InPart.tok (phStr n) :: partsOfTok ts
  | Sum.inl c :: ts =>
    match partsOfTok ts with
    | InPart.txt l :: ps => InPart.txt (c :: l) :: ps
    | ps => InPart.txt [c] :: ps

/-- Prepend pending text characters to a part list (the accumulator
discipline of `splitGo`). -/
def consTxt (pre : List Char) : List InPart → List InPart
  | InPart.txt l :: ps => InPart.txt (pre ++ l) :: ps
  | ps => if pre.isEmpty then ps else InPart.txt pre :: ps

/-- Streams reachable from a sentinel-free line: every plain character
differs from U+0001. -/
def cleanT (ts : List (Sum Char Nat)) : Prop :=
  ∀ c : Char, Sum.inl c ∈ ts → ¬ c = '\x01'

/-- The character contents of the text runs of a node list, in order. -/
def flatTextOf (ns : List ADF) : List Char :=
  ns.flatMap fun n => match n with | ADF.text t _ => t.toList | _ => []


/-- The delimiter characters of the six inline passes. -/
def isDlm (c : Char) : Bool :=
  c == '`' || c == '*' || c == '_' || c == '[' || c == ']' || c == '(' || c == ')'

/-- Decimal value of a digit string (reading the placeholder id back). -/
def valOfDigits (l : List Char) : Nat :=
  l.foldl (fun a c => a * 10 + (c.toNat - 48)) 0

/-! ## Theorems -/

/-! ### C1: closing frames on a non-list line -/

/-- C1.  The claim states that whenever open list frames are closed — at
end of input or on a non-list line — every accumulated `listItem` is
spliced into its parent, so none is absent from the output.  The code
violates this for the non-list-line close: for `"- a\n  - b\nx"` the
nested frame's item `"b"` is dropped (the nested list node attached
inside item `"a"` keeps its empty content, because the close loop at
source lines 716-735 never writes `nestedListNode.content` and its
duplicate-guard always finds the attached node).  The end-of-input close
(`"- a\n  - b"`) splices correctly, confirming the intent. -/
theorem c1_nonlist_close_drops_nested_items :
    convertMarkdownToAtlasDoc "- a\n  - b\nx" defaultOptions =
      Except.ok ⟨1, [ADF.bulletList [ADF.listItem [ADF.paragraph [ADF.text "a" []], ADF.bulletList []]],
                     ADF.paragraph [ADF.text "x" []]]⟩ ∧
    (match convertMarkdownToAtlasDoc "- a\n  - b\nx" defaultOptions with
     | Except.ok d => anyTextIn 10 d.content "b"
     | Except.error _ => true) = false ∧
    convertMarkdownToAtlasDoc "- a\n  - b" defaultOptions =
      Except.ok ⟨1, [ADF.bulletList [ADF.listItem [ADF.paragraph [ADF.text "a" []],
                     ADF.bulletList [ADF.listItem [ADF.paragraph [ADF.text "b" []]]]]]]⟩ :=
  ⟨rfl, rfl, rfl⟩

/-! ### C2: text preservation of the inline tokenizer (counterexample) -/

/-- C2 counterexample.  The claim asserts that for every input line the
concatenated run texts equal the line with only the formatting markers
removed (no loss, no duplication).  For the ordinary Markdown line
`"[`x`](u)"` the code-span placeholder is swallowed into the link text,
and the single resulting run's text is the literal sentinel string: the
output text contains the character U+0001 and the characters of
`"PLACEHOLDER0"`, none of which are in the input, and the code-span text
`x` is lost. -/
theorem c2_text_preservation_counterexample :
    parseInlineFormatting "[`x`](u)" = [ADF.text "\x01PLACEHOLDER0\x01" [Mark.link "u"]] ∧
    containsChar (concatInlineText (parseInlineFormatting "[`x`](u)")) '\x01' = true ∧
    containsChar "[`x`](u)" '\x01' = false ∧
    concatInlineText (parseInlineFormatting "[`x`](u)") ≠ "x" :=
  ⟨rfl, rfl, rfl, by decide⟩

/-! ### C3: pass priority -/

/-- C3.  The substitution passes run in strict priority order (code,
then links, then bold, then italic), each claiming its span with a
placeholder: backtick-wrapped `**bold**` yields exactly one `code`-marked
run with the literal text `**bold**`; likewise italic and link markers
inside a code span stay literal. -/
theorem c3_code_span_wins_over_bold :
    parseInlineFormatting "`**bold**`" = [ADF.text "**bold**" [Mark.code]] ∧
    parseInlineFormatting "`_x_ [a](b)`" = [ADF.text "_x_ [a](b)" [Mark.code]] :=
  ⟨rfl, rfl⟩

/-! ### C10: heading counting inside fenced code blocks -/

/-- C10.  `countHeadings` is a regex scan over the whole marker-filtered
text, so `#`-lines inside fenced code blocks count toward the TOC
threshold: this document has heading count 4 (three of them inside the
fence), so a TOC node is prepended, while the output contains exactly
one heading node. -/
theorem c10_headings_counted_inside_code_blocks :
    countHeadings (filterMarkers "# a\n```\n# b\n# c\n# d\n```\ntext") = 4 ∧
    convertMarkdownToAtlasDoc "# a\n```\n# b\n# c\n# d\n```\ntext" defaultOptions =
      Except.ok ⟨1, [ADF.tocExtension, ADF.heading 1 [ADF.text "a" []],
                     ADF.codeBlock "plain" [ADF.text "# b\n# c\n# d" []],
                     ADF.paragraph [ADF.text "text" []]]⟩ ∧
    (match convertMarkdownToAtlasDoc "# a\n```\n# b\n# c\n# d\n```\ntext" defaultOptions with
     | Except.ok d => (d.content.filter isHeadingNode).length
     | Except.error _ => 0) = 1 :=
  ⟨rfl, rfl, rfl⟩

/-! ### Helper lemmas about frames and the close operations -/

theorem mem_of_getLast?_eq {α : Type} {l : List α} {a : α} (h : l.getLast? = some a) : a ∈ l := by
  have hm : a ∈ l.getLast? := Option.mem_def.mpr h
  obtain ⟨hne, rfl⟩ := List.mem_getLast?_eq_getLast hm
  exact List.getLast_mem _

theorem getLast?_of_ne_nil {α : Type} {l : List α} (h : l ≠ []) : ∃ a, l.getLast? = some a := by
  cases hgl : l.getLast? with
  | none => exact absurd (List.getLast?_eq_none_iff.mp hgl) h
  | some a => exact ⟨a, rfl⟩

theorem isListNode_listNodeOf (k : LKind) (items : List ADF) :
    isListNode (listNodeOf k items) = true := by
  cases k <;> rfl

theorem isTocNode_of_isListNode {n : ADF} (h : isListNode n = true) : isTocNode n = false := by
  cases n <;> simp [isListNode] at h <;> rfl

theorem isItemNode_setLastListContent (li : ADF) (items : List ADF)
    (h : isItemNode li = true) : isItemNode (setLastListContent li items) = true := by
  cases li <;> simp [isItemNode] at h ⊢
  case listItem c =>
    unfold setLastListContent
    cases hgl : c.getLast? with
    | none => simp [hgl, isItemNode]
    | some n =>
      by_cases hn : isListNode n = true
      · simp [hgl, hn, isItemNode]
      · simp [hgl, hn, isItemNode]

theorem frameItemsOk_update (p : ListFrame) (x : ADF) (hp : frameItemsOk p)
    (hx : isItemNode x = true) :
    frameItemsOk { p with items := p.items.dropLast ++ [x] } := by
  constructor
  · simp
  · intro it hmem
    rcases List.mem_append.mp hmem with h1 | h2
    · exact hp.2 it (List.dropLast_subset _ h1)
    · simp only [List.mem_singleton] at h2
      subst h2
      exact hx

/-- Closing one frame with the synchronising body: always succeeds on a
well-formed stack, maps the stack's signature list to its tail, keeps the
items well-formed, and appends at most one list node to the document. -/
theorem closeOneSync_ok (doc : List ADF) (stk : List ListFrame)
    (hit : ∀ fr ∈ stk, frameItemsOk fr) :
    ∃ doc' stk', closeOneSync doc stk = Except.ok (doc', stk') ∧
      stk'.map frameSig = (stk.map frameSig).tail ∧
      (∀ fr ∈ stk', frameItemsOk fr) ∧
      (∃ app, doc' = doc ++ app ∧ ∀ n ∈ app, isListNode n = true) := by
  cases stk with
  | nil =>
    exact ⟨doc, [], rfl, rfl, (by intro fr h; cases h), ⟨[], by simp, by intro n h; cases h⟩⟩
  | cons f rest =>
    have hrest : ∀ fr ∈ rest, frameItemsOk fr := fun fr h => hit fr (List.mem_cons_of_mem _ h)
    cases hn : f.nested with
    | true =>
      cases rest with
      | nil =>
        refine ⟨doc, [], ?_, rfl, (by intro fr h; cases h), ⟨[], by simp, by intro n h; cases h⟩⟩
        simp [closeOneSync, hn]
      | cons p rr =>
        have hp := hrest p (List.mem_cons_self _ _)
        have hrr : ∀ fr ∈ rr, frameItemsOk fr := fun fr h => hrest fr (List.mem_cons_of_mem _ h)
        obtain ⟨li, hgl⟩ := getLast?_of_ne_nil hp.1
        refine ⟨doc, { p with items := p.items.dropLast ++ [setLastListContent li f.items] } :: rr,
          ?_, (by simp [frameSig]), ?_, ⟨[], by simp, by intro n h; cases h⟩⟩
        · simp [closeOneSync, hn, hgl]
        · intro fr h
          rcases List.mem_cons.mp h with rfl | h2
          · exact frameItemsOk_update p _ hp
              (isItemNode_setLastListContent li f.items (hp.2 li (mem_of_getLast?_eq hgl)))
          · exact hrr fr h2
    | false =>
      cases rest with
      | nil =>
        refine ⟨doc ++ [listNodeOf f.kind f.items], [], ?_, rfl, (by intro fr h; cases h),
          ⟨[listNodeOf f.kind f.items], rfl, ?_⟩⟩
        · simp [closeOneSync, hn]
        · intro n h
          simp only [List.mem_singleton] at h
          subst h
          exact isListNode_listNodeOf _ _
      | cons p rr =>
        have hp := hrest p (List.mem_cons_self _ _)
        have hrr : ∀ fr ∈ rr, frameItemsOk fr := fun fr h => hrest fr (List.mem_cons_of_mem _ h)
        obtain ⟨li, hgl⟩ := getLast?_of_ne_nil hp.1
        have hli := hp.2 li (mem_of_getLast?_eq hgl)
        cases li <;> simp [isItemNode] at hli
        case listItem c =>
        cases hany : c.any isListNode with
        | true =>
          refine ⟨doc, { p with items := p.items.dropLast ++ [ADF.listItem (mergeIntoFirstList c f.items)] } :: rr,
            ?_, (by simp [frameSig]), ?_, ⟨[], by simp, by intro n h; cases h⟩⟩
          · simp [closeOneSync, hn, hgl, hany]
          · intro fr h
            rcases List.mem_cons.mp h with rfl | h2
            · exact frameItemsOk_update p _ hp (by simp [isItemNode])
            · exact hrr fr h2
        | false =>
          refine ⟨doc, { p with items := p.items.dropLast ++ [ADF.listItem (c ++ [listNodeOf f.kind f.items])] } :: rr,
            ?_, (by simp [frameSig]), ?_, ⟨[], by simp, by intro n h; cases h⟩⟩
          · simp [closeOneSync, hn, hgl, hany]
          · intro fr h
            rcases List.mem_cons.mp h with rfl | h2
            · exact frameItemsOk_update p _ hp (by simp [isItemNode])
            · exact hrr fr h2

/-- Closing one frame with the non-synchronising body of the
non-list-line close loop: same stack discipline. -/
theorem closeOneNoSync_ok (doc : List ADF) (stk : List ListFrame)
    (hit : ∀ fr ∈ stk, frameItemsOk fr) :
    ∃ doc' stk', closeOneNoSync doc stk = Except.ok (doc', stk') ∧
      stk'.map frameSig = (stk.map frameSig).tail ∧
      (∀ fr ∈ stk', frameItemsOk fr) ∧
      (∃ app, doc' = doc ++ app ∧ ∀ n ∈ app, isListNode n = true) := by
  cases stk with
  | nil =>
    exact ⟨doc, [], rfl, rfl, (by intro fr h; cases h), ⟨[], by simp, by intro n h; cases h⟩⟩
  | cons f rest =>
    have hrest : ∀ fr ∈ rest, frameItemsOk fr := fun fr h => hit fr (List.mem_cons_of_mem _ h)
    cases rest with
    | nil =>
      refine ⟨doc ++ [listNodeOf f.kind f.items], [], rfl, rfl, (by intro fr h; cases h),
        ⟨[listNodeOf f.kind f.items], rfl, ?_⟩⟩
      intro n h
      simp only [List.mem_singleton] at h
      subst h
      exact isListNode_listNodeOf _ _
    | cons p rr =>
      have hp := hrest p (List.mem_cons_self _ _)
      have hrr : ∀ fr ∈ rr, frameItemsOk fr := fun fr h => hrest fr (List.mem_cons_of_mem _ h)
      obtain ⟨li, hgl⟩ := getLast?_of_ne_nil hp.1
      have hli := hp.2 li (mem_of_getLast?_eq hgl)
      cases li <;> simp [isItemNode] at hli
      case listItem c =>
      cases hany : c.any (closeFindPred f.kind) with
      | true =>
        refine ⟨doc, p :: rr, ?_, (by simp [frameSig]), hrest, ⟨[], by simp, by intro n h; cases h⟩⟩
        simp [closeOneNoSync, hgl, hany]
      | false =>
        refine ⟨doc, { p with items := p.items.dropLast ++ [ADF.listItem (c ++ [listNodeOf f.kind f.items])] } :: rr,
          ?_, (by simp [frameSig]), ?_, ⟨[], by simp, by intro n h; cases h⟩⟩
        · simp [closeOneNoSync, hgl, hany]
        · intro fr h
          rcases List.mem_cons.mp h with rfl | h2
          · exact frameItemsOk_update p _ hp (by simp [isItemNode])
          · exact hrr fr h2

theorem sig_tail_length {s1 : List ListFrame} {f : ListFrame} {rest : List ListFrame}
    (h : s1.map frameSig = ((f :: rest).map frameSig).tail) : s1.length = rest.length := by
  have := congrArg List.length h
  simpa using this

theorem closeAllSyncGo_ok (fuel : Nat) : ∀ (doc : List ADF) (stk : List ListFrame),
    stk.length ≤ fuel → (∀ fr ∈ stk, frameItemsOk fr) →
    ∃ doc' app, closeAllSyncGo fuel doc stk = Except.ok (doc', []) ∧
      doc' = doc ++ app ∧ (∀ n ∈ app, isListNode n = true) := by
  induction fuel with
  | zero =>
    intro doc stk hlen hit
    have hstk : stk = [] := List.length_eq_zero.mp (Nat.le_zero.mp hlen)
    subst hstk
    exact ⟨doc, [], rfl, by simp, by intro n h; cases h⟩
  | succ f ih =>
    intro doc stk hlen hit
    cases stk with
    | nil => exact ⟨doc, [], rfl, by simp, by intro n h; cases h⟩
    | cons fr rest =>
      obtain ⟨d1, s1, heq, hsig, hit1, a1, hd1, ha1⟩ := closeOneSync_ok doc (fr :: rest) hit
      have hlen1 : s1.length ≤ f := by
        have := sig_tail_length hsig
        simp at hlen
        omega
      obtain ⟨d2, a2, heq2, hd2, ha2⟩ := ih d1 s1 hlen1 hit1
      refine ⟨d2, a1 ++ a2, ?_, ?_, ?_⟩
      · simp [closeAllSyncGo, heq, heq2]
      · rw [hd2, hd1, List.append_assoc]
      · intro n h
        rcases List.mem_append.mp h with h1 | h2
        · exact ha1 n h1
        · exact ha2 n h2

theorem closeAllNoSyncGo_ok (fuel : Nat) : ∀ (doc : List ADF) (stk : List ListFrame),
    stk.length ≤ fuel → (∀ fr ∈ stk, frameItemsOk fr) →
    ∃ doc' app, closeAllNoSyncGo fuel doc stk = Except.ok (doc', []) ∧
      doc' = doc ++ app ∧ (∀ n ∈ app, isListNode n = true) := by
  induction fuel with
  | zero =>
    intro doc stk hlen hit
    have hstk : stk = [] := List.length_eq_zero.mp (Nat.le_zero.mp hlen)
    subst hstk
    exact ⟨doc, [], rfl, by simp, by intro n h; cases h⟩
  | succ f ih =>
    intro doc stk hlen hit
    cases stk with
    | nil => exact ⟨doc, [], rfl, by simp, by intro n h; cases h⟩
    | cons fr rest =>
      obtain ⟨d1, s1, heq, hsig, hit1, a1, hd1, ha1⟩ := closeOneNoSync_ok doc (fr :: rest) hit
      have hlen1 : s1.length ≤ f := by
        have := sig_tail_length hsig
        simp at hlen
        omega
      obtain ⟨d2, a2, heq2, hd2, ha2⟩ := ih d1 s1 hlen1 hit1
      refine ⟨d2, a1 ++ a2, ?_, ?_, ?_⟩
      · simp [closeAllNoSyncGo, heq, heq2]
      · rw [hd2, hd1, List.append_assoc]
      · intro n h
        rcases List.mem_append.mp h with h1 | h2
        · exact ha1 n h1
        · exact ha2 n h2

theorem closeDeeperGo_ok (fuel : Nat) : ∀ (doc : List ADF) (stk : List ListFrame) (ind : Nat),
    stk.length ≤ fuel → (∀ fr ∈ stk, frameItemsOk fr) →
    ∃ doc' stk' k, closeDeeperGo fuel doc stk ind = Except.ok (doc', stk') ∧
      stk'.map frameSig = (stk.map frameSig).drop k ∧
      (∀ fr ∈ stk', frameItemsOk fr) ∧
      (∀ fr, stk'.head? = some fr → fr.indent ≤ ind) ∧
      (∃ app, doc' = doc ++ app ∧ ∀ n ∈ app, isListNode n = true) := by
  induction fuel with
  | zero =>
    intro doc stk ind hlen hit
    have hstk : stk = [] := List.length_eq_zero.mp (Nat.le_zero.mp hlen)
    subst hstk
    exact ⟨doc, [], 0, rfl, rfl, (by intro fr h; cases h), (by intro fr h; cases h),
      ⟨[], by simp, by intro n h; cases h⟩⟩
  | succ f ih =>
    intro doc stk ind hlen hit
    cases stk with
    | nil =>
      exact ⟨doc, [], 0, rfl, rfl, (by intro fr h; cases h), (by intro fr h; cases h),
        ⟨[], by simp, by intro n h; cases h⟩⟩
    | cons t rest =>
      by_cases hind : ind < t.indent
      · obtain ⟨d1, s1, heq, hsig, hit1, a1, hd1, ha1⟩ := closeOneSync_ok doc (t :: rest) hit
        have hlen1 : s1.length ≤ f := by
          have := sig_tail_length hsig
          simp at hlen
          omega
        obtain ⟨d2, s2, k2, heq2, hsig2, hit2, hhead2, a2, hd2, ha2⟩ := ih d1 s1 ind hlen1 hit1
        refine ⟨d2, s2, k2 + 1, ?_, ?_, hit2, hhead2, ⟨a1 ++ a2, ?_, ?_⟩⟩
        · simp [closeDeeperGo, hind, heq, heq2]
        · rw [hsig2, hsig]
          simp [List.drop_succ_cons]
        · rw [hd2, hd1, List.append_assoc]
        · intro n h
          rcases List.mem_append.mp h with h1 | h2
          · exact ha1 n h1
          · exact ha2 n h2
      · refine ⟨doc, t :: rest, 0, ?_, by simp, hit, ?_, ⟨[], by simp, by intro n h; cases h⟩⟩
        · simp [closeDeeperGo, hind]
        · intro fr h
          simp only [List.head?_cons, Option.some.injEq] at h
          subst h
          exact Nat.not_lt.mp hind

theorem mkNewFrame_ok (kind : LKind) (ind : Nat) (doc : List ADF) (stk : List ListFrame)
    (hit : ∀ fr ∈ stk, frameItemsOk fr) :
    ∃ cur stk2, mkNewFrame kind ind doc stk = Except.ok (doc, cur, stk2) ∧
      cur.kind = kind ∧ cur.indent = ind ∧ cur.items = [] ∧
      stk2.map frameSig = stk.map frameSig ∧
      (∀ fr ∈ stk2, frameItemsOk fr) := by
  cases stk with
  | nil => exact ⟨⟨kind, ind, [], false⟩, [], rfl, rfl, rfl, rfl, rfl, by intro fr h; cases h⟩
  | cons p rr =>
    have hp := hit p (List.mem_cons_self _ _)
    have hrr : ∀ fr ∈ rr, frameItemsOk fr := fun fr h => hit fr (List.mem_cons_of_mem _ h)
    obtain ⟨li, hgl⟩ := getLast?_of_ne_nil hp.1
    have hli := hp.2 li (mem_of_getLast?_eq hgl)
    cases li <;> simp [isItemNode] at hli
    case listItem c =>
    refine ⟨⟨kind, ind, [], true⟩,
      { p with items := p.items.dropLast ++ [ADF.listItem (c ++ [listNodeOf kind []])] } :: rr,
      ?_, rfl, rfl, rfl, by simp [frameSig], ?_⟩
    · simp [mkNewFrame, hgl]
    · intro fr h
      rcases List.mem_cons.mp h with rfl | h2
      · exact frameItemsOk_update p _ hp (by simp [isItemNode])
      · exact hrr fr h2

theorem indents_as_sig (s : List ListFrame) :
    s.map (fun fr => fr.indent) = (s.map frameSig).map (fun x => x.2.1) := by
  rw [List.map_map]
  rfl

theorem indents_eq_of_sig {s1 s2 : List ListFrame}
    (h : s1.map frameSig = s2.map frameSig) :
    s1.map (fun fr => fr.indent) = s2.map (fun fr => fr.indent) := by
  rw [indents_as_sig, indents_as_sig, h]

theorem indents_drop_of_sig {s1 s2 : List ListFrame} {k : Nat}
    (h : s1.map frameSig = (s2.map frameSig).drop k) :
    s1.map (fun fr => fr.indent) = (s2.map (fun fr => fr.indent)).drop k := by
  rw [indents_as_sig, indents_as_sig, h, List.map_drop]

/-- One list-item line (source lines 600-712): succeeds on a well-formed
stack, returns a non-empty stack whose frames are well-formed, keeps the
indentation columns strictly increasing bottom-to-top, and appends only
list nodes to the document. -/
theorem handleListLine_ok (doc : List ADF) (stk : List ListFrame) (ind : Nat)
    (kind : LKind) (content : String)
    (hit : ∀ fr ∈ stk, frameItemsOk fr)
    (hch : List.Chain' (fun a b => b < a) (stk.map (fun fr => fr.indent))) :
    ∃ doc' stk', handleListLine (doc, stk) ind kind content = Except.ok (doc', stk') ∧
      (∀ fr ∈ stk', frameItemsOk fr) ∧
      List.Chain' (fun a b => b < a) (stk'.map (fun fr => fr.indent)) ∧
      (∃ app, doc' = doc ++ app ∧ ∀ n ∈ app, isListNode n = true) := by
  obtain ⟨d1, s1, k, heq1, hsig1, hit1, hhead1, a1, hd1, ha1⟩ :=
    closeDeeperGo_ok (stk.length + 1) doc stk ind (by omega) hit
  have hch1 : List.Chain' (fun a b => b < a) (s1.map (fun fr => fr.indent)) := by
    rw [indents_drop_of_sig hsig1]
    exact hch.drop k
  cases s1 with
  | nil =>
    obtain ⟨cur, stk2, heqm, hk, hi, hitems, hsig2, hit2⟩ := mkNewFrame_ok kind ind d1 [] hit1
    have hstk2 : stk2 = [] := List.map_eq_nil_iff.mp (by rw [hsig2]; rfl)
    subst hstk2
    refine ⟨d1, { cur with items := cur.items ++ [ADF.listItem [ADF.paragraph
        (if 0 < (parseInlineFormatting content).length then parseInlineFormatting content
         else [ADF.text "" []])]] } :: [], ?_, ?_, ?_, ⟨a1, hd1, ha1⟩⟩
    · simp [handleListLine, heq1, heqm]
    · intro fr h
      rcases List.mem_cons.mp h with rfl | h2
      · exact ⟨by simp, by
          intro it hmem
          rw [hitems] at hmem
          simp only [List.nil_append, List.mem_singleton] at hmem
          subst hmem
          rfl⟩
      · cases h2
    · simp [hi, List.chain'_singleton]
  | cons t r1 =>
    have hle : t.indent ≤ ind := hhead1 t rfl
    by_cases hind : t.indent = ind
    · by_cases hkind : t.kind = kind
      · refine ⟨d1, { t with items := t.items ++ [ADF.listItem [ADF.paragraph
          (if 0 < (parseInlineFormatting content).length then parseInlineFormatting content
           else [ADF.text "" []])]] } :: r1, ?_, ?_, ?_, ⟨a1, hd1, ha1⟩⟩
        · simp [handleListLine, heq1, hind, hkind]
        · intro fr h
          rcases List.mem_cons.mp h with rfl | h2
          · refine ⟨by simp, ?_⟩
            intro it hmem
            rcases List.mem_append.mp hmem with h1 | h1
            · exact (hit1 t (List.mem_cons_self _ _)).2 it h1
            · simp only [List.mem_singleton] at h1
              subst h1
              rfl
          · exact hit1 fr (List.mem_cons_of_mem _ h2)
        · simpa using hch1
      · obtain ⟨d2, s2, heqc, hsigc, hit2, a2, hd2, ha2⟩ := closeOneSync_ok d1 (t :: r1) hit1
        obtain ⟨cur, stk2, heqm, hk, hi, hitems, hsig2, hit3⟩ := mkNewFrame_ok kind ind d2 s2 hit2
        have hind2 : stk2.map (fun fr => fr.indent) = r1.map (fun fr => fr.indent) := by
          have h1 : s2.map (fun fr => fr.indent) = r1.map (fun fr => fr.indent) := by
            have : s2.map frameSig = r1.map frameSig := by
              rw [hsigc]
              simp
            exact indents_eq_of_sig this
          rw [indents_eq_of_sig hsig2, h1]
        refine ⟨d2, { cur with items := cur.items ++ [ADF.listItem [ADF.paragraph
          (if 0 < (parseInlineFormatting content).length then parseInlineFormatting content
           else [ADF.text "" []])]] } :: stk2, ?_, ?_, ?_, ?_⟩
        · simp [handleListLine, heq1, hind, hkind, heqc, heqm]
        · intro fr h
          rcases List.mem_cons.mp h with rfl | h2
          · refine ⟨by simp, ?_⟩
            intro it hmem
            rw [hitems] at hmem
            simp only [List.nil_append, List.mem_singleton] at hmem
            subst hmem
            rfl
          · exact hit3 fr h2
        · simp only [List.map_cons, hi, hind2]
          rw [List.chain'_cons']
          constructor
          · intro y hy
            simp only [List.map_cons, List.chain'_cons'] at hch1
            have := hch1.1 y hy
            omega
          · have := List.Chain'.tail hch1
            simpa using this
        · refine ⟨a1 ++ a2, ?_, ?_⟩
          · rw [hd2, hd1, List.append_assoc]
          · intro n h
            rcases List.mem_append.mp h with h1 | h2
            · exact ha1 n h1
            · exact ha2 n h2
    · have hlt : t.indent < ind := lt_of_le_of_ne hle hind
      obtain ⟨cur, stk2, heqm, hk, hi, hitems, hsig2, hit3⟩ := mkNewFrame_ok kind ind d1 (t :: r1) hit1
      have hind2 : stk2.map (fun fr => fr.indent) = (t :: r1).map (fun fr => fr.indent) :=
        indents_eq_of_sig hsig2
      refine ⟨d1, { cur with items := cur.items ++ [ADF.listItem [ADF.paragraph
        (if 0 < (parseInlineFormatting content).length then parseInlineFormatting content
         else [ADF.text "" []])]] } :: stk2, ?_, ?_, ?_, ⟨a1, hd1, ha1⟩⟩
      · simp [handleListLine, heq1, hind, heqm]
      · intro fr h
        rcases List.mem_cons.mp h with rfl | h2
        · refine ⟨by simp, ?_⟩
          intro it hmem
          rw [hitems] at hmem
          simp only [List.nil_append, List.mem_singleton] at hmem
          subst hmem
          rfl
        · exact hit3 fr h2
      · simp only [List.map_cons, hi, hind2]
        rw [List.chain'_cons']
        refine ⟨?_, by simpa using hch1⟩
        intro y hy
        simp only [List.map_cons, List.head?_cons, Option.mem_def, Option.some.injEq] at hy
        subst hy
        exact hlt

theorem parseTable_some_not_toc {ls : List String} {t : ADF} {e : Nat}
    (h : parseTable ls = some (t, e)) : isTocNode t = false := by
  unfold parseTable at h
  cases hg : ls.get? 1 with
  | none => rw [hg] at h; cases h
  | some sep =>
    rw [hg] at h
    dsimp only at h
    by_cases hs : sepLine sep = true
    · rw [if_pos hs] at h
      by_cases hl : (parseTableGo (ls.length + 1) ls 0 []).1.length < 2
      · rw [if_pos hl] at h; cases h
      · rw [if_neg hl] at h
        simp only [Option.some.injEq, Prod.mk.injEq] at h
        obtain ⟨h1, _⟩ := h
        subst h1
        rfl
    · rw [if_neg hs] at h; cases h

/-- One main-loop iteration preserves frame well-formedness and the
strictly-increasing indentation invariant, and appends only
non-TOC nodes to the document content. -/
theorem stepNonTable_ok (st : ConvSt) (l : String)
    (hit : ∀ fr ∈ st.stack, frameItemsOk fr)
    (hch : List.Chain' (fun a b => b < a) (st.stack.map (fun fr => fr.indent))) :
    ∃ st', stepNonTable st l = Except.ok st' ∧
      (∀ fr ∈ st'.stack, frameItemsOk fr) ∧
      List.Chain' (fun a b => b < a) (st'.stack.map (fun fr => fr.indent)) ∧
      (∃ app, st'.content = st.content ++ app ∧ ∀ n ∈ app, isTocNode n = false) := by
  cases hlm : listMatchOf l with
  | some v =>
    obtain ⟨ind, ord, content⟩ := v
    obtain ⟨d', stk', heq, hit', hch', app, hd, ha⟩ :=
      handleListLine_ok st.content st.stack ind (if ord then LKind.ordered else LKind.bullet) content hit hch
    refine ⟨{ st with content := d', stack := stk' }, ?_, hit', hch', ⟨app, hd, ?_⟩⟩
    · simp [stepNonTable, hlm, heq]
    · intro n h
      exact isTocNode_of_isListNode (ha n h)
  | none =>
    obtain ⟨d0, app0, heq0, hd0, ha0⟩ :=
      closeAllNoSyncGo_ok (st.stack.length + 1) st.content st.stack (by omega) hit
    have ha0' : ∀ n ∈ app0, isTocNode n = false := fun n h => isTocNode_of_isListNode (ha0 n h)
    have memapp : ∀ (x : ADF), isTocNode x = false →
        ∀ n ∈ app0 ++ [x], isTocNode n = false := by
      intro x hx n h
      rcases List.mem_append.mp h with h1 | h1
      · exact ha0' n h1
      · simp only [List.mem_singleton] at h1
        subst h1
        exact hx
    cases hhm : headingMatchOf l with
    | some v =>
      obtain ⟨lvl, text⟩ := v
      refine ⟨{ st with content := d0 ++ [ADF.heading lvl (parseInlineFormatting text)], stack := [] },
        ?_, (by intro fr h; cases h), (by simp), ⟨app0 ++ [ADF.heading lvl (parseInlineFormatting text)],
        (by rw [hd0, List.append_assoc]), memapp _ rfl⟩⟩
      simp [stepNonTable, hlm, heq0, hhm]
    | none =>
      cases hhr : hrLine l with
      | true =>
        refine ⟨{ st with content := d0 ++ [ADF.rule], stack := [] },
          ?_, (by intro fr h; cases h), (by simp), ⟨app0 ++ [ADF.rule],
          (by rw [hd0, List.append_assoc]), memapp _ rfl⟩⟩
        simp [stepNonTable, hlm, heq0, hhm, hhr]
      | false =>
        by_cases hblank : jsTrimList l.data = []
        case pos =>
          refine ⟨{ st with content := d0, stack := [] },
            ?_, (by intro fr h; cases h), (by simp), ⟨app0, hd0, ha0'⟩⟩
          simp [stepNonTable, hlm, heq0, hhm, hhr, hblank]
        case neg =>
          cases him : imageMatchOf l with
          | some v =>
            obtain ⟨alt, url⟩ := v
            refine ⟨{ st with content := d0 ++ [ADF.paragraph [ADF.media url alt]], stack := [] },
              ?_, (by intro fr h; cases h), (by simp), ⟨app0 ++ [ADF.paragraph [ADF.media url alt]],
              (by rw [hd0, List.append_assoc]), memapp _ rfl⟩⟩
            simp [stepNonTable, hlm, heq0, hhm, hhr, hblank, him]
          | none =>
            cases hac : includesAc l with
            | true =>
              by_cases hpc : acContent l = []
              · refine ⟨{ st with content := d0, stack := [] },
                  ?_, (by intro fr h; cases h), (by simp), ⟨app0, hd0, ha0'⟩⟩
                simp [stepNonTable, hlm, heq0, hhm, hhr, hblank, him, hac, hpc]
              · refine ⟨{ st with content := d0 ++ [ADF.paragraph (acContent l)], stack := [] },
                  ?_, (by intro fr h; cases h), (by simp), ⟨app0 ++ [ADF.paragraph (acContent l)],
                  (by rw [hd0, List.append_assoc]), memapp _ rfl⟩⟩
                simp [stepNonTable, hlm, heq0, hhm, hhr, hblank, him, hac, hpc]
            | false =>
              refine ⟨{ st with content := d0 ++ [ADF.paragraph
                (if 0 < (parseInlineFormatting l).length then parseInlineFormatting l
                 else [ADF.text "" []])], stack := [] },
                ?_, (by intro fr h; cases h), (by simp), ⟨app0 ++ [ADF.paragraph
                (if 0 < (parseInlineFormatting l).length then parseInlineFormatting l
                 else [ADF.text "" []])],
                (by rw [hd0, List.append_assoc]), memapp _ rfl⟩⟩
              simp [stepNonTable, hlm, heq0, hhm, hhr, hblank, him, hac]

theorem stepLine_ok (st : ConvSt) (l : String) (rest : List String)
    (hit : ∀ fr ∈ st.stack, frameItemsOk fr)
    (hch : List.Chain' (fun a b => b < a) (st.stack.map (fun fr => fr.indent))) :
    ∃ st' k, stepLine st l rest = Except.ok (st', k) ∧
      (∀ fr ∈ st'.stack, frameItemsOk fr) ∧
      List.Chain' (fun a b => b < a) (st'.stack.map (fun fr => fr.indent)) ∧
      (∃ app, st'.content = st.content ++ app ∧ ∀ n ∈ app, isTocNode n = false) := by
  cases htag : tagSkipLine l with
  | true =>
    exact ⟨st, 0, by simp [stepLine, htag], hit, hch, ⟨[], by simp, by intro n h; cases h⟩⟩
  | false =>
    cases hfen : fenceLine l with
    | true =>
      cases hic : st.inCode with
      | true =>
        refine ⟨{ st with
            content := st.content ++ [ADF.codeBlock (st.codeLang.getD "plain")
              (if (joinNlGo (st.codeBuf.map (fun b => b.toList))).isEmpty then []
               else [ADF.text (joinNlGo (st.codeBuf.map (fun b => b.toList))).asString []])],
            codeBuf := [], codeLang := none, inCode := false }, 0,
          ?_, hit, hch, ⟨[ADF.codeBlock (st.codeLang.getD "plain")
              (if (joinNlGo (st.codeBuf.map (fun b => b.toList))).isEmpty then []
               else [ADF.text (joinNlGo (st.codeBuf.map (fun b => b.toList))).asString []])], rfl, ?_⟩⟩
        · simp [stepLine, htag, hfen, hic]
        · intro n h
          simp only [List.mem_singleton] at h
          subst h
          rfl
      | false =>
        refine ⟨{ st with inCode := true, codeLang := fenceLang l }, 0,
          ?_, hit, hch, ⟨[], by simp, by intro n h; cases h⟩⟩
        simp [stepLine, htag, hfen, hic]
    | false =>
      cases hic : st.inCode with
      | true =>
        refine ⟨{ st with codeBuf := st.codeBuf ++ [l] }, 0,
          ?_, hit, hch, ⟨[], by simp, by intro n h; cases h⟩⟩
        simp [stepLine, htag, hfen, hic]
      | false =>
        cases hguard : (containsChar l '|' &&
            (match rest.head? with | some nxt => sepLine nxt | none => false)) with
        | true =>
          cases hpt : parseTable (l :: rest) with
          | some v =>
            obtain ⟨tbl, endIdx⟩ := v
            refine ⟨{ st with content := st.content ++ [tbl] }, endIdx,
              ?_, hit, hch, ⟨[tbl], rfl, ?_⟩⟩
            · simp [stepLine, htag, hfen, hic, hguard, hpt]
            · intro n h
              simp only [List.mem_singleton] at h
              subst h
              exact parseTable_some_not_toc hpt
          | none =>
            obtain ⟨st1, heq1, hit1, hch1, happ⟩ := stepNonTable_ok st l hit hch
            refine ⟨st1, 0, ?_, hit1, hch1, happ⟩
            simp [stepLine, htag, hfen, hic, hguard, hpt, heq1]
        | false =>
          obtain ⟨st1, heq1, hit1, hch1, happ⟩ := stepNonTable_ok st l hit hch
          refine ⟨st1, 0, ?_, hit1, hch1, happ⟩
          simp [stepLine, htag, hfen, hic, hguard, heq1]

theorem processLines_ok (fuel : Nat) : ∀ (st : ConvSt) (lines : List String),
    (∀ fr ∈ st.stack, frameItemsOk fr) →
    List.Chain' (fun a b => b < a) (st.stack.map (fun fr => fr.indent)) →
    ∃ st', processLines fuel st lines = Except.ok st' ∧
      (∀ fr ∈ st'.stack, frameItemsOk fr) ∧
      List.Chain' (fun a b => b < a) (st'.stack.map (fun fr => fr.indent)) ∧
      (∃ app, st'.content = st.content ++ app ∧ ∀ n ∈ app, isTocNode n = false) := by
  induction fuel with
  | zero =>
    intro st lines hit hch
    exact ⟨st, rfl, hit, hch, ⟨[], by simp, by intro n h; cases h⟩⟩
  | succ f ih =>
    intro st lines hit hch
    cases lines with
    | nil => exact ⟨st, rfl, hit, hch, ⟨[], by simp, by intro n h; cases h⟩⟩
    | cons l rest =>
      obtain ⟨st1, k, heq1, hit1, hch1, a1, hd1, ha1⟩ := stepLine_ok st l rest hit hch
      obtain ⟨st2, heq2, hit2, hch2, a2, hd2, ha2⟩ := ih st1 (rest.drop k) hit1 hch1
      refine ⟨st2, ?_, hit2, hch2, ⟨a1 ++ a2, ?_, ?_⟩⟩
      · simp [processLines, heq1, heq2]
      · rw [hd2, hd1, List.append_assoc]
      · intro n h
        rcases List.mem_append.mp h with h1 | h1
        · exact ha1 n h1
        · exact ha2 n h1

theorem mem_dropTrailing {n : ADF} {c : List ADF} (h : n ∈ dropTrailingEmptyParas c) : n ∈ c := by
  unfold dropTrailingEmptyParas at h
  have h1 := List.mem_reverse.mp h
  have h2 := (List.dropWhile_sublist _).subset h1
  exact List.mem_reverse.mp h2

theorem head?_dropWhile_not {α : Type} (p : α → Bool) :
    ∀ (l : List α) (a : α), (l.dropWhile p).head? = some a → p a = false := by
  intro l
  induction l with
  | nil => intro a h; cases h
  | cons c cs ih =>
    intro a h
    cases hc : p c with
    | true =>
      simp only [List.dropWhile_cons, hc, if_true] at h
      exact ih a h
    | false =>
      simp only [List.dropWhile_cons, hc] at h
      simp only [Bool.false_eq_true, if_false, List.head?_cons, Option.some.injEq] at h
      subst h
      exact hc

theorem getLast?_dropTrailing {c : List ADF} {n : ADF}
    (h : (dropTrailingEmptyParas c).getLast? = some n) : isStrippablePara n = false := by
  unfold dropTrailingEmptyParas at h
  rw [List.getLast?_reverse] at h
  exact head?_dropWhile_not _ _ _ h

theorem getLast?_cons_of_ne_nil {α : Type} (a : α) {l : List α} (h : l ≠ []) :
    (a :: l).getLast? = l.getLast? := by
  cases l with
  | nil => exact absurd rfl h
  | cons b t => exact List.getLast?_cons_cons ..

/-- Full shape of a successful conversion: the final content is a
TOC-free, trailing-stripped block list `c2`, with the TOC node prepended
exactly when the option is on, the heading count reaches the threshold,
and `c2` is non-empty. -/
theorem convert_characterization (s : String) (opts : ConvertOptions) :
    ∃ c2 : List ADF, (∀ n ∈ c2, isTocNode n = false) ∧
      (∀ m, c2.getLast? = some m → isStrippablePara m = false) ∧
      convertMarkdownToAtlasDoc s opts = Except.ok ⟨1,
        if (opts.addTableOfContents &&
            decide (opts.tocThreshold ≤ countHeadings (filterMarkers s))) &&
            decide (0 < c2.length)
        then createTableOfContents :: c2 else c2⟩ := by
  obtain ⟨st', heqP, hit', hch', app, hd, ha⟩ :=
    processLines_ok (((splitNl (filterMarkers s).toList).map List.asString).length + 1)
      initialConvSt ((splitNl (filterMarkers s).toList).map List.asString)
      (by intro fr h; cases h) (by simp [initialConvSt])
  obtain ⟨dfin, app2, heqC, hd2, ha2⟩ :=
    closeAllSyncGo_ok (st'.stack.length + 1) st'.content st'.stack (by omega) hit'
  refine ⟨dropTrailingEmptyParas dfin, ?_, ?_, ?_⟩
  · intro n h
    have hmem := mem_dropTrailing h
    rw [hd2, hd] at hmem
    simp only [initialConvSt, List.nil_append] at hmem
    rcases List.mem_append.mp hmem with h1 | h1
    · exact ha n h1
    · exact isTocNode_of_isListNode (ha2 n h1)
  · intro m hm
    exact getLast?_dropTrailing hm
  · simp only [convertMarkdownToAtlasDoc]
    rw [heqP]
    dsimp only
    rw [heqC]

/-! ### C5: TOC threshold boundary -/

/-- C5.  With default options (TOC enabled, threshold 4): whenever the
heading count of the marker-filtered input is 3, the output contains no
TOC node; whenever it is 4, the TOC extension node is the first element
of `doc.content` (unless the content is empty); and the two boundary
documents of the specification behave exactly so. -/
theorem c5_toc_threshold_boundary :
    (∀ (s : String) (d : AtlasDoc),
       convertMarkdownToAtlasDoc s defaultOptions = Except.ok d →
       (countHeadings (filterMarkers s) = 3 → ∀ n ∈ d.content, isTocNode n = false) ∧
       (countHeadings (filterMarkers s) = 4 →
          d.content = [] ∨ d.content.head? = some createTableOfContents)) ∧
    convertMarkdownToAtlasDoc "# a\n## b\n### c\ntext" defaultOptions =
      Except.ok ⟨1, [ADF.heading 1 [ADF.text "a" []], ADF.heading 2 [ADF.text "b" []],
                     ADF.heading 3 [ADF.text "c" []], ADF.paragraph [ADF.text "text" []]]⟩ ∧
    convertMarkdownToAtlasDoc "# a\n## b\n### c\n#### d\ntext" defaultOptions =
      Except.ok ⟨1, [ADF.tocExtension, ADF.heading 1 [ADF.text "a" []], ADF.heading 2 [ADF.text "b" []],
                     ADF.heading 3 [ADF.text "c" []], ADF.heading 4 [ADF.text "d" []],
                     ADF.paragraph [ADF.text "text" []]]⟩ := by
  refine ⟨?_, rfl, rfl⟩
  intro s d hconv
  obtain ⟨c2, hnt, _, heq⟩ := convert_characterization s defaultOptions
  rw [hconv] at heq
  have hd := Except.ok.inj heq
  subst hd
  constructor
  · intro h3 n hn
    simp only [h3] at hn
    have hc : ((defaultOptions.addTableOfContents &&
        decide (defaultOptions.tocThreshold ≤ 3)) && decide (0 < c2.length)) = false := by
      simp [defaultOptions]
    rw [hc] at hn
    simp only [Bool.false_eq_true, if_false] at hn
    exact hnt n hn
  · intro h4
    simp only [h4]
    cases c2 with
    | nil =>
      left
      simp
    | cons x xs =>
      right
      simp [defaultOptions, createTableOfContents]

/-- C5 witness: the universal part applied at the two boundary
documents. -/
theorem c5_toc_threshold_boundary_witness :
    isTocNode (ADF.heading 1 [ADF.text "a" []]) = false ∧
    ([ADF.tocExtension, ADF.heading 1 [ADF.text "a" []], ADF.heading 2 [ADF.text "b" []],
      ADF.heading 3 [ADF.text "c" []], ADF.heading 4 [ADF.text "d" []],
      ADF.paragraph [ADF.text "text" []]] = ([] : List ADF) ∨
     ([ADF.tocExtension, ADF.heading 1 [ADF.text "a" []], ADF.heading 2 [ADF.text "b" []],
       ADF.heading 3 [ADF.text "c" []], ADF.heading 4 [ADF.text "d" []],
       ADF.paragraph [ADF.text "text" []]] : List ADF).head? = some createTableOfContents) := by
  constructor
  · exact (c5_toc_threshold_boundary.1 "# a\n## b\n### c\ntext"
      ⟨1, [ADF.heading 1 [ADF.text "a" []], ADF.heading 2 [ADF.text "b" []],
           ADF.heading 3 [ADF.text "c" []], ADF.paragraph [ADF.text "text" []]]⟩ rfl).1 rfl
      (ADF.heading 1 [ADF.text "a" []]) (by simp)
  · exact (c5_toc_threshold_boundary.1 "# a\n## b\n### c\n#### d\ntext"
      ⟨1, [ADF.tocExtension, ADF.heading 1 [ADF.text "a" []], ADF.heading 2 [ADF.text "b" []],
           ADF.heading 3 [ADF.text "c" []], ADF.heading 4 [ADF.text "d" []],
           ADF.paragraph [ADF.text "text" []]]⟩ rfl).2 rfl

/-! ### C6: non-emptiness and trailing-paragraph stripping -/

/-- C6 counterexample: the single-space input is non-empty but converts
to a document with an empty block sequence, refuting "the sequence is
never empty unless the input was empty". -/
theorem c6_nonempty_counterexample :
    convertMarkdownToAtlasDoc " " defaultOptions = Except.ok ⟨1, []⟩ ∧ " " ≠ "" :=
  ⟨rfl, by decide⟩

/-- C6 amended.  Trailing whitespace-only paragraphs are stripped: for
every input and options, when the conversion succeeds the last element of
`doc.content` (if any) is never a paragraph with empty content or a
single whitespace-only text node. -/
theorem c6_trailing_strip_amended (s : String) (opts : ConvertOptions) (d : AtlasDoc) (n : ADF)
    (h : convertMarkdownToAtlasDoc s opts = Except.ok d)
    (hl : d.content.getLast? = some n) :
    isStrippablePara n = false := by
  obtain ⟨c2, _, hstrip, heq⟩ := convert_characterization s opts
  rw [h] at heq
  have hd := Except.ok.inj heq
  subst hd
  dsimp only at hl
  by_cases hcond : ((opts.addTableOfContents &&
      decide (opts.tocThreshold ≤ countHeadings (filterMarkers s))) && decide (0 < c2.length)) = true
  · rw [hcond] at hl
    simp only [if_true] at hl
    have hne : c2 ≠ [] := by
      intro hnil
      rw [hnil] at hcond
      simp at hcond
    rw [getLast?_cons_of_ne_nil _ hne] at hl
    exact hstrip n hl
  · have hf : ((opts.addTableOfContents &&
        decide (opts.tocThreshold ≤ countHeadings (filterMarkers s))) && decide (0 < c2.length)) = false := by
      revert hcond
      cases ((opts.addTableOfContents &&
        decide (opts.tocThreshold ≤ countHeadings (filterMarkers s))) && decide (0 < c2.length)) <;> simp
    rw [hf] at hl
    simp only [Bool.false_eq_true, if_false] at hl
    exact hstrip n hl

/-- C6 witness: the amended theorem applied at a document whose source
ends in a whitespace-only bold paragraph (which is stripped). -/
theorem c6_trailing_strip_amended_witness :
    isStrippablePara (ADF.paragraph [ADF.text "x" []]) = false :=
  c6_trailing_strip_amended "x\n** **" defaultOptions ⟨1, [ADF.paragraph [ADF.text "x" []]]⟩
    (ADF.paragraph [ADF.text "x" []]) rfl rfl

/-! ### C7: the open-list stack is strictly increasing in indent -/

/-- C7.  Strictly increasing stack indents is an invariant of the
line-processing loop: it holds of the initial (empty) stack, and each
`stepLine` step preserves it (together with well-formedness of each
frame's item list). -/
theorem c7_stack_indents_increasing :
    stackIndentsIncreasing initialConvSt.stack ∧
    ∀ (st : ConvSt) (l : String) (rest : List String) (st' : ConvSt) (k : Nat),
      (∀ fr ∈ st.stack, frameItemsOk fr) →
      stackIndentsIncreasing st.stack →
      stepLine st l rest = Except.ok (st', k) →
      stackIndentsIncreasing st'.stack ∧ ∀ fr ∈ st'.stack, frameItemsOk fr := by
  constructor
  · exact List.chain'_nil
  · intro st l rest st' k hit hch heq
    obtain ⟨st1, k1, heq1, hit1, hch1, _⟩ := stepLine_ok st l rest hit hch
    rw [heq1] at heq
    have h2 := Except.ok.inj heq
    have hst : st1 = st' := congrArg Prod.fst h2
    subst hst
    exact ⟨hch1, hit1⟩

/-- C7 witness: the invariant applied to the step that opens the first
list frame on the line `- a`. -/
theorem c7_stack_indents_increasing_witness :
    stackIndentsIncreasing
      [⟨LKind.bullet, 0, [ADF.listItem [ADF.paragraph [ADF.text "a" []]]], false⟩] :=
  (c7_stack_indents_increasing.2 initialConvSt "- a" []
    { content := [], inCode := false, codeLang := none, codeBuf := [],
      stack := [⟨LKind.bullet, 0, [ADF.listItem [ADF.paragraph [ADF.text "a" []]]], false⟩] } 0
    (by intro fr h; cases h) List.chain'_nil rfl).1

/-! ### C8: totality on strings, TypeError on non-strings -/

/-- C8.  `convertMarkdownToAtlasDoc` succeeds on every string input with
every option record (it never throws), while the JavaScript-level entry
point raises a TypeError for every non-string argument. -/
theorem c8_total_on_strings_throws_on_nonstrings :
    (∀ (s : String) (opts : ConvertOptions),
       ∃ d, convertMarkdownToAtlasDoc s opts = Except.ok d) ∧
    (∀ (v : JSValue) (opts : ConvertOptions), v.isString = false →
       ∃ e, convertMarkdownToAtlasDocJS v opts = Except.error e) := by
  constructor
  · intro s opts
    obtain ⟨c2, _, _, heq⟩ := convert_characterization s opts
    exact ⟨_, heq⟩
  · intro v opts hv
    cases v with
    | jstr s => simp [JSValue.isString] at hv
    | jnum n => exact ⟨_, rfl⟩
    | jbool b => exact ⟨_, rfl⟩
    | jnull => exact ⟨_, rfl⟩
    | jundefined => exact ⟨_, rfl⟩
    | jobject => exact ⟨_, rfl⟩
    | jarray => exact ⟨_, rfl⟩

/-- C8 witness: a concrete success on a string and a concrete error on
`null`. -/
theorem c8_total_on_strings_throws_on_nonstrings_witness :
    (convertMarkdownToAtlasDoc "x" defaultOptions).isOk = true ∧
    (convertMarkdownToAtlasDocJS JSValue.jnull defaultOptions).isOk = false := by
  constructor
  · obtain ⟨d, hd⟩ := c8_total_on_strings_throws_on_nonstrings.1 "x" defaultOptions
    rw [hd]
    rfl
  · obtain ⟨e, he⟩ := c8_total_on_strings_throws_on_nonstrings.2 JSValue.jnull defaultOptions rfl
    rw [he]
    rfl

/-! ### C9: an unclosed fence discards its buffered lines -/

/-- C9.  While inside a code fence, lines that never meet a closing fence
are only buffered, never emitted: if the remaining lines contain no fence
line, processing them leaves `content` unchanged and the fence open, so
the buffered lines are dropped when the document is assembled.  On the
concrete input `x` followed by an unclosed fence, only the paragraph for
`x` survives. -/
theorem c9_unclosed_fence_discards :
    (∀ (fuel : Nat) (st : ConvSt) (lines : List String) (st' : ConvSt),
       st.inCode = true →
       (∀ l ∈ lines, fenceLine l = false) →
       processLines fuel st lines = Except.ok st' →
       st'.content = st.content ∧ st'.inCode = true) ∧
    convertMarkdownToAtlasDoc "x\n```js\nhello\nworld" defaultOptions =
      Except.ok ⟨1, [ADF.paragraph [ADF.text "x" []]]⟩ := by
  refine ⟨?_, rfl⟩
  intro fuel
  induction fuel with
  | zero =>
    intro st lines st' hic _ heq
    exact ⟨(Except.ok.inj heq).symm ▸ rfl, (Except.ok.inj heq).symm ▸ hic⟩
  | succ f ih =>
    intro st lines st' hic hnf heq
    cases lines with
    | nil => exact ⟨(Except.ok.inj heq).symm ▸ rfl, (Except.ok.inj heq).symm ▸ hic⟩
    | cons l rest =>
      have hfl : fenceLine l = false := hnf l (List.mem_cons_self l rest)
      cases htag : tagSkipLine l with
      | true =>
        simp only [processLines, stepLine, htag] at heq
        have := ih st rest st' hic (fun x hx => hnf x (List.mem_cons_of_mem l hx)) heq
        exact this
      | false =>
        simp [processLines, stepLine, htag, hfl, hic] at heq
        have := ih { st with inCode := true, codeBuf := st.codeBuf ++ [l] } rest st' rfl
          (fun x hx => hnf x (List.mem_cons_of_mem l hx)) heq
        exact this

/-- C9 witness: processing the single non-fence line `hello` inside an
open fence leaves the emitted content unchanged. -/
theorem c9_unclosed_fence_discards_witness :
    ({ content := [ADF.rule], inCode := true, codeLang := none, codeBuf := ["hello"],
       stack := [] } : ConvSt).content = ([ADF.rule] : List ADF) ∧
    ({ content := [ADF.rule], inCode := true, codeLang := none, codeBuf := ["hello"],
       stack := [] } : ConvSt).inCode = true :=
  c9_unclosed_fence_discards.1 2 ⟨[ADF.rule], true, none, [], []⟩ ["hello"]
    ⟨[ADF.rule], true, none, ["hello"], []⟩ rfl
    (by intro l h; simp only [List.mem_singleton] at h; subst h; rfl) rfl

/-! ### C4: table minimum-rows boundary -/

theorem parseTableGo_stop_nopipe (f : Nat) (l : String) (rest : List String) (idx : Nat)
    (rows : List ADF) (h : containsChar l '|' = false) :
    parseTableGo (f + 1) (l :: rest) idx rows = (rows, idx) := by
  simp [parseTableGo, h]

theorem parseTableGo_skip_sep (f : Nat) (l : String) (rest : List String) (idx : Nat)
    (rows : List ADF) (hp : containsChar l '|' = true) (hs : sepLine l = true) :
    parseTableGo (f + 1) (l :: rest) idx rows = parseTableGo f rest (idx + 1) rows := by
  simp [parseTableGo, hp, hs]

theorem parseTableGo_skip_nocells (f : Nat) (l : String) (rest : List String) (idx : Nat)
    (rows : List ADF) (hp : containsChar l '|' = true) (hs : sepLine l = false)
    (hc : cellsOf l = []) :
    parseTableGo (f + 1) (l :: rest) idx rows = parseTableGo f rest (idx + 1) rows := by
  simp [parseTableGo, hp, hs, hc]

theorem parseTableGo_take_row (f : Nat) (l : String) (rest : List String) (idx : Nat)
    (rows : List ADF) (hp : containsChar l '|' = true) (hs : sepLine l = false)
    (hc : cellsOf l ≠ []) :
    parseTableGo (f + 1) (l :: rest) idx rows =
      parseTableGo f rest (idx + 1) (rows ++ [ADF.tableRow ((cellsOf l).map fun c =>
        (if rows.isEmpty then ADF.tableHeader else ADF.tableCell)
          [ADF.paragraph (parseInlineFormatting c)])]) := by
  simp [parseTableGo, hp, hs, hc]

theorem parseTableGo_empty_lines (f : Nat) (idx : Nat) (rows : List ADF) :
    parseTableGo f [] idx rows = (rows, idx) := by
  cases f with
  | zero => rfl
  | succ g => rfl

theorem parseTableGo_single_sep (f : Nat) (sep : String) (idx : Nat) (rows : List ADF)
    (hs : sepLine sep = true) :
    (parseTableGo (f + 1) [sep] idx rows).1 = rows := by
  by_cases hp : containsChar sep '|' = true
  · rw [parseTableGo_skip_sep f sep [] idx rows hp hs, parseTableGo_empty_lines]
  · rw [parseTableGo_stop_nopipe f sep [] idx rows (by revert hp; cases containsChar sep '|' <;> simp)]

theorem parseTableGo_extend (f : Nat) : ∀ (ls : List String) (idx : Nat) (rows : List ADF),
    rows ≠ [] →
    ∃ (extra : List ADF) (idx' : Nat),
      parseTableGo f ls idx rows = (rows ++ extra, idx') ∧
      ∀ r ∈ extra, ∃ cs : List String,
        r = ADF.tableRow (cs.map fun c => ADF.tableCell [ADF.paragraph (parseInlineFormatting c)]) := by
  induction f with
  | zero =>
    intro ls idx rows _
    exact ⟨[], idx, by simp [parseTableGo], by intro r h; cases h⟩
  | succ f ih =>
    intro ls idx rows hne
    cases ls with
    | nil =>
      exact ⟨[], idx, by simp [parseTableGo_empty_lines], by intro r h; cases h⟩
    | cons l rest =>
      by_cases hp : containsChar l '|' = true
      · by_cases hs : sepLine l = true
        · obtain ⟨extra, idx', heq, hall⟩ := ih rest (idx + 1) rows hne
          exact ⟨extra, idx', by rw [parseTableGo_skip_sep f l rest idx rows hp hs]; exact heq, hall⟩
        · have hs' : sepLine l = false := by revert hs; cases sepLine l <;> simp
          by_cases hc : cellsOf l = []
          · obtain ⟨extra, idx', heq, hall⟩ := ih rest (idx + 1) rows hne
            exact ⟨extra, idx',
              by rw [parseTableGo_skip_nocells f l rest idx rows hp hs' hc]; exact heq, hall⟩
          · have hre : rows.isEmpty = false := by
              cases rows with
              | nil => exact absurd rfl hne
              | cons a tl => rfl
            obtain ⟨extra, idx', heq, hall⟩ := ih rest (idx + 1)
              (rows ++ [ADF.tableRow ((cellsOf l).map fun c =>
                ADF.tableCell [ADF.paragraph (parseInlineFormatting c)])]) (by simp)
            refine ⟨ADF.tableRow ((cellsOf l).map fun c =>
                ADF.tableCell [ADF.paragraph (parseInlineFormatting c)]) :: extra, idx', ?_, ?_⟩
            · rw [parseTableGo_take_row f l rest idx rows hp hs' hc, hre]
              simp only [Bool.false_eq_true, if_false]
              rw [heq, List.append_assoc]
              rfl
            · intro r h
              rcases List.mem_cons.mp h with h1 | h1
              · exact ⟨cellsOf l, h1⟩
              · exact hall r h1
      · have hp' : containsChar l '|' = false := by revert hp; cases containsChar l '|' <;> simp
        exact ⟨[], idx, by rw [parseTableGo_stop_nopipe f l rest idx rows hp']; simp, by intro r h; cases h⟩

/-- C4.  A candidate table of a header row and a separator row with no
data row yields no table node, while header + separator + at least one
data row yields a table whose first row holds `tableHeader` cells and
whose subsequent rows hold `tableCell` cells; the two concrete boundary
inputs fall through to paragraphs resp. become a table. -/
theorem c4_table_minimum_rows :
    (∀ (h sep : String), sepLine sep = true → parseTable [h, sep] = none) ∧
    (∀ (h sep d : String) (rest : List String),
       containsChar h '|' = true → sepLine h = false → cellsOf h ≠ [] →
       containsChar sep '|' = true → sepLine sep = true →
       containsChar d '|' = true → sepLine d = false → cellsOf d ≠ [] →
       ∃ (extra : List ADF) (endIdx : Nat),
         parseTable (h :: sep :: d :: rest) =
           some (ADF.table
             (ADF.tableRow ((cellsOf h).map fun c =>
                ADF.tableHeader [ADF.paragraph (parseInlineFormatting c)]) ::
              ADF.tableRow ((cellsOf d).map fun c =>
                ADF.tableCell [ADF.paragraph (parseInlineFormatting c)]) :: extra), endIdx) ∧
         ∀ r ∈ extra, ∃ cs : List String,
           r = ADF.tableRow (cs.map fun c =>
             ADF.tableCell [ADF.paragraph (parseInlineFormatting c)])) ∧
    convertMarkdownToAtlasDoc "| a | b |\n| --- | --- |" defaultOptions =
      Except.ok ⟨1, [ADF.paragraph [ADF.text "| a | b |" []],
                     ADF.paragraph [ADF.text "| --- | --- |" []]]⟩ ∧
    convertMarkdownToAtlasDoc "| a | b |\n| --- | --- |\n| c | d |" defaultOptions =
      Except.ok ⟨1, [ADF.table
        [ADF.tableRow [ADF.tableHeader [ADF.paragraph [ADF.text "a" []]],
                       ADF.tableHeader [ADF.paragraph [ADF.text "b" []]]],
         ADF.tableRow [ADF.tableCell [ADF.paragraph [ADF.text "c" []]],
                       ADF.tableCell [ADF.paragraph [ADF.text "d" []]]]]]⟩ := by
  refine ⟨?_, ?_, rfl, rfl⟩
  · intro h sep hs
    have hlen : (parseTableGo 3 [h, sep] 0 []).1.length < 2 := by
      by_cases hp : containsChar h '|' = true
      · by_cases hsh : sepLine h = true
        · rw [show (3 : Nat) = 2 + 1 from rfl,
            parseTableGo_skip_sep 2 h [sep] 0 [] hp hsh,
            show (2 : Nat) = 1 + 1 from rfl,
            parseTableGo_single_sep 1 sep 1 [] hs]
          decide
        · have hsh' : sepLine h = false := by revert hsh; cases sepLine h <;> simp
          by_cases hc : cellsOf h = []
          · rw [show (3 : Nat) = 2 + 1 from rfl,
              parseTableGo_skip_nocells 2 h [sep] 0 [] hp hsh' hc,
              show (2 : Nat) = 1 + 1 from rfl,
              parseTableGo_single_sep 1 sep 1 [] hs]
            decide
          · rw [show (3 : Nat) = 2 + 1 from rfl,
              parseTableGo_take_row 2 h [sep] 0 [] hp hsh' hc,
              show (2 : Nat) = 1 + 1 from rfl,
              parseTableGo_single_sep 1 sep 1 _ hs]
            simp
      · have hp' : containsChar h '|' = false := by revert hp; cases containsChar h '|' <;> simp
        rw [show (3 : Nat) = 2 + 1 from rfl, parseTableGo_stop_nopipe 2 h [sep] 0 [] hp']
        decide
    show (match ([h, sep] : List String).get? 1 with
      | some s =>
        if sepLine s then
          let r := parseTableGo (([h, sep] : List String).length + 1) [h, sep] 0 []
          if r.1.length < 2 then none else some (ADF.table r.1, r.2 - 1)
        else none
      | none => none) = none
    simp only [List.get?, List.length_cons, List.length_nil, hs, if_true]
    rw [if_pos hlen]
  · intro h sep d rest hp1 hs1 hc1 hp2 hs2 hp3 hs3 hc3
    obtain ⟨extra, idx', heq, hall⟩ := parseTableGo_extend (rest.length + 1) rest 3
      [ADF.tableRow ((cellsOf h).map fun c =>
         ADF.tableHeader [ADF.paragraph (parseInlineFormatting c)]),
       ADF.tableRow ((cellsOf d).map fun c =>
         ADF.tableCell [ADF.paragraph (parseInlineFormatting c)])] (by simp)
    have hstep : parseTableGo ((h :: sep :: d :: rest).length + 1) (h :: sep :: d :: rest) 0 [] =
        ([ADF.tableRow ((cellsOf h).map fun c =>
            ADF.tableHeader [ADF.paragraph (parseInlineFormatting c)]),
          ADF.tableRow ((cellsOf d).map fun c =>
            ADF.tableCell [ADF.paragraph (parseInlineFormatting c)])] ++ extra, idx') := by
      rw [show (h :: sep :: d :: rest).length + 1 = (rest.length + 3) + 1 by
        simp only [List.length_cons]]
      rw [parseTableGo_take_row (rest.length + 3) h (sep :: d :: rest) 0 [] hp1 hs1 hc1]
      rw [show rest.length + 3 = (rest.length + 2) + 1 from rfl]
      rw [parseTableGo_skip_sep (rest.length + 2) sep (d :: rest) 1 _ hp2 hs2]
      rw [show rest.length + 2 = (rest.length + 1) + 1 from rfl]
      rw [parseTableGo_take_row (rest.length + 1) d rest 2 _ hp3 hs3 hc3]
      exact heq
    refine ⟨extra, idx' - 1, ?_, hall⟩
    show (match (h :: sep :: d :: rest).get? 1 with
      | some s =>
        if sepLine s then
          let r := parseTableGo ((h :: sep :: d :: rest).length + 1) (h :: sep :: d :: rest) 0 []
          if r.1.length < 2 then none else some (ADF.table r.1, r.2 - 1)
        else none
      | none => none) = _
    simp only [List.get?, hs2, if_true]
    rw [hstep]
    simp

/-- C4 witness: both universal halves applied at concrete one-row and
two-row candidate tables. -/
theorem c4_table_minimum_rows_witness :
    parseTable ["| a |", "| --- |"] = none ∧
    (∃ (extra : List ADF) (endIdx : Nat),
       parseTable ["| a |", "| --- |", "| b |"] =
         some (ADF.table
           (ADF.tableRow ((cellsOf "| a |").map fun c =>
              ADF.tableHeader [ADF.paragraph (parseInlineFormatting c)]) ::
            ADF.tableRow ((cellsOf "| b |").map fun c =>
              ADF.tableCell [ADF.paragraph (parseInlineFormatting c)]) :: extra), endIdx) ∧
       ∀ r ∈ extra, ∃ cs : List String,
         r = ADF.tableRow (cs.map fun c =>
           ADF.tableCell [ADF.paragraph (parseInlineFormatting c)])) :=
  ⟨c4_table_minimum_rows.1 "| a |" "| --- |" rfl,
   c4_table_minimum_rows.2.1 "| a |" "| --- |" "| b |" [] rfl rfl (by decide) rfl rfl rfl rfl
     (by decide)⟩

/-! ### C2 groundwork: the sentinel alphabet -/

theorem renderTok_append (a b : List (Sum Char Nat)) :
    renderTok (a ++ b) = renderTok a ++ renderTok b := by
  simp [renderTok]

theorem renderTok_map_inl (l : List Char) : renderTok (l.map Sum.inl) = l := by
  induction l with
  | nil => rfl
  | cons c cs ih => simp [renderTok] at ih ⊢; exact ih

theorem phStr_ne_nil (n : Nat) : phStr n ≠ [] := by
  simp [phStr, phPrefix]

theorem renderTok_eq_nil (ts : List (Sum Char Nat)) : renderTok ts = [] ↔ ts = [] := by
  cases ts with
  | nil => simp [renderTok]
  | cons t ts =>
    simp only [renderTok, List.flatMap_cons]
    constructor
    · intro h
      rcases List.append_eq_nil.mp h with ⟨h1, _⟩
      cases t with
      | inl c => simp at h1
      | inr n => exact absurd h1 (phStr_ne_nil n)
    · intro h
      cases h

theorem decDigit_toNat (k : Nat) (hk : k < 10) : (decDigit k).toNat = 48 + k := by
  interval_cases k <;> decide

theorem decDigit_not_dlm (k : Nat) (hk : k < 10) : isDlm (decDigit k) = false := by
  interval_cases k <;> decide

theorem decDigit_isDigit (k : Nat) (hk : k < 10) : (decDigit k).isDigit = true := by
  interval_cases k <;> decide

theorem decDigit_ne_sentinel (k : Nat) (hk : k < 10) : ¬ decDigit k = '\x01' := by
  interval_cases k <;> decide

theorem natDigitsGo_mem (f : Nat) : ∀ (n : Nat) (c : Char), c ∈ natDigitsGo f n →
    ∃ k, k < 10 ∧ c = decDigit k := by
  induction f with
  | zero => intro n c h; cases h
  | succ f ih =>
    intro n c h
    by_cases hn : n < 10
    · simp only [natDigitsGo, if_pos hn, List.mem_singleton] at h
      exact ⟨n, hn, h⟩
    · simp only [natDigitsGo, if_neg hn, List.mem_append, List.mem_singleton] at h
      rcases h with h | h
      · exact ih (n / 10) c h
      · exact ⟨n % 10, Nat.mod_lt n (by omega), h⟩

theorem natDigits_mem (n : Nat) (c : Char) (h : c ∈ natDigits n) :
    ∃ k, k < 10 ∧ c = decDigit k :=
  natDigitsGo_mem (n + 1) n c h

theorem natDigitsGo_ne_nil (f n : Nat) (h : n < f) : natDigitsGo f n ≠ [] := by
  cases f with
  | zero => omega
  | succ f =>
    by_cases hn : n < 10
    · simp [natDigitsGo, hn]
    · simp [natDigitsGo, hn]

theorem valOfDigits_append (l : List Char) (c : Char) :
    valOfDigits (l ++ [c]) = valOfDigits l * 10 + (c.toNat - 48) := by
  simp [valOfDigits, List.foldl_append]

theorem valOfDigits_natDigitsGo : ∀ (f n : Nat), n < f →
    valOfDigits (natDigitsGo f n) = n := by
  intro f
  induction f with
  | zero => intro n h; omega
  | succ f ih =>
    intro n h
    by_cases hn : n < 10
    · have ht : (decDigit n).toNat = 48 + n := decDigit_toNat n hn
      simp [natDigitsGo, hn, valOfDigits, ht]
    · have hdiv : n / 10 < n := Nat.div_lt_self (by omega) (by omega)
      have h10 : n / 10 < f := by omega
      simp only [natDigitsGo, if_neg hn]
      rw [valOfDigits_append, ih (n / 10) h10, decDigit_toNat (n % 10) (Nat.mod_lt n (by omega))]
      omega

theorem natDigits_inj (a b : Nat) (h : natDigits a = natDigits b) : a = b := by
  have ha := valOfDigits_natDigitsGo (a + 1) a (by omega)
  have hb := valOfDigits_natDigitsGo (b + 1) b (by omega)
  rw [natDigits] at h
  rw [h, natDigits] at ha
  rw [hb] at ha
  omega

theorem phStr_inj (a b : Nat) (h : phStr a = phStr b) : a = b := by
  simp only [phStr, List.append_assoc] at h
  have h1 := List.append_cancel_left h
  have h2 := List.append_cancel_right h1
  exact natDigits_inj a b h2

theorem phStr_beq (a b : Nat) : (phStr a == phStr b) = (a == b) := by
  by_cases h : a = b
  · subst h; simp
  · have hne : phStr a ≠ phStr b := fun hc => h (phStr_inj a b hc)
    simp [hne, h]

theorem phStr_mem_cases (n : Nat) (c : Char) (h : c ∈ phStr n) :
    c = '\x01' ∨ c ∈ "PLACEHOLDER".toList ∨ c ∈ natDigits n := by
  simp only [phStr, phPrefix, List.cons_append, List.mem_cons, List.mem_append,
    List.mem_singleton] at h
  tauto

theorem phStr_mem_not_dlm (n : Nat) (c : Char) (h : c ∈ phStr n) : isDlm c = false := by
  rcases phStr_mem_cases n c h with h1 | h1 | h1
  · subst h1; decide
  · have hall : ∀ x ∈ "PLACEHOLDER".toList, isDlm x = false := by decide
    exact hall c h1
  · obtain ⟨k, hk, hc⟩ := natDigits_mem n c h1
    subst hc; exact decDigit_not_dlm k hk

theorem takeWhile_append_all {α : Type} (p : α → Bool) (a b : List α)
    (h : ∀ c ∈ a, p c = true) : (a ++ b).takeWhile p = a ++ b.takeWhile p := by
  induction a with
  | nil => simp
  | cons x xs ih =>
    have hx : p x = true := h x (List.mem_cons_self x xs)
    simp only [List.cons_append, List.takeWhile_cons, hx, if_true]
    rw [ih (fun c hc => h c (List.mem_cons_of_mem x hc))]

theorem dropWhile_append_all {α : Type} (p : α → Bool) (a b : List α)
    (h : ∀ c ∈ a, p c = true) : (a ++ b).dropWhile p = b.dropWhile p := by
  induction a with
  | nil => simp
  | cons x xs ih =>
    have hx : p x = true := h x (List.mem_cons_self x xs)
    simp only [List.cons_append, List.dropWhile_cons, hx, if_true]
    exact ih (fun c hc => h c (List.mem_cons_of_mem x hc))

theorem renderTok_takeWhile (P : Char → Bool) (Q : Sum Char Nat → Bool)
    (hQl : ∀ c, Q (Sum.inl c) = P c) (hQr : ∀ n, Q (Sum.inr n) = true)
    (hph : ∀ (n : Nat) (c : Char), c ∈ phStr n → P c = true) :
    ∀ ts : List (Sum Char Nat),
      renderTok (ts.takeWhile Q) = (renderTok ts).takeWhile P := by
  intro ts
  induction ts with
  | nil => rfl
  | cons t ts ih =>
    cases t with
    | inl c =>
      have hr : renderTok (Sum.inl c :: ts) = c :: renderTok ts := by simp [renderTok]
      rw [hr, List.takeWhile_cons, List.takeWhile_cons, hQl c]
      cases hp : P c with
      | true =>
        simp only [if_true]
        rw [show renderTok (Sum.inl c :: ts.takeWhile Q) = c :: renderTok (ts.takeWhile Q)
          from by simp [renderTok], ih]
      | false => simp [renderTok]
    | inr n =>
      have hr : renderTok (Sum.inr n :: ts) = phStr n ++ renderTok ts := by simp [renderTok]
      rw [hr, List.takeWhile_cons, hQr n]
      simp only [if_true]
      rw [takeWhile_append_all P (phStr n) (renderTok ts) (fun c hc => hph n c hc)]
      rw [show renderTok (Sum.inr n :: ts.takeWhile Q) = phStr n ++ renderTok (ts.takeWhile Q)
        from by simp [renderTok], ih]

theorem renderTok_dropWhile (P : Char → Bool) (Q : Sum Char Nat → Bool)
    (hQl : ∀ c, Q (Sum.inl c) = P c) (hQr : ∀ n, Q (Sum.inr n) = true)
    (hph : ∀ (n : Nat) (c : Char), c ∈ phStr n → P c = true) :
    ∀ ts : List (Sum Char Nat),
      renderTok (ts.dropWhile Q) = (renderTok ts).dropWhile P := by
  intro ts
  induction ts with
  | nil => rfl
  | cons t ts ih =>
    cases t with
    | inl c =>
      have hr : renderTok (Sum.inl c :: ts) = c :: renderTok ts := by simp [renderTok]
      rw [hr, List.dropWhile_cons, List.dropWhile_cons, hQl c]
      cases hp : P c with
      | true => simp only [if_true]; exact ih
      | false => simp [renderTok]
    | inr n =>
      have hr : renderTok (Sum.inr n :: ts) = phStr n ++ renderTok ts := by simp [renderTok]
      rw [hr, List.dropWhile_cons, hQr n]
      simp only [if_true]
      rw [dropWhile_append_all P (phStr n) (renderTok ts) (fun c hc => hph n c hc)]
      exact ih

theorem cleanT_of_sublist {a b : List (Sum Char Nat)} (h : List.Sublist a b)
    (hb : cleanT b) : cleanT a :=
  fun c hc => hb c (h.subset hc)

theorem cleanT_tail {t : Sum Char Nat} {ts : List (Sum Char Nat)}
    (h : cleanT (t :: ts)) : cleanT ts :=
  fun c hc => h c (List.mem_cons_of_mem t hc)

theorem mem_renderTok (ts : List (Sum Char Nat)) (c : Char) (h : c ∈ renderTok ts) :
    (Sum.inl c ∈ ts) ∨ ∃ n, Sum.inr n ∈ ts ∧ c ∈ phStr n := by
  simp only [renderTok, List.mem_flatMap] at h
  obtain ⟨t, ht, hc⟩ := h
  cases t with
  | inl c2 =>
    simp only [List.mem_singleton] at hc
    subst hc
    exact Or.inl ht
  | inr n => exact Or.inr ⟨n, ht, hc⟩

theorem listHasInfix_append_left (p x l : List Char) (h : listHasInfix p l = true) :
    listHasInfix p (x ++ l) = true := by
  induction x with
  | nil => simpa using h
  | cons c cs ih =>
    simp only [List.cons_append, listHasInfix, Bool.or_eq_true]
    exact Or.inr ih

theorem listHasInfix_of_pre (p l : List Char) (h : p.isPrefixOf l = true) :
    listHasInfix p l = true := by
  cases l with
  | nil =>
    cases p with
    | nil => rfl
    | cons c cs => simp [List.isPrefixOf] at h
  | cons c cs =>
    simp only [listHasInfix, Bool.or_eq_true]
    exact Or.inl h

theorem listHasInfix_head_mem (c : Char) (p : List Char) :
    ∀ l : List Char, listHasInfix (c :: p) l = true → c ∈ l := by
  intro l
  induction l with
  | nil => intro h; simp [listHasInfix] at h
  | cons x xs ih =>
    intro h
    simp only [listHasInfix, Bool.or_eq_true] at h
    rcases h with h | h
    · simp only [List.isPrefixOf, Bool.and_eq_true, beq_iff_eq] at h
      exact h.1 ▸ List.mem_cons_self x xs
    · exact List.mem_cons_of_mem x (ih h)

theorem hasPh_corr (ts : List (Sum Char Nat)) (hcl : cleanT ts) :
    hasPhC (renderTok ts) = hasPhT ts := by
  cases hph : hasPhT ts with
  | true =>
    simp only [hasPhT, List.any_eq_true] at hph
    obtain ⟨t, ht, hb⟩ := hph
    cases t with
    | inl c => simp at hb
    | inr n =>
      obtain ⟨a, b, hab⟩ := List.append_of_mem ht
      subst hab
      rw [hasPhC]
      rw [show renderTok (a ++ Sum.inr n :: b) = renderTok a ++ (phStr n ++ renderTok b) from
        by rw [renderTok_append]; simp [renderTok]]
      apply listHasInfix_append_left
      apply listHasInfix_of_pre
      have hpre : phStr n ++ renderTok b = phPrefix ++ (natDigits n ++ ['\x01'] ++ renderTok b) := by
        simp [phStr, List.append_assoc]
      rw [hpre]
      exact List.isPrefixOf_iff_prefix.mpr ⟨natDigits n ++ ['\x01'] ++ renderTok b, rfl⟩
  | false =>
    by_contra hc
    have hc2 : hasPhC (renderTok ts) = true := by
      revert hc
      cases hasPhC (renderTok ts) <;> simp
    rw [hasPhC, phPrefix] at hc2
    have hmem := listHasInfix_head_mem '\x01' "PLACEHOLDER".toList (renderTok ts) hc2
    rcases mem_renderTok ts '\x01' hmem with h1 | ⟨n, hn, _⟩
    · exact hcl '\x01' h1 rfl
    · have htrue : hasPhT ts = true := by
        simp only [hasPhT, List.any_eq_true]
        exact ⟨Sum.inr n, hn, rfl⟩
      rw [htrue] at hph
      cases hph

theorem runPass_fuel {γ : Type} (tryAt : γ → List γ → Option (MRes γ)) (mkPh : Nat → List γ) :
    ∀ (f g : Nat) (s : List γ) (ctr : Nat), s.length < f → s.length < g →
    runPass tryAt mkPh f s ctr = runPass tryAt mkPh g s ctr := by
  intro f
  induction f with
  | zero => intro g s ctr hf _; exact absurd hf (Nat.not_lt_zero _)
  | succ f ih =>
    intro g s ctr hf hg
    cases s with
    | nil =>
      cases g with
      | zero => exact absurd hg (Nat.not_lt_zero _)
      | succ g => rfl
    | cons c cs =>
      cases g with
      | zero => exact absurd hg (Nat.not_lt_zero _)
      | succ g =>
        have hf2 : cs.length < f := by simp only [List.length_cons] at hf; omega
        have hg2 : cs.length < g := by simp only [List.length_cons] at hg; omega
        simp only [runPass]
        cases htry : tryAt c cs with
        | none => rw [ih g cs ctr hf2 hg2]
        | some m =>
          have hd : (cs.drop m.tailLen).length < f := by
            have := List.length_drop m.tailLen cs
            omega
          have hd2 : (cs.drop m.tailLen).length < g := by
            have := List.length_drop m.tailLen cs
            omega
          by_cases hsk : m.skipIt = true
          · simp only [hsk, if_true]
            rw [ih g (cs.drop m.tailLen) ctr hd hd2]
          · have hsk2 : m.skipIt = false := by revert hsk; cases m.skipIt <;> simp
            simp only [hsk2, Bool.false_eq_true, if_false]
            rw [ih g (cs.drop m.tailLen) (ctr + 1) hd hd2]

theorem tryDelim1_none {γ : Type} (eqc : γ → Char → Bool) (hasPh : List γ → Bool)
    (d : Char) (k : PhKind) (chk : Bool) (c : γ) (cs : List γ) (h : eqc c d = false) :
    tryDelim1 eqc hasPh d k chk c cs = none := by
  simp [tryDelim1, h]

theorem tryDelim2_none {γ : Type} (eqc : γ → Char → Bool) (hasPh : List γ → Bool)
    (d : Char) (k : PhKind) (chk : Bool) (c : γ) (cs : List γ) (h : eqc c d = false) :
    tryDelim2 eqc hasPh d k chk c cs = none := by
  simp [tryDelim2, h]

theorem tryLink_none {γ : Type} (eqc : γ → Char → Bool) (c : γ) (cs : List γ)
    (h : eqc c '[' = false) : tryLink eqc c cs = none := by
  simp [tryLink, h]

theorem runPass_verbatim (tryS : Char → List Char → Option (MRes Char))
    (mkPh : Nat → List Char) :
    ∀ (p : List Char), (∀ c ∈ p, ∀ cs, tryS c cs = none) →
    ∀ (g : Nat) (rest : List Char) (ctr : Nat), (p ++ rest).length < g →
      runPass tryS mkPh g (p ++ rest) ctr =
        (p ++ (runPass tryS mkPh (rest.length + 1) rest ctr).1,
         (runPass tryS mkPh (rest.length + 1) rest ctr).2) := by
  intro p
  induction p with
  | nil =>
    intro _ g rest ctr hg
    simp only [List.nil_append]
    rw [runPass_fuel tryS mkPh g (rest.length + 1) rest ctr (by simpa using hg) (by omega)]
  | cons c p ih =>
    intro hp g rest ctr hg
    cases g with
    | zero => exact absurd hg (Nat.not_lt_zero _)
    | succ g =>
      have hc : tryS c (p ++ rest) = none := hp c (List.mem_cons_self c p) (p ++ rest)
      simp only [List.cons_append, runPass, List.append_eq, hc]
      rw [ih (fun x hx => hp x (List.mem_cons_of_mem c hx)) g rest ctr
        (by simp only [List.length_append, List.cons_append, List.length_cons] at hg ⊢; omega)]

theorem runPass_clean (tryT : Sum Char Nat → List (Sum Char Nat) → Option (MRes (Sum Char Nat))) :
    ∀ (f : Nat) (ts : List (Sum Char Nat)) (ctr : Nat), cleanT ts →
      cleanT (runPass tryT mkPhT f ts ctr).1 := by
  intro f
  induction f with
  | zero => intro ts ctr h; exact h
  | succ f ih =>
    intro ts ctr h
    cases ts with
    | nil => intro c hc; cases hc
    | cons t ts =>
      simp only [runPass]
      cases htry : tryT t ts with
      | none =>
        intro c hc
        rcases List.mem_cons.mp hc with h1 | h1
        · exact h c (h1 ▸ List.mem_cons_self t ts)
        · exact ih ts ctr (cleanT_tail h) c h1
      | some m =>
        by_cases hsk : m.skipIt = true
        · simp only [hsk, if_true]
          intro c hc
          rcases List.mem_cons.mp hc with h1 | h1
          · exact h c (h1 ▸ List.mem_cons_self t ts)
          · rcases List.mem_append.mp h1 with h2 | h2
            · exact cleanT_tail h c ((List.take_sublist m.tailLen ts).subset h2)
            · exact ih (ts.drop m.tailLen) ctr
                (cleanT_of_sublist (List.drop_sublist m.tailLen ts) (cleanT_tail h)) c h2
        · have hsk2 : m.skipIt = false := by revert hsk; cases m.skipIt <;> simp
          simp only [hsk2, Bool.false_eq_true, if_false]
          intro c hc
          rcases List.mem_append.mp hc with h2 | h2
          · simp only [mkPhT, List.mem_singleton] at h2
            cases h2
          · exact ih (ts.drop m.tailLen) (ctr + 1)
              (cleanT_of_sublist (List.drop_sublist m.tailLen ts) (cleanT_tail h)) c h2

theorem drop_length_takeWhile {α : Type} (p : α → Bool) :
    ∀ l : List α, l.drop (l.takeWhile p).length = l.dropWhile p := by
  intro l
  induction l with
  | nil => rfl
  | cons x xs ih =>
    cases hx : p x with
    | true =>
      simp only [List.takeWhile_cons, List.dropWhile_cons, hx, if_true, List.length_cons,
        List.drop_succ_cons]
      exact ih
    | false => simp [List.takeWhile_cons, List.dropWhile_cons, hx]

theorem eqcC_eq (x d : Char) : eqcC x d = (x == d) := rfl

theorem eqcT_inl (c d : Char) : eqcT (Sum.inl c) d = (c == d) := rfl

theorem eqcT_inr (n : Nat) (d : Char) : eqcT (Sum.inr n) d = false := rfl

theorem sentinel_mem_phStr (n : Nat) : '\x01' ∈ phStr n := by
  simp [phStr, phPrefix]

theorem takeWhile_neqc_render (d : Char)
    (hphd : ∀ (n : Nat) (c : Char), c ∈ phStr n → (c == d) = false) (ts : List (Sum Char Nat)) :
    renderTok (ts.takeWhile (fun x => decide ¬(eqcT x d = true))) =
      (renderTok ts).takeWhile (fun x => decide ¬((x == d) = true)) := by
  apply renderTok_takeWhile
  · intro c; simp [eqcT]
  · intro n; simp [eqcT]
  · intro n c h; simp [hphd n c h]

theorem dropWhile_neqc_render (d : Char)
    (hphd : ∀ (n : Nat) (c : Char), c ∈ phStr n → (c == d) = false) (ts : List (Sum Char Nat)) :
    renderTok (ts.dropWhile (fun x => decide ¬(eqcT x d = true))) =
      (renderTok ts).dropWhile (fun x => decide ¬((x == d) = true)) := by
  apply renderTok_dropWhile
  · intro c; simp [eqcT]
  · intro n; simp [eqcT]
  · intro n c h; simp [hphd n c h]

theorem renderTok_take_succ (ts tq : List (Sum Char Nat)) (x : Sum Char Nat)
    (r : List (Sum Char Nat)) (hsplit : ts = tq ++ (x :: r)) :
    ts.take (tq.length + 1) = tq ++ [x] := by
  subst hsplit
  rw [List.take_append 1]
  rfl

theorem tryDelim1_sim (d : Char) (k : PhKind) (b : Bool)
    (hphd : ∀ (n : Nat) (c : Char), c ∈ phStr n → (c == d) = false)
    (c : Char) (ts : List (Sum Char Nat)) (hcl : cleanT ts) :
    tryDelim1 eqcC hasPhC d k b c (renderTok ts) =
      Option.map (mresR ts) (tryDelim1 eqcT hasPhT d k b (Sum.inl c) ts) := by
  by_cases hc : (c == d) = true
  · have htq := takeWhile_neqc_render d hphd ts
    have hdq := dropWhile_neqc_render d hphd ts
    simp only [tryDelim1, eqcC_eq, eqcT_inl, hc, if_true]
    have hlen0 : ((renderTok ts).takeWhile (fun x => decide ¬((x == d) = true))).length = 0 ↔
        (ts.takeWhile (fun x => decide ¬(eqcT x d = true))).length = 0 := by
      rw [← htq, List.length_eq_zero, List.length_eq_zero, renderTok_eq_nil]
    by_cases h0 : (ts.takeWhile (fun x => decide ¬(eqcT x d = true))).length = 0
    · rw [if_pos (hlen0.mpr h0), if_pos h0]
      rfl
    · rw [if_neg (fun hh => h0 (hlen0.mp hh)), if_neg h0]
      rw [drop_length_takeWhile, drop_length_takeWhile, ← hdq, ← htq]
      cases hrr : ts.dropWhile (fun x => decide ¬(eqcT x d = true)) with
      | nil => rfl
      | cons x rr =>
        cases x with
        | inl c2 =>
          rw [show renderTok (Sum.inl c2 :: rr) = c2 :: renderTok rr from by simp [renderTok]]
          simp only [eqcC_eq, eqcT_inl]
          by_cases hc2 : (c2 == d) = true
          · rw [if_pos hc2, if_pos hc2]
            have hsplit : ts = ts.takeWhile (fun x => decide ¬(eqcT x d = true)) ++
                (Sum.inl c2 :: rr) := by
              rw [← hrr, List.takeWhile_append_dropWhile]
            have htake := renderTok_take_succ ts
              (ts.takeWhile (fun x => decide ¬(eqcT x d = true))) (Sum.inl c2) rr hsplit
            have hcltq : cleanT (ts.takeWhile (fun x => decide ¬(eqcT x d = true))) :=
              cleanT_of_sublist (List.takeWhile_sublist _) hcl
            show some _ = some _
            congr 1
            simp only [mresR, MRes.mk.injEq, true_and, and_true]
            constructor
            · rw [htake, renderTok_append]
              simp [renderTok]
            · exact ⟨rfl, by rw [hasPh_corr _ hcltq]⟩
          · rw [if_neg hc2, if_neg hc2]
            rfl
        | inr nn =>
          rw [show renderTok (Sum.inr nn :: rr) = '\x01' ::
              ("PLACEHOLDER".toList ++ natDigits nn ++ ['\x01'] ++ renderTok rr) from by
            simp [renderTok, phStr, phPrefix]]
          simp only [eqcC_eq, eqcT_inr, hphd nn '\x01' (sentinel_mem_phStr nn),
            Bool.false_eq_true, if_false]
          rfl
  · have hc2 : (c == d) = false := by revert hc; cases (c == d) <;> simp
    rw [tryDelim1_none eqcC hasPhC d k b c (renderTok ts) (by rw [eqcC_eq]; exact hc2),
      tryDelim1_none eqcT hasPhT d k b (Sum.inl c) ts (by rw [eqcT_inl]; exact hc2)]
    rfl

theorem tryDelim2_sim (d : Char) (k : PhKind) (b : Bool)
    (hphd : ∀ (n : Nat) (c : Char), c ∈ phStr n → (c == d) = false)
    (c : Char) (ts : List (Sum Char Nat)) (hcl : cleanT ts) :
    tryDelim2 eqcC hasPhC d k b c (renderTok ts) =
      Option.map (mresR ts) (tryDelim2 eqcT hasPhT d k b (Sum.inl c) ts) := by
  by_cases hc : (c == d) = true
  · simp only [tryDelim2, eqcC_eq, eqcT_inl, hc, if_true]
    cases ts with
    | nil => rfl
    | cons t2 ts2 =>
      cases t2 with
      | inr nn =>
        rw [show renderTok (Sum.inr nn :: ts2) = '\x01' ::
            ("PLACEHOLDER".toList ++ natDigits nn ++ ['\x01'] ++ renderTok ts2) from by
          simp [renderTok, phStr, phPrefix]]
        simp only [eqcT_inr, hphd nn '\x01' (sentinel_mem_phStr nn), Bool.false_eq_true, if_false]
        rfl
      | inl c2 =>
        rw [show renderTok (Sum.inl c2 :: ts2) = c2 :: renderTok ts2 from by simp [renderTok]]
        simp only [eqcC_eq, eqcT_inl]
        by_cases hc2 : (c2 == d) = true
        · rw [if_pos hc2, if_pos hc2]
          have hcl2 : cleanT ts2 := cleanT_tail hcl
          have htq := takeWhile_neqc_render d hphd ts2
          have hdq := dropWhile_neqc_render d hphd ts2
          have hlen0 : ((renderTok ts2).takeWhile (fun x => decide ¬((x == d) = true))).length = 0 ↔
              (ts2.takeWhile (fun x => decide ¬(eqcT x d = true))).length = 0 := by
            rw [← htq, List.length_eq_zero, List.length_eq_zero, renderTok_eq_nil]
          by_cases h0 : (ts2.takeWhile (fun x => decide ¬(eqcT x d = true))).length = 0
          · rw [if_pos (hlen0.mpr h0), if_pos h0]
            rfl
          · rw [if_neg (fun hh => h0 (hlen0.mp hh)), if_neg h0]
            rw [drop_length_takeWhile, drop_length_takeWhile, ← hdq, ← htq]
            cases hrr : ts2.dropWhile (fun x => decide ¬(eqcT x d = true)) with
            | nil => rfl
            | cons x rr2 =>
              cases x with
              | inr nn =>
                rw [show renderTok (Sum.inr nn :: rr2) = '\x01' :: 'P' ::
                    ("LACEHOLDER".toList ++ natDigits nn ++ ['\x01'] ++ renderTok rr2) from by
                  simp [renderTok, phStr, phPrefix]]
                simp only [hphd nn '\x01' (sentinel_mem_phStr nn), Bool.false_and,
                  Bool.false_eq_true, if_false]
                cases rr2 with
                | nil => rfl
                | cons y rr3 =>
                  simp only [eqcT_inr, Bool.false_and, Bool.false_eq_true, if_false]
                  rfl
              | inl cx =>
                rw [show renderTok (Sum.inl cx :: rr2) = cx :: renderTok rr2 from by
                  simp [renderTok]]
                cases rr2 with
                | nil => rfl
                | cons y rr3 =>
                  cases y with
                  | inr nn =>
                    rw [show renderTok (Sum.inr nn :: rr3) = '\x01' ::
                        ("PLACEHOLDER".toList ++ natDigits nn ++ ['\x01'] ++ renderTok rr3) from by
                      simp [renderTok, phStr, phPrefix]]
                    simp only [eqcC_eq, eqcT_inl, eqcT_inr,
                      hphd nn '\x01' (sentinel_mem_phStr nn), Bool.and_false,
                      Bool.false_eq_true, if_false]
                    rfl
                  | inl cy =>
                    rw [show renderTok (Sum.inl cy :: rr3) = cy :: renderTok rr3 from by
                      simp [renderTok]]
                    simp only [eqcC_eq, eqcT_inl]
                    by_cases hxy : ((cx == d) && (cy == d)) = true
                    · rw [if_pos hxy, if_pos hxy]
                      have hsplit : ts2 = ts2.takeWhile (fun x => decide ¬(eqcT x d = true)) ++
                          (Sum.inl cx :: Sum.inl cy :: rr3) := by
                        rw [← hrr, List.takeWhile_append_dropWhile]
                      have hcltq : cleanT (ts2.takeWhile (fun x => decide ¬(eqcT x d = true))) :=
                        cleanT_of_sublist (List.takeWhile_sublist _) hcl2
                      have htake : (Sum.inl c2 :: ts2).take
                          (1 + (ts2.takeWhile (fun x => decide ¬(eqcT x d = true))).length + 2) =
                          Sum.inl c2 :: (ts2.takeWhile (fun x => decide ¬(eqcT x d = true)) ++
                            [Sum.inl cx, Sum.inl cy]) := by
                        rw [show 1 + (ts2.takeWhile (fun x => decide ¬(eqcT x d = true))).length + 2 =
                          ((ts2.takeWhile (fun x => decide ¬(eqcT x d = true))).length + 2) + 1 by omega]
                        rw [List.take_succ_cons]
                        congr 1
                        nth_rewrite 2 [hsplit]
                        rw [List.take_append 2]
                        rfl
                      show some _ = some _
                      congr 1
                      simp only [mresR, MRes.mk.injEq, true_and, and_true]
                      constructor
                      · rw [htake]
                        rw [show renderTok (Sum.inl c2 ::
                            (ts2.takeWhile (fun x => decide ¬(eqcT x d = true)) ++
                              [Sum.inl cx, Sum.inl cy])) =
                            c2 :: (renderTok (ts2.takeWhile (fun x => decide ¬(eqcT x d = true))) ++
                              [cx, cy]) from by simp [renderTok]]
                        simp only [List.length_cons, List.length_append, List.length_cons,
                          List.length_nil]
                        omega
                      · exact ⟨rfl, by rw [hasPh_corr _ hcltq]⟩
                    · rw [if_neg hxy, if_neg hxy]
                      rfl
        · rw [if_neg hc2, if_neg hc2]
          rfl
  · have hc2 : (c == d) = false := by revert hc; cases (c == d) <;> simp
    rw [tryDelim2_none eqcC hasPhC d k b c (renderTok ts) (by rw [eqcC_eq]; exact hc2),
      tryDelim2_none eqcT hasPhT d k b (Sum.inl c) ts (by rw [eqcT_inl]; exact hc2)]
    rfl

theorem phStr_beq_delims (n : Nat) (c : Char) (h : c ∈ phStr n) :
    (c == '`') = false ∧ (c == '*') = false ∧ (c == '_') = false ∧ (c == '[') = false ∧
    (c == ']') = false ∧ (c == '(') = false ∧ (c == ')') = false := by
  have hd := phStr_mem_not_dlm n c h
  simp only [isDlm, Bool.or_eq_false_iff] at hd
  tauto

theorem tryLink_sim (c : Char) (ts : List (Sum Char Nat)) (hcl : cleanT ts) :
    tryLink eqcC c (renderTok ts) = Option.map (mresR ts) (tryLink eqcT (Sum.inl c) ts) := by
  have hph1 : ∀ (n : Nat) (x : Char), x ∈ phStr n → (x == ']') = false :=
    fun n x h => (phStr_beq_delims n x h).2.2.2.2.1
  have hph2 : ∀ (n : Nat) (x : Char), x ∈ phStr n → (x == ')') = false :=
    fun n x h => (phStr_beq_delims n x h).2.2.2.2.2.2
  by_cases hc : (c == '[') = true
  · simp only [tryLink, eqcC_eq, eqcT_inl, hc, if_true]
    have htq := takeWhile_neqc_render ']' hph1 ts
    have hdq := dropWhile_neqc_render ']' hph1 ts
    have hlen0 : ((renderTok ts).takeWhile (fun x => decide ¬((x == ']') = true))).length = 0 ↔
        (ts.takeWhile (fun x => decide ¬(eqcT x ']' = true))).length = 0 := by
      rw [← htq, List.length_eq_zero, List.length_eq_zero, renderTok_eq_nil]
    by_cases h0 : (ts.takeWhile (fun x => decide ¬(eqcT x ']' = true))).length = 0
    · rw [if_pos (hlen0.mpr h0), if_pos h0]
      rfl
    · rw [if_neg (fun hh => h0 (hlen0.mp hh)), if_neg h0]
      rw [drop_length_takeWhile, drop_length_takeWhile, ← hdq, ← htq]
      cases hrr : ts.dropWhile (fun x => decide ¬(eqcT x ']' = true)) with
      | nil => rfl
      | cons x rr2 =>
        cases x with
        | inr nn =>
          rw [show renderTok (Sum.inr nn :: rr2) = '\x01' :: 'P' ::
              ("LACEHOLDER".toList ++ natDigits nn ++ ['\x01'] ++ renderTok rr2) from by
            simp [renderTok, phStr, phPrefix]]
          simp only [hph1 nn '\x01' (sentinel_mem_phStr nn), Bool.false_and,
            Bool.false_eq_true, if_false]
          cases rr2 with
          | nil => rfl
          | cons y rr3 =>
            simp only [eqcT_inr, Bool.false_and, Bool.false_eq_true, if_false]
            rfl
        | inl cb =>
          rw [show renderTok (Sum.inl cb :: rr2) = cb :: renderTok rr2 from by simp [renderTok]]
          cases rr2 with
          | nil => rfl
          | cons y rr3 =>
            cases y with
            | inr nn =>
              rw [show renderTok (Sum.inr nn :: rr3) = '\x01' ::
                  ("PLACEHOLDER".toList ++ natDigits nn ++ ['\x01'] ++ renderTok rr3) from by
                simp [renderTok, phStr, phPrefix]]
              simp only [eqcC_eq, eqcT_inl, eqcT_inr,
                (phStr_beq_delims nn '\x01' (sentinel_mem_phStr nn)).2.2.2.2.2.1,
                Bool.and_false, Bool.false_eq_true, if_false]
              rfl
            | inl cp =>
              rw [show renderTok (Sum.inl cp :: rr3) = cp :: renderTok rr3 from by
                simp [renderTok]]
              simp only [eqcC_eq, eqcT_inl]
              by_cases hbp : ((cb == ']') && (cp == '(')) = true
              · rw [if_pos hbp, if_pos hbp]
                have htq2 := takeWhile_neqc_render ')' hph2 rr3
                have hdq2 := dropWhile_neqc_render ')' hph2 rr3
                have hlen02 : ((renderTok rr3).takeWhile
                    (fun x => decide ¬((x == ')') = true))).length = 0 ↔
                    (rr3.takeWhile (fun x => decide ¬(eqcT x ')' = true))).length = 0 := by
                  rw [← htq2, List.length_eq_zero, List.length_eq_zero, renderTok_eq_nil]
                by_cases h02 : (rr3.takeWhile (fun x => decide ¬(eqcT x ')' = true))).length = 0
                · rw [if_pos (hlen02.mpr h02), if_pos h02]
                  rfl
                · rw [if_neg (fun hh => h02 (hlen02.mp hh)), if_neg h02]
                  rw [drop_length_takeWhile, drop_length_takeWhile, ← hdq2, ← htq2]
                  cases hrr2 : rr3.dropWhile (fun x => decide ¬(eqcT x ')' = true)) with
                  | nil => rfl
                  | cons z rr4 =>
                    cases z with
                    | inr mm =>
                      rw [show renderTok (Sum.inr mm :: rr4) = '\x01' ::
                          ("PLACEHOLDER".toList ++ natDigits mm ++ ['\x01'] ++ renderTok rr4)
                          from by simp [renderTok, phStr, phPrefix]]
                      simp only [eqcC_eq, eqcT_inr,
                        hph2 mm '\x01' (sentinel_mem_phStr mm), Bool.false_eq_true, if_false]
                      rfl
                    | inl cq =>
                      rw [show renderTok (Sum.inl cq :: rr4) = cq :: renderTok rr4 from by
                        simp [renderTok]]
                      simp only [eqcC_eq, eqcT_inl]
                      by_cases hq : (cq == ')') = true
                      · rw [if_pos hq, if_pos hq]
                        have hsplit1 : ts = ts.takeWhile (fun x => decide ¬(eqcT x ']' = true)) ++
                            (Sum.inl cb :: Sum.inl cp :: rr3) := by
                          rw [← hrr, List.takeWhile_append_dropWhile]
                        have hsplit2 : rr3 = rr3.takeWhile (fun x => decide ¬(eqcT x ')' = true)) ++
                            (Sum.inl cq :: rr4) := by
                          rw [← hrr2, List.takeWhile_append_dropWhile]
                        have htake2 := renderTok_take_succ rr3
                          (rr3.takeWhile (fun x => decide ¬(eqcT x ')' = true))) (Sum.inl cq) rr4
                          hsplit2
                        have htake : ts.take
                            ((ts.takeWhile (fun x => decide ¬(eqcT x ']' = true))).length + 2 +
                              (rr3.takeWhile (fun x => decide ¬(eqcT x ')' = true))).length + 1) =
                            ts.takeWhile (fun x => decide ¬(eqcT x ']' = true)) ++
                              (Sum.inl cb :: Sum.inl cp ::
                                (rr3.takeWhile (fun x => decide ¬(eqcT x ')' = true)) ++
                                  [Sum.inl cq])) := by
                          have harith : (ts.takeWhile (fun x => decide ¬(eqcT x ']' = true))).length
                              + 2 + (rr3.takeWhile (fun x => decide ¬(eqcT x ')' = true))).length
                              + 1 =
                              (ts.takeWhile (fun x => decide ¬(eqcT x ']' = true))).length +
                              ((rr3.takeWhile (fun x => decide ¬(eqcT x ')' = true))).length
                                + 1 + 1 + 1) := by omega
                          rw [harith]
                          nth_rewrite 2 [hsplit1]
                          rw [List.take_append
                            ((rr3.takeWhile (fun x => decide ¬(eqcT x ')' = true))).length
                              + 1 + 1 + 1)]
                          rw [List.take_succ_cons, List.take_succ_cons, htake2]
                        show some _ = some _
                        congr 1
                        simp only [mresR, MRes.mk.injEq, true_and, and_true]
                        have hrend : renderTok
                            (ts.takeWhile (fun x => decide ¬(eqcT x ']' = true)) ++
                              (Sum.inl cb :: Sum.inl cp ::
                                (rr3.takeWhile (fun x => decide ¬(eqcT x ')' = true)) ++
                                  [Sum.inl cq]))) =
                            renderTok (ts.takeWhile (fun x => decide ¬(eqcT x ']' = true))) ++
                              (cb :: cp ::
                                (renderTok (rr3.takeWhile (fun x => decide ¬(eqcT x ')' = true)))
                                  ++ [cq])) := by
                          rw [renderTok_append]
                          simp [renderTok]
                        rw [htake, hrend]
                        simp only [List.length_append, List.length_cons, List.length_nil]
                        omega
                      · rw [if_neg hq, if_neg hq]
                        rfl
              · rw [if_neg hbp, if_neg hbp]
                rfl
  · have hc2 : (c == '[') = false := by revert hc; cases (c == '[') <;> simp
    rw [tryLink_none eqcC c (renderTok ts) (by rw [eqcC_eq]; exact hc2),
      tryLink_none eqcT (Sum.inl c) ts (by rw [eqcT_inl]; exact hc2)]
    rfl

theorem renderTok_take_len (ts : List (Sum Char Nat)) (n : Nat) :
    (renderTok ts).take (renderTok (ts.take n)).length = renderTok (ts.take n) := by
  have h := List.take_append_drop n ts
  nth_rewrite 2 [← h]
  rw [renderTok_append, List.take_left]

theorem renderTok_drop_len (ts : List (Sum Char Nat)) (n : Nat) :
    (renderTok ts).drop (renderTok (ts.take n)).length = renderTok (ts.drop n) := by
  have h := List.take_append_drop n ts
  nth_rewrite 2 [← h]
  rw [renderTok_append, List.drop_left]

theorem renderTok_drop_le (ts : List (Sum Char Nat)) (n : Nat) :
    (renderTok (ts.drop n)).length ≤ (renderTok ts).length := by
  have h := List.take_append_drop n ts
  nth_rewrite 2 [← h]
  rw [renderTok_append, List.length_append]
  omega

theorem runPass_sim
    (tryS : Char → List Char → Option (MRes Char))
    (tryT : Sum Char Nat → List (Sum Char Nat) → Option (MRes (Sum Char Nat)))
    (hph0 : ∀ (n : Nat) (ts : List (Sum Char Nat)), tryT (Sum.inr n) ts = none)
    (hfail : ∀ (n : Nat) (c : Char), c ∈ phStr n → ∀ cs, tryS c cs = none)
    (hsim : ∀ (c : Char) (ts : List (Sum Char Nat)), cleanT ts →
      tryS c (renderTok ts) = Option.map (mresR ts) (tryT (Sum.inl c) ts)) :
    ∀ (f : Nat) (ts : List (Sum Char Nat)) (g : Nat) (ctr : Nat), cleanT ts →
      ts.length < f → (renderTok ts).length < g →
      runPass tryS phStr g (renderTok ts) ctr =
        (renderTok (runPass tryT mkPhT f ts ctr).1,
         (runPass tryT mkPhT f ts ctr).2.1.map renderEntryT,
         (runPass tryT mkPhT f ts ctr).2.2) := by
  intro f
  induction f with
  | zero => intro ts g ctr _ hf _; omega
  | succ f ih =>
    intro ts g ctr hcl hf hg
    cases ts with
    | nil =>
      cases g with
      | zero => simp at hg
      | succ g => rfl
    | cons t ts2 =>
      have hcl2 : cleanT ts2 := cleanT_tail hcl
      have hf2 : ts2.length < f := by simp only [List.length_cons] at hf; omega
      cases t with
      | inr nn =>
        have hr : renderTok (Sum.inr nn :: ts2) = phStr nn ++ renderTok ts2 := by
          simp [renderTok]
        rw [hr] at hg ⊢
        rw [runPass_verbatim tryS phStr (phStr nn) (fun c hc cs => hfail nn c hc cs) g
          (renderTok ts2) ctr hg]
        rw [ih ts2 ((renderTok ts2).length + 1) ctr hcl2 hf2 (by omega)]
        simp only [runPass, hph0 nn ts2]
        simp [renderTok]
      | inl c =>
        have hr : renderTok (Sum.inl c :: ts2) = c :: renderTok ts2 := by simp [renderTok]
        rw [hr] at hg ⊢
        cases g with
        | zero => simp at hg
        | succ g =>
          have hg2 : (renderTok ts2).length < g := by
            simp only [List.length_cons] at hg; omega
          simp only [runPass]
          rw [hsim c ts2 hcl2]
          cases htryT : tryT (Sum.inl c) ts2 with
          | none =>
            simp only [Option.map_none']
            rw [ih ts2 g ctr hcl2 hf2 hg2]
            simp [renderTok]
          | some m =>
            simp only [Option.map_some']
            by_cases hsk : m.skipIt = true
            · simp only [mresR, hsk, if_true]
              rw [renderTok_take_len, renderTok_drop_len]
              rw [ih (ts2.drop m.tailLen) g ctr
                (cleanT_of_sublist (List.drop_sublist m.tailLen ts2) hcl2)
                (by have := List.length_drop m.tailLen ts2; omega)
                (lt_of_le_of_lt (renderTok_drop_le ts2 m.tailLen) hg2)]
              simp [renderTok, renderTok_append]
            · have hsk2 : m.skipIt = false := by revert hsk; cases m.skipIt <;> simp
              simp only [mresR, hsk2, Bool.false_eq_true, if_false]
              rw [renderTok_drop_len]
              rw [ih (ts2.drop m.tailLen) g (ctr + 1)
                (cleanT_of_sublist (List.drop_sublist m.tailLen ts2) hcl2)
                (by have := List.length_drop m.tailLen ts2; omega)
                (lt_of_le_of_lt (renderTok_drop_le ts2 m.tailLen) hg2)]
              simp [renderTok, renderTok_append, renderEntryT, mkPhT]

theorem runPassesC_sim (s : List Char) (h : ∀ c ∈ s, ¬ c = '\x01') :
    runPassesC s = (renderTok (runPassesT s).1,
      (runPassesT s).2.1.map renderEntryT, (runPassesT s).2.2) := by
  have hcl0 : cleanT (s.map Sum.inl : List (Sum Char Nat)) := by
    intro x hx
    rcases List.mem_map.mp hx with ⟨y, hy, he⟩
    injection he with he2
    subst he2
    exact h _ hy
  have h0 : renderTok (s.map Sum.inl : List (Sum Char Nat)) = s := renderTok_map_inl s
  have hs1 := runPass_sim (tryDelim1 eqcC hasPhC '`' PhKind.code false) (tryDelim1 eqcT hasPhT '`' PhKind.code false)
    (fun n ts => tryDelim1_none eqcT hasPhT '`' PhKind.code false (Sum.inr n) ts rfl)
    (fun n c hc cs => tryDelim1_none eqcC hasPhC '`' PhKind.code false c cs ((phStr_beq_delims n c hc).1))
    (fun c ts hc => tryDelim1_sim '`' PhKind.code false (fun n x hx => (phStr_beq_delims n x hx).1) c ts hc)
  have hs2 := runPass_sim (tryLink eqcC) (tryLink eqcT)
    (fun n ts => tryLink_none eqcT (Sum.inr n) ts rfl)
    (fun n c hc cs => tryLink_none eqcC c cs ((phStr_beq_delims n c hc).2.2.2.1))
    (fun c ts hc => tryLink_sim c ts hc)
  have hs3 := runPass_sim (tryDelim2 eqcC hasPhC '*' PhKind.strong true) (tryDelim2 eqcT hasPhT '*' PhKind.strong true)
    (fun n ts => tryDelim2_none eqcT hasPhT '*' PhKind.strong true (Sum.inr n) ts rfl)
    (fun n c hc cs => tryDelim2_none eqcC hasPhC '*' PhKind.strong true c cs ((phStr_beq_delims n c hc).2.1))
    (fun c ts hc => tryDelim2_sim '*' PhKind.strong true (fun n x hx => (phStr_beq_delims n x hx).2.1) c ts hc)
  have hs4 := runPass_sim (tryDelim2 eqcC hasPhC '_' PhKind.strong true) (tryDelim2 eqcT hasPhT '_' PhKind.strong true)
    (fun n ts => tryDelim2_none eqcT hasPhT '_' PhKind.strong true (Sum.inr n) ts rfl)
    (fun n c hc cs => tryDelim2_none eqcC hasPhC '_' PhKind.strong true c cs ((phStr_beq_delims n c hc).2.2.1))
    (fun c ts hc => tryDelim2_sim '_' PhKind.strong true (fun n x hx => (phStr_beq_delims n x hx).2.2.1) c ts hc)
  have hs5 := runPass_sim (tryDelim1 eqcC hasPhC '*' PhKind.em true) (tryDelim1 eqcT hasPhT '*' PhKind.em true)
    (fun n ts => tryDelim1_none eqcT hasPhT '*' PhKind.em true (Sum.inr n) ts rfl)
    (fun n c hc cs => tryDelim1_none eqcC hasPhC '*' PhKind.em true c cs ((phStr_beq_delims n c hc).2.1))
    (fun c ts hc => tryDelim1_sim '*' PhKind.em true (fun n x hx => (phStr_beq_delims n x hx).2.1) c ts hc)
  have hs6 := runPass_sim (tryDelim1 eqcC hasPhC '_' PhKind.em true) (tryDelim1 eqcT hasPhT '_' PhKind.em true)
    (fun n ts => tryDelim1_none eqcT hasPhT '_' PhKind.em true (Sum.inr n) ts rfl)
    (fun n c hc cs => tryDelim1_none eqcC hasPhC '_' PhKind.em true c cs ((phStr_beq_delims n c hc).2.2.1))
    (fun c ts hc => tryDelim1_sim '_' PhKind.em true (fun n x hx => (phStr_beq_delims n x hx).2.2.1) c ts hc)
  have hcl1 := runPass_clean (tryDelim1 eqcT hasPhT '`' PhKind.code false) ((s.map Sum.inl : List (Sum Char Nat)).length + 1) (s.map Sum.inl : List (Sum Char Nat)) 0 hcl0
  have hcl2 := runPass_clean (tryLink eqcT) ((runPass (tryDelim1 eqcT hasPhT '`' PhKind.code false) mkPhT ((s.map Sum.inl : List (Sum Char Nat)).length + 1) (s.map Sum.inl : List (Sum Char Nat)) 0).1.length + 1) (runPass (tryDelim1 eqcT hasPhT '`' PhKind.code false) mkPhT ((s.map Sum.inl : List (Sum Char Nat)).length + 1) (s.map Sum.inl : List (Sum Char Nat)) 0).1 (runPass (tryDelim1 eqcT hasPhT '`' PhKind.code false) mkPhT ((s.map Sum.inl : List (Sum Char Nat)).length + 1) (s.map Sum.inl : List (Sum Char Nat)) 0).2.2 hcl1
  have hcl3 := runPass_clean (tryDelim2 eqcT hasPhT '*' PhKind.strong true) ((runPass (tryLink eqcT) mkPhT ((runPass (tryDelim1 eqcT hasPhT '`' PhKind.code false) mkPhT ((s.map Sum.inl : List (Sum Char Nat)).length + 1) (s.map Sum.inl : List (Sum Char Nat)) 0).1.length + 1) (runPass (tryDelim1 eqcT hasPhT '`' PhKind.code false) mkPhT ((s.map Sum.inl : List (Sum Char Nat)).length + 1) (s.map Sum.inl : List (Sum Char Nat)) 0).1 (runPass (tryDelim1 eqcT hasPhT '`' PhKind.code false) mkPhT ((s.map Sum.inl : List (Sum Char Nat)).length + 1) (s.map Sum.inl : List (Sum Char Nat)) 0).2.2).1.length + 1) (runPass (tryLink eqcT) mkPhT ((runPass (tryDelim1 eqcT hasPhT '`' PhKind.code false) mkPhT ((s.map Sum.inl : List (Sum Char Nat)).length + 1) (s.map Sum.inl : List (Sum Char Nat)) 0).1.length + 1) (runPass (tryDelim1 eqcT hasPhT '`' PhKind.code false) mkPhT ((s.map Sum.inl : List (Sum Char Nat)).length + 1) (s.map Sum.inl : List (Sum Char Nat)) 0).1 (runPass (tryDelim1 eqcT hasPhT '`' PhKind.code false) mkPhT ((s.map Sum.inl : List (Sum Char Nat)).length + 1) (s.map Sum.inl : List (Sum Char Nat)) 0).2.2).1 (runPass (tryLink eqcT) mkPhT ((runPass (tryDelim1 eqcT hasPhT '`' PhKind.code false) mkPhT ((s.map Sum.inl : List (Sum Char Nat)).length + 1) (s.map Sum.inl : List (Sum Char Nat)) 0).1.length + 1) (runPass (tryDelim1 eqcT hasPhT '`' PhKind.code false) mkPhT ((s.map Sum.inl : List (Sum Char Nat)).length + 1) (s.map Sum.inl : List (Sum Char Nat)) 0).1 (runPass (tryDelim1 eqcT hasPhT '`' PhKind.code false) mkPhT ((s.map Sum.inl : List (Sum Char Nat)).length + 1) (s.map Sum.inl : List (Sum Char Nat)) 0).2.2).2.2 hcl2
  have hcl4 := runPass_clean (tryDelim2 eqcT hasPhT '_' PhKind.strong true) ((runPass (tryDelim2 eqcT hasPhT '*' PhKind.strong true) mkPhT ((runPass (tryLink eqcT) mkPhT ((runPass (tryDelim1 eqcT hasPhT '`' PhKind.code false) mkPhT ((s.map Sum.inl : List (Sum Char Nat)).length + 1) (s.map Sum.inl : List (Sum Char Nat)) 0).1.length + 1) (runPass (tryDelim1 eqcT hasPhT '`' PhKind.code false) mkPhT ((s.map Sum.inl : List (Sum Char Nat)).length + 1) (s.map Sum.inl : List (Sum Char Nat)) 0).1 (runPass (tryDelim1 eqcT hasPhT '`' PhKind.code false) mkPhT ((s.map Sum.inl : List (Sum Char Nat)).length + 1) (s.map Sum.inl : List (Sum Char Nat)) 0).2.2).1.length + 1) (runPass (tryLink eqcT) mkPhT ((runPass (tryDelim1 eqcT hasPhT '`' PhKind.code false) mkPhT ((s.map Sum.inl : List (Sum Char Nat)).length + 1) (s.map Sum.inl : List (Sum Char Nat)) 0).1.length + 1) (runPass (tryDelim1 eqcT hasPhT '`' PhKind.code false) mkPhT ((s.map Sum.inl : List (Sum Char Nat)).length + 1) (s.map Sum.inl : List (Sum Char Nat)) 0).1 (runPass (tryDelim1 eqcT hasPhT '`' PhKind.code false) mkPhT ((s.map Sum.inl : List (Sum Char Nat)).length + 1) (s.map Sum.inl : List (Sum Char Nat)) 0).2.2).1 (runPass (tryLink eqcT) mkPhT ((runPass (tryDelim1 eqcT hasPhT '`' PhKind.code false) mkPhT ((s.map Sum.inl : List (Sum Char Nat)).length + 1) (s.map Sum.inl : List (Sum Char Nat)) 0).1.length + 1) (runPass (tryDelim1 eqcT hasPhT '`' PhKind.code false) mkPhT ((s.map Sum.inl : List (Sum Char Nat)).length + 1) (s.map Sum.inl : List (Sum Char Nat)) 0).1 (runPass (tryDelim1 eqcT hasPhT '`' PhKind.code false) mkPhT ((s.map Sum.inl : List (Sum Char Nat)).length + 1) (s.map Sum.inl : List (Sum Char Nat)) 0).2.2).2.2).1.length + 1) (runPass (tryDelim2 eqcT hasPhT '*' PhKind.strong true) mkPhT ((runPass (tryLink eqcT) mkPhT ((runPass (tryDelim1 eqcT hasPhT '`' PhKind.code false) mkPhT ((s.map Sum.inl : List (Sum Char Nat)).length + 1) (s.map Sum.inl : List (Sum Char Nat)) 0).1.length + 1) (runPass (tryDelim1 eqcT hasPhT '`' PhKind.code false) mkPhT ((s.map Sum.inl : List (Sum Char Nat)).length + 1) (s.map Sum.inl : List (Sum Char Nat)) 0).1 (runPass (tryDelim1 eqcT hasPhT '`' PhKind.code false) mkPhT ((s.map Sum.inl : List (Sum Char Nat)).length + 1) (s.map Sum.inl : List (Sum Char Nat)) 0).2.2).1.length + 1) (runPass (tryLink eqcT) mkPhT ((runPass (tryDelim1 eqcT hasPhT '`' PhKind.code false) mkPhT ((s.map Sum.inl : List (Sum Char Nat)).length + 1) (s.map Sum.inl : List (Sum Char Nat)) 0).1.length + 1) (runPass (tryDelim1 eqcT hasPhT '`' PhKind.code false) mkPhT ((s.map Sum.inl : List (Sum Char Nat)).length + 1) (s.map Sum.inl : List (Sum Char Nat)) 0).1 (runPass (tryDelim1 eqcT hasPhT '`' PhKind.code false) mkPhT ((s.map Sum.inl : List (Sum Char Nat)).length + 1) (s.map Sum.inl : List (Sum Char Nat)) 0).2.2).1 (runPass (tryLink eqcT) mkPhT ((runPass (tryDelim1 eqcT hasPhT '`' PhKind.code false) mkPhT ((s.map Sum.inl : List (Sum Char Nat)).length + 1) (s.map Sum.inl : List (Sum Char Nat)) 0).1.length + 1) (runPass (tryDelim1 eqcT hasPhT '`' PhKind.code false) mkPhT ((s.map Sum.inl : List (Sum Char Nat)).length + 1) (s.map Sum.inl : List (Sum Char Nat)) 0).1 (runPass (tryDelim1 eqcT hasPhT '`' PhKind.code false) mkPhT ((s.map Sum.inl : List (Sum Char Nat)).length + 1) (s.map Sum.inl : List (Sum Char Nat)) 0).2.2).2.2).1 (runPass (tryDelim2 eqcT hasPhT '*' PhKind.strong true) mkPhT ((runPass (tryLink eqcT) mkPhT ((runPass (tryDelim1 eqcT hasPhT '`' PhKind.code false) mkPhT ((s.map Sum.inl : List (Sum Char Nat)).length + 1) (s.map Sum.inl : List (Sum Char Nat)) 0).1.length + 1) (runPass (tryDelim1 eqcT hasPhT '`' PhKind.code false) mkPhT ((s.map Sum.inl : List (Sum Char Nat)).length + 1) (s.map Sum.inl : List (Sum Char Nat)) 0).1 (runPass (tryDelim1 eqcT hasPhT '`' PhKind.code false) mkPhT ((s.map Sum.inl : List (Sum Char Nat)).length + 1) (s.map Sum.inl : List (Sum Char Nat)) 0).2.2).1.length + 1) (runPass (tryLink eqcT) mkPhT ((runPass (tryDelim1 eqcT hasPhT '`' PhKind.code false) mkPhT ((s.map Sum.inl : List (Sum Char Nat)).length + 1) (s.map Sum.inl : List (Sum Char Nat)) 0).1.length + 1) (runPass (tryDelim1 eqcT hasPhT '`' PhKind.code false) mkPhT ((s.map Sum.inl : List (Sum Char Nat)).length + 1) (s.map Sum.inl : List (Sum Char Nat)) 0).1 (runPass (tryDelim1 eqcT hasPhT '`' PhKind.code false) mkPhT ((s.map Sum.inl : List (Sum Char Nat)).length + 1) (s.map Sum.inl : List (Sum Char Nat)) 0).2.2).1 (runPass (tryLink eqcT) mkPhT ((runPass (tryDelim1 eqcT hasPhT '`' PhKind.code false) mkPhT ((s.map Sum.inl : List (Sum Char Nat)).length + 1) (s.map Sum.inl : List (Sum Char Nat)) 0).1.length + 1) (runPass (tryDelim1 eqcT hasPhT '`' PhKind.code false) mkPhT ((s.map Sum.inl : List (Sum Char Nat)).length + 1) (s.map Sum.inl : List (Sum Char Nat)) 0).1 (runPass (tryDelim1 eqcT hasPhT '`' PhKind.code false) mkPhT ((s.map Sum.inl : List (Sum Char Nat)).length + 1) (s.map Sum.inl : List (Sum Char Nat)) 0).2.2).2.2).2.2 hcl3
  have hcl5 := runPass_clean (tryDelim1 eqcT hasPhT '*' PhKind.em true) ((runPass (tryDelim2 eqcT hasPhT '_' PhKind.strong true) mkPhT ((runPass (tryDelim2 eqcT hasPhT '*' PhKind.strong true) mkPhT ((runPass (tryLink eqcT) mkPhT ((runPass (tryDelim1 eqcT hasPhT '`' PhKind.code false) mkPhT ((s.map Sum.inl : List (Sum Char Nat)).length + 1) (s.map Sum.inl : List (Sum Char Nat)) 0).1.length + 1) (runPass (tryDelim1 eqcT hasPhT '`' PhKind.code false) mkPhT ((s.map Sum.inl : List (Sum Char Nat)).length + 1) (s.map Sum.inl : List (Sum Char Nat)) 0).1 (runPass (tryDelim1 eqcT hasPhT '`' PhKind.code false) mkPhT ((s.map Sum.inl : List (Sum Char Nat)).length + 1) (s.map Sum.inl : List (Sum Char Nat)) 0).2.2).1.length + 1) (runPass (tryLink eqcT) mkPhT ((runPass (tryDelim1 eqcT hasPhT '`' PhKind.code false) mkPhT ((s.map Sum.inl : List (Sum Char Nat)).length + 1) (s.map Sum.inl : List (Sum Char Nat)) 0).1.length + 1) (runPass (tryDelim1 eqcT hasPhT '`' PhKind.code false) mkPhT ((s.map Sum.inl : List (Sum Char Nat)).length + 1) (s.map Sum.inl : List (Sum Char Nat)) 0).1 (runPass (tryDelim1 eqcT hasPhT '`' PhKind.code false) mkPhT ((s.map Sum.inl : List (Sum Char Nat)).length + 1) (s.map Sum.inl : List (Sum Char Nat)) 0).2.2).1 (runPass (tryLink eqcT) mkPhT ((runPass (tryDelim1 eqcT hasPhT '`' PhKind.code false) mkPhT ((s.map Sum.inl : List (Sum Char Nat)).length + 1) (s.map Sum.inl : List (Sum Char Nat)) 0).1.length + 1) (runPass (tryDelim1 eqcT hasPhT '`' PhKind.code false) mkPhT ((s.map Sum.inl : List (Sum Char Nat)).length + 1) (s.map Sum.inl : List (Sum Char Nat)) 0).1 (runPass (tryDelim1 eqcT hasPhT '`' PhKind.code false) mkPhT ((s.map Sum.inl : List (Sum Char Nat)).length + 1) (s.map Sum.inl : List (Sum Char Nat)) 0).2.2).2.2).1.length + 1) (runPass (tryDelim2 eqcT hasPhT '*' PhKind.strong true) mkPhT ((runPass (tryLink eqcT) mkPhT ((runPass (tryDelim1 eqcT hasPhT '`' PhKind.code false) mkPhT ((s.map Sum.inl : List (Sum Char Nat)).length + 1) (s.map Sum.inl : List (Sum Char Nat)) 0).1.length + 1) (runPass (tryDelim1 eqcT hasPhT '`' PhKind.code false) mkPhT ((s.map Sum.inl : List (Sum Char Nat)).length + 1) (s.map Sum.inl : List (Sum Char Nat)) 0).1 (runPass (tryDelim1 eqcT hasPhT '`' PhKind.code false) mkPhT ((s.map Sum.inl : List (Sum Char Nat)).length + 1) (s.map Sum.inl : List (Sum Char Nat)) 0).2.2).1.length + 1) (runPass (tryLink eqcT) mkPhT ((runPass (tryDelim1 eqcT hasPhT '`' PhKind.code false) mkPhT ((s.map Sum.inl : List (Sum Char Nat)).length + 1) (s.map Sum.inl : List (Sum Char Nat)) 0).1.length + 1) (runPass (tryDelim1 eqcT hasPhT '`' PhKind.code false) mkPhT ((s.map Sum.inl : List (Sum Char Nat)).length + 1) (s.map Sum.inl : List (Sum Char Nat)) 0).1 (runPass (tryDelim1 eqcT hasPhT '`' PhKind.code false) mkPhT ((s.map Sum.inl : List (Sum Char Nat)).length + 1) (s.map Sum.inl : List (Sum Char Nat)) 0).2.2).1 (runPass (tryLink eqcT) mkPhT ((runPass (tryDelim1 eqcT hasPhT '`' PhKind.code false) mkPhT ((s.map Sum.inl : List (Sum Char Nat)).length + 1) (s.map Sum.inl : List (Sum Char Nat)) 0).1.length + 1) (runPass (tryDelim1 eqcT hasPhT '`' PhKind.code false) mkPhT ((s.map Sum.inl : List (Sum Char Nat)).length + 1) (s.map Sum.inl : List (Sum Char Nat)) 0).1 (runPass (tryDelim1 eqcT hasPhT '`' PhKind.code false) mkPhT ((s.map Sum.inl : List (Sum Char Nat)).length + 1) (s.map Sum.inl : List (Sum Char Nat)) 0).2.2).2.2).1 (runPass (tryDelim2 eqcT hasPhT '*' PhKind.strong true) mkPhT ((runPass (tryLink eqcT) mkPhT ((runPass (tryDelim1 eqcT hasPhT '`' PhKind.code false) mkPhT ((s.map Sum.inl : List (Sum Char Nat)).length + 1) (s.map Sum.inl : List (Sum Char Nat)) 0).1.length + 1) (runPass (tryDelim1 eqcT hasPhT '`' PhKind.code false) mkPhT ((s.map Sum.inl : List (Sum Char Nat)).length + 1) (s.map Sum.inl : List (Sum Char Nat)) 0).1 (runPass (tryDelim1 eqcT hasPhT '`' PhKind.code false) mkPhT ((s.map Sum.inl : List (Sum Char Nat)).length + 1) (s.map Sum.inl : List (Sum Char Nat)) 0).2.2).1.length + 1) (runPass (tryLink eqcT) mkPhT ((runPass (tryDelim1 eqcT hasPhT '`' PhKind.code false) mkPhT ((s.map Sum.inl : List (Sum Char Nat)).length + 1) (s.map Sum.inl : List (Sum Char Nat)) 0).1.length + 1) (runPass (tryDelim1 eqcT hasPhT '`' PhKind.code false) mkPhT ((s.map Sum.inl : List (Sum Char Nat)).length + 1) (s.map Sum.inl : List (Sum Char Nat)) 0).1 (runPass (tryDelim1 eqcT hasPhT '`' PhKind.code false) mkPhT ((s.map Sum.inl : List (Sum Char Nat)).length + 1) (s.map Sum.inl : List (Sum Char Nat)) 0).2.2).1 (runPass (tryLink eqcT) mkPhT ((runPass (tryDelim1 eqcT hasPhT '`' PhKind.code false) mkPhT ((s.map Sum.inl : List (Sum Char Nat)).length + 1) (s.map Sum.inl : List (Sum Char Nat)) 0).1.length + 1) (runPass (tryDelim1 eqcT hasPhT '`' PhKind.code false) mkPhT ((s.map Sum.inl : List (Sum Char Nat)).length + 1) (s.map Sum.inl : List (Sum Char Nat)) 0).1 (runPass (tryDelim1 eqcT hasPhT '`' PhKind.code false) mkPhT ((s.map Sum.inl : List (Sum Char Nat)).length + 1) (s.map Sum.inl : List (Sum Char Nat)) 0).2.2).2.2).2.2).1.length + 1) (runPass (tryDelim2 eqcT hasPhT '_' PhKind.strong true) mkPhT ((runPass (tryDelim2 eqcT hasPhT '*' PhKind.strong true) mkPhT ((runPass (tryLink eqcT) mkPhT ((runPass (tryDelim1 eqcT hasPhT '`' PhKind.code false) mkPhT ((s.map Sum.inl : List (Sum Char Nat)).length + 1) (s.map Sum.inl : List (Sum Char Nat)) 0).1.length + 1) (runPass (tryDelim1 eqcT hasPhT '`' PhKind.code false) mkPhT ((s.map Sum.inl : List (Sum Char Nat)).length + 1) (s.map Sum.inl : List (Sum Char Nat)) 0).1 (runPass (tryDelim1 eqcT hasPhT '`' PhKind.code false) mkPhT ((s.map Sum.inl : List (Sum Char Nat)).length + 1) (s.map Sum.inl : List (Sum Char Nat)) 0).2.2).1.length + 1) (runPass (tryLink eqcT) mkPhT ((runPass (tryDelim1 eqcT hasPhT '`' PhKind.code false) mkPhT ((s.map Sum.inl : List (Sum Char Nat)).length + 1) (s.map Sum.inl : List (Sum Char Nat)) 0).1.length + 1) (runPass (tryDelim1 eqcT hasPhT '`' PhKind.code false) mkPhT ((s.map Sum.inl : List (Sum Char Nat)).length + 1) (s.map Sum.inl : List (Sum Char Nat)) 0).1 (runPass (tryDelim1 eqcT hasPhT '`' PhKind.code false) mkPhT ((s.map Sum.inl : List (Sum Char Nat)).length + 1) (s.map Sum.inl : List (Sum Char Nat)) 0).2.2).1 (runPass (tryLink eqcT) mkPhT ((runPass (tryDelim1 eqcT hasPhT '`' PhKind.code false) mkPhT ((s.map Sum.inl : List (Sum Char Nat)).length + 1) (s.map Sum.inl : List (Sum Char Nat)) 0).1.length + 1) (runPass (tryDelim1 eqcT hasPhT '`' PhKind.code false) mkPhT ((s.map Sum.inl : List (Sum Char Nat)).length + 1) (s.map Sum.inl : List (Sum Char Nat)) 0).1 (runPass (tryDelim1 eqcT hasPhT '`' PhKind.code false) mkPhT ((s.map Sum.inl : List (Sum Char Nat)).length + 1) (s.map Sum.inl : List (Sum Char Nat)) 0).2.2).2.2).1.length + 1) (runPass (tryDelim2 eqcT hasPhT '*' PhKind.strong true) mkPhT ((runPass (tryLink eqcT) mkPhT ((runPass (tryDelim1 eqcT hasPhT '`' PhKind.code false) mkPhT ((s.map Sum.inl : List (Sum Char Nat)).length + 1) (s.map Sum.inl : List (Sum Char Nat)) 0).1.length + 1) (runPass (tryDelim1 eqcT hasPhT '`' PhKind.code false) mkPhT ((s.map Sum.inl : List (Sum Char Nat)).length + 1) (s.map Sum.inl : List (Sum Char Nat)) 0).1 (runPass (tryDelim1 eqcT hasPhT '`' PhKind.code false) mkPhT ((s.map Sum.inl : List (Sum Char Nat)).length + 1) (s.map Sum.inl : List (Sum Char Nat)) 0).2.2).1.length + 1) (runPass (tryLink eqcT) mkPhT ((runPass (tryDelim1 eqcT hasPhT '`' PhKind.code false) mkPhT ((s.map Sum.inl : List (Sum Char Nat)).length + 1) (s.map Sum.inl : List (Sum Char Nat)) 0).1.length + 1) (runPass (tryDelim1 eqcT hasPhT '`' PhKind.code false) mkPhT ((s.map Sum.inl : List (Sum Char Nat)).length + 1) (s.map Sum.inl : List (Sum Char Nat)) 0).1 (runPass (tryDelim1 eqcT hasPhT '`' PhKind.code false) mkPhT ((s.map Sum.inl : List (Sum Char Nat)).length + 1) (s.map Sum.inl : List (Sum Char Nat)) 0).2.2).1 (runPass (tryLink eqcT) mkPhT ((runPass (tryDelim1 eqcT hasPhT '`' PhKind.code false) mkPhT ((s.map Sum.inl : List (Sum Char Nat)).length + 1) (s.map Sum.inl : List (Sum Char Nat)) 0).1.length + 1) (runPass (tryDelim1 eqcT hasPhT '`' PhKind.code false) mkPhT ((s.map Sum.inl : List (Sum Char Nat)).length + 1) (s.map Sum.inl : List (Sum Char Nat)) 0).1 (runPass (tryDelim1 eqcT hasPhT '`' PhKind.code false) mkPhT ((s.map Sum.inl : List (Sum Char Nat)).length + 1) (s.map Sum.inl : List (Sum Char Nat)) 0).2.2).2.2).1 (runPass (tryDelim2 eqcT hasPhT '*' PhKind.strong true) mkPhT ((runPass (tryLink eqcT) mkPhT ((runPass (tryDelim1 eqcT hasPhT '`' PhKind.code false) mkPhT ((s.map Sum.inl : List (Sum Char Nat)).length + 1) (s.map Sum.inl : List (Sum Char Nat)) 0).1.length + 1) (runPass (tryDelim1 eqcT hasPhT '`' PhKind.code false) mkPhT ((s.map Sum.inl : List (Sum Char Nat)).length + 1) (s.map Sum.inl : List (Sum Char Nat)) 0).1 (runPass (tryDelim1 eqcT hasPhT '`' PhKind.code false) mkPhT ((s.map Sum.inl : List (Sum Char Nat)).length + 1) (s.map Sum.inl : List (Sum Char Nat)) 0).2.2).1.length + 1) (runPass (tryLink eqcT) mkPhT ((runPass (tryDelim1 eqcT hasPhT '`' PhKind.code false) mkPhT ((s.map Sum.inl : List (Sum Char Nat)).length + 1) (s.map Sum.inl : List (Sum Char Nat)) 0).1.length + 1) (runPass (tryDelim1 eqcT hasPhT '`' PhKind.code false) mkPhT ((s.map Sum.inl : List (Sum Char Nat)).length + 1) (s.map Sum.inl : List (Sum Char Nat)) 0).1 (runPass (tryDelim1 eqcT hasPhT '`' PhKind.code false) mkPhT ((s.map Sum.inl : List (Sum Char Nat)).length + 1) (s.map Sum.inl : List (Sum Char Nat)) 0).2.2).1 (runPass (tryLink eqcT) mkPhT ((runPass (tryDelim1 eqcT hasPhT '`' PhKind.code false) mkPhT ((s.map Sum.inl : List (Sum Char Nat)).length + 1) (s.map Sum.inl : List (Sum Char Nat)) 0).1.length + 1) (runPass (tryDelim1 eqcT hasPhT '`' PhKind.code false) mkPhT ((s.map Sum.inl : List (Sum Char Nat)).length + 1) (s.map Sum.inl : List (Sum Char Nat)) 0).1 (runPass (tryDelim1 eqcT hasPhT '`' PhKind.code false) mkPhT ((s.map Sum.inl : List (Sum Char Nat)).length + 1) (s.map Sum.inl : List (Sum Char Nat)) 0).2.2).2.2).2.2).1 (runPass (tryDelim2 eqcT hasPhT '_' PhKind.strong true) mkPhT ((runPass (tryDelim2 eqcT hasPhT '*' PhKind.strong true) mkPhT ((runPass (tryLink eqcT) mkPhT ((runPass (tryDelim1 eqcT hasPhT '`' PhKind.code false) mkPhT ((s.map Sum.inl : List (Sum Char Nat)).length + 1) (s.map Sum.inl : List (Sum Char Nat)) 0).1.length + 1) (runPass (tryDelim1 eqcT hasPhT '`' PhKind.code false) mkPhT ((s.map Sum.inl : List (Sum Char Nat)).length + 1) (s.map Sum.inl : List (Sum Char Nat)) 0).1 (runPass (tryDelim1 eqcT hasPhT '`' PhKind.code false) mkPhT ((s.map Sum.inl : List (Sum Char Nat)).length + 1) (s.map Sum.inl : List (Sum Char Nat)) 0).2.2).1.length + 1) (runPass (tryLink eqcT) mkPhT ((runPass (tryDelim1 eqcT hasPhT '`' PhKind.code false) mkPhT ((s.map Sum.inl : List (Sum Char Nat)).length + 1) (s.map Sum.inl : List (Sum Char Nat)) 0).1.length + 1) (runPass (tryDelim1 eqcT hasPhT '`' PhKind.code false) mkPhT ((s.map Sum.inl : List (Sum Char Nat)).length + 1) (s.map Sum.inl : List (Sum Char Nat)) 0).1 (runPass (tryDelim1 eqcT hasPhT '`' PhKind.code false) mkPhT ((s.map Sum.inl : List (Sum Char Nat)).length + 1) (s.map Sum.inl : List (Sum Char Nat)) 0).2.2).1 (runPass (tryLink eqcT) mkPhT ((runPass (tryDelim1 eqcT hasPhT '`' PhKind.code false) mkPhT ((s.map Sum.inl : List (Sum Char Nat)).length + 1) (s.map Sum.inl : List (Sum Char Nat)) 0).1.length + 1) (runPass (tryDelim1 eqcT hasPhT '`' PhKind.code false) mkPhT ((s.map Sum.inl : List (Sum Char Nat)).length + 1) (s.map Sum.inl : List (Sum Char Nat)) 0).1 (runPass (tryDelim1 eqcT hasPhT '`' PhKind.code false) mkPhT ((s.map Sum.inl : List (Sum Char Nat)).length + 1) (s.map Sum.inl : List (Sum Char Nat)) 0).2.2).2.2).1.length + 1) (runPass (tryDelim2 eqcT hasPhT '*' PhKind.strong true) mkPhT ((runPass (tryLink eqcT) mkPhT ((runPass (tryDelim1 eqcT hasPhT '`' PhKind.code false) mkPhT ((s.map Sum.inl : List (Sum Char Nat)).length + 1) (s.map Sum.inl : List (Sum Char Nat)) 0).1.length + 1) (runPass (tryDelim1 eqcT hasPhT '`' PhKind.code false) mkPhT ((s.map Sum.inl : List (Sum Char Nat)).length + 1) (s.map Sum.inl : List (Sum Char Nat)) 0).1 (runPass (tryDelim1 eqcT hasPhT '`' PhKind.code false) mkPhT ((s.map Sum.inl : List (Sum Char Nat)).length + 1) (s.map Sum.inl : List (Sum Char Nat)) 0).2.2).1.length + 1) (runPass (tryLink eqcT) mkPhT ((runPass (tryDelim1 eqcT hasPhT '`' PhKind.code false) mkPhT ((s.map Sum.inl : List (Sum Char Nat)).length + 1) (s.map Sum.inl : List (Sum Char Nat)) 0).1.length + 1) (runPass (tryDelim1 eqcT hasPhT '`' PhKind.code false) mkPhT ((s.map Sum.inl : List (Sum Char Nat)).length + 1) (s.map Sum.inl : List (Sum Char Nat)) 0).1 (runPass (tryDelim1 eqcT hasPhT '`' PhKind.code false) mkPhT ((s.map Sum.inl : List (Sum Char Nat)).length + 1) (s.map Sum.inl : List (Sum Char Nat)) 0).2.2).1 (runPass (tryLink eqcT) mkPhT ((runPass (tryDelim1 eqcT hasPhT '`' PhKind.code false) mkPhT ((s.map Sum.inl : List (Sum Char Nat)).length + 1) (s.map Sum.inl : List (Sum Char Nat)) 0).1.length + 1) (runPass (tryDelim1 eqcT hasPhT '`' PhKind.code false) mkPhT ((s.map Sum.inl : List (Sum Char Nat)).length + 1) (s.map Sum.inl : List (Sum Char Nat)) 0).1 (runPass (tryDelim1 eqcT hasPhT '`' PhKind.code false) mkPhT ((s.map Sum.inl : List (Sum Char Nat)).length + 1) (s.map Sum.inl : List (Sum Char Nat)) 0).2.2).2.2).1 (runPass (tryDelim2 eqcT hasPhT '*' PhKind.strong true) mkPhT ((runPass (tryLink eqcT) mkPhT ((runPass (tryDelim1 eqcT hasPhT '`' PhKind.code false) mkPhT ((s.map Sum.inl : List (Sum Char Nat)).length + 1) (s.map Sum.inl : List (Sum Char Nat)) 0).1.length + 1) (runPass (tryDelim1 eqcT hasPhT '`' PhKind.code false) mkPhT ((s.map Sum.inl : List (Sum Char Nat)).length + 1) (s.map Sum.inl : List (Sum Char Nat)) 0).1 (runPass (tryDelim1 eqcT hasPhT '`' PhKind.code false) mkPhT ((s.map Sum.inl : List (Sum Char Nat)).length + 1) (s.map Sum.inl : List (Sum Char Nat)) 0).2.2).1.length + 1) (runPass (tryLink eqcT) mkPhT ((runPass (tryDelim1 eqcT hasPhT '`' PhKind.code false) mkPhT ((s.map Sum.inl : List (Sum Char Nat)).length + 1) (s.map Sum.inl : List (Sum Char Nat)) 0).1.length + 1) (runPass (tryDelim1 eqcT hasPhT '`' PhKind.code false) mkPhT ((s.map Sum.inl : List (Sum Char Nat)).length + 1) (s.map Sum.inl : List (Sum Char Nat)) 0).1 (runPass (tryDelim1 eqcT hasPhT '`' PhKind.code false) mkPhT ((s.map Sum.inl : List (Sum Char Nat)).length + 1) (s.map Sum.inl : List (Sum Char Nat)) 0).2.2).1 (runPass (tryLink eqcT) mkPhT ((runPass (tryDelim1 eqcT hasPhT '`' PhKind.code false) mkPhT ((s.map Sum.inl : List (Sum Char Nat)).length + 1) (s.map Sum.inl : List (Sum Char Nat)) 0).1.length + 1) (runPass (tryDelim1 eqcT hasPhT '`' PhKind.code false) mkPhT ((s.map Sum.inl : List (Sum Char Nat)).length + 1) (s.map Sum.inl : List (Sum Char Nat)) 0).1 (runPass (tryDelim1 eqcT hasPhT '`' PhKind.code false) mkPhT ((s.map Sum.inl : List (Sum Char Nat)).length + 1) (s.map Sum.inl : List (Sum Char Nat)) 0).2.2).2.2).2.2).2.2 hcl4
  have hcl6 := runPass_clean (tryDelim1 eqcT hasPhT '_' PhKind.em true) ((runPass (tryDelim1 eqcT hasPhT '*' PhKind.em true) mkPhT ((runPass (tryDelim2 eqcT hasPhT '_' PhKind.strong true) mkPhT ((runPass (tryDelim2 eqcT hasPhT '*' PhKind.strong true) mkPhT ((runPass (tryLink eqcT) mkPhT ((runPass (tryDelim1 eqcT hasPhT '`' PhKind.code false) mkPhT ((s.map Sum.inl : List (Sum Char Nat)).length + 1) (s.map Sum.inl : List (Sum Char Nat)) 0).1.length + 1) (runPass (tryDelim1 eqcT hasPhT '`' PhKind.code false) mkPhT ((s.map Sum.inl : List (Sum Char Nat)).length + 1) (s.map Sum.inl : List (Sum Char Nat)) 0).1 (runPass (tryDelim1 eqcT hasPhT '`' PhKind.code false) mkPhT ((s.map Sum.inl : List (Sum Char Nat)).length + 1) (s.map Sum.inl : List (Sum Char Nat)) 0).2.2).1.length + 1) (runPass (tryLink eqcT) mkPhT ((runPass (tryDelim1 eqcT hasPhT '`' PhKind.code false) mkPhT ((s.map Sum.inl : List (Sum Char Nat)).length + 1) (s.map Sum.inl : List (Sum Char Nat)) 0).1.length + 1) (runPass (tryDelim1 eqcT hasPhT '`' PhKind.code false) mkPhT ((s.map Sum.inl : List (Sum Char Nat)).length + 1) (s.map Sum.inl : List (Sum Char Nat)) 0).1 (runPass (tryDelim1 eqcT hasPhT '`' PhKind.code false) mkPhT ((s.map Sum.inl : List (Sum Char Nat)).length + 1) (s.map Sum.inl : List (Sum Char Nat)) 0).2.2).1 (runPass (tryLink eqcT) mkPhT ((runPass (tryDelim1 eqcT hasPhT '`' PhKind.code false) mkPhT ((s.map Sum.inl : List (Sum Char Nat)).length + 1) (s.map Sum.inl : List (Sum Char Nat)) 0).1.length + 1) (runPass (tryDelim1 eqcT hasPhT '`' PhKind.code false) mkPhT ((s.map Sum.inl : List (Sum Char Nat)).length + 1) (s.map Sum.inl : List (Sum Char Nat)) 0).1 (runPass (tryDelim1 eqcT hasPhT '`' PhKind.code false) mkPhT ((s.map Sum.inl : List (Sum Char Nat)).length + 1) (s.map Sum.inl : List (Sum Char Nat)) 0).2.2).2.2).1.length + 1) (runPass (tryDelim2 eqcT hasPhT '*' PhKind.strong true) mkPhT ((runPass (tryLink eqcT) mkPhT ((runPass (tryDelim1 eqcT hasPhT '`' PhKind.code false) mkPhT ((s.map Sum.inl : List (Sum Char Nat)).length + 1) (s.map Sum.inl : List (Sum Char Nat)) 0).1.length + 1) (runPass (tryDelim1 eqcT hasPhT '`' PhKind.code false) mkPhT ((s.map Sum.inl : List (Sum Char Nat)).length + 1) (s.map Sum.inl : List (Sum Char Nat)) 0).1 (runPass (tryDelim1 eqcT hasPhT '`' PhKind.code false) mkPhT ((s.map Sum.inl : List (Sum Char Nat)).length + 1) (s.map Sum.inl : List (Sum Char Nat)) 0).2.2).1.length + 1) (runPass (tryLink eqcT) mkPhT ((runPass (tryDelim1 eqcT hasPhT '`' PhKind.code false) mkPhT ((s.map Sum.inl : List (Sum Char Nat)).length + 1) (s.map Sum.inl : List (Sum Char Nat)) 0).1.length + 1) (runPass (tryDelim1 eqcT hasPhT '`' PhKind.code false) mkPhT ((s.map Sum.inl : List (Sum Char Nat)).length + 1) (s.map Sum.inl : List (Sum Char Nat)) 0).1 (runPass (tryDelim1 eqcT hasPhT '`' PhKind.code false) mkPhT ((s.map Sum.inl : List (Sum Char Nat)).length + 1) (s.map Sum.inl : List (Sum Char Nat)) 0).2.2).1 (runPass (tryLink eqcT) mkPhT ((runPass (tryDelim1 eqcT hasPhT '`' PhKind.code false) mkPhT ((s.map Sum.inl : List (Sum Char Nat)).length + 1) (s.map Sum.inl : List (Sum Char Nat)) 0).1.length + 1) (runPass (tryDelim1 eqcT hasPhT '`' PhKind.code false) mkPhT ((s.map Sum.inl : List (Sum Char Nat)).length + 1) (s.map Sum.inl : List (Sum Char Nat)) 0).1 (runPass (tryDelim1 eqcT hasPhT '`' PhKind.code false) mkPhT ((s.map Sum.inl : List (Sum Char Nat)).length + 1) (s.map Sum.inl : List (Sum Char Nat)) 0).2.2).2.2).1 (runPass (tryDelim2 eqcT hasPhT '*' PhKind.strong true) mkPhT ((runPass (tryLink eqcT) mkPhT ((runPass (tryDelim1 eqcT hasPhT '`' PhKind.code false) mkPhT ((s.map Sum.inl : List (Sum Char Nat)).length + 1) (s.map Sum.inl : List (Sum Char Nat)) 0).1.length + 1) (runPass (tryDelim1 eqcT hasPhT '`' PhKind.code false) mkPhT ((s.map Sum.inl : List (Sum Char Nat)).length + 1) (s.map Sum.inl : List (Sum Char Nat)) 0).1 (runPass (tryDelim1 eqcT hasPhT '`' PhKind.code false) mkPhT ((s.map Sum.inl : List (Sum Char Nat)).length + 1) (s.map Sum.inl : List (Sum Char Nat)) 0).2.2).1.length + 1) (runPass (tryLink eqcT) mkPhT ((runPass (tryDelim1 eqcT hasPhT '`' PhKind.code false) mkPhT ((s.map Sum.inl : List (Sum Char Nat)).length + 1) (s.map Sum.inl : List (Sum Char Nat)) 0).1.length + 1) (runPass (tryDelim1 eqcT hasPhT '`' PhKind.code false) mkPhT ((s.map Sum.inl : List (Sum Char Nat)).length + 1) (s.map Sum.inl : List (Sum Char Nat)) 0).1 (runPass (tryDelim1 eqcT hasPhT '`' PhKind.code false) mkPhT ((s.map Sum.inl : List (Sum Char Nat)).length + 1) (s.map Sum.inl : List (Sum Char Nat)) 0).2.2).1 (runPass (tryLink eqcT) mkPhT ((runPass (tryDelim1 eqcT hasPhT '`' PhKind.code false) mkPhT ((s.map Sum.inl : List (Sum Char Nat)).length + 1) (s.map Sum.inl : List (Sum Char Nat)) 0).1.length + 1) (runPass (tryDelim1 eqcT hasPhT '`' PhKind.code false) mkPhT ((s.map Sum.inl : List (Sum Char Nat)).length + 1) (s.map Sum.inl : List (Sum Char Nat)) 0).1 (runPass (tryDelim1 eqcT hasPhT '`' PhKind.code false) mkPhT ((s.map Sum.inl : List (Sum Char Nat)).length + 1) (s.map Sum.inl : List (Sum Char Nat)) 0).2.2).2.2).2.2).1.length + 1) (runPass (tryDelim2 eqcT hasPhT '_' PhKind.strong true) mkPhT ((runPass (tryDelim2 eqcT hasPhT '*' PhKind.strong true) mkPhT ((runPass (tryLink eqcT) mkPhT ((runPass (tryDelim1 eqcT hasPhT '`' PhKind.code false) mkPhT ((s.map Sum.inl : List (Sum Char Nat)).length + 1) (s.map Sum.inl : List (Sum Char Nat)) 0).1.length + 1) (runPass (tryDelim1 eqcT hasPhT '`' PhKind.code false) mkPhT ((s.map Sum.inl : List (Sum Char Nat)).length + 1) (s.map Sum.inl : List (Sum Char Nat)) 0).1 (runPass (tryDelim1 eqcT hasPhT '`' PhKind.code false) mkPhT ((s.map Sum.inl : List (Sum Char Nat)).length + 1) (s.map Sum.inl : List (Sum Char Nat)) 0).2.2).1.length + 1) (runPass (tryLink eqcT) mkPhT ((runPass (tryDelim1 eqcT hasPhT '`' PhKind.code false) mkPhT ((s.map Sum.inl : List (Sum Char Nat)).length + 1) (s.map Sum.inl : List (Sum Char Nat)) 0).1.length + 1) (runPass (tryDelim1 eqcT hasPhT '`' PhKind.code false) mkPhT ((s.map Sum.inl : List (Sum Char Nat)).length + 1) (s.map Sum.inl : List (Sum Char Nat)) 0).1 (runPass (tryDelim1 eqcT hasPhT '`' PhKind.code false) mkPhT ((s.map Sum.inl : List (Sum Char Nat)).length + 1) (s.map Sum.inl : List (Sum Char Nat)) 0).2.2).1 (runPass (tryLink eqcT) mkPhT ((runPass (tryDelim1 eqcT hasPhT '`' PhKind.code false) mkPhT ((s.map Sum.inl : List (Sum Char Nat)).length + 1) (s.map Sum.inl : List (Sum Char Nat)) 0).1.length + 1) (runPass (tryDelim1 eqcT hasPhT '`' PhKind.code false) mkPhT ((s.map Sum.inl : List (Sum Char Nat)).length + 1) (s.map Sum.inl : List (Sum Char Nat)) 0).1 (runPass (tryDelim1 eqcT hasPhT '`' PhKind.code false) mkPhT ((s.map Sum.inl : List (Sum Char Nat)).length + 1) (s.map Sum.inl : List (Sum Char Nat)) 0).2.2).2.2).1.length + 1) (runPass (tryDelim2 eqcT hasPhT '*' PhKind.strong true) mkPhT ((runPass (tryLink eqcT) mkPhT ((runPass (tryDelim1 eqcT hasPhT '`' PhKind.code false) mkPhT ((s.map Sum.inl : List (Sum Char Nat)).length + 1) (s.map Sum.inl : List (Sum Char Nat)) 0).1.length + 1) (runPass (tryDelim1 eqcT hasPhT '`' PhKind.code false) mkPhT ((s.map Sum.inl : List (Sum Char Nat)).length + 1) (s.map Sum.inl : List (Sum Char Nat)) 0).1 (runPass (tryDelim1 eqcT hasPhT '`' PhKind.code false) mkPhT ((s.map Sum.inl : List (Sum Char Nat)).length + 1) (s.map Sum.inl : List (Sum Char Nat)) 0).2.2).1.length + 1) (runPass (tryLink eqcT) mkPhT ((runPass (tryDelim1 eqcT hasPhT '`' PhKind.code false) mkPhT ((s.map Sum.inl : List (Sum Char Nat)).length + 1) (s.map Sum.inl : List (Sum Char Nat)) 0).1.length + 1) (runPass (tryDelim1 eqcT hasPhT '`' PhKind.code false) mkPhT ((s.map Sum.inl : List (Sum Char Nat)).length + 1) (s.map Sum.inl : List (Sum Char Nat)) 0).1 (runPass (tryDelim1 eqcT hasPhT '`' PhKind.code false) mkPhT ((s.map Sum.inl : List (Sum Char Nat)).length + 1) (s.map Sum.inl : List (Sum Char Nat)) 0).2.2).1 (runPass (tryLink eqcT) mkPhT ((runPass (tryDelim1 eqcT hasPhT '`' PhKind.code false) mkPhT ((s.map Sum.inl : List (Sum Char Nat)).length + 1) (s.map Sum.inl : List (Sum Char Nat)) 0).1.length + 1) (runPass (tryDelim1 eqcT hasPhT '`' PhKind.code false) mkPhT ((s.map Sum.inl : List (Sum Char Nat)).length + 1) (s.map Sum.inl : List (Sum Char Nat)) 0).1 (runPass (tryDelim1 eqcT hasPhT '`' PhKind.code false) mkPhT ((s.map Sum.inl : List (Sum Char Nat)).length + 1) (s.map Sum.inl : List (Sum Char Nat)) 0).2.2).2.2).1 (runPass (tryDelim2 eqcT hasPhT '*' PhKind.strong true) mkPhT ((runPass (tryLink eqcT) mkPhT ((runPass (tryDelim1 eqcT hasPhT '`' PhKind.code false) mkPhT ((s.map Sum.inl : List (Sum Char Nat)).length + 1) (s.map Sum.inl : List (Sum Char Nat)) 0).1.length + 1) (runPass (tryDelim1 eqcT hasPhT '`' PhKind.code false) mkPhT ((s.map Sum.inl : List (Sum Char Nat)).length + 1) (s.map Sum.inl : List (Sum Char Nat)) 0).1 (runPass (tryDelim1 eqcT hasPhT '`' PhKind.code false) mkPhT ((s.map Sum.inl : List (Sum Char Nat)).length + 1) (s.map Sum.inl : List (Sum Char Nat)) 0).2.2).1.length + 1) (runPass (tryLink eqcT) mkPhT ((runPass (tryDelim1 eqcT hasPhT '`' PhKind.code false) mkPhT ((s.map Sum.inl : List (Sum Char Nat)).length + 1) (s.map Sum.inl : List (Sum Char Nat)) 0).1.length + 1) (runPass (tryDelim1 eqcT hasPhT '`' PhKind.code false) mkPhT ((s.map Sum.inl : List (Sum Char Nat)).length + 1) (s.map Sum.inl : List (Sum Char Nat)) 0).1 (runPass (tryDelim1 eqcT hasPhT '`' PhKind.code false) mkPhT ((s.map Sum.inl : List (Sum Char Nat)).length + 1) (s.map Sum.inl : List (Sum Char Nat)) 0).2.2).1 (runPass (tryLink eqcT) mkPhT ((runPass (tryDelim1 eqcT hasPhT '`' PhKind.code false) mkPhT ((s.map Sum.inl : List (Sum Char Nat)).length + 1) (s.map Sum.inl : List (Sum Char Nat)) 0).1.length + 1) (runPass (tryDelim1 eqcT hasPhT '`' PhKind.code false) mkPhT ((s.map Sum.inl : List (Sum Char Nat)).length + 1) (s.map Sum.inl : List (Sum Char Nat)) 0).1 (runPass (tryDelim1 eqcT hasPhT '`' PhKind.code false) mkPhT ((s.map Sum.inl : List (Sum Char Nat)).length + 1) (s.map Sum.inl : List (Sum Char Nat)) 0).2.2).2.2).2.2).1 (runPass (tryDelim2 eqcT hasPhT '_' PhKind.strong true) mkPhT ((runPass (tryDelim2 eqcT hasPhT '*' PhKind.strong true) mkPhT ((runPass (tryLink eqcT) mkPhT ((runPass (tryDelim1 eqcT hasPhT '`' PhKind.code false) mkPhT ((s.map Sum.inl : List (Sum Char Nat)).length + 1) (s.map Sum.inl : List (Sum Char Nat)) 0).1.length + 1) (runPass (tryDelim1 eqcT hasPhT '`' PhKind.code false) mkPhT ((s.map Sum.inl : List (Sum Char Nat)).length + 1) (s.map Sum.inl : List (Sum Char Nat)) 0).1 (runPass (tryDelim1 eqcT hasPhT '`' PhKind.code false) mkPhT ((s.map Sum.inl : List (Sum Char Nat)).length + 1) (s.map Sum.inl : List (Sum Char Nat)) 0).2.2).1.length + 1) (runPass (tryLink eqcT) mkPhT ((runPass (tryDelim1 eqcT hasPhT '`' PhKind.code false) mkPhT ((s.map Sum.inl : List (Sum Char Nat)).length + 1) (s.map Sum.inl : List (Sum Char Nat)) 0).1.length + 1) (runPass (tryDelim1 eqcT hasPhT '`' PhKind.code false) mkPhT ((s.map Sum.inl : List (Sum Char Nat)).length + 1) (s.map Sum.inl : List (Sum Char Nat)) 0).1 (runPass (tryDelim1 eqcT hasPhT '`' PhKind.code false) mkPhT ((s.map Sum.inl : List (Sum Char Nat)).length + 1) (s.map Sum.inl : List (Sum Char Nat)) 0).2.2).1 (runPass (tryLink eqcT) mkPhT ((runPass (tryDelim1 eqcT hasPhT '`' PhKind.code false) mkPhT ((s.map Sum.inl : List (Sum Char Nat)).length + 1) (s.map Sum.inl : List (Sum Char Nat)) 0).1.length + 1) (runPass (tryDelim1 eqcT hasPhT '`' PhKind.code false) mkPhT ((s.map Sum.inl : List (Sum Char Nat)).length + 1) (s.map Sum.inl : List (Sum Char Nat)) 0).1 (runPass (tryDelim1 eqcT hasPhT '`' PhKind.code false) mkPhT ((s.map Sum.inl : List (Sum Char Nat)).length + 1) (s.map Sum.inl : List (Sum Char Nat)) 0).2.2).2.2).1.length + 1) (runPass (tryDelim2 eqcT hasPhT '*' PhKind.strong true) mkPhT ((runPass (tryLink eqcT) mkPhT ((runPass (tryDelim1 eqcT hasPhT '`' PhKind.code false) mkPhT ((s.map Sum.inl : List (Sum Char Nat)).length + 1) (s.map Sum.inl : List (Sum Char Nat)) 0).1.length + 1) (runPass (tryDelim1 eqcT hasPhT '`' PhKind.code false) mkPhT ((s.map Sum.inl : List (Sum Char Nat)).length + 1) (s.map Sum.inl : List (Sum Char Nat)) 0).1 (runPass (tryDelim1 eqcT hasPhT '`' PhKind.code false) mkPhT ((s.map Sum.inl : List (Sum Char Nat)).length + 1) (s.map Sum.inl : List (Sum Char Nat)) 0).2.2).1.length + 1) (runPass (tryLink eqcT) mkPhT ((runPass (tryDelim1 eqcT hasPhT '`' PhKind.code false) mkPhT ((s.map Sum.inl : List (Sum Char Nat)).length + 1) (s.map Sum.inl : List (Sum Char Nat)) 0).1.length + 1) (runPass (tryDelim1 eqcT hasPhT '`' PhKind.code false) mkPhT ((s.map Sum.inl : List (Sum Char Nat)).length + 1) (s.map Sum.inl : List (Sum Char Nat)) 0).1 (runPass (tryDelim1 eqcT hasPhT '`' PhKind.code false) mkPhT ((s.map Sum.inl : List (Sum Char Nat)).length + 1) (s.map Sum.inl : List (Sum Char Nat)) 0).2.2).1 (runPass (tryLink eqcT) mkPhT ((runPass (tryDelim1 eqcT hasPhT '`' PhKind.code false) mkPhT ((s.map Sum.inl : List (Sum Char Nat)).length + 1) (s.map Sum.inl : List (Sum Char Nat)) 0).1.length + 1) (runPass (tryDelim1 eqcT hasPhT '`' PhKind.code false) mkPhT ((s.map Sum.inl : List (Sum Char Nat)).length + 1) (s.map Sum.inl : List (Sum Char Nat)) 0).1 (runPass (tryDelim1 eqcT hasPhT '`' PhKind.code false) mkPhT ((s.map Sum.inl : List (Sum Char Nat)).length + 1) (s.map Sum.inl : List (Sum Char Nat)) 0).2.2).2.2).1 (runPass (tryDelim2 eqcT hasPhT '*' PhKind.strong true) mkPhT ((runPass (tryLink eqcT) mkPhT ((runPass (tryDelim1 eqcT hasPhT '`' PhKind.code false) mkPhT ((s.map Sum.inl : List (Sum Char Nat)).length + 1) (s.map Sum.inl : List (Sum Char Nat)) 0).1.length + 1) (runPass (tryDelim1 eqcT hasPhT '`' PhKind.code false) mkPhT ((s.map Sum.inl : List (Sum Char Nat)).length + 1) (s.map Sum.inl : List (Sum Char Nat)) 0).1 (runPass (tryDelim1 eqcT hasPhT '`' PhKind.code false) mkPhT ((s.map Sum.inl : List (Sum Char Nat)).length + 1) (s.map Sum.inl : List (Sum Char Nat)) 0).2.2).1.length + 1) (runPass (tryLink eqcT) mkPhT ((runPass (tryDelim1 eqcT hasPhT '`' PhKind.code false) mkPhT ((s.map Sum.inl : List (Sum Char Nat)).length + 1) (s.map Sum.inl : List (Sum Char Nat)) 0).1.length + 1) (runPass (tryDelim1 eqcT hasPhT '`' PhKind.code false) mkPhT ((s.map Sum.inl : List (Sum Char Nat)).length + 1) (s.map Sum.inl : List (Sum Char Nat)) 0).1 (runPass (tryDelim1 eqcT hasPhT '`' PhKind.code false) mkPhT ((s.map Sum.inl : List (Sum Char Nat)).length + 1) (s.map Sum.inl : List (Sum Char Nat)) 0).2.2).1 (runPass (tryLink eqcT) mkPhT ((runPass (tryDelim1 eqcT hasPhT '`' PhKind.code false) mkPhT ((s.map Sum.inl : List (Sum Char Nat)).length + 1) (s.map Sum.inl : List (Sum Char Nat)) 0).1.length + 1) (runPass (tryDelim1 eqcT hasPhT '`' PhKind.code false) mkPhT ((s.map Sum.inl : List (Sum Char Nat)).length + 1) (s.map Sum.inl : List (Sum Char Nat)) 0).1 (runPass (tryDelim1 eqcT hasPhT '`' PhKind.code false) mkPhT ((s.map Sum.inl : List (Sum Char Nat)).length + 1) (s.map Sum.inl : List (Sum Char Nat)) 0).2.2).2.2).2.2).2.2).1.length + 1) (runPass (tryDelim1 eqcT hasPhT '*' PhKind.em true) mkPhT ((runPass (tryDelim2 eqcT hasPhT '_' PhKind.strong true) mkPhT ((runPass (tryDelim2 eqcT hasPhT '*' PhKind.strong true) mkPhT ((runPass (tryLink eqcT) mkPhT ((runPass (tryDelim1 eqcT hasPhT '`' PhKind.code false) mkPhT ((s.map Sum.inl : List (Sum Char Nat)).length + 1) (s.map Sum.inl : List (Sum Char Nat)) 0).1.length + 1) (runPass (tryDelim1 eqcT hasPhT '`' PhKind.code false) mkPhT ((s.map Sum.inl : List (Sum Char Nat)).length + 1) (s.map Sum.inl : List (Sum Char Nat)) 0).1 (runPass (tryDelim1 eqcT hasPhT '`' PhKind.code false) mkPhT ((s.map Sum.inl : List (Sum Char Nat)).length + 1) (s.map Sum.inl : List (Sum Char Nat)) 0).2.2).1.length + 1) (runPass (tryLink eqcT) mkPhT ((runPass (tryDelim1 eqcT hasPhT '`' PhKind.code false) mkPhT ((s.map Sum.inl : List (Sum Char Nat)).length + 1) (s.map Sum.inl : List (Sum Char Nat)) 0).1.length + 1) (runPass (tryDelim1 eqcT hasPhT '`' PhKind.code false) mkPhT ((s.map Sum.inl : List (Sum Char Nat)).length + 1) (s.map Sum.inl : List (Sum Char Nat)) 0).1 (runPass (tryDelim1 eqcT hasPhT '`' PhKind.code false) mkPhT ((s.map Sum.inl : List (Sum Char Nat)).length + 1) (s.map Sum.inl : List (Sum Char Nat)) 0).2.2).1 (runPass (tryLink eqcT) mkPhT ((runPass (tryDelim1 eqcT hasPhT '`' PhKind.code false) mkPhT ((s.map Sum.inl : List (Sum Char Nat)).length + 1) (s.map Sum.inl : List (Sum Char Nat)) 0).1.length + 1) (runPass (tryDelim1 eqcT hasPhT '`' PhKind.code false) mkPhT ((s.map Sum.inl : List (Sum Char Nat)).length + 1) (s.map Sum.inl : List (Sum Char Nat)) 0).1 (runPass (tryDelim1 eqcT hasPhT '`' PhKind.code false) mkPhT ((s.map Sum.inl : List (Sum Char Nat)).length + 1) (s.map Sum.inl : List (Sum Char Nat)) 0).2.2).2.2).1.length + 1) (runPass (tryDelim2 eqcT hasPhT '*' PhKind.strong true) mkPhT ((runPass (tryLink eqcT) mkPhT ((runPass (tryDelim1 eqcT hasPhT '`' PhKind.code false) mkPhT ((s.map Sum.inl : List (Sum Char Nat)).length + 1) (s.map Sum.inl : List (Sum Char Nat)) 0).1.length + 1) (runPass (tryDelim1 eqcT hasPhT '`' PhKind.code false) mkPhT ((s.map Sum.inl : List (Sum Char Nat)).length + 1) (s.map Sum.inl : List (Sum Char Nat)) 0).1 (runPass (tryDelim1 eqcT hasPhT '`' PhKind.code false) mkPhT ((s.map Sum.inl : List (Sum Char Nat)).length + 1) (s.map Sum.inl : List (Sum Char Nat)) 0).2.2).1.length + 1) (runPass (tryLink eqcT) mkPhT ((runPass (tryDelim1 eqcT hasPhT '`' PhKind.code false) mkPhT ((s.map Sum.inl : List (Sum Char Nat)).length + 1) (s.map Sum.inl : List (Sum Char Nat)) 0).1.length + 1) (runPass (tryDelim1 eqcT hasPhT '`' PhKind.code false) mkPhT ((s.map Sum.inl : List (Sum Char Nat)).length + 1) (s.map Sum.inl : List (Sum Char Nat)) 0).1 (runPass (tryDelim1 eqcT hasPhT '`' PhKind.code false) mkPhT ((s.map Sum.inl : List (Sum Char Nat)).length + 1) (s.map Sum.inl : List (Sum Char Nat)) 0).2.2).1 (runPass (tryLink eqcT) mkPhT ((runPass (tryDelim1 eqcT hasPhT '`' PhKind.code false) mkPhT ((s.map Sum.inl : List (Sum Char Nat)).length + 1) (s.map Sum.inl : List (Sum Char Nat)) 0).1.length + 1) (runPass (tryDelim1 eqcT hasPhT '`' PhKind.code false) mkPhT ((s.map Sum.inl : List (Sum Char Nat)).length + 1) (s.map Sum.inl : List (Sum Char Nat)) 0).1 (runPass (tryDelim1 eqcT hasPhT '`' PhKind.code false) mkPhT ((s.map Sum.inl : List (Sum Char Nat)).length + 1) (s.map Sum.inl : List (Sum Char Nat)) 0).2.2).2.2).1 (runPass (tryDelim2 eqcT hasPhT '*' PhKind.strong true) mkPhT ((runPass (tryLink eqcT) mkPhT ((runPass (tryDelim1 eqcT hasPhT '`' PhKind.code false) mkPhT ((s.map Sum.inl : List (Sum Char Nat)).length + 1) (s.map Sum.inl : List (Sum Char Nat)) 0).1.length + 1) (runPass (tryDelim1 eqcT hasPhT '`' PhKind.code false) mkPhT ((s.map Sum.inl : List (Sum Char Nat)).length + 1) (s.map Sum.inl : List (Sum Char Nat)) 0).1 (runPass (tryDelim1 eqcT hasPhT '`' PhKind.code false) mkPhT ((s.map Sum.inl : List (Sum Char Nat)).length + 1) (s.map Sum.inl : List (Sum Char Nat)) 0).2.2).1.length + 1) (runPass (tryLink eqcT) mkPhT ((runPass (tryDelim1 eqcT hasPhT '`' PhKind.code false) mkPhT ((s.map Sum.inl : List (Sum Char Nat)).length + 1) (s.map Sum.inl : List (Sum Char Nat)) 0).1.length + 1) (runPass (tryDelim1 eqcT hasPhT '`' PhKind.code false) mkPhT ((s.map Sum.inl : List (Sum Char Nat)).length + 1) (s.map Sum.inl : List (Sum Char Nat)) 0).1 (runPass (tryDelim1 eqcT hasPhT '`' PhKind.code false) mkPhT ((s.map Sum.inl : List (Sum Char Nat)).length + 1) (s.map Sum.inl : List (Sum Char Nat)) 0).2.2).1 (runPass (tryLink eqcT) mkPhT ((runPass (tryDelim1 eqcT hasPhT '`' PhKind.code false) mkPhT ((s.map Sum.inl : List (Sum Char Nat)).length + 1) (s.map Sum.inl : List (Sum Char Nat)) 0).1.length + 1) (runPass (tryDelim1 eqcT hasPhT '`' PhKind.code false) mkPhT ((s.map Sum.inl : List (Sum Char Nat)).length + 1) (s.map Sum.inl : List (Sum Char Nat)) 0).1 (runPass (tryDelim1 eqcT hasPhT '`' PhKind.code false) mkPhT ((s.map Sum.inl : List (Sum Char Nat)).length + 1) (s.map Sum.inl : List (Sum Char Nat)) 0).2.2).2.2).2.2).1.length + 1) (runPass (tryDelim2 eqcT hasPhT '_' PhKind.strong true) mkPhT ((runPass (tryDelim2 eqcT hasPhT '*' PhKind.strong true) mkPhT ((runPass (tryLink eqcT) mkPhT ((runPass (tryDelim1 eqcT hasPhT '`' PhKind.code false) mkPhT ((s.map Sum.inl : List (Sum Char Nat)).length + 1) (s.map Sum.inl : List (Sum Char Nat)) 0).1.length + 1) (runPass (tryDelim1 eqcT hasPhT '`' PhKind.code false) mkPhT ((s.map Sum.inl : List (Sum Char Nat)).length + 1) (s.map Sum.inl : List (Sum Char Nat)) 0).1 (runPass (tryDelim1 eqcT hasPhT '`' PhKind.code false) mkPhT ((s.map Sum.inl : List (Sum Char Nat)).length + 1) (s.map Sum.inl : List (Sum Char Nat)) 0).2.2).1.length + 1) (runPass (tryLink eqcT) mkPhT ((runPass (tryDelim1 eqcT hasPhT '`' PhKind.code false) mkPhT ((s.map Sum.inl : List (Sum Char Nat)).length + 1) (s.map Sum.inl : List (Sum Char Nat)) 0).1.length + 1) (runPass (tryDelim1 eqcT hasPhT '`' PhKind.code false) mkPhT ((s.map Sum.inl : List (Sum Char Nat)).length + 1) (s.map Sum.inl : List (Sum Char Nat)) 0).1 (runPass (tryDelim1 eqcT hasPhT '`' PhKind.code false) mkPhT ((s.map Sum.inl : List (Sum Char Nat)).length + 1) (s.map Sum.inl : List (Sum Char Nat)) 0).2.2).1 (runPass (tryLink eqcT) mkPhT ((runPass (tryDelim1 eqcT hasPhT '`' PhKind.code false) mkPhT ((s.map Sum.inl : List (Sum Char Nat)).length + 1) (s.map Sum.inl : List (Sum Char Nat)) 0).1.length + 1) (runPass (tryDelim1 eqcT hasPhT '`' PhKind.code false) mkPhT ((s.map Sum.inl : List (Sum Char Nat)).length + 1) (s.map Sum.inl : List (Sum Char Nat)) 0).1 (runPass (tryDelim1 eqcT hasPhT '`' PhKind.code false) mkPhT ((s.map Sum.inl : List (Sum Char Nat)).length + 1) (s.map Sum.inl : List (Sum Char Nat)) 0).2.2).2.2).1.length + 1) (runPass (tryDelim2 eqcT hasPhT '*' PhKind.strong true) mkPhT ((runPass (tryLink eqcT) mkPhT ((runPass (tryDelim1 eqcT hasPhT '`' PhKind.code false) mkPhT ((s.map Sum.inl : List (Sum Char Nat)).length + 1) (s.map Sum.inl : List (Sum Char Nat)) 0).1.length + 1) (runPass (tryDelim1 eqcT hasPhT '`' PhKind.code false) mkPhT ((s.map Sum.inl : List (Sum Char Nat)).length + 1) (s.map Sum.inl : List (Sum Char Nat)) 0).1 (runPass (tryDelim1 eqcT hasPhT '`' PhKind.code false) mkPhT ((s.map Sum.inl : List (Sum Char Nat)).length + 1) (s.map Sum.inl : List (Sum Char Nat)) 0).2.2).1.length + 1) (runPass (tryLink eqcT) mkPhT ((runPass (tryDelim1 eqcT hasPhT '`' PhKind.code false) mkPhT ((s.map Sum.inl : List (Sum Char Nat)).length + 1) (s.map Sum.inl : List (Sum Char Nat)) 0).1.length + 1) (runPass (tryDelim1 eqcT hasPhT '`' PhKind.code false) mkPhT ((s.map Sum.inl : List (Sum Char Nat)).length + 1) (s.map Sum.inl : List (Sum Char Nat)) 0).1 (runPass (tryDelim1 eqcT hasPhT '`' PhKind.code false) mkPhT ((s.map Sum.inl : List (Sum Char Nat)).length + 1) (s.map Sum.inl : List (Sum Char Nat)) 0).2.2).1 (runPass (tryLink eqcT) mkPhT ((runPass (tryDelim1 eqcT hasPhT '`' PhKind.code false) mkPhT ((s.map Sum.inl : List (Sum Char Nat)).length + 1) (s.map Sum.inl : List (Sum Char Nat)) 0).1.length + 1) (runPass (tryDelim1 eqcT hasPhT '`' PhKind.code false) mkPhT ((s.map Sum.inl : List (Sum Char Nat)).length + 1) (s.map Sum.inl : List (Sum Char Nat)) 0).1 (runPass (tryDelim1 eqcT hasPhT '`' PhKind.code false) mkPhT ((s.map Sum.inl : List (Sum Char Nat)).length + 1) (s.map Sum.inl : List (Sum Char Nat)) 0).2.2).2.2).1 (runPass (tryDelim2 eqcT hasPhT '*' PhKind.strong true) mkPhT ((runPass (tryLink eqcT) mkPhT ((runPass (tryDelim1 eqcT hasPhT '`' PhKind.code false) mkPhT ((s.map Sum.inl : List (Sum Char Nat)).length + 1) (s.map Sum.inl : List (Sum Char Nat)) 0).1.length + 1) (runPass (tryDelim1 eqcT hasPhT '`' PhKind.code false) mkPhT ((s.map Sum.inl : List (Sum Char Nat)).length + 1) (s.map Sum.inl : List (Sum Char Nat)) 0).1 (runPass (tryDelim1 eqcT hasPhT '`' PhKind.code false) mkPhT ((s.map Sum.inl : List (Sum Char Nat)).length + 1) (s.map Sum.inl : List (Sum Char Nat)) 0).2.2).1.length + 1) (runPass (tryLink eqcT) mkPhT ((runPass (tryDelim1 eqcT hasPhT '`' PhKind.code false) mkPhT ((s.map Sum.inl : List (Sum Char Nat)).length + 1) (s.map Sum.inl : List (Sum Char Nat)) 0).1.length + 1) (runPass (tryDelim1 eqcT hasPhT '`' PhKind.code false) mkPhT ((s.map Sum.inl : List (Sum Char Nat)).length + 1) (s.map Sum.inl : List (Sum Char Nat)) 0).1 (runPass (tryDelim1 eqcT hasPhT '`' PhKind.code false) mkPhT ((s.map Sum.inl : List (Sum Char Nat)).length + 1) (s.map Sum.inl : List (Sum Char Nat)) 0).2.2).1 (runPass (tryLink eqcT) mkPhT ((runPass (tryDelim1 eqcT hasPhT '`' PhKind.code false) mkPhT ((s.map Sum.inl : List (Sum Char Nat)).length + 1) (s.map Sum.inl : List (Sum Char Nat)) 0).1.length + 1) (runPass (tryDelim1 eqcT hasPhT '`' PhKind.code false) mkPhT ((s.map Sum.inl : List (Sum Char Nat)).length + 1) (s.map Sum.inl : List (Sum Char Nat)) 0).1 (runPass (tryDelim1 eqcT hasPhT '`' PhKind.code false) mkPhT ((s.map Sum.inl : List (Sum Char Nat)).length + 1) (s.map Sum.inl : List (Sum Char Nat)) 0).2.2).2.2).2.2).1 (runPass (tryDelim2 eqcT hasPhT '_' PhKind.strong true) mkPhT ((runPass (tryDelim2 eqcT hasPhT '*' PhKind.strong true) mkPhT ((runPass (tryLink eqcT) mkPhT ((runPass (tryDelim1 eqcT hasPhT '`' PhKind.code false) mkPhT ((s.map Sum.inl : List (Sum Char Nat)).length + 1) (s.map Sum.inl : List (Sum Char Nat)) 0).1.length + 1) (runPass (tryDelim1 eqcT hasPhT '`' PhKind.code false) mkPhT ((s.map Sum.inl : List (Sum Char Nat)).length + 1) (s.map Sum.inl : List (Sum Char Nat)) 0).1 (runPass (tryDelim1 eqcT hasPhT '`' PhKind.code false) mkPhT ((s.map Sum.inl : List (Sum Char Nat)).length + 1) (s.map Sum.inl : List (Sum Char Nat)) 0).2.2).1.length + 1) (runPass (tryLink eqcT) mkPhT ((runPass (tryDelim1 eqcT hasPhT '`' PhKind.code false) mkPhT ((s.map Sum.inl : List (Sum Char Nat)).length + 1) (s.map Sum.inl : List (Sum Char Nat)) 0).1.length + 1) (runPass (tryDelim1 eqcT hasPhT '`' PhKind.code false) mkPhT ((s.map Sum.inl : List (Sum Char Nat)).length + 1) (s.map Sum.inl : List (Sum Char Nat)) 0).1 (runPass (tryDelim1 eqcT hasPhT '`' PhKind.code false) mkPhT ((s.map Sum.inl : List (Sum Char Nat)).length + 1) (s.map Sum.inl : List (Sum Char Nat)) 0).2.2).1 (runPass (tryLink eqcT) mkPhT ((runPass (tryDelim1 eqcT hasPhT '`' PhKind.code false) mkPhT ((s.map Sum.inl : List (Sum Char Nat)).length + 1) (s.map Sum.inl : List (Sum Char Nat)) 0).1.length + 1) (runPass (tryDelim1 eqcT hasPhT '`' PhKind.code false) mkPhT ((s.map Sum.inl : List (Sum Char Nat)).length + 1) (s.map Sum.inl : List (Sum Char Nat)) 0).1 (runPass (tryDelim1 eqcT hasPhT '`' PhKind.code false) mkPhT ((s.map Sum.inl : List (Sum Char Nat)).length + 1) (s.map Sum.inl : List (Sum Char Nat)) 0).2.2).2.2).1.length + 1) (runPass (tryDelim2 eqcT hasPhT '*' PhKind.strong true) mkPhT ((runPass (tryLink eqcT) mkPhT ((runPass (tryDelim1 eqcT hasPhT '`' PhKind.code false) mkPhT ((s.map Sum.inl : List (Sum Char Nat)).length + 1) (s.map Sum.inl : List (Sum Char Nat)) 0).1.length + 1) (runPass (tryDelim1 eqcT hasPhT '`' PhKind.code false) mkPhT ((s.map Sum.inl : List (Sum Char Nat)).length + 1) (s.map Sum.inl : List (Sum Char Nat)) 0).1 (runPass (tryDelim1 eqcT hasPhT '`' PhKind.code false) mkPhT ((s.map Sum.inl : List (Sum Char Nat)).length + 1) (s.map Sum.inl : List (Sum Char Nat)) 0).2.2).1.length + 1) (runPass (tryLink eqcT) mkPhT ((runPass (tryDelim1 eqcT hasPhT '`' PhKind.code false) mkPhT ((s.map Sum.inl : List (Sum Char Nat)).length + 1) (s.map Sum.inl : List (Sum Char Nat)) 0).1.length + 1) (runPass (tryDelim1 eqcT hasPhT '`' PhKind.code false) mkPhT ((s.map Sum.inl : List (Sum Char Nat)).length + 1) (s.map Sum.inl : List (Sum Char Nat)) 0).1 (runPass (tryDelim1 eqcT hasPhT '`' PhKind.code false) mkPhT ((s.map Sum.inl : List (Sum Char Nat)).length + 1) (s.map Sum.inl : List (Sum Char Nat)) 0).2.2).1 (runPass (tryLink eqcT) mkPhT ((runPass (tryDelim1 eqcT hasPhT '`' PhKind.code false) mkPhT ((s.map Sum.inl : List (Sum Char Nat)).length + 1) (s.map Sum.inl : List (Sum Char Nat)) 0).1.length + 1) (runPass (tryDelim1 eqcT hasPhT '`' PhKind.code false) mkPhT ((s.map Sum.inl : List (Sum Char Nat)).length + 1) (s.map Sum.inl : List (Sum Char Nat)) 0).1 (runPass (tryDelim1 eqcT hasPhT '`' PhKind.code false) mkPhT ((s.map Sum.inl : List (Sum Char Nat)).length + 1) (s.map Sum.inl : List (Sum Char Nat)) 0).2.2).2.2).1 (runPass (tryDelim2 eqcT hasPhT '*' PhKind.strong true) mkPhT ((runPass (tryLink eqcT) mkPhT ((runPass (tryDelim1 eqcT hasPhT '`' PhKind.code false) mkPhT ((s.map Sum.inl : List (Sum Char Nat)).length + 1) (s.map Sum.inl : List (Sum Char Nat)) 0).1.length + 1) (runPass (tryDelim1 eqcT hasPhT '`' PhKind.code false) mkPhT ((s.map Sum.inl : List (Sum Char Nat)).length + 1) (s.map Sum.inl : List (Sum Char Nat)) 0).1 (runPass (tryDelim1 eqcT hasPhT '`' PhKind.code false) mkPhT ((s.map Sum.inl : List (Sum Char Nat)).length + 1) (s.map Sum.inl : List (Sum Char Nat)) 0).2.2).1.length + 1) (runPass (tryLink eqcT) mkPhT ((runPass (tryDelim1 eqcT hasPhT '`' PhKind.code false) mkPhT ((s.map Sum.inl : List (Sum Char Nat)).length + 1) (s.map Sum.inl : List (Sum Char Nat)) 0).1.length + 1) (runPass (tryDelim1 eqcT hasPhT '`' PhKind.code false) mkPhT ((s.map Sum.inl : List (Sum Char Nat)).length + 1) (s.map Sum.inl : List (Sum Char Nat)) 0).1 (runPass (tryDelim1 eqcT hasPhT '`' PhKind.code false) mkPhT ((s.map Sum.inl : List (Sum Char Nat)).length + 1) (s.map Sum.inl : List (Sum Char Nat)) 0).2.2).1 (runPass (tryLink eqcT) mkPhT ((runPass (tryDelim1 eqcT hasPhT '`' PhKind.code false) mkPhT ((s.map Sum.inl : List (Sum Char Nat)).length + 1) (s.map Sum.inl : List (Sum Char Nat)) 0).1.length + 1) (runPass (tryDelim1 eqcT hasPhT '`' PhKind.code false) mkPhT ((s.map Sum.inl : List (Sum Char Nat)).length + 1) (s.map Sum.inl : List (Sum Char Nat)) 0).1 (runPass (tryDelim1 eqcT hasPhT '`' PhKind.code false) mkPhT ((s.map Sum.inl : List (Sum Char Nat)).length + 1) (s.map Sum.inl : List (Sum Char Nat)) 0).2.2).2.2).2.2).2.2).1 (runPass (tryDelim1 eqcT hasPhT '*' PhKind.em true) mkPhT ((runPass (tryDelim2 eqcT hasPhT '_' PhKind.strong true) mkPhT ((runPass (tryDelim2 eqcT hasPhT '*' PhKind.strong true) mkPhT ((runPass (tryLink eqcT) mkPhT ((runPass (tryDelim1 eqcT hasPhT '`' PhKind.code false) mkPhT ((s.map Sum.inl : List (Sum Char Nat)).length + 1) (s.map Sum.inl : List (Sum Char Nat)) 0).1.length + 1) (runPass (tryDelim1 eqcT hasPhT '`' PhKind.code false) mkPhT ((s.map Sum.inl : List (Sum Char Nat)).length + 1) (s.map Sum.inl : List (Sum Char Nat)) 0).1 (runPass (tryDelim1 eqcT hasPhT '`' PhKind.code false) mkPhT ((s.map Sum.inl : List (Sum Char Nat)).length + 1) (s.map Sum.inl : List (Sum Char Nat)) 0).2.2).1.length + 1) (runPass (tryLink eqcT) mkPhT ((runPass (tryDelim1 eqcT hasPhT '`' PhKind.code false) mkPhT ((s.map Sum.inl : List (Sum Char Nat)).length + 1) (s.map Sum.inl : List (Sum Char Nat)) 0).1.length + 1) (runPass (tryDelim1 eqcT hasPhT '`' PhKind.code false) mkPhT ((s.map Sum.inl : List (Sum Char Nat)).length + 1) (s.map Sum.inl : List (Sum Char Nat)) 0).1 (runPass (tryDelim1 eqcT hasPhT '`' PhKind.code false) mkPhT ((s.map Sum.inl : List (Sum Char Nat)).length + 1) (s.map Sum.inl : List (Sum Char Nat)) 0).2.2).1 (runPass (tryLink eqcT) mkPhT ((runPass (tryDelim1 eqcT hasPhT '`' PhKind.code false) mkPhT ((s.map Sum.inl : List (Sum Char Nat)).length + 1) (s.map Sum.inl : List (Sum Char Nat)) 0).1.length + 1) (runPass (tryDelim1 eqcT hasPhT '`' PhKind.code false) mkPhT ((s.map Sum.inl : List (Sum Char Nat)).length + 1) (s.map Sum.inl : List (Sum Char Nat)) 0).1 (runPass (tryDelim1 eqcT hasPhT '`' PhKind.code false) mkPhT ((s.map Sum.inl : List (Sum Char Nat)).length + 1) (s.map Sum.inl : List (Sum Char Nat)) 0).2.2).2.2).1.length + 1) (runPass (tryDelim2 eqcT hasPhT '*' PhKind.strong true) mkPhT ((runPass (tryLink eqcT) mkPhT ((runPass (tryDelim1 eqcT hasPhT '`' PhKind.code false) mkPhT ((s.map Sum.inl : List (Sum Char Nat)).length + 1) (s.map Sum.inl : List (Sum Char Nat)) 0).1.length + 1) (runPass (tryDelim1 eqcT hasPhT '`' PhKind.code false) mkPhT ((s.map Sum.inl : List (Sum Char Nat)).length + 1) (s.map Sum.inl : List (Sum Char Nat)) 0).1 (runPass (tryDelim1 eqcT hasPhT '`' PhKind.code false) mkPhT ((s.map Sum.inl : List (Sum Char Nat)).length + 1) (s.map Sum.inl : List (Sum Char Nat)) 0).2.2).1.length + 1) (runPass (tryLink eqcT) mkPhT ((runPass (tryDelim1 eqcT hasPhT '`' PhKind.code false) mkPhT ((s.map Sum.inl : List (Sum Char Nat)).length + 1) (s.map Sum.inl : List (Sum Char Nat)) 0).1.length + 1) (runPass (tryDelim1 eqcT hasPhT '`' PhKind.code false) mkPhT ((s.map Sum.inl : List (Sum Char Nat)).length + 1) (s.map Sum.inl : List (Sum Char Nat)) 0).1 (runPass (tryDelim1 eqcT hasPhT '`' PhKind.code false) mkPhT ((s.map Sum.inl : List (Sum Char Nat)).length + 1) (s.map Sum.inl : List (Sum Char Nat)) 0).2.2).1 (runPass (tryLink eqcT) mkPhT ((runPass (tryDelim1 eqcT hasPhT '`' PhKind.code false) mkPhT ((s.map Sum.inl : List (Sum Char Nat)).length + 1) (s.map Sum.inl : List (Sum Char Nat)) 0).1.length + 1) (runPass (tryDelim1 eqcT hasPhT '`' PhKind.code false) mkPhT ((s.map Sum.inl : List (Sum Char Nat)).length + 1) (s.map Sum.inl : List (Sum Char Nat)) 0).1 (runPass (tryDelim1 eqcT hasPhT '`' PhKind.code false) mkPhT ((s.map Sum.inl : List (Sum Char Nat)).length + 1) (s.map Sum.inl : List (Sum Char Nat)) 0).2.2).2.2).1 (runPass (tryDelim2 eqcT hasPhT '*' PhKind.strong true) mkPhT ((runPass (tryLink eqcT) mkPhT ((runPass (tryDelim1 eqcT hasPhT '`' PhKind.code false) mkPhT ((s.map Sum.inl : List (Sum Char Nat)).length + 1) (s.map Sum.inl : List (Sum Char Nat)) 0).1.length + 1) (runPass (tryDelim1 eqcT hasPhT '`' PhKind.code false) mkPhT ((s.map Sum.inl : List (Sum Char Nat)).length + 1) (s.map Sum.inl : List (Sum Char Nat)) 0).1 (runPass (tryDelim1 eqcT hasPhT '`' PhKind.code false) mkPhT ((s.map Sum.inl : List (Sum Char Nat)).length + 1) (s.map Sum.inl : List (Sum Char Nat)) 0).2.2).1.length + 1) (runPass (tryLink eqcT) mkPhT ((runPass (tryDelim1 eqcT hasPhT '`' PhKind.code false) mkPhT ((s.map Sum.inl : List (Sum Char Nat)).length + 1) (s.map Sum.inl : List (Sum Char Nat)) 0).1.length + 1) (runPass (tryDelim1 eqcT hasPhT '`' PhKind.code false) mkPhT ((s.map Sum.inl : List (Sum Char Nat)).length + 1) (s.map Sum.inl : List (Sum Char Nat)) 0).1 (runPass (tryDelim1 eqcT hasPhT '`' PhKind.code false) mkPhT ((s.map Sum.inl : List (Sum Char Nat)).length + 1) (s.map Sum.inl : List (Sum Char Nat)) 0).2.2).1 (runPass (tryLink eqcT) mkPhT ((runPass (tryDelim1 eqcT hasPhT '`' PhKind.code false) mkPhT ((s.map Sum.inl : List (Sum Char Nat)).length + 1) (s.map Sum.inl : List (Sum Char Nat)) 0).1.length + 1) (runPass (tryDelim1 eqcT hasPhT '`' PhKind.code false) mkPhT ((s.map Sum.inl : List (Sum Char Nat)).length + 1) (s.map Sum.inl : List (Sum Char Nat)) 0).1 (runPass (tryDelim1 eqcT hasPhT '`' PhKind.code false) mkPhT ((s.map Sum.inl : List (Sum Char Nat)).length + 1) (s.map Sum.inl : List (Sum Char Nat)) 0).2.2).2.2).2.2).1.length + 1) (runPass (tryDelim2 eqcT hasPhT '_' PhKind.strong true) mkPhT ((runPass (tryDelim2 eqcT hasPhT '*' PhKind.strong true) mkPhT ((runPass (tryLink eqcT) mkPhT ((runPass (tryDelim1 eqcT hasPhT '`' PhKind.code false) mkPhT ((s.map Sum.inl : List (Sum Char Nat)).length + 1) (s.map Sum.inl : List (Sum Char Nat)) 0).1.length + 1) (runPass (tryDelim1 eqcT hasPhT '`' PhKind.code false) mkPhT ((s.map Sum.inl : List (Sum Char Nat)).length + 1) (s.map Sum.inl : List (Sum Char Nat)) 0).1 (runPass (tryDelim1 eqcT hasPhT '`' PhKind.code false) mkPhT ((s.map Sum.inl : List (Sum Char Nat)).length + 1) (s.map Sum.inl : List (Sum Char Nat)) 0).2.2).1.length + 1) (runPass (tryLink eqcT) mkPhT ((runPass (tryDelim1 eqcT hasPhT '`' PhKind.code false) mkPhT ((s.map Sum.inl : List (Sum Char Nat)).length + 1) (s.map Sum.inl : List (Sum Char Nat)) 0).1.length + 1) (runPass (tryDelim1 eqcT hasPhT '`' PhKind.code false) mkPhT ((s.map Sum.inl : List (Sum Char Nat)).length + 1) (s.map Sum.inl : List (Sum Char Nat)) 0).1 (runPass (tryDelim1 eqcT hasPhT '`' PhKind.code false) mkPhT ((s.map Sum.inl : List (Sum Char Nat)).length + 1) (s.map Sum.inl : List (Sum Char Nat)) 0).2.2).1 (runPass (tryLink eqcT) mkPhT ((runPass (tryDelim1 eqcT hasPhT '`' PhKind.code false) mkPhT ((s.map Sum.inl : List (Sum Char Nat)).length + 1) (s.map Sum.inl : List (Sum Char Nat)) 0).1.length + 1) (runPass (tryDelim1 eqcT hasPhT '`' PhKind.code false) mkPhT ((s.map Sum.inl : List (Sum Char Nat)).length + 1) (s.map Sum.inl : List (Sum Char Nat)) 0).1 (runPass (tryDelim1 eqcT hasPhT '`' PhKind.code false) mkPhT ((s.map Sum.inl : List (Sum Char Nat)).length + 1) (s.map Sum.inl : List (Sum Char Nat)) 0).2.2).2.2).1.length + 1) (runPass (tryDelim2 eqcT hasPhT '*' PhKind.strong true) mkPhT ((runPass (tryLink eqcT) mkPhT ((runPass (tryDelim1 eqcT hasPhT '`' PhKind.code false) mkPhT ((s.map Sum.inl : List (Sum Char Nat)).length + 1) (s.map Sum.inl : List (Sum Char Nat)) 0).1.length + 1) (runPass (tryDelim1 eqcT hasPhT '`' PhKind.code false) mkPhT ((s.map Sum.inl : List (Sum Char Nat)).length + 1) (s.map Sum.inl : List (Sum Char Nat)) 0).1 (runPass (tryDelim1 eqcT hasPhT '`' PhKind.code false) mkPhT ((s.map Sum.inl : List (Sum Char Nat)).length + 1) (s.map Sum.inl : List (Sum Char Nat)) 0).2.2).1.length + 1) (runPass (tryLink eqcT) mkPhT ((runPass (tryDelim1 eqcT hasPhT '`' PhKind.code false) mkPhT ((s.map Sum.inl : List (Sum Char Nat)).length + 1) (s.map Sum.inl : List (Sum Char Nat)) 0).1.length + 1) (runPass (tryDelim1 eqcT hasPhT '`' PhKind.code false) mkPhT ((s.map Sum.inl : List (Sum Char Nat)).length + 1) (s.map Sum.inl : List (Sum Char Nat)) 0).1 (runPass (tryDelim1 eqcT hasPhT '`' PhKind.code false) mkPhT ((s.map Sum.inl : List (Sum Char Nat)).length + 1) (s.map Sum.inl : List (Sum Char Nat)) 0).2.2).1 (runPass (tryLink eqcT) mkPhT ((runPass (tryDelim1 eqcT hasPhT '`' PhKind.code false) mkPhT ((s.map Sum.inl : List (Sum Char Nat)).length + 1) (s.map Sum.inl : List (Sum Char Nat)) 0).1.length + 1) (runPass (tryDelim1 eqcT hasPhT '`' PhKind.code false) mkPhT ((s.map Sum.inl : List (Sum Char Nat)).length + 1) (s.map Sum.inl : List (Sum Char Nat)) 0).1 (runPass (tryDelim1 eqcT hasPhT '`' PhKind.code false) mkPhT ((s.map Sum.inl : List (Sum Char Nat)).length + 1) (s.map Sum.inl : List (Sum Char Nat)) 0).2.2).2.2).1 (runPass (tryDelim2 eqcT hasPhT '*' PhKind.strong true) mkPhT ((runPass (tryLink eqcT) mkPhT ((runPass (tryDelim1 eqcT hasPhT '`' PhKind.code false) mkPhT ((s.map Sum.inl : List (Sum Char Nat)).length + 1) (s.map Sum.inl : List (Sum Char Nat)) 0).1.length + 1) (runPass (tryDelim1 eqcT hasPhT '`' PhKind.code false) mkPhT ((s.map Sum.inl : List (Sum Char Nat)).length + 1) (s.map Sum.inl : List (Sum Char Nat)) 0).1 (runPass (tryDelim1 eqcT hasPhT '`' PhKind.code false) mkPhT ((s.map Sum.inl : List (Sum Char Nat)).length + 1) (s.map Sum.inl : List (Sum Char Nat)) 0).2.2).1.length + 1) (runPass (tryLink eqcT) mkPhT ((runPass (tryDelim1 eqcT hasPhT '`' PhKind.code false) mkPhT ((s.map Sum.inl : List (Sum Char Nat)).length + 1) (s.map Sum.inl : List (Sum Char Nat)) 0).1.length + 1) (runPass (tryDelim1 eqcT hasPhT '`' PhKind.code false) mkPhT ((s.map Sum.inl : List (Sum Char Nat)).length + 1) (s.map Sum.inl : List (Sum Char Nat)) 0).1 (runPass (tryDelim1 eqcT hasPhT '`' PhKind.code false) mkPhT ((s.map Sum.inl : List (Sum Char Nat)).length + 1) (s.map Sum.inl : List (Sum Char Nat)) 0).2.2).1 (runPass (tryLink eqcT) mkPhT ((runPass (tryDelim1 eqcT hasPhT '`' PhKind.code false) mkPhT ((s.map Sum.inl : List (Sum Char Nat)).length + 1) (s.map Sum.inl : List (Sum Char Nat)) 0).1.length + 1) (runPass (tryDelim1 eqcT hasPhT '`' PhKind.code false) mkPhT ((s.map Sum.inl : List (Sum Char Nat)).length + 1) (s.map Sum.inl : List (Sum Char Nat)) 0).1 (runPass (tryDelim1 eqcT hasPhT '`' PhKind.code false) mkPhT ((s.map Sum.inl : List (Sum Char Nat)).length + 1) (s.map Sum.inl : List (Sum Char Nat)) 0).2.2).2.2).2.2).1 (runPass (tryDelim2 eqcT hasPhT '_' PhKind.strong true) mkPhT ((runPass (tryDelim2 eqcT hasPhT '*' PhKind.strong true) mkPhT ((runPass (tryLink eqcT) mkPhT ((runPass (tryDelim1 eqcT hasPhT '`' PhKind.code false) mkPhT ((s.map Sum.inl : List (Sum Char Nat)).length + 1) (s.map Sum.inl : List (Sum Char Nat)) 0).1.length + 1) (runPass (tryDelim1 eqcT hasPhT '`' PhKind.code false) mkPhT ((s.map Sum.inl : List (Sum Char Nat)).length + 1) (s.map Sum.inl : List (Sum Char Nat)) 0).1 (runPass (tryDelim1 eqcT hasPhT '`' PhKind.code false) mkPhT ((s.map Sum.inl : List (Sum Char Nat)).length + 1) (s.map Sum.inl : List (Sum Char Nat)) 0).2.2).1.length + 1) (runPass (tryLink eqcT) mkPhT ((runPass (tryDelim1 eqcT hasPhT '`' PhKind.code false) mkPhT ((s.map Sum.inl : List (Sum Char Nat)).length + 1) (s.map Sum.inl : List (Sum Char Nat)) 0).1.length + 1) (runPass (tryDelim1 eqcT hasPhT '`' PhKind.code false) mkPhT ((s.map Sum.inl : List (Sum Char Nat)).length + 1) (s.map Sum.inl : List (Sum Char Nat)) 0).1 (runPass (tryDelim1 eqcT hasPhT '`' PhKind.code false) mkPhT ((s.map Sum.inl : List (Sum Char Nat)).length + 1) (s.map Sum.inl : List (Sum Char Nat)) 0).2.2).1 (runPass (tryLink eqcT) mkPhT ((runPass (tryDelim1 eqcT hasPhT '`' PhKind.code false) mkPhT ((s.map Sum.inl : List (Sum Char Nat)).length + 1) (s.map Sum.inl : List (Sum Char Nat)) 0).1.length + 1) (runPass (tryDelim1 eqcT hasPhT '`' PhKind.code false) mkPhT ((s.map Sum.inl : List (Sum Char Nat)).length + 1) (s.map Sum.inl : List (Sum Char Nat)) 0).1 (runPass (tryDelim1 eqcT hasPhT '`' PhKind.code false) mkPhT ((s.map Sum.inl : List (Sum Char Nat)).length + 1) (s.map Sum.inl : List (Sum Char Nat)) 0).2.2).2.2).1.length + 1) (runPass (tryDelim2 eqcT hasPhT '*' PhKind.strong true) mkPhT ((runPass (tryLink eqcT) mkPhT ((runPass (tryDelim1 eqcT hasPhT '`' PhKind.code false) mkPhT ((s.map Sum.inl : List (Sum Char Nat)).length + 1) (s.map Sum.inl : List (Sum Char Nat)) 0).1.length + 1) (runPass (tryDelim1 eqcT hasPhT '`' PhKind.code false) mkPhT ((s.map Sum.inl : List (Sum Char Nat)).length + 1) (s.map Sum.inl : List (Sum Char Nat)) 0).1 (runPass (tryDelim1 eqcT hasPhT '`' PhKind.code false) mkPhT ((s.map Sum.inl : List (Sum Char Nat)).length + 1) (s.map Sum.inl : List (Sum Char Nat)) 0).2.2).1.length + 1) (runPass (tryLink eqcT) mkPhT ((runPass (tryDelim1 eqcT hasPhT '`' PhKind.code false) mkPhT ((s.map Sum.inl : List (Sum Char Nat)).length + 1) (s.map Sum.inl : List (Sum Char Nat)) 0).1.length + 1) (runPass (tryDelim1 eqcT hasPhT '`' PhKind.code false) mkPhT ((s.map Sum.inl : List (Sum Char Nat)).length + 1) (s.map Sum.inl : List (Sum Char Nat)) 0).1 (runPass (tryDelim1 eqcT hasPhT '`' PhKind.code false) mkPhT ((s.map Sum.inl : List (Sum Char Nat)).length + 1) (s.map Sum.inl : List (Sum Char Nat)) 0).2.2).1 (runPass (tryLink eqcT) mkPhT ((runPass (tryDelim1 eqcT hasPhT '`' PhKind.code false) mkPhT ((s.map Sum.inl : List (Sum Char Nat)).length + 1) (s.map Sum.inl : List (Sum Char Nat)) 0).1.length + 1) (runPass (tryDelim1 eqcT hasPhT '`' PhKind.code false) mkPhT ((s.map Sum.inl : List (Sum Char Nat)).length + 1) (s.map Sum.inl : List (Sum Char Nat)) 0).1 (runPass (tryDelim1 eqcT hasPhT '`' PhKind.code false) mkPhT ((s.map Sum.inl : List (Sum Char Nat)).length + 1) (s.map Sum.inl : List (Sum Char Nat)) 0).2.2).2.2).1 (runPass (tryDelim2 eqcT hasPhT '*' PhKind.strong true) mkPhT ((runPass (tryLink eqcT) mkPhT ((runPass (tryDelim1 eqcT hasPhT '`' PhKind.code false) mkPhT ((s.map Sum.inl : List (Sum Char Nat)).length + 1) (s.map Sum.inl : List (Sum Char Nat)) 0).1.length + 1) (runPass (tryDelim1 eqcT hasPhT '`' PhKind.code false) mkPhT ((s.map Sum.inl : List (Sum Char Nat)).length + 1) (s.map Sum.inl : List (Sum Char Nat)) 0).1 (runPass (tryDelim1 eqcT hasPhT '`' PhKind.code false) mkPhT ((s.map Sum.inl : List (Sum Char Nat)).length + 1) (s.map Sum.inl : List (Sum Char Nat)) 0).2.2).1.length + 1) (runPass (tryLink eqcT) mkPhT ((runPass (tryDelim1 eqcT hasPhT '`' PhKind.code false) mkPhT ((s.map Sum.inl : List (Sum Char Nat)).length + 1) (s.map Sum.inl : List (Sum Char Nat)) 0).1.length + 1) (runPass (tryDelim1 eqcT hasPhT '`' PhKind.code false) mkPhT ((s.map Sum.inl : List (Sum Char Nat)).length + 1) (s.map Sum.inl : List (Sum Char Nat)) 0).1 (runPass (tryDelim1 eqcT hasPhT '`' PhKind.code false) mkPhT ((s.map Sum.inl : List (Sum Char Nat)).length + 1) (s.map Sum.inl : List (Sum Char Nat)) 0).2.2).1 (runPass (tryLink eqcT) mkPhT ((runPass (tryDelim1 eqcT hasPhT '`' PhKind.code false) mkPhT ((s.map Sum.inl : List (Sum Char Nat)).length + 1) (s.map Sum.inl : List (Sum Char Nat)) 0).1.length + 1) (runPass (tryDelim1 eqcT hasPhT '`' PhKind.code false) mkPhT ((s.map Sum.inl : List (Sum Char Nat)).length + 1) (s.map Sum.inl : List (Sum Char Nat)) 0).1 (runPass (tryDelim1 eqcT hasPhT '`' PhKind.code false) mkPhT ((s.map Sum.inl : List (Sum Char Nat)).length + 1) (s.map Sum.inl : List (Sum Char Nat)) 0).2.2).2.2).2.2).2.2).2.2 hcl5
  have e1 := hs1 ((s.map Sum.inl : List (Sum Char Nat)).length + 1) (s.map Sum.inl : List (Sum Char Nat)) (s.length + 1) 0 hcl0
    (Nat.lt_succ_self _) (by rw [h0]; exact Nat.lt_succ_self _)
  rw [h0] at e1
  have e2 := hs2 ((runPass (tryDelim1 eqcT hasPhT '`' PhKind.code false) mkPhT ((s.map Sum.inl : List (Sum Char Nat)).length + 1) (s.map Sum.inl : List (Sum Char Nat)) 0).1.length + 1) (runPass (tryDelim1 eqcT hasPhT '`' PhKind.code false) mkPhT ((s.map Sum.inl : List (Sum Char Nat)).length + 1) (s.map Sum.inl : List (Sum Char Nat)) 0).1 ((renderTok (runPass (tryDelim1 eqcT hasPhT '`' PhKind.code false) mkPhT ((s.map Sum.inl : List (Sum Char Nat)).length + 1) (s.map Sum.inl : List (Sum Char Nat)) 0).1).length + 1) (runPass (tryDelim1 eqcT hasPhT '`' PhKind.code false) mkPhT ((s.map Sum.inl : List (Sum Char Nat)).length + 1) (s.map Sum.inl : List (Sum Char Nat)) 0).2.2 hcl1
    (Nat.lt_succ_self _) (Nat.lt_succ_self _)
  have e3 := hs3 ((runPass (tryLink eqcT) mkPhT ((runPass (tryDelim1 eqcT hasPhT '`' PhKind.code false) mkPhT ((s.map Sum.inl : List (Sum Char Nat)).length + 1) (s.map Sum.inl : List (Sum Char Nat)) 0).1.length + 1) (runPass (tryDelim1 eqcT hasPhT '`' PhKind.code false) mkPhT ((s.map Sum.inl : List (Sum Char Nat)).length + 1) (s.map Sum.inl : List (Sum Char Nat)) 0).1 (runPass (tryDelim1 eqcT hasPhT '`' PhKind.code false) mkPhT ((s.map Sum.inl : List (Sum Char Nat)).length + 1) (s.map Sum.inl : List (Sum Char Nat)) 0).2.2).1.length + 1) (runPass (tryLink eqcT) mkPhT ((runPass (tryDelim1 eqcT hasPhT '`' PhKind.code false) mkPhT ((s.map Sum.inl : List (Sum Char Nat)).length + 1) (s.map Sum.inl : List (Sum Char Nat)) 0).1.length + 1) (runPass (tryDelim1 eqcT hasPhT '`' PhKind.code false) mkPhT ((s.map Sum.inl : List (Sum Char Nat)).length + 1) (s.map Sum.inl : List (Sum Char Nat)) 0).1 (runPass (tryDelim1 eqcT hasPhT '`' PhKind.code false) mkPhT ((s.map Sum.inl : List (Sum Char Nat)).length + 1) (s.map Sum.inl : List (Sum Char Nat)) 0).2.2).1 ((renderTok (runPass (tryLink eqcT) mkPhT ((runPass (tryDelim1 eqcT hasPhT '`' PhKind.code false) mkPhT ((s.map Sum.inl : List (Sum Char Nat)).length + 1) (s.map Sum.inl : List (Sum Char Nat)) 0).1.length + 1) (runPass (tryDelim1 eqcT hasPhT '`' PhKind.code false) mkPhT ((s.map Sum.inl : List (Sum Char Nat)).length + 1) (s.map Sum.inl : List (Sum Char Nat)) 0).1 (runPass (tryDelim1 eqcT hasPhT '`' PhKind.code false) mkPhT ((s.map Sum.inl : List (Sum Char Nat)).length + 1) (s.map Sum.inl : List (Sum Char Nat)) 0).2.2).1).length + 1) (runPass (tryLink eqcT) mkPhT ((runPass (tryDelim1 eqcT hasPhT '`' PhKind.code false) mkPhT ((s.map Sum.inl : List (Sum Char Nat)).length + 1) (s.map Sum.inl : List (Sum Char Nat)) 0).1.length + 1) (runPass (tryDelim1 eqcT hasPhT '`' PhKind.code false) mkPhT ((s.map Sum.inl : List (Sum Char Nat)).length + 1) (s.map Sum.inl : List (Sum Char Nat)) 0).1 (runPass (tryDelim1 eqcT hasPhT '`' PhKind.code false) mkPhT ((s.map Sum.inl : List (Sum Char Nat)).length + 1) (s.map Sum.inl : List (Sum Char Nat)) 0).2.2).2.2 hcl2
    (Nat.lt_succ_self _) (Nat.lt_succ_self _)
  have e4 := hs4 ((runPass (tryDelim2 eqcT hasPhT '*' PhKind.strong true) mkPhT ((runPass (tryLink eqcT) mkPhT ((runPass (tryDelim1 eqcT hasPhT '`' PhKind.code false) mkPhT ((s.map Sum.inl : List (Sum Char Nat)).length + 1) (s.map Sum.inl : List (Sum Char Nat)) 0).1.length + 1) (runPass (tryDelim1 eqcT hasPhT '`' PhKind.code false) mkPhT ((s.map Sum.inl : List (Sum Char Nat)).length + 1) (s.map Sum.inl : List (Sum Char Nat)) 0).1 (runPass (tryDelim1 eqcT hasPhT '`' PhKind.code false) mkPhT ((s.map Sum.inl : List (Sum Char Nat)).length + 1) (s.map Sum.inl : List (Sum Char Nat)) 0).2.2).1.length + 1) (runPass (tryLink eqcT) mkPhT ((runPass (tryDelim1 eqcT hasPhT '`' PhKind.code false) mkPhT ((s.map Sum.inl : List (Sum Char Nat)).length + 1) (s.map Sum.inl : List (Sum Char Nat)) 0).1.length + 1) (runPass (tryDelim1 eqcT hasPhT '`' PhKind.code false) mkPhT ((s.map Sum.inl : List (Sum Char Nat)).length + 1) (s.map Sum.inl : List (Sum Char Nat)) 0).1 (runPass (tryDelim1 eqcT hasPhT '`' PhKind.code false) mkPhT ((s.map Sum.inl : List (Sum Char Nat)).length + 1) (s.map Sum.inl : List (Sum Char Nat)) 0).2.2).1 (runPass (tryLink eqcT) mkPhT ((runPass (tryDelim1 eqcT hasPhT '`' PhKind.code false) mkPhT ((s.map Sum.inl : List (Sum Char Nat)).length + 1) (s.map Sum.inl : List (Sum Char Nat)) 0).1.length + 1) (runPass (tryDelim1 eqcT hasPhT '`' PhKind.code false) mkPhT ((s.map Sum.inl : List (Sum Char Nat)).length + 1) (s.map Sum.inl : List (Sum Char Nat)) 0).1 (runPass (tryDelim1 eqcT hasPhT '`' PhKind.code false) mkPhT ((s.map Sum.inl : List (Sum Char Nat)).length + 1) (s.map Sum.inl : List (Sum Char Nat)) 0).2.2).2.2).1.length + 1) (runPass (tryDelim2 eqcT hasPhT '*' PhKind.strong true) mkPhT ((runPass (tryLink eqcT) mkPhT ((runPass (tryDelim1 eqcT hasPhT '`' PhKind.code false) mkPhT ((s.map Sum.inl : List (Sum Char Nat)).length + 1) (s.map Sum.inl : List (Sum Char Nat)) 0).1.length + 1) (runPass (tryDelim1 eqcT hasPhT '`' PhKind.code false) mkPhT ((s.map Sum.inl : List (Sum Char Nat)).length + 1) (s.map Sum.inl : List (Sum Char Nat)) 0).1 (runPass (tryDelim1 eqcT hasPhT '`' PhKind.code false) mkPhT ((s.map Sum.inl : List (Sum Char Nat)).length + 1) (s.map Sum.inl : List (Sum Char Nat)) 0).2.2).1.length + 1) (runPass (tryLink eqcT) mkPhT ((runPass (tryDelim1 eqcT hasPhT '`' PhKind.code false) mkPhT ((s.map Sum.inl : List (Sum Char Nat)).length + 1) (s.map Sum.inl : List (Sum Char Nat)) 0).1.length + 1) (runPass (tryDelim1 eqcT hasPhT '`' PhKind.code false) mkPhT ((s.map Sum.inl : List (Sum Char Nat)).length + 1) (s.map Sum.inl : List (Sum Char Nat)) 0).1 (runPass (tryDelim1 eqcT hasPhT '`' PhKind.code false) mkPhT ((s.map Sum.inl : List (Sum Char Nat)).length + 1) (s.map Sum.inl : List (Sum Char Nat)) 0).2.2).1 (runPass (tryLink eqcT) mkPhT ((runPass (tryDelim1 eqcT hasPhT '`' PhKind.code false) mkPhT ((s.map Sum.inl : List (Sum Char Nat)).length + 1) (s.map Sum.inl : List (Sum Char Nat)) 0).1.length + 1) (runPass (tryDelim1 eqcT hasPhT '`' PhKind.code false) mkPhT ((s.map Sum.inl : List (Sum Char Nat)).length + 1) (s.map Sum.inl : List (Sum Char Nat)) 0).1 (runPass (tryDelim1 eqcT hasPhT '`' PhKind.code false) mkPhT ((s.map Sum.inl : List (Sum Char Nat)).length + 1) (s.map Sum.inl : List (Sum Char Nat)) 0).2.2).2.2).1 ((renderTok (runPass (tryDelim2 eqcT hasPhT '*' PhKind.strong true) mkPhT ((runPass (tryLink eqcT) mkPhT ((runPass (tryDelim1 eqcT hasPhT '`' PhKind.code false) mkPhT ((s.map Sum.inl : List (Sum Char Nat)).length + 1) (s.map Sum.inl : List (Sum Char Nat)) 0).1.length + 1) (runPass (tryDelim1 eqcT hasPhT '`' PhKind.code false) mkPhT ((s.map Sum.inl : List (Sum Char Nat)).length + 1) (s.map Sum.inl : List (Sum Char Nat)) 0).1 (runPass (tryDelim1 eqcT hasPhT '`' PhKind.code false) mkPhT ((s.map Sum.inl : List (Sum Char Nat)).length + 1) (s.map Sum.inl : List (Sum Char Nat)) 0).2.2).1.length + 1) (runPass (tryLink eqcT) mkPhT ((runPass (tryDelim1 eqcT hasPhT '`' PhKind.code false) mkPhT ((s.map Sum.inl : List (Sum Char Nat)).length + 1) (s.map Sum.inl : List (Sum Char Nat)) 0).1.length + 1) (runPass (tryDelim1 eqcT hasPhT '`' PhKind.code false) mkPhT ((s.map Sum.inl : List (Sum Char Nat)).length + 1) (s.map Sum.inl : List (Sum Char Nat)) 0).1 (runPass (tryDelim1 eqcT hasPhT '`' PhKind.code false) mkPhT ((s.map Sum.inl : List (Sum Char Nat)).length + 1) (s.map Sum.inl : List (Sum Char Nat)) 0).2.2).1 (runPass (tryLink eqcT) mkPhT ((runPass (tryDelim1 eqcT hasPhT '`' PhKind.code false) mkPhT ((s.map Sum.inl : List (Sum Char Nat)).length + 1) (s.map Sum.inl : List (Sum Char Nat)) 0).1.length + 1) (runPass (tryDelim1 eqcT hasPhT '`' PhKind.code false) mkPhT ((s.map Sum.inl : List (Sum Char Nat)).length + 1) (s.map Sum.inl : List (Sum Char Nat)) 0).1 (runPass (tryDelim1 eqcT hasPhT '`' PhKind.code false) mkPhT ((s.map Sum.inl : List (Sum Char Nat)).length + 1) (s.map Sum.inl : List (Sum Char Nat)) 0).2.2).2.2).1).length + 1) (runPass (tryDelim2 eqcT hasPhT '*' PhKind.strong true) mkPhT ((runPass (tryLink eqcT) mkPhT ((runPass (tryDelim1 eqcT hasPhT '`' PhKind.code false) mkPhT ((s.map Sum.inl : List (Sum Char Nat)).length + 1) (s.map Sum.inl : List (Sum Char Nat)) 0).1.length + 1) (runPass (tryDelim1 eqcT hasPhT '`' PhKind.code false) mkPhT ((s.map Sum.inl : List (Sum Char Nat)).length + 1) (s.map Sum.inl : List (Sum Char Nat)) 0).1 (runPass (tryDelim1 eqcT hasPhT '`' PhKind.code false) mkPhT ((s.map Sum.inl : List (Sum Char Nat)).length + 1) (s.map Sum.inl : List (Sum Char Nat)) 0).2.2).1.length + 1) (runPass (tryLink eqcT) mkPhT ((runPass (tryDelim1 eqcT hasPhT '`' PhKind.code false) mkPhT ((s.map Sum.inl : List (Sum Char Nat)).length + 1) (s.map Sum.inl : List (Sum Char Nat)) 0).1.length + 1) (runPass (tryDelim1 eqcT hasPhT '`' PhKind.code false) mkPhT ((s.map Sum.inl : List (Sum Char Nat)).length + 1) (s.map Sum.inl : List (Sum Char Nat)) 0).1 (runPass (tryDelim1 eqcT hasPhT '`' PhKind.code false) mkPhT ((s.map Sum.inl : List (Sum Char Nat)).length + 1) (s.map Sum.inl : List (Sum Char Nat)) 0).2.2).1 (runPass (tryLink eqcT) mkPhT ((runPass (tryDelim1 eqcT hasPhT '`' PhKind.code false) mkPhT ((s.map Sum.inl : List (Sum Char Nat)).length + 1) (s.map Sum.inl : List (Sum Char Nat)) 0).1.length + 1) (runPass (tryDelim1 eqcT hasPhT '`' PhKind.code false) mkPhT ((s.map Sum.inl : List (Sum Char Nat)).length + 1) (s.map Sum.inl : List (Sum Char Nat)) 0).1 (runPass (tryDelim1 eqcT hasPhT '`' PhKind.code false) mkPhT ((s.map Sum.inl : List (Sum Char Nat)).length + 1) (s.map Sum.inl : List (Sum Char Nat)) 0).2.2).2.2).2.2 hcl3
    (Nat.lt_succ_self _) (Nat.lt_succ_self _)
  have e5 := hs5 ((runPass (tryDelim2 eqcT hasPhT '_' PhKind.strong true) mkPhT ((runPass (tryDelim2 eqcT hasPhT '*' PhKind.strong true) mkPhT ((runPass (tryLink eqcT) mkPhT ((runPass (tryDelim1 eqcT hasPhT '`' PhKind.code false) mkPhT ((s.map Sum.inl : List (Sum Char Nat)).length + 1) (s.map Sum.inl : List (Sum Char Nat)) 0).1.length + 1) (runPass (tryDelim1 eqcT hasPhT '`' PhKind.code false) mkPhT ((s.map Sum.inl : List (Sum Char Nat)).length + 1) (s.map Sum.inl : List (Sum Char Nat)) 0).1 (runPass (tryDelim1 eqcT hasPhT '`' PhKind.code false) mkPhT ((s.map Sum.inl : List (Sum Char Nat)).length + 1) (s.map Sum.inl : List (Sum Char Nat)) 0).2.2).1.length + 1) (runPass (tryLink eqcT) mkPhT ((runPass (tryDelim1 eqcT hasPhT '`' PhKind.code false) mkPhT ((s.map Sum.inl : List (Sum Char Nat)).length + 1) (s.map Sum.inl : List (Sum Char Nat)) 0).1.length + 1) (runPass (tryDelim1 eqcT hasPhT '`' PhKind.code false) mkPhT ((s.map Sum.inl : List (Sum Char Nat)).length + 1) (s.map Sum.inl : List (Sum Char Nat)) 0).1 (runPass (tryDelim1 eqcT hasPhT '`' PhKind.code false) mkPhT ((s.map Sum.inl : List (Sum Char Nat)).length + 1) (s.map Sum.inl : List (Sum Char Nat)) 0).2.2).1 (runPass (tryLink eqcT) mkPhT ((runPass (tryDelim1 eqcT hasPhT '`' PhKind.code false) mkPhT ((s.map Sum.inl : List (Sum Char Nat)).length + 1) (s.map Sum.inl : List (Sum Char Nat)) 0).1.length + 1) (runPass (tryDelim1 eqcT hasPhT '`' PhKind.code false) mkPhT ((s.map Sum.inl : List (Sum Char Nat)).length + 1) (s.map Sum.inl : List (Sum Char Nat)) 0).1 (runPass (tryDelim1 eqcT hasPhT '`' PhKind.code false) mkPhT ((s.map Sum.inl : List (Sum Char Nat)).length + 1) (s.map Sum.inl : List (Sum Char Nat)) 0).2.2).2.2).1.length + 1) (runPass (tryDelim2 eqcT hasPhT '*' PhKind.strong true) mkPhT ((runPass (tryLink eqcT) mkPhT ((runPass (tryDelim1 eqcT hasPhT '`' PhKind.code false) mkPhT ((s.map Sum.inl : List (Sum Char Nat)).length + 1) (s.map Sum.inl : List (Sum Char Nat)) 0).1.length + 1) (runPass (tryDelim1 eqcT hasPhT '`' PhKind.code false) mkPhT ((s.map Sum.inl : List (Sum Char Nat)).length + 1) (s.map Sum.inl : List (Sum Char Nat)) 0).1 (runPass (tryDelim1 eqcT hasPhT '`' PhKind.code false) mkPhT ((s.map Sum.inl : List (Sum Char Nat)).length + 1) (s.map Sum.inl : List (Sum Char Nat)) 0).2.2).1.length + 1) (runPass (tryLink eqcT) mkPhT ((runPass (tryDelim1 eqcT hasPhT '`' PhKind.code false) mkPhT ((s.map Sum.inl : List (Sum Char Nat)).length + 1) (s.map Sum.inl : List (Sum Char Nat)) 0).1.length + 1) (runPass (tryDelim1 eqcT hasPhT '`' PhKind.code false) mkPhT ((s.map Sum.inl : List (Sum Char Nat)).length + 1) (s.map Sum.inl : List (Sum Char Nat)) 0).1 (runPass (tryDelim1 eqcT hasPhT '`' PhKind.code false) mkPhT ((s.map Sum.inl : List (Sum Char Nat)).length + 1) (s.map Sum.inl : List (Sum Char Nat)) 0).2.2).1 (runPass (tryLink eqcT) mkPhT ((runPass (tryDelim1 eqcT hasPhT '`' PhKind.code false) mkPhT ((s.map Sum.inl : List (Sum Char Nat)).length + 1) (s.map Sum.inl : List (Sum Char Nat)) 0).1.length + 1) (runPass (tryDelim1 eqcT hasPhT '`' PhKind.code false) mkPhT ((s.map Sum.inl : List (Sum Char Nat)).length + 1) (s.map Sum.inl : List (Sum Char Nat)) 0).1 (runPass (tryDelim1 eqcT hasPhT '`' PhKind.code false) mkPhT ((s.map Sum.inl : List (Sum Char Nat)).length + 1) (s.map Sum.inl : List (Sum Char Nat)) 0).2.2).2.2).1 (runPass (tryDelim2 eqcT hasPhT '*' PhKind.strong true) mkPhT ((runPass (tryLink eqcT) mkPhT ((runPass (tryDelim1 eqcT hasPhT '`' PhKind.code false) mkPhT ((s.map Sum.inl : List (Sum Char Nat)).length + 1) (s.map Sum.inl : List (Sum Char Nat)) 0).1.length + 1) (runPass (tryDelim1 eqcT hasPhT '`' PhKind.code false) mkPhT ((s.map Sum.inl : List (Sum Char Nat)).length + 1) (s.map Sum.inl : List (Sum Char Nat)) 0).1 (runPass (tryDelim1 eqcT hasPhT '`' PhKind.code false) mkPhT ((s.map Sum.inl : List (Sum Char Nat)).length + 1) (s.map Sum.inl : List (Sum Char Nat)) 0).2.2).1.length + 1) (runPass (tryLink eqcT) mkPhT ((runPass (tryDelim1 eqcT hasPhT '`' PhKind.code false) mkPhT ((s.map Sum.inl : List (Sum Char Nat)).length + 1) (s.map Sum.inl : List (Sum Char Nat)) 0).1.length + 1) (runPass (tryDelim1 eqcT hasPhT '`' PhKind.code false) mkPhT ((s.map Sum.inl : List (Sum Char Nat)).length + 1) (s.map Sum.inl : List (Sum Char Nat)) 0).1 (runPass (tryDelim1 eqcT hasPhT '`' PhKind.code false) mkPhT ((s.map Sum.inl : List (Sum Char Nat)).length + 1) (s.map Sum.inl : List (Sum Char Nat)) 0).2.2).1 (runPass (tryLink eqcT) mkPhT ((runPass (tryDelim1 eqcT hasPhT '`' PhKind.code false) mkPhT ((s.map Sum.inl : List (Sum Char Nat)).length + 1) (s.map Sum.inl : List (Sum Char Nat)) 0).1.length + 1) (runPass (tryDelim1 eqcT hasPhT '`' PhKind.code false) mkPhT ((s.map Sum.inl : List (Sum Char Nat)).length + 1) (s.map Sum.inl : List (Sum Char Nat)) 0).1 (runPass (tryDelim1 eqcT hasPhT '`' PhKind.code false) mkPhT ((s.map Sum.inl : List (Sum Char Nat)).length + 1) (s.map Sum.inl : List (Sum Char Nat)) 0).2.2).2.2).2.2).1.length + 1) (runPass (tryDelim2 eqcT hasPhT '_' PhKind.strong true) mkPhT ((runPass (tryDelim2 eqcT hasPhT '*' PhKind.strong true) mkPhT ((runPass (tryLink eqcT) mkPhT ((runPass (tryDelim1 eqcT hasPhT '`' PhKind.code false) mkPhT ((s.map Sum.inl : List (Sum Char Nat)).length + 1) (s.map Sum.inl : List (Sum Char Nat)) 0).1.length + 1) (runPass (tryDelim1 eqcT hasPhT '`' PhKind.code false) mkPhT ((s.map Sum.inl : List (Sum Char Nat)).length + 1) (s.map Sum.inl : List (Sum Char Nat)) 0).1 (runPass (tryDelim1 eqcT hasPhT '`' PhKind.code false) mkPhT ((s.map Sum.inl : List (Sum Char Nat)).length + 1) (s.map Sum.inl : List (Sum Char Nat)) 0).2.2).1.length + 1) (runPass (tryLink eqcT) mkPhT ((runPass (tryDelim1 eqcT hasPhT '`' PhKind.code false) mkPhT ((s.map Sum.inl : List (Sum Char Nat)).length + 1) (s.map Sum.inl : List (Sum Char Nat)) 0).1.length + 1) (runPass (tryDelim1 eqcT hasPhT '`' PhKind.code false) mkPhT ((s.map Sum.inl : List (Sum Char Nat)).length + 1) (s.map Sum.inl : List (Sum Char Nat)) 0).1 (runPass (tryDelim1 eqcT hasPhT '`' PhKind.code false) mkPhT ((s.map Sum.inl : List (Sum Char Nat)).length + 1) (s.map Sum.inl : List (Sum Char Nat)) 0).2.2).1 (runPass (tryLink eqcT) mkPhT ((runPass (tryDelim1 eqcT hasPhT '`' PhKind.code false) mkPhT ((s.map Sum.inl : List (Sum Char Nat)).length + 1) (s.map Sum.inl : List (Sum Char Nat)) 0).1.length + 1) (runPass (tryDelim1 eqcT hasPhT '`' PhKind.code false) mkPhT ((s.map Sum.inl : List (Sum Char Nat)).length + 1) (s.map Sum.inl : List (Sum Char Nat)) 0).1 (runPass (tryDelim1 eqcT hasPhT '`' PhKind.code false) mkPhT ((s.map Sum.inl : List (Sum Char Nat)).length + 1) (s.map Sum.inl : List (Sum Char Nat)) 0).2.2).2.2).1.length + 1) (runPass (tryDelim2 eqcT hasPhT '*' PhKind.strong true) mkPhT ((runPass (tryLink eqcT) mkPhT ((runPass (tryDelim1 eqcT hasPhT '`' PhKind.code false) mkPhT ((s.map Sum.inl : List (Sum Char Nat)).length + 1) (s.map Sum.inl : List (Sum Char Nat)) 0).1.length + 1) (runPass (tryDelim1 eqcT hasPhT '`' PhKind.code false) mkPhT ((s.map Sum.inl : List (Sum Char Nat)).length + 1) (s.map Sum.inl : List (Sum Char Nat)) 0).1 (runPass (tryDelim1 eqcT hasPhT '`' PhKind.code false) mkPhT ((s.map Sum.inl : List (Sum Char Nat)).length + 1) (s.map Sum.inl : List (Sum Char Nat)) 0).2.2).1.length + 1) (runPass (tryLink eqcT) mkPhT ((runPass (tryDelim1 eqcT hasPhT '`' PhKind.code false) mkPhT ((s.map Sum.inl : List (Sum Char Nat)).length + 1) (s.map Sum.inl : List (Sum Char Nat)) 0).1.length + 1) (runPass (tryDelim1 eqcT hasPhT '`' PhKind.code false) mkPhT ((s.map Sum.inl : List (Sum Char Nat)).length + 1) (s.map Sum.inl : List (Sum Char Nat)) 0).1 (runPass (tryDelim1 eqcT hasPhT '`' PhKind.code false) mkPhT ((s.map Sum.inl : List (Sum Char Nat)).length + 1) (s.map Sum.inl : List (Sum Char Nat)) 0).2.2).1 (runPass (tryLink eqcT) mkPhT ((runPass (tryDelim1 eqcT hasPhT '`' PhKind.code false) mkPhT ((s.map Sum.inl : List (Sum Char Nat)).length + 1) (s.map Sum.inl : List (Sum Char Nat)) 0).1.length + 1) (runPass (tryDelim1 eqcT hasPhT '`' PhKind.code false) mkPhT ((s.map Sum.inl : List (Sum Char Nat)).length + 1) (s.map Sum.inl : List (Sum Char Nat)) 0).1 (runPass (tryDelim1 eqcT hasPhT '`' PhKind.code false) mkPhT ((s.map Sum.inl : List (Sum Char Nat)).length + 1) (s.map Sum.inl : List (Sum Char Nat)) 0).2.2).2.2).1 (runPass (tryDelim2 eqcT hasPhT '*' PhKind.strong true) mkPhT ((runPass (tryLink eqcT) mkPhT ((runPass (tryDelim1 eqcT hasPhT '`' PhKind.code false) mkPhT ((s.map Sum.inl : List (Sum Char Nat)).length + 1) (s.map Sum.inl : List (Sum Char Nat)) 0).1.length + 1) (runPass (tryDelim1 eqcT hasPhT '`' PhKind.code false) mkPhT ((s.map Sum.inl : List (Sum Char Nat)).length + 1) (s.map Sum.inl : List (Sum Char Nat)) 0).1 (runPass (tryDelim1 eqcT hasPhT '`' PhKind.code false) mkPhT ((s.map Sum.inl : List (Sum Char Nat)).length + 1) (s.map Sum.inl : List (Sum Char Nat)) 0).2.2).1.length + 1) (runPass (tryLink eqcT) mkPhT ((runPass (tryDelim1 eqcT hasPhT '`' PhKind.code false) mkPhT ((s.map Sum.inl : List (Sum Char Nat)).length + 1) (s.map Sum.inl : List (Sum Char Nat)) 0).1.length + 1) (runPass (tryDelim1 eqcT hasPhT '`' PhKind.code false) mkPhT ((s.map Sum.inl : List (Sum Char Nat)).length + 1) (s.map Sum.inl : List (Sum Char Nat)) 0).1 (runPass (tryDelim1 eqcT hasPhT '`' PhKind.code false) mkPhT ((s.map Sum.inl : List (Sum Char Nat)).length + 1) (s.map Sum.inl : List (Sum Char Nat)) 0).2.2).1 (runPass (tryLink eqcT) mkPhT ((runPass (tryDelim1 eqcT hasPhT '`' PhKind.code false) mkPhT ((s.map Sum.inl : List (Sum Char Nat)).length + 1) (s.map Sum.inl : List (Sum Char Nat)) 0).1.length + 1) (runPass (tryDelim1 eqcT hasPhT '`' PhKind.code false) mkPhT ((s.map Sum.inl : List (Sum Char Nat)).length + 1) (s.map Sum.inl : List (Sum Char Nat)) 0).1 (runPass (tryDelim1 eqcT hasPhT '`' PhKind.code false) mkPhT ((s.map Sum.inl : List (Sum Char Nat)).length + 1) (s.map Sum.inl : List (Sum Char Nat)) 0).2.2).2.2).2.2).1 ((renderTok (runPass (tryDelim2 eqcT hasPhT '_' PhKind.strong true) mkPhT ((runPass (tryDelim2 eqcT hasPhT '*' PhKind.strong true) mkPhT ((runPass (tryLink eqcT) mkPhT ((runPass (tryDelim1 eqcT hasPhT '`' PhKind.code false) mkPhT ((s.map Sum.inl : List (Sum Char Nat)).length + 1) (s.map Sum.inl : List (Sum Char Nat)) 0).1.length + 1) (runPass (tryDelim1 eqcT hasPhT '`' PhKind.code false) mkPhT ((s.map Sum.inl : List (Sum Char Nat)).length + 1) (s.map Sum.inl : List (Sum Char Nat)) 0).1 (runPass (tryDelim1 eqcT hasPhT '`' PhKind.code false) mkPhT ((s.map Sum.inl : List (Sum Char Nat)).length + 1) (s.map Sum.inl : List (Sum Char Nat)) 0).2.2).1.length + 1) (runPass (tryLink eqcT) mkPhT ((runPass (tryDelim1 eqcT hasPhT '`' PhKind.code false) mkPhT ((s.map Sum.inl : List (Sum Char Nat)).length + 1) (s.map Sum.inl : List (Sum Char Nat)) 0).1.length + 1) (runPass (tryDelim1 eqcT hasPhT '`' PhKind.code false) mkPhT ((s.map Sum.inl : List (Sum Char Nat)).length + 1) (s.map Sum.inl : List (Sum Char Nat)) 0).1 (runPass (tryDelim1 eqcT hasPhT '`' PhKind.code false) mkPhT ((s.map Sum.inl : List (Sum Char Nat)).length + 1) (s.map Sum.inl : List (Sum Char Nat)) 0).2.2).1 (runPass (tryLink eqcT) mkPhT ((runPass (tryDelim1 eqcT hasPhT '`' PhKind.code false) mkPhT ((s.map Sum.inl : List (Sum Char Nat)).length + 1) (s.map Sum.inl : List (Sum Char Nat)) 0).1.length + 1) (runPass (tryDelim1 eqcT hasPhT '`' PhKind.code false) mkPhT ((s.map Sum.inl : List (Sum Char Nat)).length + 1) (s.map Sum.inl : List (Sum Char Nat)) 0).1 (runPass (tryDelim1 eqcT hasPhT '`' PhKind.code false) mkPhT ((s.map Sum.inl : List (Sum Char Nat)).length + 1) (s.map Sum.inl : List (Sum Char Nat)) 0).2.2).2.2).1.length + 1) (runPass (tryDelim2 eqcT hasPhT '*' PhKind.strong true) mkPhT ((runPass (tryLink eqcT) mkPhT ((runPass (tryDelim1 eqcT hasPhT '`' PhKind.code false) mkPhT ((s.map Sum.inl : List (Sum Char Nat)).length + 1) (s.map Sum.inl : List (Sum Char Nat)) 0).1.length + 1) (runPass (tryDelim1 eqcT hasPhT '`' PhKind.code false) mkPhT ((s.map Sum.inl : List (Sum Char Nat)).length + 1) (s.map Sum.inl : List (Sum Char Nat)) 0).1 (runPass (tryDelim1 eqcT hasPhT '`' PhKind.code false) mkPhT ((s.map Sum.inl : List (Sum Char Nat)).length + 1) (s.map Sum.inl : List (Sum Char Nat)) 0).2.2).1.length + 1) (runPass (tryLink eqcT) mkPhT ((runPass (tryDelim1 eqcT hasPhT '`' PhKind.code false) mkPhT ((s.map Sum.inl : List (Sum Char Nat)).length + 1) (s.map Sum.inl : List (Sum Char Nat)) 0).1.length + 1) (runPass (tryDelim1 eqcT hasPhT '`' PhKind.code false) mkPhT ((s.map Sum.inl : List (Sum Char Nat)).length + 1) (s.map Sum.inl : List (Sum Char Nat)) 0).1 (runPass (tryDelim1 eqcT hasPhT '`' PhKind.code false) mkPhT ((s.map Sum.inl : List (Sum Char Nat)).length + 1) (s.map Sum.inl : List (Sum Char Nat)) 0).2.2).1 (runPass (tryLink eqcT) mkPhT ((runPass (tryDelim1 eqcT hasPhT '`' PhKind.code false) mkPhT ((s.map Sum.inl : List (Sum Char Nat)).length + 1) (s.map Sum.inl : List (Sum Char Nat)) 0).1.length + 1) (runPass (tryDelim1 eqcT hasPhT '`' PhKind.code false) mkPhT ((s.map Sum.inl : List (Sum Char Nat)).length + 1) (s.map Sum.inl : List (Sum Char Nat)) 0).1 (runPass (tryDelim1 eqcT hasPhT '`' PhKind.code false) mkPhT ((s.map Sum.inl : List (Sum Char Nat)).length + 1) (s.map Sum.inl : List (Sum Char Nat)) 0).2.2).2.2).1 (runPass (tryDelim2 eqcT hasPhT '*' PhKind.strong true) mkPhT ((runPass (tryLink eqcT) mkPhT ((runPass (tryDelim1 eqcT hasPhT '`' PhKind.code false) mkPhT ((s.map Sum.inl : List (Sum Char Nat)).length + 1) (s.map Sum.inl : List (Sum Char Nat)) 0).1.length + 1) (runPass (tryDelim1 eqcT hasPhT '`' PhKind.code false) mkPhT ((s.map Sum.inl : List (Sum Char Nat)).length + 1) (s.map Sum.inl : List (Sum Char Nat)) 0).1 (runPass (tryDelim1 eqcT hasPhT '`' PhKind.code false) mkPhT ((s.map Sum.inl : List (Sum Char Nat)).length + 1) (s.map Sum.inl : List (Sum Char Nat)) 0).2.2).1.length + 1) (runPass (tryLink eqcT) mkPhT ((runPass (tryDelim1 eqcT hasPhT '`' PhKind.code false) mkPhT ((s.map Sum.inl : List (Sum Char Nat)).length + 1) (s.map Sum.inl : List (Sum Char Nat)) 0).1.length + 1) (runPass (tryDelim1 eqcT hasPhT '`' PhKind.code false) mkPhT ((s.map Sum.inl : List (Sum Char Nat)).length + 1) (s.map Sum.inl : List (Sum Char Nat)) 0).1 (runPass (tryDelim1 eqcT hasPhT '`' PhKind.code false) mkPhT ((s.map Sum.inl : List (Sum Char Nat)).length + 1) (s.map Sum.inl : List (Sum Char Nat)) 0).2.2).1 (runPass (tryLink eqcT) mkPhT ((runPass (tryDelim1 eqcT hasPhT '`' PhKind.code false) mkPhT ((s.map Sum.inl : List (Sum Char Nat)).length + 1) (s.map Sum.inl : List (Sum Char Nat)) 0).1.length + 1) (runPass (tryDelim1 eqcT hasPhT '`' PhKind.code false) mkPhT ((s.map Sum.inl : List (Sum Char Nat)).length + 1) (s.map Sum.inl : List (Sum Char Nat)) 0).1 (runPass (tryDelim1 eqcT hasPhT '`' PhKind.code false) mkPhT ((s.map Sum.inl : List (Sum Char Nat)).length + 1) (s.map Sum.inl : List (Sum Char Nat)) 0).2.2).2.2).2.2).1).length + 1) (runPass (tryDelim2 eqcT hasPhT '_' PhKind.strong true) mkPhT ((runPass (tryDelim2 eqcT hasPhT '*' PhKind.strong true) mkPhT ((runPass (tryLink eqcT) mkPhT ((runPass (tryDelim1 eqcT hasPhT '`' PhKind.code false) mkPhT ((s.map Sum.inl : List (Sum Char Nat)).length + 1) (s.map Sum.inl : List (Sum Char Nat)) 0).1.length + 1) (runPass (tryDelim1 eqcT hasPhT '`' PhKind.code false) mkPhT ((s.map Sum.inl : List (Sum Char Nat)).length + 1) (s.map Sum.inl : List (Sum Char Nat)) 0).1 (runPass (tryDelim1 eqcT hasPhT '`' PhKind.code false) mkPhT ((s.map Sum.inl : List (Sum Char Nat)).length + 1) (s.map Sum.inl : List (Sum Char Nat)) 0).2.2).1.length + 1) (runPass (tryLink eqcT) mkPhT ((runPass (tryDelim1 eqcT hasPhT '`' PhKind.code false) mkPhT ((s.map Sum.inl : List (Sum Char Nat)).length + 1) (s.map Sum.inl : List (Sum Char Nat)) 0).1.length + 1) (runPass (tryDelim1 eqcT hasPhT '`' PhKind.code false) mkPhT ((s.map Sum.inl : List (Sum Char Nat)).length + 1) (s.map Sum.inl : List (Sum Char Nat)) 0).1 (runPass (tryDelim1 eqcT hasPhT '`' PhKind.code false) mkPhT ((s.map Sum.inl : List (Sum Char Nat)).length + 1) (s.map Sum.inl : List (Sum Char Nat)) 0).2.2).1 (runPass (tryLink eqcT) mkPhT ((runPass (tryDelim1 eqcT hasPhT '`' PhKind.code false) mkPhT ((s.map Sum.inl : List (Sum Char Nat)).length + 1) (s.map Sum.inl : List (Sum Char Nat)) 0).1.length + 1) (runPass (tryDelim1 eqcT hasPhT '`' PhKind.code false) mkPhT ((s.map Sum.inl : List (Sum Char Nat)).length + 1) (s.map Sum.inl : List (Sum Char Nat)) 0).1 (runPass (tryDelim1 eqcT hasPhT '`' PhKind.code false) mkPhT ((s.map Sum.inl : List (Sum Char Nat)).length + 1) (s.map Sum.inl : List (Sum Char Nat)) 0).2.2).2.2).1.length + 1) (runPass (tryDelim2 eqcT hasPhT '*' PhKind.strong true) mkPhT ((runPass (tryLink eqcT) mkPhT ((runPass (tryDelim1 eqcT hasPhT '`' PhKind.code false) mkPhT ((s.map Sum.inl : List (Sum Char Nat)).length + 1) (s.map Sum.inl : List (Sum Char Nat)) 0).1.length + 1) (runPass (tryDelim1 eqcT hasPhT '`' PhKind.code false) mkPhT ((s.map Sum.inl : List (Sum Char Nat)).length + 1) (s.map Sum.inl : List (Sum Char Nat)) 0).1 (runPass (tryDelim1 eqcT hasPhT '`' PhKind.code false) mkPhT ((s.map Sum.inl : List (Sum Char Nat)).length + 1) (s.map Sum.inl : List (Sum Char Nat)) 0).2.2).1.length + 1) (runPass (tryLink eqcT) mkPhT ((runPass (tryDelim1 eqcT hasPhT '`' PhKind.code false) mkPhT ((s.map Sum.inl : List (Sum Char Nat)).length + 1) (s.map Sum.inl : List (Sum Char Nat)) 0).1.length + 1) (runPass (tryDelim1 eqcT hasPhT '`' PhKind.code false) mkPhT ((s.map Sum.inl : List (Sum Char Nat)).length + 1) (s.map Sum.inl : List (Sum Char Nat)) 0).1 (runPass (tryDelim1 eqcT hasPhT '`' PhKind.code false) mkPhT ((s.map Sum.inl : List (Sum Char Nat)).length + 1) (s.map Sum.inl : List (Sum Char Nat)) 0).2.2).1 (runPass (tryLink eqcT) mkPhT ((runPass (tryDelim1 eqcT hasPhT '`' PhKind.code false) mkPhT ((s.map Sum.inl : List (Sum Char Nat)).length + 1) (s.map Sum.inl : List (Sum Char Nat)) 0).1.length + 1) (runPass (tryDelim1 eqcT hasPhT '`' PhKind.code false) mkPhT ((s.map Sum.inl : List (Sum Char Nat)).length + 1) (s.map Sum.inl : List (Sum Char Nat)) 0).1 (runPass (tryDelim1 eqcT hasPhT '`' PhKind.code false) mkPhT ((s.map Sum.inl : List (Sum Char Nat)).length + 1) (s.map Sum.inl : List (Sum Char Nat)) 0).2.2).2.2).1 (runPass (tryDelim2 eqcT hasPhT '*' PhKind.strong true) mkPhT ((runPass (tryLink eqcT) mkPhT ((runPass (tryDelim1 eqcT hasPhT '`' PhKind.code false) mkPhT ((s.map Sum.inl : List (Sum Char Nat)).length + 1) (s.map Sum.inl : List (Sum Char Nat)) 0).1.length + 1) (runPass (tryDelim1 eqcT hasPhT '`' PhKind.code false) mkPhT ((s.map Sum.inl : List (Sum Char Nat)).length + 1) (s.map Sum.inl : List (Sum Char Nat)) 0).1 (runPass (tryDelim1 eqcT hasPhT '`' PhKind.code false) mkPhT ((s.map Sum.inl : List (Sum Char Nat)).length + 1) (s.map Sum.inl : List (Sum Char Nat)) 0).2.2).1.length + 1) (runPass (tryLink eqcT) mkPhT ((runPass (tryDelim1 eqcT hasPhT '`' PhKind.code false) mkPhT ((s.map Sum.inl : List (Sum Char Nat)).length + 1) (s.map Sum.inl : List (Sum Char Nat)) 0).1.length + 1) (runPass (tryDelim1 eqcT hasPhT '`' PhKind.code false) mkPhT ((s.map Sum.inl : List (Sum Char Nat)).length + 1) (s.map Sum.inl : List (Sum Char Nat)) 0).1 (runPass (tryDelim1 eqcT hasPhT '`' PhKind.code false) mkPhT ((s.map Sum.inl : List (Sum Char Nat)).length + 1) (s.map Sum.inl : List (Sum Char Nat)) 0).2.2).1 (runPass (tryLink eqcT) mkPhT ((runPass (tryDelim1 eqcT hasPhT '`' PhKind.code false) mkPhT ((s.map Sum.inl : List (Sum Char Nat)).length + 1) (s.map Sum.inl : List (Sum Char Nat)) 0).1.length + 1) (runPass (tryDelim1 eqcT hasPhT '`' PhKind.code false) mkPhT ((s.map Sum.inl : List (Sum Char Nat)).length + 1) (s.map Sum.inl : List (Sum Char Nat)) 0).1 (runPass (tryDelim1 eqcT hasPhT '`' PhKind.code false) mkPhT ((s.map Sum.inl : List (Sum Char Nat)).length + 1) (s.map Sum.inl : List (Sum Char Nat)) 0).2.2).2.2).2.2).2.2 hcl4
    (Nat.lt_succ_self _) (Nat.lt_succ_self _)
  have e6 := hs6 ((runPass (tryDelim1 eqcT hasPhT '*' PhKind.em true) mkPhT ((runPass (tryDelim2 eqcT hasPhT '_' PhKind.strong true) mkPhT ((runPass (tryDelim2 eqcT hasPhT '*' PhKind.strong true) mkPhT ((runPass (tryLink eqcT) mkPhT ((runPass (tryDelim1 eqcT hasPhT '`' PhKind.code false) mkPhT ((s.map Sum.inl : List (Sum Char Nat)).length + 1) (s.map Sum.inl : List (Sum Char Nat)) 0).1.length + 1) (runPass (tryDelim1 eqcT hasPhT '`' PhKind.code false) mkPhT ((s.map Sum.inl : List (Sum Char Nat)).length + 1) (s.map Sum.inl : List (Sum Char Nat)) 0).1 (runPass (tryDelim1 eqcT hasPhT '`' PhKind.code false) mkPhT ((s.map Sum.inl : List (Sum Char Nat)).length + 1) (s.map Sum.inl : List (Sum Char Nat)) 0).2.2).1.length + 1) (runPass (tryLink eqcT) mkPhT ((runPass (tryDelim1 eqcT hasPhT '`' PhKind.code false) mkPhT ((s.map Sum.inl : List (Sum Char Nat)).length + 1) (s.map Sum.inl : List (Sum Char Nat)) 0).1.length + 1) (runPass (tryDelim1 eqcT hasPhT '`' PhKind.code false) mkPhT ((s.map Sum.inl : List (Sum Char Nat)).length + 1) (s.map Sum.inl : List (Sum Char Nat)) 0).1 (runPass (tryDelim1 eqcT hasPhT '`' PhKind.code false) mkPhT ((s.map Sum.inl : List (Sum Char Nat)).length + 1) (s.map Sum.inl : List (Sum Char Nat)) 0).2.2).1 (runPass (tryLink eqcT) mkPhT ((runPass (tryDelim1 eqcT hasPhT '`' PhKind.code false) mkPhT ((s.map Sum.inl : List (Sum Char Nat)).length + 1) (s.map Sum.inl : List (Sum Char Nat)) 0).1.length + 1) (runPass (tryDelim1 eqcT hasPhT '`' PhKind.code false) mkPhT ((s.map Sum.inl : List (Sum Char Nat)).length + 1) (s.map Sum.inl : List (Sum Char Nat)) 0).1 (runPass (tryDelim1 eqcT hasPhT '`' PhKind.code false) mkPhT ((s.map Sum.inl : List (Sum Char Nat)).length + 1) (s.map Sum.inl : List (Sum Char Nat)) 0).2.2).2.2).1.length + 1) (runPass (tryDelim2 eqcT hasPhT '*' PhKind.strong true) mkPhT ((runPass (tryLink eqcT) mkPhT ((runPass (tryDelim1 eqcT hasPhT '`' PhKind.code false) mkPhT ((s.map Sum.inl : List (Sum Char Nat)).length + 1) (s.map Sum.inl : List (Sum Char Nat)) 0).1.length + 1) (runPass (tryDelim1 eqcT hasPhT '`' PhKind.code false) mkPhT ((s.map Sum.inl : List (Sum Char Nat)).length + 1) (s.map Sum.inl : List (Sum Char Nat)) 0).1 (runPass (tryDelim1 eqcT hasPhT '`' PhKind.code false) mkPhT ((s.map Sum.inl : List (Sum Char Nat)).length + 1) (s.map Sum.inl : List (Sum Char Nat)) 0).2.2).1.length + 1) (runPass (tryLink eqcT) mkPhT ((runPass (tryDelim1 eqcT hasPhT '`' PhKind.code false) mkPhT ((s.map Sum.inl : List (Sum Char Nat)).length + 1) (s.map Sum.inl : List (Sum Char Nat)) 0).1.length + 1) (runPass (tryDelim1 eqcT hasPhT '`' PhKind.code false) mkPhT ((s.map Sum.inl : List (Sum Char Nat)).length + 1) (s.map Sum.inl : List (Sum Char Nat)) 0).1 (runPass (tryDelim1 eqcT hasPhT '`' PhKind.code false) mkPhT ((s.map Sum.inl : List (Sum Char Nat)).length + 1) (s.map Sum.inl : List (Sum Char Nat)) 0).2.2).1 (runPass (tryLink eqcT) mkPhT ((runPass (tryDelim1 eqcT hasPhT '`' PhKind.code false) mkPhT ((s.map Sum.inl : List (Sum Char Nat)).length + 1) (s.map Sum.inl : List (Sum Char Nat)) 0).1.length + 1) (runPass (tryDelim1 eqcT hasPhT '`' PhKind.code false) mkPhT ((s.map Sum.inl : List (Sum Char Nat)).length + 1) (s.map Sum.inl : List (Sum Char Nat)) 0).1 (runPass (tryDelim1 eqcT hasPhT '`' PhKind.code false) mkPhT ((s.map Sum.inl : List (Sum Char Nat)).length + 1) (s.map Sum.inl : List (Sum Char Nat)) 0).2.2).2.2).1 (runPass (tryDelim2 eqcT hasPhT '*' PhKind.strong true) mkPhT ((runPass (tryLink eqcT) mkPhT ((runPass (tryDelim1 eqcT hasPhT '`' PhKind.code false) mkPhT ((s.map Sum.inl : List (Sum Char Nat)).length + 1) (s.map Sum.inl : List (Sum Char Nat)) 0).1.length + 1) (runPass (tryDelim1 eqcT hasPhT '`' PhKind.code false) mkPhT ((s.map Sum.inl : List (Sum Char Nat)).length + 1) (s.map Sum.inl : List (Sum Char Nat)) 0).1 (runPass (tryDelim1 eqcT hasPhT '`' PhKind.code false) mkPhT ((s.map Sum.inl : List (Sum Char Nat)).length + 1) (s.map Sum.inl : List (Sum Char Nat)) 0).2.2).1.length + 1) (runPass (tryLink eqcT) mkPhT ((runPass (tryDelim1 eqcT hasPhT '`' PhKind.code false) mkPhT ((s.map Sum.inl : List (Sum Char Nat)).length + 1) (s.map Sum.inl : List (Sum Char Nat)) 0).1.length + 1) (runPass (tryDelim1 eqcT hasPhT '`' PhKind.code false) mkPhT ((s.map Sum.inl : List (Sum Char Nat)).length + 1) (s.map Sum.inl : List (Sum Char Nat)) 0).1 (runPass (tryDelim1 eqcT hasPhT '`' PhKind.code false) mkPhT ((s.map Sum.inl : List (Sum Char Nat)).length + 1) (s.map Sum.inl : List (Sum Char Nat)) 0).2.2).1 (runPass (tryLink eqcT) mkPhT ((runPass (tryDelim1 eqcT hasPhT '`' PhKind.code false) mkPhT ((s.map Sum.inl : List (Sum Char Nat)).length + 1) (s.map Sum.inl : List (Sum Char Nat)) 0).1.length + 1) (runPass (tryDelim1 eqcT hasPhT '`' PhKind.code false) mkPhT ((s.map Sum.inl : List (Sum Char Nat)).length + 1) (s.map Sum.inl : List (Sum Char Nat)) 0).1 (runPass (tryDelim1 eqcT hasPhT '`' PhKind.code false) mkPhT ((s.map Sum.inl : List (Sum Char Nat)).length + 1) (s.map Sum.inl : List (Sum Char Nat)) 0).2.2).2.2).2.2).1.length + 1) (runPass (tryDelim2 eqcT hasPhT '_' PhKind.strong true) mkPhT ((runPass (tryDelim2 eqcT hasPhT '*' PhKind.strong true) mkPhT ((runPass (tryLink eqcT) mkPhT ((runPass (tryDelim1 eqcT hasPhT '`' PhKind.code false) mkPhT ((s.map Sum.inl : List (Sum Char Nat)).length + 1) (s.map Sum.inl : List (Sum Char Nat)) 0).1.length + 1) (runPass (tryDelim1 eqcT hasPhT '`' PhKind.code false) mkPhT ((s.map Sum.inl : List (Sum Char Nat)).length + 1) (s.map Sum.inl : List (Sum Char Nat)) 0).1 (runPass (tryDelim1 eqcT hasPhT '`' PhKind.code false) mkPhT ((s.map Sum.inl : List (Sum Char Nat)).length + 1) (s.map Sum.inl : List (Sum Char Nat)) 0).2.2).1.length + 1) (runPass (tryLink eqcT) mkPhT ((runPass (tryDelim1 eqcT hasPhT '`' PhKind.code false) mkPhT ((s.map Sum.inl : List (Sum Char Nat)).length + 1) (s.map Sum.inl : List (Sum Char Nat)) 0).1.length + 1) (runPass (tryDelim1 eqcT hasPhT '`' PhKind.code false) mkPhT ((s.map Sum.inl : List (Sum Char Nat)).length + 1) (s.map Sum.inl : List (Sum Char Nat)) 0).1 (runPass (tryDelim1 eqcT hasPhT '`' PhKind.code false) mkPhT ((s.map Sum.inl : List (Sum Char Nat)).length + 1) (s.map Sum.inl : List (Sum Char Nat)) 0).2.2).1 (runPass (tryLink eqcT) mkPhT ((runPass (tryDelim1 eqcT hasPhT '`' PhKind.code false) mkPhT ((s.map Sum.inl : List (Sum Char Nat)).length + 1) (s.map Sum.inl : List (Sum Char Nat)) 0).1.length + 1) (runPass (tryDelim1 eqcT hasPhT '`' PhKind.code false) mkPhT ((s.map Sum.inl : List (Sum Char Nat)).length + 1) (s.map Sum.inl : List (Sum Char Nat)) 0).1 (runPass (tryDelim1 eqcT hasPhT '`' PhKind.code false) mkPhT ((s.map Sum.inl : List (Sum Char Nat)).length + 1) (s.map Sum.inl : List (Sum Char Nat)) 0).2.2).2.2).1.length + 1) (runPass (tryDelim2 eqcT hasPhT '*' PhKind.strong true) mkPhT ((runPass (tryLink eqcT) mkPhT ((runPass (tryDelim1 eqcT hasPhT '`' PhKind.code false) mkPhT ((s.map Sum.inl : List (Sum Char Nat)).length + 1) (s.map Sum.inl : List (Sum Char Nat)) 0).1.length + 1) (runPass (tryDelim1 eqcT hasPhT '`' PhKind.code false) mkPhT ((s.map Sum.inl : List (Sum Char Nat)).length + 1) (s.map Sum.inl : List (Sum Char Nat)) 0).1 (runPass (tryDelim1 eqcT hasPhT '`' PhKind.code false) mkPhT ((s.map Sum.inl : List (Sum Char Nat)).length + 1) (s.map Sum.inl : List (Sum Char Nat)) 0).2.2).1.length + 1) (runPass (tryLink eqcT) mkPhT ((runPass (tryDelim1 eqcT hasPhT '`' PhKind.code false) mkPhT ((s.map Sum.inl : List (Sum Char Nat)).length + 1) (s.map Sum.inl : List (Sum Char Nat)) 0).1.length + 1) (runPass (tryDelim1 eqcT hasPhT '`' PhKind.code false) mkPhT ((s.map Sum.inl : List (Sum Char Nat)).length + 1) (s.map Sum.inl : List (Sum Char Nat)) 0).1 (runPass (tryDelim1 eqcT hasPhT '`' PhKind.code false) mkPhT ((s.map Sum.inl : List (Sum Char Nat)).length + 1) (s.map Sum.inl : List (Sum Char Nat)) 0).2.2).1 (runPass (tryLink eqcT) mkPhT ((runPass (tryDelim1 eqcT hasPhT '`' PhKind.code false) mkPhT ((s.map Sum.inl : List (Sum Char Nat)).length + 1) (s.map Sum.inl : List (Sum Char Nat)) 0).1.length + 1) (runPass (tryDelim1 eqcT hasPhT '`' PhKind.code false) mkPhT ((s.map Sum.inl : List (Sum Char Nat)).length + 1) (s.map Sum.inl : List (Sum Char Nat)) 0).1 (runPass (tryDelim1 eqcT hasPhT '`' PhKind.code false) mkPhT ((s.map Sum.inl : List (Sum Char Nat)).length + 1) (s.map Sum.inl : List (Sum Char Nat)) 0).2.2).2.2).1 (runPass (tryDelim2 eqcT hasPhT '*' PhKind.strong true) mkPhT ((runPass (tryLink eqcT) mkPhT ((runPass (tryDelim1 eqcT hasPhT '`' PhKind.code false) mkPhT ((s.map Sum.inl : List (Sum Char Nat)).length + 1) (s.map Sum.inl : List (Sum Char Nat)) 0).1.length + 1) (runPass (tryDelim1 eqcT hasPhT '`' PhKind.code false) mkPhT ((s.map Sum.inl : List (Sum Char Nat)).length + 1) (s.map Sum.inl : List (Sum Char Nat)) 0).1 (runPass (tryDelim1 eqcT hasPhT '`' PhKind.code false) mkPhT ((s.map Sum.inl : List (Sum Char Nat)).length + 1) (s.map Sum.inl : List (Sum Char Nat)) 0).2.2).1.length + 1) (runPass (tryLink eqcT) mkPhT ((runPass (tryDelim1 eqcT hasPhT '`' PhKind.code false) mkPhT ((s.map Sum.inl : List (Sum Char Nat)).length + 1) (s.map Sum.inl : List (Sum Char Nat)) 0).1.length + 1) (runPass (tryDelim1 eqcT hasPhT '`' PhKind.code false) mkPhT ((s.map Sum.inl : List (Sum Char Nat)).length + 1) (s.map Sum.inl : List (Sum Char Nat)) 0).1 (runPass (tryDelim1 eqcT hasPhT '`' PhKind.code false) mkPhT ((s.map Sum.inl : List (Sum Char Nat)).length + 1) (s.map Sum.inl : List (Sum Char Nat)) 0).2.2).1 (runPass (tryLink eqcT) mkPhT ((runPass (tryDelim1 eqcT hasPhT '`' PhKind.code false) mkPhT ((s.map Sum.inl : List (Sum Char Nat)).length + 1) (s.map Sum.inl : List (Sum Char Nat)) 0).1.length + 1) (runPass (tryDelim1 eqcT hasPhT '`' PhKind.code false) mkPhT ((s.map Sum.inl : List (Sum Char Nat)).length + 1) (s.map Sum.inl : List (Sum Char Nat)) 0).1 (runPass (tryDelim1 eqcT hasPhT '`' PhKind.code false) mkPhT ((s.map Sum.inl : List (Sum Char Nat)).length + 1) (s.map Sum.inl : List (Sum Char Nat)) 0).2.2).2.2).2.2).1 (runPass (tryDelim2 eqcT hasPhT '_' PhKind.strong true) mkPhT ((runPass (tryDelim2 eqcT hasPhT '*' PhKind.strong true) mkPhT ((runPass (tryLink eqcT) mkPhT ((runPass (tryDelim1 eqcT hasPhT '`' PhKind.code false) mkPhT ((s.map Sum.inl : List (Sum Char Nat)).length + 1) (s.map Sum.inl : List (Sum Char Nat)) 0).1.length + 1) (runPass (tryDelim1 eqcT hasPhT '`' PhKind.code false) mkPhT ((s.map Sum.inl : List (Sum Char Nat)).length + 1) (s.map Sum.inl : List (Sum Char Nat)) 0).1 (runPass (tryDelim1 eqcT hasPhT '`' PhKind.code false) mkPhT ((s.map Sum.inl : List (Sum Char Nat)).length + 1) (s.map Sum.inl : List (Sum Char Nat)) 0).2.2).1.length + 1) (runPass (tryLink eqcT) mkPhT ((runPass (tryDelim1 eqcT hasPhT '`' PhKind.code false) mkPhT ((s.map Sum.inl : List (Sum Char Nat)).length + 1) (s.map Sum.inl : List (Sum Char Nat)) 0).1.length + 1) (runPass (tryDelim1 eqcT hasPhT '`' PhKind.code false) mkPhT ((s.map Sum.inl : List (Sum Char Nat)).length + 1) (s.map Sum.inl : List (Sum Char Nat)) 0).1 (runPass (tryDelim1 eqcT hasPhT '`' PhKind.code false) mkPhT ((s.map Sum.inl : List (Sum Char Nat)).length + 1) (s.map Sum.inl : List (Sum Char Nat)) 0).2.2).1 (runPass (tryLink eqcT) mkPhT ((runPass (tryDelim1 eqcT hasPhT '`' PhKind.code false) mkPhT ((s.map Sum.inl : List (Sum Char Nat)).length + 1) (s.map Sum.inl : List (Sum Char Nat)) 0).1.length + 1) (runPass (tryDelim1 eqcT hasPhT '`' PhKind.code false) mkPhT ((s.map Sum.inl : List (Sum Char Nat)).length + 1) (s.map Sum.inl : List (Sum Char Nat)) 0).1 (runPass (tryDelim1 eqcT hasPhT '`' PhKind.code false) mkPhT ((s.map Sum.inl : List (Sum Char Nat)).length + 1) (s.map Sum.inl : List (Sum Char Nat)) 0).2.2).2.2).1.length + 1) (runPass (tryDelim2 eqcT hasPhT '*' PhKind.strong true) mkPhT ((runPass (tryLink eqcT) mkPhT ((runPass (tryDelim1 eqcT hasPhT '`' PhKind.code false) mkPhT ((s.map Sum.inl : List (Sum Char Nat)).length + 1) (s.map Sum.inl : List (Sum Char Nat)) 0).1.length + 1) (runPass (tryDelim1 eqcT hasPhT '`' PhKind.code false) mkPhT ((s.map Sum.inl : List (Sum Char Nat)).length + 1) (s.map Sum.inl : List (Sum Char Nat)) 0).1 (runPass (tryDelim1 eqcT hasPhT '`' PhKind.code false) mkPhT ((s.map Sum.inl : List (Sum Char Nat)).length + 1) (s.map Sum.inl : List (Sum Char Nat)) 0).2.2).1.length + 1) (runPass (tryLink eqcT) mkPhT ((runPass (tryDelim1 eqcT hasPhT '`' PhKind.code false) mkPhT ((s.map Sum.inl : List (Sum Char Nat)).length + 1) (s.map Sum.inl : List (Sum Char Nat)) 0).1.length + 1) (runPass (tryDelim1 eqcT hasPhT '`' PhKind.code false) mkPhT ((s.map Sum.inl : List (Sum Char Nat)).length + 1) (s.map Sum.inl : List (Sum Char Nat)) 0).1 (runPass (tryDelim1 eqcT hasPhT '`' PhKind.code false) mkPhT ((s.map Sum.inl : List (Sum Char Nat)).length + 1) (s.map Sum.inl : List (Sum Char Nat)) 0).2.2).1 (runPass (tryLink eqcT) mkPhT ((runPass (tryDelim1 eqcT hasPhT '`' PhKind.code false) mkPhT ((s.map Sum.inl : List (Sum Char Nat)).length + 1) (s.map Sum.inl : List (Sum Char Nat)) 0).1.length + 1) (runPass (tryDelim1 eqcT hasPhT '`' PhKind.code false) mkPhT ((s.map Sum.inl : List (Sum Char Nat)).length + 1) (s.map Sum.inl : List (Sum Char Nat)) 0).1 (runPass (tryDelim1 eqcT hasPhT '`' PhKind.code false) mkPhT ((s.map Sum.inl : List (Sum Char Nat)).length + 1) (s.map Sum.inl : List (Sum Char Nat)) 0).2.2).2.2).1 (runPass (tryDelim2 eqcT hasPhT '*' PhKind.strong true) mkPhT ((runPass (tryLink eqcT) mkPhT ((runPass (tryDelim1 eqcT hasPhT '`' PhKind.code false) mkPhT ((s.map Sum.inl : List (Sum Char Nat)).length + 1) (s.map Sum.inl : List (Sum Char Nat)) 0).1.length + 1) (runPass (tryDelim1 eqcT hasPhT '`' PhKind.code false) mkPhT ((s.map Sum.inl : List (Sum Char Nat)).length + 1) (s.map Sum.inl : List (Sum Char Nat)) 0).1 (runPass (tryDelim1 eqcT hasPhT '`' PhKind.code false) mkPhT ((s.map Sum.inl : List (Sum Char Nat)).length + 1) (s.map Sum.inl : List (Sum Char Nat)) 0).2.2).1.length + 1) (runPass (tryLink eqcT) mkPhT ((runPass (tryDelim1 eqcT hasPhT '`' PhKind.code false) mkPhT ((s.map Sum.inl : List (Sum Char Nat)).length + 1) (s.map Sum.inl : List (Sum Char Nat)) 0).1.length + 1) (runPass (tryDelim1 eqcT hasPhT '`' PhKind.code false) mkPhT ((s.map Sum.inl : List (Sum Char Nat)).length + 1) (s.map Sum.inl : List (Sum Char Nat)) 0).1 (runPass (tryDelim1 eqcT hasPhT '`' PhKind.code false) mkPhT ((s.map Sum.inl : List (Sum Char Nat)).length + 1) (s.map Sum.inl : List (Sum Char Nat)) 0).2.2).1 (runPass (tryLink eqcT) mkPhT ((runPass (tryDelim1 eqcT hasPhT '`' PhKind.code false) mkPhT ((s.map Sum.inl : List (Sum Char Nat)).length + 1) (s.map Sum.inl : List (Sum Char Nat)) 0).1.length + 1) (runPass (tryDelim1 eqcT hasPhT '`' PhKind.code false) mkPhT ((s.map Sum.inl : List (Sum Char Nat)).length + 1) (s.map Sum.inl : List (Sum Char Nat)) 0).1 (runPass (tryDelim1 eqcT hasPhT '`' PhKind.code false) mkPhT ((s.map Sum.inl : List (Sum Char Nat)).length + 1) (s.map Sum.inl : List (Sum Char Nat)) 0).2.2).2.2).2.2).2.2).1.length + 1) (runPass (tryDelim1 eqcT hasPhT '*' PhKind.em true) mkPhT ((runPass (tryDelim2 eqcT hasPhT '_' PhKind.strong true) mkPhT ((runPass (tryDelim2 eqcT hasPhT '*' PhKind.strong true) mkPhT ((runPass (tryLink eqcT) mkPhT ((runPass (tryDelim1 eqcT hasPhT '`' PhKind.code false) mkPhT ((s.map Sum.inl : List (Sum Char Nat)).length + 1) (s.map Sum.inl : List (Sum Char Nat)) 0).1.length + 1) (runPass (tryDelim1 eqcT hasPhT '`' PhKind.code false) mkPhT ((s.map Sum.inl : List (Sum Char Nat)).length + 1) (s.map Sum.inl : List (Sum Char Nat)) 0).1 (runPass (tryDelim1 eqcT hasPhT '`' PhKind.code false) mkPhT ((s.map Sum.inl : List (Sum Char Nat)).length + 1) (s.map Sum.inl : List (Sum Char Nat)) 0).2.2).1.length + 1) (runPass (tryLink eqcT) mkPhT ((runPass (tryDelim1 eqcT hasPhT '`' PhKind.code false) mkPhT ((s.map Sum.inl : List (Sum Char Nat)).length + 1) (s.map Sum.inl : List (Sum Char Nat)) 0).1.length + 1) (runPass (tryDelim1 eqcT hasPhT '`' PhKind.code false) mkPhT ((s.map Sum.inl : List (Sum Char Nat)).length + 1) (s.map Sum.inl : List (Sum Char Nat)) 0).1 (runPass (tryDelim1 eqcT hasPhT '`' PhKind.code false) mkPhT ((s.map Sum.inl : List (Sum Char Nat)).length + 1) (s.map Sum.inl : List (Sum Char Nat)) 0).2.2).1 (runPass (tryLink eqcT) mkPhT ((runPass (tryDelim1 eqcT hasPhT '`' PhKind.code false) mkPhT ((s.map Sum.inl : List (Sum Char Nat)).length + 1) (s.map Sum.inl : List (Sum Char Nat)) 0).1.length + 1) (runPass (tryDelim1 eqcT hasPhT '`' PhKind.code false) mkPhT ((s.map Sum.inl : List (Sum Char Nat)).length + 1) (s.map Sum.inl : List (Sum Char Nat)) 0).1 (runPass (tryDelim1 eqcT hasPhT '`' PhKind.code false) mkPhT ((s.map Sum.inl : List (Sum Char Nat)).length + 1) (s.map Sum.inl : List (Sum Char Nat)) 0).2.2).2.2).1.length + 1) (runPass (tryDelim2 eqcT hasPhT '*' PhKind.strong true) mkPhT ((runPass (tryLink eqcT) mkPhT ((runPass (tryDelim1 eqcT hasPhT '`' PhKind.code false) mkPhT ((s.map Sum.inl : List (Sum Char Nat)).length + 1) (s.map Sum.inl : List (Sum Char Nat)) 0).1.length + 1) (runPass (tryDelim1 eqcT hasPhT '`' PhKind.code false) mkPhT ((s.map Sum.inl : List (Sum Char Nat)).length + 1) (s.map Sum.inl : List (Sum Char Nat)) 0).1 (runPass (tryDelim1 eqcT hasPhT '`' PhKind.code false) mkPhT ((s.map Sum.inl : List (Sum Char Nat)).length + 1) (s.map Sum.inl : List (Sum Char Nat)) 0).2.2).1.length + 1) (runPass (tryLink eqcT) mkPhT ((runPass (tryDelim1 eqcT hasPhT '`' PhKind.code false) mkPhT ((s.map Sum.inl : List (Sum Char Nat)).length + 1) (s.map Sum.inl : List (Sum Char Nat)) 0).1.length + 1) (runPass (tryDelim1 eqcT hasPhT '`' PhKind.code false) mkPhT ((s.map Sum.inl : List (Sum Char Nat)).length + 1) (s.map Sum.inl : List (Sum Char Nat)) 0).1 (runPass (tryDelim1 eqcT hasPhT '`' PhKind.code false) mkPhT ((s.map Sum.inl : List (Sum Char Nat)).length + 1) (s.map Sum.inl : List (Sum Char Nat)) 0).2.2).1 (runPass (tryLink eqcT) mkPhT ((runPass (tryDelim1 eqcT hasPhT '`' PhKind.code false) mkPhT ((s.map Sum.inl : List (Sum Char Nat)).length + 1) (s.map Sum.inl : List (Sum Char Nat)) 0).1.length + 1) (runPass (tryDelim1 eqcT hasPhT '`' PhKind.code false) mkPhT ((s.map Sum.inl : List (Sum Char Nat)).length + 1) (s.map Sum.inl : List (Sum Char Nat)) 0).1 (runPass (tryDelim1 eqcT hasPhT '`' PhKind.code false) mkPhT ((s.map Sum.inl : List (Sum Char Nat)).length + 1) (s.map Sum.inl : List (Sum Char Nat)) 0).2.2).2.2).1 (runPass (tryDelim2 eqcT hasPhT '*' PhKind.strong true) mkPhT ((runPass (tryLink eqcT) mkPhT ((runPass (tryDelim1 eqcT hasPhT '`' PhKind.code false) mkPhT ((s.map Sum.inl : List (Sum Char Nat)).length + 1) (s.map Sum.inl : List (Sum Char Nat)) 0).1.length + 1) (runPass (tryDelim1 eqcT hasPhT '`' PhKind.code false) mkPhT ((s.map Sum.inl : List (Sum Char Nat)).length + 1) (s.map Sum.inl : List (Sum Char Nat)) 0).1 (runPass (tryDelim1 eqcT hasPhT '`' PhKind.code false) mkPhT ((s.map Sum.inl : List (Sum Char Nat)).length + 1) (s.map Sum.inl : List (Sum Char Nat)) 0).2.2).1.length + 1) (runPass (tryLink eqcT) mkPhT ((runPass (tryDelim1 eqcT hasPhT '`' PhKind.code false) mkPhT ((s.map Sum.inl : List (Sum Char Nat)).length + 1) (s.map Sum.inl : List (Sum Char Nat)) 0).1.length + 1) (runPass (tryDelim1 eqcT hasPhT '`' PhKind.code false) mkPhT ((s.map Sum.inl : List (Sum Char Nat)).length + 1) (s.map Sum.inl : List (Sum Char Nat)) 0).1 (runPass (tryDelim1 eqcT hasPhT '`' PhKind.code false) mkPhT ((s.map Sum.inl : List (Sum Char Nat)).length + 1) (s.map Sum.inl : List (Sum Char Nat)) 0).2.2).1 (runPass (tryLink eqcT) mkPhT ((runPass (tryDelim1 eqcT hasPhT '`' PhKind.code false) mkPhT ((s.map Sum.inl : List (Sum Char Nat)).length + 1) (s.map Sum.inl : List (Sum Char Nat)) 0).1.length + 1) (runPass (tryDelim1 eqcT hasPhT '`' PhKind.code false) mkPhT ((s.map Sum.inl : List (Sum Char Nat)).length + 1) (s.map Sum.inl : List (Sum Char Nat)) 0).1 (runPass (tryDelim1 eqcT hasPhT '`' PhKind.code false) mkPhT ((s.map Sum.inl : List (Sum Char Nat)).length + 1) (s.map Sum.inl : List (Sum Char Nat)) 0).2.2).2.2).2.2).1.length + 1) (runPass (tryDelim2 eqcT hasPhT '_' PhKind.strong true) mkPhT ((runPass (tryDelim2 eqcT hasPhT '*' PhKind.strong true) mkPhT ((runPass (tryLink eqcT) mkPhT ((runPass (tryDelim1 eqcT hasPhT '`' PhKind.code false) mkPhT ((s.map Sum.inl : List (Sum Char Nat)).length + 1) (s.map Sum.inl : List (Sum Char Nat)) 0).1.length + 1) (runPass (tryDelim1 eqcT hasPhT '`' PhKind.code false) mkPhT ((s.map Sum.inl : List (Sum Char Nat)).length + 1) (s.map Sum.inl : List (Sum Char Nat)) 0).1 (runPass (tryDelim1 eqcT hasPhT '`' PhKind.code false) mkPhT ((s.map Sum.inl : List (Sum Char Nat)).length + 1) (s.map Sum.inl : List (Sum Char Nat)) 0).2.2).1.length + 1) (runPass (tryLink eqcT) mkPhT ((runPass (tryDelim1 eqcT hasPhT '`' PhKind.code false) mkPhT ((s.map Sum.inl : List (Sum Char Nat)).length + 1) (s.map Sum.inl : List (Sum Char Nat)) 0).1.length + 1) (runPass (tryDelim1 eqcT hasPhT '`' PhKind.code false) mkPhT ((s.map Sum.inl : List (Sum Char Nat)).length + 1) (s.map Sum.inl : List (Sum Char Nat)) 0).1 (runPass (tryDelim1 eqcT hasPhT '`' PhKind.code false) mkPhT ((s.map Sum.inl : List (Sum Char Nat)).length + 1) (s.map Sum.inl : List (Sum Char Nat)) 0).2.2).1 (runPass (tryLink eqcT) mkPhT ((runPass (tryDelim1 eqcT hasPhT '`' PhKind.code false) mkPhT ((s.map Sum.inl : List (Sum Char Nat)).length + 1) (s.map Sum.inl : List (Sum Char Nat)) 0).1.length + 1) (runPass (tryDelim1 eqcT hasPhT '`' PhKind.code false) mkPhT ((s.map Sum.inl : List (Sum Char Nat)).length + 1) (s.map Sum.inl : List (Sum Char Nat)) 0).1 (runPass (tryDelim1 eqcT hasPhT '`' PhKind.code false) mkPhT ((s.map Sum.inl : List (Sum Char Nat)).length + 1) (s.map Sum.inl : List (Sum Char Nat)) 0).2.2).2.2).1.length + 1) (runPass (tryDelim2 eqcT hasPhT '*' PhKind.strong true) mkPhT ((runPass (tryLink eqcT) mkPhT ((runPass (tryDelim1 eqcT hasPhT '`' PhKind.code false) mkPhT ((s.map Sum.inl : List (Sum Char Nat)).length + 1) (s.map Sum.inl : List (Sum Char Nat)) 0).1.length + 1) (runPass (tryDelim1 eqcT hasPhT '`' PhKind.code false) mkPhT ((s.map Sum.inl : List (Sum Char Nat)).length + 1) (s.map Sum.inl : List (Sum Char Nat)) 0).1 (runPass (tryDelim1 eqcT hasPhT '`' PhKind.code false) mkPhT ((s.map Sum.inl : List (Sum Char Nat)).length + 1) (s.map Sum.inl : List (Sum Char Nat)) 0).2.2).1.length + 1) (runPass (tryLink eqcT) mkPhT ((runPass (tryDelim1 eqcT hasPhT '`' PhKind.code false) mkPhT ((s.map Sum.inl : List (Sum Char Nat)).length + 1) (s.map Sum.inl : List (Sum Char Nat)) 0).1.length + 1) (runPass (tryDelim1 eqcT hasPhT '`' PhKind.code false) mkPhT ((s.map Sum.inl : List (Sum Char Nat)).length + 1) (s.map Sum.inl : List (Sum Char Nat)) 0).1 (runPass (tryDelim1 eqcT hasPhT '`' PhKind.code false) mkPhT ((s.map Sum.inl : List (Sum Char Nat)).length + 1) (s.map Sum.inl : List (Sum Char Nat)) 0).2.2).1 (runPass (tryLink eqcT) mkPhT ((runPass (tryDelim1 eqcT hasPhT '`' PhKind.code false) mkPhT ((s.map Sum.inl : List (Sum Char Nat)).length + 1) (s.map Sum.inl : List (Sum Char Nat)) 0).1.length + 1) (runPass (tryDelim1 eqcT hasPhT '`' PhKind.code false) mkPhT ((s.map Sum.inl : List (Sum Char Nat)).length + 1) (s.map Sum.inl : List (Sum Char Nat)) 0).1 (runPass (tryDelim1 eqcT hasPhT '`' PhKind.code false) mkPhT ((s.map Sum.inl : List (Sum Char Nat)).length + 1) (s.map Sum.inl : List (Sum Char Nat)) 0).2.2).2.2).1 (runPass (tryDelim2 eqcT hasPhT '*' PhKind.strong true) mkPhT ((runPass (tryLink eqcT) mkPhT ((runPass (tryDelim1 eqcT hasPhT '`' PhKind.code false) mkPhT ((s.map Sum.inl : List (Sum Char Nat)).length + 1) (s.map Sum.inl : List (Sum Char Nat)) 0).1.length + 1) (runPass (tryDelim1 eqcT hasPhT '`' PhKind.code false) mkPhT ((s.map Sum.inl : List (Sum Char Nat)).length + 1) (s.map Sum.inl : List (Sum Char Nat)) 0).1 (runPass (tryDelim1 eqcT hasPhT '`' PhKind.code false) mkPhT ((s.map Sum.inl : List (Sum Char Nat)).length + 1) (s.map Sum.inl : List (Sum Char Nat)) 0).2.2).1.length + 1) (runPass (tryLink eqcT) mkPhT ((runPass (tryDelim1 eqcT hasPhT '`' PhKind.code false) mkPhT ((s.map Sum.inl : List (Sum Char Nat)).length + 1) (s.map Sum.inl : List (Sum Char Nat)) 0).1.length + 1) (runPass (tryDelim1 eqcT hasPhT '`' PhKind.code false) mkPhT ((s.map Sum.inl : List (Sum Char Nat)).length + 1) (s.map Sum.inl : List (Sum Char Nat)) 0).1 (runPass (tryDelim1 eqcT hasPhT '`' PhKind.code false) mkPhT ((s.map Sum.inl : List (Sum Char Nat)).length + 1) (s.map Sum.inl : List (Sum Char Nat)) 0).2.2).1 (runPass (tryLink eqcT) mkPhT ((runPass (tryDelim1 eqcT hasPhT '`' PhKind.code false) mkPhT ((s.map Sum.inl : List (Sum Char Nat)).length + 1) (s.map Sum.inl : List (Sum Char Nat)) 0).1.length + 1) (runPass (tryDelim1 eqcT hasPhT '`' PhKind.code false) mkPhT ((s.map Sum.inl : List (Sum Char Nat)).length + 1) (s.map Sum.inl : List (Sum Char Nat)) 0).1 (runPass (tryDelim1 eqcT hasPhT '`' PhKind.code false) mkPhT ((s.map Sum.inl : List (Sum Char Nat)).length + 1) (s.map Sum.inl : List (Sum Char Nat)) 0).2.2).2.2).2.2).1 (runPass (tryDelim2 eqcT hasPhT '_' PhKind.strong true) mkPhT ((runPass (tryDelim2 eqcT hasPhT '*' PhKind.strong true) mkPhT ((runPass (tryLink eqcT) mkPhT ((runPass (tryDelim1 eqcT hasPhT '`' PhKind.code false) mkPhT ((s.map Sum.inl : List (Sum Char Nat)).length + 1) (s.map Sum.inl : List (Sum Char Nat)) 0).1.length + 1) (runPass (tryDelim1 eqcT hasPhT '`' PhKind.code false) mkPhT ((s.map Sum.inl : List (Sum Char Nat)).length + 1) (s.map Sum.inl : List (Sum Char Nat)) 0).1 (runPass (tryDelim1 eqcT hasPhT '`' PhKind.code false) mkPhT ((s.map Sum.inl : List (Sum Char Nat)).length + 1) (s.map Sum.inl : List (Sum Char Nat)) 0).2.2).1.length + 1) (runPass (tryLink eqcT) mkPhT ((runPass (tryDelim1 eqcT hasPhT '`' PhKind.code false) mkPhT ((s.map Sum.inl : List (Sum Char Nat)).length + 1) (s.map Sum.inl : List (Sum Char Nat)) 0).1.length + 1) (runPass (tryDelim1 eqcT hasPhT '`' PhKind.code false) mkPhT ((s.map Sum.inl : List (Sum Char Nat)).length + 1) (s.map Sum.inl : List (Sum Char Nat)) 0).1 (runPass (tryDelim1 eqcT hasPhT '`' PhKind.code false) mkPhT ((s.map Sum.inl : List (Sum Char Nat)).length + 1) (s.map Sum.inl : List (Sum Char Nat)) 0).2.2).1 (runPass (tryLink eqcT) mkPhT ((runPass (tryDelim1 eqcT hasPhT '`' PhKind.code false) mkPhT ((s.map Sum.inl : List (Sum Char Nat)).length + 1) (s.map Sum.inl : List (Sum Char Nat)) 0).1.length + 1) (runPass (tryDelim1 eqcT hasPhT '`' PhKind.code false) mkPhT ((s.map Sum.inl : List (Sum Char Nat)).length + 1) (s.map Sum.inl : List (Sum Char Nat)) 0).1 (runPass (tryDelim1 eqcT hasPhT '`' PhKind.code false) mkPhT ((s.map Sum.inl : List (Sum Char Nat)).length + 1) (s.map Sum.inl : List (Sum Char Nat)) 0).2.2).2.2).1.length + 1) (runPass (tryDelim2 eqcT hasPhT '*' PhKind.strong true) mkPhT ((runPass (tryLink eqcT) mkPhT ((runPass (tryDelim1 eqcT hasPhT '`' PhKind.code false) mkPhT ((s.map Sum.inl : List (Sum Char Nat)).length + 1) (s.map Sum.inl : List (Sum Char Nat)) 0).1.length + 1) (runPass (tryDelim1 eqcT hasPhT '`' PhKind.code false) mkPhT ((s.map Sum.inl : List (Sum Char Nat)).length + 1) (s.map Sum.inl : List (Sum Char Nat)) 0).1 (runPass (tryDelim1 eqcT hasPhT '`' PhKind.code false) mkPhT ((s.map Sum.inl : List (Sum Char Nat)).length + 1) (s.map Sum.inl : List (Sum Char Nat)) 0).2.2).1.length + 1) (runPass (tryLink eqcT) mkPhT ((runPass (tryDelim1 eqcT hasPhT '`' PhKind.code false) mkPhT ((s.map Sum.inl : List (Sum Char Nat)).length + 1) (s.map Sum.inl : List (Sum Char Nat)) 0).1.length + 1) (runPass (tryDelim1 eqcT hasPhT '`' PhKind.code false) mkPhT ((s.map Sum.inl : List (Sum Char Nat)).length + 1) (s.map Sum.inl : List (Sum Char Nat)) 0).1 (runPass (tryDelim1 eqcT hasPhT '`' PhKind.code false) mkPhT ((s.map Sum.inl : List (Sum Char Nat)).length + 1) (s.map Sum.inl : List (Sum Char Nat)) 0).2.2).1 (runPass (tryLink eqcT) mkPhT ((runPass (tryDelim1 eqcT hasPhT '`' PhKind.code false) mkPhT ((s.map Sum.inl : List (Sum Char Nat)).length + 1) (s.map Sum.inl : List (Sum Char Nat)) 0).1.length + 1) (runPass (tryDelim1 eqcT hasPhT '`' PhKind.code false) mkPhT ((s.map Sum.inl : List (Sum Char Nat)).length + 1) (s.map Sum.inl : List (Sum Char Nat)) 0).1 (runPass (tryDelim1 eqcT hasPhT '`' PhKind.code false) mkPhT ((s.map Sum.inl : List (Sum Char Nat)).length + 1) (s.map Sum.inl : List (Sum Char Nat)) 0).2.2).2.2).1 (runPass (tryDelim2 eqcT hasPhT '*' PhKind.strong true) mkPhT ((runPass (tryLink eqcT) mkPhT ((runPass (tryDelim1 eqcT hasPhT '`' PhKind.code false) mkPhT ((s.map Sum.inl : List (Sum Char Nat)).length + 1) (s.map Sum.inl : List (Sum Char Nat)) 0).1.length + 1) (runPass (tryDelim1 eqcT hasPhT '`' PhKind.code false) mkPhT ((s.map Sum.inl : List (Sum Char Nat)).length + 1) (s.map Sum.inl : List (Sum Char Nat)) 0).1 (runPass (tryDelim1 eqcT hasPhT '`' PhKind.code false) mkPhT ((s.map Sum.inl : List (Sum Char Nat)).length + 1) (s.map Sum.inl : List (Sum Char Nat)) 0).2.2).1.length + 1) (runPass (tryLink eqcT) mkPhT ((runPass (tryDelim1 eqcT hasPhT '`' PhKind.code false) mkPhT ((s.map Sum.inl : List (Sum Char Nat)).length + 1) (s.map Sum.inl : List (Sum Char Nat)) 0).1.length + 1) (runPass (tryDelim1 eqcT hasPhT '`' PhKind.code false) mkPhT ((s.map Sum.inl : List (Sum Char Nat)).length + 1) (s.map Sum.inl : List (Sum Char Nat)) 0).1 (runPass (tryDelim1 eqcT hasPhT '`' PhKind.code false) mkPhT ((s.map Sum.inl : List (Sum Char Nat)).length + 1) (s.map Sum.inl : List (Sum Char Nat)) 0).2.2).1 (runPass (tryLink eqcT) mkPhT ((runPass (tryDelim1 eqcT hasPhT '`' PhKind.code false) mkPhT ((s.map Sum.inl : List (Sum Char Nat)).length + 1) (s.map Sum.inl : List (Sum Char Nat)) 0).1.length + 1) (runPass (tryDelim1 eqcT hasPhT '`' PhKind.code false) mkPhT ((s.map Sum.inl : List (Sum Char Nat)).length + 1) (s.map Sum.inl : List (Sum Char Nat)) 0).1 (runPass (tryDelim1 eqcT hasPhT '`' PhKind.code false) mkPhT ((s.map Sum.inl : List (Sum Char Nat)).length + 1) (s.map Sum.inl : List (Sum Char Nat)) 0).2.2).2.2).2.2).2.2).1 ((renderTok (runPass (tryDelim1 eqcT hasPhT '*' PhKind.em true) mkPhT ((runPass (tryDelim2 eqcT hasPhT '_' PhKind.strong true) mkPhT ((runPass (tryDelim2 eqcT hasPhT '*' PhKind.strong true) mkPhT ((runPass (tryLink eqcT) mkPhT ((runPass (tryDelim1 eqcT hasPhT '`' PhKind.code false) mkPhT ((s.map Sum.inl : List (Sum Char Nat)).length + 1) (s.map Sum.inl : List (Sum Char Nat)) 0).1.length + 1) (runPass (tryDelim1 eqcT hasPhT '`' PhKind.code false) mkPhT ((s.map Sum.inl : List (Sum Char Nat)).length + 1) (s.map Sum.inl : List (Sum Char Nat)) 0).1 (runPass (tryDelim1 eqcT hasPhT '`' PhKind.code false) mkPhT ((s.map Sum.inl : List (Sum Char Nat)).length + 1) (s.map Sum.inl : List (Sum Char Nat)) 0).2.2).1.length + 1) (runPass (tryLink eqcT) mkPhT ((runPass (tryDelim1 eqcT hasPhT '`' PhKind.code false) mkPhT ((s.map Sum.inl : List (Sum Char Nat)).length + 1) (s.map Sum.inl : List (Sum Char Nat)) 0).1.length + 1) (runPass (tryDelim1 eqcT hasPhT '`' PhKind.code false) mkPhT ((s.map Sum.inl : List (Sum Char Nat)).length + 1) (s.map Sum.inl : List (Sum Char Nat)) 0).1 (runPass (tryDelim1 eqcT hasPhT '`' PhKind.code false) mkPhT ((s.map Sum.inl : List (Sum Char Nat)).length + 1) (s.map Sum.inl : List (Sum Char Nat)) 0).2.2).1 (runPass (tryLink eqcT) mkPhT ((runPass (tryDelim1 eqcT hasPhT '`' PhKind.code false) mkPhT ((s.map Sum.inl : List (Sum Char Nat)).length + 1) (s.map Sum.inl : List (Sum Char Nat)) 0).1.length + 1) (runPass (tryDelim1 eqcT hasPhT '`' PhKind.code false) mkPhT ((s.map Sum.inl : List (Sum Char Nat)).length + 1) (s.map Sum.inl : List (Sum Char Nat)) 0).1 (runPass (tryDelim1 eqcT hasPhT '`' PhKind.code false) mkPhT ((s.map Sum.inl : List (Sum Char Nat)).length + 1) (s.map Sum.inl : List (Sum Char Nat)) 0).2.2).2.2).1.length + 1) (runPass (tryDelim2 eqcT hasPhT '*' PhKind.strong true) mkPhT ((runPass (tryLink eqcT) mkPhT ((runPass (tryDelim1 eqcT hasPhT '`' PhKind.code false) mkPhT ((s.map Sum.inl : List (Sum Char Nat)).length + 1) (s.map Sum.inl : List (Sum Char Nat)) 0).1.length + 1) (runPass (tryDelim1 eqcT hasPhT '`' PhKind.code false) mkPhT ((s.map Sum.inl : List (Sum Char Nat)).length + 1) (s.map Sum.inl : List (Sum Char Nat)) 0).1 (runPass (tryDelim1 eqcT hasPhT '`' PhKind.code false) mkPhT ((s.map Sum.inl : List (Sum Char Nat)).length + 1) (s.map Sum.inl : List (Sum Char Nat)) 0).2.2).1.length + 1) (runPass (tryLink eqcT) mkPhT ((runPass (tryDelim1 eqcT hasPhT '`' PhKind.code false) mkPhT ((s.map Sum.inl : List (Sum Char Nat)).length + 1) (s.map Sum.inl : List (Sum Char Nat)) 0).1.length + 1) (runPass (tryDelim1 eqcT hasPhT '`' PhKind.code false) mkPhT ((s.map Sum.inl : List (Sum Char Nat)).length + 1) (s.map Sum.inl : List (Sum Char Nat)) 0).1 (runPass (tryDelim1 eqcT hasPhT '`' PhKind.code false) mkPhT ((s.map Sum.inl : List (Sum Char Nat)).length + 1) (s.map Sum.inl : List (Sum Char Nat)) 0).2.2).1 (runPass (tryLink eqcT) mkPhT ((runPass (tryDelim1 eqcT hasPhT '`' PhKind.code false) mkPhT ((s.map Sum.inl : List (Sum Char Nat)).length + 1) (s.map Sum.inl : List (Sum Char Nat)) 0).1.length + 1) (runPass (tryDelim1 eqcT hasPhT '`' PhKind.code false) mkPhT ((s.map Sum.inl : List (Sum Char Nat)).length + 1) (s.map Sum.inl : List (Sum Char Nat)) 0).1 (runPass (tryDelim1 eqcT hasPhT '`' PhKind.code false) mkPhT ((s.map Sum.inl : List (Sum Char Nat)).length + 1) (s.map Sum.inl : List (Sum Char Nat)) 0).2.2).2.2).1 (runPass (tryDelim2 eqcT hasPhT '*' PhKind.strong true) mkPhT ((runPass (tryLink eqcT) mkPhT ((runPass (tryDelim1 eqcT hasPhT '`' PhKind.code false) mkPhT ((s.map Sum.inl : List (Sum Char Nat)).length + 1) (s.map Sum.inl : List (Sum Char Nat)) 0).1.length + 1) (runPass (tryDelim1 eqcT hasPhT '`' PhKind.code false) mkPhT ((s.map Sum.inl : List (Sum Char Nat)).length + 1) (s.map Sum.inl : List (Sum Char Nat)) 0).1 (runPass (tryDelim1 eqcT hasPhT '`' PhKind.code false) mkPhT ((s.map Sum.inl : List (Sum Char Nat)).length + 1) (s.map Sum.inl : List (Sum Char Nat)) 0).2.2).1.length + 1) (runPass (tryLink eqcT) mkPhT ((runPass (tryDelim1 eqcT hasPhT '`' PhKind.code false) mkPhT ((s.map Sum.inl : List (Sum Char Nat)).length + 1) (s.map Sum.inl : List (Sum Char Nat)) 0).1.length + 1) (runPass (tryDelim1 eqcT hasPhT '`' PhKind.code false) mkPhT ((s.map Sum.inl : List (Sum Char Nat)).length + 1) (s.map Sum.inl : List (Sum Char Nat)) 0).1 (runPass (tryDelim1 eqcT hasPhT '`' PhKind.code false) mkPhT ((s.map Sum.inl : List (Sum Char Nat)).length + 1) (s.map Sum.inl : List (Sum Char Nat)) 0).2.2).1 (runPass (tryLink eqcT) mkPhT ((runPass (tryDelim1 eqcT hasPhT '`' PhKind.code false) mkPhT ((s.map Sum.inl : List (Sum Char Nat)).length + 1) (s.map Sum.inl : List (Sum Char Nat)) 0).1.length + 1) (runPass (tryDelim1 eqcT hasPhT '`' PhKind.code false) mkPhT ((s.map Sum.inl : List (Sum Char Nat)).length + 1) (s.map Sum.inl : List (Sum Char Nat)) 0).1 (runPass (tryDelim1 eqcT hasPhT '`' PhKind.code false) mkPhT ((s.map Sum.inl : List (Sum Char Nat)).length + 1) (s.map Sum.inl : List (Sum Char Nat)) 0).2.2).2.2).2.2).1.length + 1) (runPass (tryDelim2 eqcT hasPhT '_' PhKind.strong true) mkPhT ((runPass (tryDelim2 eqcT hasPhT '*' PhKind.strong true) mkPhT ((runPass (tryLink eqcT) mkPhT ((runPass (tryDelim1 eqcT hasPhT '`' PhKind.code false) mkPhT ((s.map Sum.inl : List (Sum Char Nat)).length + 1) (s.map Sum.inl : List (Sum Char Nat)) 0).1.length + 1) (runPass (tryDelim1 eqcT hasPhT '`' PhKind.code false) mkPhT ((s.map Sum.inl : List (Sum Char Nat)).length + 1) (s.map Sum.inl : List (Sum Char Nat)) 0).1 (runPass (tryDelim1 eqcT hasPhT '`' PhKind.code false) mkPhT ((s.map Sum.inl : List (Sum Char Nat)).length + 1) (s.map Sum.inl : List (Sum Char Nat)) 0).2.2).1.length + 1) (runPass (tryLink eqcT) mkPhT ((runPass (tryDelim1 eqcT hasPhT '`' PhKind.code false) mkPhT ((s.map Sum.inl : List (Sum Char Nat)).length + 1) (s.map Sum.inl : List (Sum Char Nat)) 0).1.length + 1) (runPass (tryDelim1 eqcT hasPhT '`' PhKind.code false) mkPhT ((s.map Sum.inl : List (Sum Char Nat)).length + 1) (s.map Sum.inl : List (Sum Char Nat)) 0).1 (runPass (tryDelim1 eqcT hasPhT '`' PhKind.code false) mkPhT ((s.map Sum.inl : List (Sum Char Nat)).length + 1) (s.map Sum.inl : List (Sum Char Nat)) 0).2.2).1 (runPass (tryLink eqcT) mkPhT ((runPass (tryDelim1 eqcT hasPhT '`' PhKind.code false) mkPhT ((s.map Sum.inl : List (Sum Char Nat)).length + 1) (s.map Sum.inl : List (Sum Char Nat)) 0).1.length + 1) (runPass (tryDelim1 eqcT hasPhT '`' PhKind.code false) mkPhT ((s.map Sum.inl : List (Sum Char Nat)).length + 1) (s.map Sum.inl : List (Sum Char Nat)) 0).1 (runPass (tryDelim1 eqcT hasPhT '`' PhKind.code false) mkPhT ((s.map Sum.inl : List (Sum Char Nat)).length + 1) (s.map Sum.inl : List (Sum Char Nat)) 0).2.2).2.2).1.length + 1) (runPass (tryDelim2 eqcT hasPhT '*' PhKind.strong true) mkPhT ((runPass (tryLink eqcT) mkPhT ((runPass (tryDelim1 eqcT hasPhT '`' PhKind.code false) mkPhT ((s.map Sum.inl : List (Sum Char Nat)).length + 1) (s.map Sum.inl : List (Sum Char Nat)) 0).1.length + 1) (runPass (tryDelim1 eqcT hasPhT '`' PhKind.code false) mkPhT ((s.map Sum.inl : List (Sum Char Nat)).length + 1) (s.map Sum.inl : List (Sum Char Nat)) 0).1 (runPass (tryDelim1 eqcT hasPhT '`' PhKind.code false) mkPhT ((s.map Sum.inl : List (Sum Char Nat)).length + 1) (s.map Sum.inl : List (Sum Char Nat)) 0).2.2).1.length + 1) (runPass (tryLink eqcT) mkPhT ((runPass (tryDelim1 eqcT hasPhT '`' PhKind.code false) mkPhT ((s.map Sum.inl : List (Sum Char Nat)).length + 1) (s.map Sum.inl : List (Sum Char Nat)) 0).1.length + 1) (runPass (tryDelim1 eqcT hasPhT '`' PhKind.code false) mkPhT ((s.map Sum.inl : List (Sum Char Nat)).length + 1) (s.map Sum.inl : List (Sum Char Nat)) 0).1 (runPass (tryDelim1 eqcT hasPhT '`' PhKind.code false) mkPhT ((s.map Sum.inl : List (Sum Char Nat)).length + 1) (s.map Sum.inl : List (Sum Char Nat)) 0).2.2).1 (runPass (tryLink eqcT) mkPhT ((runPass (tryDelim1 eqcT hasPhT '`' PhKind.code false) mkPhT ((s.map Sum.inl : List (Sum Char Nat)).length + 1) (s.map Sum.inl : List (Sum Char Nat)) 0).1.length + 1) (runPass (tryDelim1 eqcT hasPhT '`' PhKind.code false) mkPhT ((s.map Sum.inl : List (Sum Char Nat)).length + 1) (s.map Sum.inl : List (Sum Char Nat)) 0).1 (runPass (tryDelim1 eqcT hasPhT '`' PhKind.code false) mkPhT ((s.map Sum.inl : List (Sum Char Nat)).length + 1) (s.map Sum.inl : List (Sum Char Nat)) 0).2.2).2.2).1 (runPass (tryDelim2 eqcT hasPhT '*' PhKind.strong true) mkPhT ((runPass (tryLink eqcT) mkPhT ((runPass (tryDelim1 eqcT hasPhT '`' PhKind.code false) mkPhT ((s.map Sum.inl : List (Sum Char Nat)).length + 1) (s.map Sum.inl : List (Sum Char Nat)) 0).1.length + 1) (runPass (tryDelim1 eqcT hasPhT '`' PhKind.code false) mkPhT ((s.map Sum.inl : List (Sum Char Nat)).length + 1) (s.map Sum.inl : List (Sum Char Nat)) 0).1 (runPass (tryDelim1 eqcT hasPhT '`' PhKind.code false) mkPhT ((s.map Sum.inl : List (Sum Char Nat)).length + 1) (s.map Sum.inl : List (Sum Char Nat)) 0).2.2).1.length + 1) (runPass (tryLink eqcT) mkPhT ((runPass (tryDelim1 eqcT hasPhT '`' PhKind.code false) mkPhT ((s.map Sum.inl : List (Sum Char Nat)).length + 1) (s.map Sum.inl : List (Sum Char Nat)) 0).1.length + 1) (runPass (tryDelim1 eqcT hasPhT '`' PhKind.code false) mkPhT ((s.map Sum.inl : List (Sum Char Nat)).length + 1) (s.map Sum.inl : List (Sum Char Nat)) 0).1 (runPass (tryDelim1 eqcT hasPhT '`' PhKind.code false) mkPhT ((s.map Sum.inl : List (Sum Char Nat)).length + 1) (s.map Sum.inl : List (Sum Char Nat)) 0).2.2).1 (runPass (tryLink eqcT) mkPhT ((runPass (tryDelim1 eqcT hasPhT '`' PhKind.code false) mkPhT ((s.map Sum.inl : List (Sum Char Nat)).length + 1) (s.map Sum.inl : List (Sum Char Nat)) 0).1.length + 1) (runPass (tryDelim1 eqcT hasPhT '`' PhKind.code false) mkPhT ((s.map Sum.inl : List (Sum Char Nat)).length + 1) (s.map Sum.inl : List (Sum Char Nat)) 0).1 (runPass (tryDelim1 eqcT hasPhT '`' PhKind.code false) mkPhT ((s.map Sum.inl : List (Sum Char Nat)).length + 1) (s.map Sum.inl : List (Sum Char Nat)) 0).2.2).2.2).2.2).1 (runPass (tryDelim2 eqcT hasPhT '_' PhKind.strong true) mkPhT ((runPass (tryDelim2 eqcT hasPhT '*' PhKind.strong true) mkPhT ((runPass (tryLink eqcT) mkPhT ((runPass (tryDelim1 eqcT hasPhT '`' PhKind.code false) mkPhT ((s.map Sum.inl : List (Sum Char Nat)).length + 1) (s.map Sum.inl : List (Sum Char Nat)) 0).1.length + 1) (runPass (tryDelim1 eqcT hasPhT '`' PhKind.code false) mkPhT ((s.map Sum.inl : List (Sum Char Nat)).length + 1) (s.map Sum.inl : List (Sum Char Nat)) 0).1 (runPass (tryDelim1 eqcT hasPhT '`' PhKind.code false) mkPhT ((s.map Sum.inl : List (Sum Char Nat)).length + 1) (s.map Sum.inl : List (Sum Char Nat)) 0).2.2).1.length + 1) (runPass (tryLink eqcT) mkPhT ((runPass (tryDelim1 eqcT hasPhT '`' PhKind.code false) mkPhT ((s.map Sum.inl : List (Sum Char Nat)).length + 1) (s.map Sum.inl : List (Sum Char Nat)) 0).1.length + 1) (runPass (tryDelim1 eqcT hasPhT '`' PhKind.code false) mkPhT ((s.map Sum.inl : List (Sum Char Nat)).length + 1) (s.map Sum.inl : List (Sum Char Nat)) 0).1 (runPass (tryDelim1 eqcT hasPhT '`' PhKind.code false) mkPhT ((s.map Sum.inl : List (Sum Char Nat)).length + 1) (s.map Sum.inl : List (Sum Char Nat)) 0).2.2).1 (runPass (tryLink eqcT) mkPhT ((runPass (tryDelim1 eqcT hasPhT '`' PhKind.code false) mkPhT ((s.map Sum.inl : List (Sum Char Nat)).length + 1) (s.map Sum.inl : List (Sum Char Nat)) 0).1.length + 1) (runPass (tryDelim1 eqcT hasPhT '`' PhKind.code false) mkPhT ((s.map Sum.inl : List (Sum Char Nat)).length + 1) (s.map Sum.inl : List (Sum Char Nat)) 0).1 (runPass (tryDelim1 eqcT hasPhT '`' PhKind.code false) mkPhT ((s.map Sum.inl : List (Sum Char Nat)).length + 1) (s.map Sum.inl : List (Sum Char Nat)) 0).2.2).2.2).1.length + 1) (runPass (tryDelim2 eqcT hasPhT '*' PhKind.strong true) mkPhT ((runPass (tryLink eqcT) mkPhT ((runPass (tryDelim1 eqcT hasPhT '`' PhKind.code false) mkPhT ((s.map Sum.inl : List (Sum Char Nat)).length + 1) (s.map Sum.inl : List (Sum Char Nat)) 0).1.length + 1) (runPass (tryDelim1 eqcT hasPhT '`' PhKind.code false) mkPhT ((s.map Sum.inl : List (Sum Char Nat)).length + 1) (s.map Sum.inl : List (Sum Char Nat)) 0).1 (runPass (tryDelim1 eqcT hasPhT '`' PhKind.code false) mkPhT ((s.map Sum.inl : List (Sum Char Nat)).length + 1) (s.map Sum.inl : List (Sum Char Nat)) 0).2.2).1.length + 1) (runPass (tryLink eqcT) mkPhT ((runPass (tryDelim1 eqcT hasPhT '`' PhKind.code false) mkPhT ((s.map Sum.inl : List (Sum Char Nat)).length + 1) (s.map Sum.inl : List (Sum Char Nat)) 0).1.length + 1) (runPass (tryDelim1 eqcT hasPhT '`' PhKind.code false) mkPhT ((s.map Sum.inl : List (Sum Char Nat)).length + 1) (s.map Sum.inl : List (Sum Char Nat)) 0).1 (runPass (tryDelim1 eqcT hasPhT '`' PhKind.code false) mkPhT ((s.map Sum.inl : List (Sum Char Nat)).length + 1) (s.map Sum.inl : List (Sum Char Nat)) 0).2.2).1 (runPass (tryLink eqcT) mkPhT ((runPass (tryDelim1 eqcT hasPhT '`' PhKind.code false) mkPhT ((s.map Sum.inl : List (Sum Char Nat)).length + 1) (s.map Sum.inl : List (Sum Char Nat)) 0).1.length + 1) (runPass (tryDelim1 eqcT hasPhT '`' PhKind.code false) mkPhT ((s.map Sum.inl : List (Sum Char Nat)).length + 1) (s.map Sum.inl : List (Sum Char Nat)) 0).1 (runPass (tryDelim1 eqcT hasPhT '`' PhKind.code false) mkPhT ((s.map Sum.inl : List (Sum Char Nat)).length + 1) (s.map Sum.inl : List (Sum Char Nat)) 0).2.2).2.2).1 (runPass (tryDelim2 eqcT hasPhT '*' PhKind.strong true) mkPhT ((runPass (tryLink eqcT) mkPhT ((runPass (tryDelim1 eqcT hasPhT '`' PhKind.code false) mkPhT ((s.map Sum.inl : List (Sum Char Nat)).length + 1) (s.map Sum.inl : List (Sum Char Nat)) 0).1.length + 1) (runPass (tryDelim1 eqcT hasPhT '`' PhKind.code false) mkPhT ((s.map Sum.inl : List (Sum Char Nat)).length + 1) (s.map Sum.inl : List (Sum Char Nat)) 0).1 (runPass (tryDelim1 eqcT hasPhT '`' PhKind.code false) mkPhT ((s.map Sum.inl : List (Sum Char Nat)).length + 1) (s.map Sum.inl : List (Sum Char Nat)) 0).2.2).1.length + 1) (runPass (tryLink eqcT) mkPhT ((runPass (tryDelim1 eqcT hasPhT '`' PhKind.code false) mkPhT ((s.map Sum.inl : List (Sum Char Nat)).length + 1) (s.map Sum.inl : List (Sum Char Nat)) 0).1.length + 1) (runPass (tryDelim1 eqcT hasPhT '`' PhKind.code false) mkPhT ((s.map Sum.inl : List (Sum Char Nat)).length + 1) (s.map Sum.inl : List (Sum Char Nat)) 0).1 (runPass (tryDelim1 eqcT hasPhT '`' PhKind.code false) mkPhT ((s.map Sum.inl : List (Sum Char Nat)).length + 1) (s.map Sum.inl : List (Sum Char Nat)) 0).2.2).1 (runPass (tryLink eqcT) mkPhT ((runPass (tryDelim1 eqcT hasPhT '`' PhKind.code false) mkPhT ((s.map Sum.inl : List (Sum Char Nat)).length + 1) (s.map Sum.inl : List (Sum Char Nat)) 0).1.length + 1) (runPass (tryDelim1 eqcT hasPhT '`' PhKind.code false) mkPhT ((s.map Sum.inl : List (Sum Char Nat)).length + 1) (s.map Sum.inl : List (Sum Char Nat)) 0).1 (runPass (tryDelim1 eqcT hasPhT '`' PhKind.code false) mkPhT ((s.map Sum.inl : List (Sum Char Nat)).length + 1) (s.map Sum.inl : List (Sum Char Nat)) 0).2.2).2.2).2.2).2.2).1).length + 1) (runPass (tryDelim1 eqcT hasPhT '*' PhKind.em true) mkPhT ((runPass (tryDelim2 eqcT hasPhT '_' PhKind.strong true) mkPhT ((runPass (tryDelim2 eqcT hasPhT '*' PhKind.strong true) mkPhT ((runPass (tryLink eqcT) mkPhT ((runPass (tryDelim1 eqcT hasPhT '`' PhKind.code false) mkPhT ((s.map Sum.inl : List (Sum Char Nat)).length + 1) (s.map Sum.inl : List (Sum Char Nat)) 0).1.length + 1) (runPass (tryDelim1 eqcT hasPhT '`' PhKind.code false) mkPhT ((s.map Sum.inl : List (Sum Char Nat)).length + 1) (s.map Sum.inl : List (Sum Char Nat)) 0).1 (runPass (tryDelim1 eqcT hasPhT '`' PhKind.code false) mkPhT ((s.map Sum.inl : List (Sum Char Nat)).length + 1) (s.map Sum.inl : List (Sum Char Nat)) 0).2.2).1.length + 1) (runPass (tryLink eqcT) mkPhT ((runPass (tryDelim1 eqcT hasPhT '`' PhKind.code false) mkPhT ((s.map Sum.inl : List (Sum Char Nat)).length + 1) (s.map Sum.inl : List (Sum Char Nat)) 0).1.length + 1) (runPass (tryDelim1 eqcT hasPhT '`' PhKind.code false) mkPhT ((s.map Sum.inl : List (Sum Char Nat)).length + 1) (s.map Sum.inl : List (Sum Char Nat)) 0).1 (runPass (tryDelim1 eqcT hasPhT '`' PhKind.code false) mkPhT ((s.map Sum.inl : List (Sum Char Nat)).length + 1) (s.map Sum.inl : List (Sum Char Nat)) 0).2.2).1 (runPass (tryLink eqcT) mkPhT ((runPass (tryDelim1 eqcT hasPhT '`' PhKind.code false) mkPhT ((s.map Sum.inl : List (Sum Char Nat)).length + 1) (s.map Sum.inl : List (Sum Char Nat)) 0).1.length + 1) (runPass (tryDelim1 eqcT hasPhT '`' PhKind.code false) mkPhT ((s.map Sum.inl : List (Sum Char Nat)).length + 1) (s.map Sum.inl : List (Sum Char Nat)) 0).1 (runPass (tryDelim1 eqcT hasPhT '`' PhKind.code false) mkPhT ((s.map Sum.inl : List (Sum Char Nat)).length + 1) (s.map Sum.inl : List (Sum Char Nat)) 0).2.2).2.2).1.length + 1) (runPass (tryDelim2 eqcT hasPhT '*' PhKind.strong true) mkPhT ((runPass (tryLink eqcT) mkPhT ((runPass (tryDelim1 eqcT hasPhT '`' PhKind.code false) mkPhT ((s.map Sum.inl : List (Sum Char Nat)).length + 1) (s.map Sum.inl : List (Sum Char Nat)) 0).1.length + 1) (runPass (tryDelim1 eqcT hasPhT '`' PhKind.code false) mkPhT ((s.map Sum.inl : List (Sum Char Nat)).length + 1) (s.map Sum.inl : List (Sum Char Nat)) 0).1 (runPass (tryDelim1 eqcT hasPhT '`' PhKind.code false) mkPhT ((s.map Sum.inl : List (Sum Char Nat)).length + 1) (s.map Sum.inl : List (Sum Char Nat)) 0).2.2).1.length + 1) (runPass (tryLink eqcT) mkPhT ((runPass (tryDelim1 eqcT hasPhT '`' PhKind.code false) mkPhT ((s.map Sum.inl : List (Sum Char Nat)).length + 1) (s.map Sum.inl : List (Sum Char Nat)) 0).1.length + 1) (runPass (tryDelim1 eqcT hasPhT '`' PhKind.code false) mkPhT ((s.map Sum.inl : List (Sum Char Nat)).length + 1) (s.map Sum.inl : List (Sum Char Nat)) 0).1 (runPass (tryDelim1 eqcT hasPhT '`' PhKind.code false) mkPhT ((s.map Sum.inl : List (Sum Char Nat)).length + 1) (s.map Sum.inl : List (Sum Char Nat)) 0).2.2).1 (runPass (tryLink eqcT) mkPhT ((runPass (tryDelim1 eqcT hasPhT '`' PhKind.code false) mkPhT ((s.map Sum.inl : List (Sum Char Nat)).length + 1) (s.map Sum.inl : List (Sum Char Nat)) 0).1.length + 1) (runPass (tryDelim1 eqcT hasPhT '`' PhKind.code false) mkPhT ((s.map Sum.inl : List (Sum Char Nat)).length + 1) (s.map Sum.inl : List (Sum Char Nat)) 0).1 (runPass (tryDelim1 eqcT hasPhT '`' PhKind.code false) mkPhT ((s.map Sum.inl : List (Sum Char Nat)).length + 1) (s.map Sum.inl : List (Sum Char Nat)) 0).2.2).2.2).1 (runPass (tryDelim2 eqcT hasPhT '*' PhKind.strong true) mkPhT ((runPass (tryLink eqcT) mkPhT ((runPass (tryDelim1 eqcT hasPhT '`' PhKind.code false) mkPhT ((s.map Sum.inl : List (Sum Char Nat)).length + 1) (s.map Sum.inl : List (Sum Char Nat)) 0).1.length + 1) (runPass (tryDelim1 eqcT hasPhT '`' PhKind.code false) mkPhT ((s.map Sum.inl : List (Sum Char Nat)).length + 1) (s.map Sum.inl : List (Sum Char Nat)) 0).1 (runPass (tryDelim1 eqcT hasPhT '`' PhKind.code false) mkPhT ((s.map Sum.inl : List (Sum Char Nat)).length + 1) (s.map Sum.inl : List (Sum Char Nat)) 0).2.2).1.length + 1) (runPass (tryLink eqcT) mkPhT ((runPass (tryDelim1 eqcT hasPhT '`' PhKind.code false) mkPhT ((s.map Sum.inl : List (Sum Char Nat)).length + 1) (s.map Sum.inl : List (Sum Char Nat)) 0).1.length + 1) (runPass (tryDelim1 eqcT hasPhT '`' PhKind.code false) mkPhT ((s.map Sum.inl : List (Sum Char Nat)).length + 1) (s.map Sum.inl : List (Sum Char Nat)) 0).1 (runPass (tryDelim1 eqcT hasPhT '`' PhKind.code false) mkPhT ((s.map Sum.inl : List (Sum Char Nat)).length + 1) (s.map Sum.inl : List (Sum Char Nat)) 0).2.2).1 (runPass (tryLink eqcT) mkPhT ((runPass (tryDelim1 eqcT hasPhT '`' PhKind.code false) mkPhT ((s.map Sum.inl : List (Sum Char Nat)).length + 1) (s.map Sum.inl : List (Sum Char Nat)) 0).1.length + 1) (runPass (tryDelim1 eqcT hasPhT '`' PhKind.code false) mkPhT ((s.map Sum.inl : List (Sum Char Nat)).length + 1) (s.map Sum.inl : List (Sum Char Nat)) 0).1 (runPass (tryDelim1 eqcT hasPhT '`' PhKind.code false) mkPhT ((s.map Sum.inl : List (Sum Char Nat)).length + 1) (s.map Sum.inl : List (Sum Char Nat)) 0).2.2).2.2).2.2).1.length + 1) (runPass (tryDelim2 eqcT hasPhT '_' PhKind.strong true) mkPhT ((runPass (tryDelim2 eqcT hasPhT '*' PhKind.strong true) mkPhT ((runPass (tryLink eqcT) mkPhT ((runPass (tryDelim1 eqcT hasPhT '`' PhKind.code false) mkPhT ((s.map Sum.inl : List (Sum Char Nat)).length + 1) (s.map Sum.inl : List (Sum Char Nat)) 0).1.length + 1) (runPass (tryDelim1 eqcT hasPhT '`' PhKind.code false) mkPhT ((s.map Sum.inl : List (Sum Char Nat)).length + 1) (s.map Sum.inl : List (Sum Char Nat)) 0).1 (runPass (tryDelim1 eqcT hasPhT '`' PhKind.code false) mkPhT ((s.map Sum.inl : List (Sum Char Nat)).length + 1) (s.map Sum.inl : List (Sum Char Nat)) 0).2.2).1.length + 1) (runPass (tryLink eqcT) mkPhT ((runPass (tryDelim1 eqcT hasPhT '`' PhKind.code false) mkPhT ((s.map Sum.inl : List (Sum Char Nat)).length + 1) (s.map Sum.inl : List (Sum Char Nat)) 0).1.length + 1) (runPass (tryDelim1 eqcT hasPhT '`' PhKind.code false) mkPhT ((s.map Sum.inl : List (Sum Char Nat)).length + 1) (s.map Sum.inl : List (Sum Char Nat)) 0).1 (runPass (tryDelim1 eqcT hasPhT '`' PhKind.code false) mkPhT ((s.map Sum.inl : List (Sum Char Nat)).length + 1) (s.map Sum.inl : List (Sum Char Nat)) 0).2.2).1 (runPass (tryLink eqcT) mkPhT ((runPass (tryDelim1 eqcT hasPhT '`' PhKind.code false) mkPhT ((s.map Sum.inl : List (Sum Char Nat)).length + 1) (s.map Sum.inl : List (Sum Char Nat)) 0).1.length + 1) (runPass (tryDelim1 eqcT hasPhT '`' PhKind.code false) mkPhT ((s.map Sum.inl : List (Sum Char Nat)).length + 1) (s.map Sum.inl : List (Sum Char Nat)) 0).1 (runPass (tryDelim1 eqcT hasPhT '`' PhKind.code false) mkPhT ((s.map Sum.inl : List (Sum Char Nat)).length + 1) (s.map Sum.inl : List (Sum Char Nat)) 0).2.2).2.2).1.length + 1) (runPass (tryDelim2 eqcT hasPhT '*' PhKind.strong true) mkPhT ((runPass (tryLink eqcT) mkPhT ((runPass (tryDelim1 eqcT hasPhT '`' PhKind.code false) mkPhT ((s.map Sum.inl : List (Sum Char Nat)).length + 1) (s.map Sum.inl : List (Sum Char Nat)) 0).1.length + 1) (runPass (tryDelim1 eqcT hasPhT '`' PhKind.code false) mkPhT ((s.map Sum.inl : List (Sum Char Nat)).length + 1) (s.map Sum.inl : List (Sum Char Nat)) 0).1 (runPass (tryDelim1 eqcT hasPhT '`' PhKind.code false) mkPhT ((s.map Sum.inl : List (Sum Char Nat)).length + 1) (s.map Sum.inl : List (Sum Char Nat)) 0).2.2).1.length + 1) (runPass (tryLink eqcT) mkPhT ((runPass (tryDelim1 eqcT hasPhT '`' PhKind.code false) mkPhT ((s.map Sum.inl : List (Sum Char Nat)).length + 1) (s.map Sum.inl : List (Sum Char Nat)) 0).1.length + 1) (runPass (tryDelim1 eqcT hasPhT '`' PhKind.code false) mkPhT ((s.map Sum.inl : List (Sum Char Nat)).length + 1) (s.map Sum.inl : List (Sum Char Nat)) 0).1 (runPass (tryDelim1 eqcT hasPhT '`' PhKind.code false) mkPhT ((s.map Sum.inl : List (Sum Char Nat)).length + 1) (s.map Sum.inl : List (Sum Char Nat)) 0).2.2).1 (runPass (tryLink eqcT) mkPhT ((runPass (tryDelim1 eqcT hasPhT '`' PhKind.code false) mkPhT ((s.map Sum.inl : List (Sum Char Nat)).length + 1) (s.map Sum.inl : List (Sum Char Nat)) 0).1.length + 1) (runPass (tryDelim1 eqcT hasPhT '`' PhKind.code false) mkPhT ((s.map Sum.inl : List (Sum Char Nat)).length + 1) (s.map Sum.inl : List (Sum Char Nat)) 0).1 (runPass (tryDelim1 eqcT hasPhT '`' PhKind.code false) mkPhT ((s.map Sum.inl : List (Sum Char Nat)).length + 1) (s.map Sum.inl : List (Sum Char Nat)) 0).2.2).2.2).1 (runPass (tryDelim2 eqcT hasPhT '*' PhKind.strong true) mkPhT ((runPass (tryLink eqcT) mkPhT ((runPass (tryDelim1 eqcT hasPhT '`' PhKind.code false) mkPhT ((s.map Sum.inl : List (Sum Char Nat)).length + 1) (s.map Sum.inl : List (Sum Char Nat)) 0).1.length + 1) (runPass (tryDelim1 eqcT hasPhT '`' PhKind.code false) mkPhT ((s.map Sum.inl : List (Sum Char Nat)).length + 1) (s.map Sum.inl : List (Sum Char Nat)) 0).1 (runPass (tryDelim1 eqcT hasPhT '`' PhKind.code false) mkPhT ((s.map Sum.inl : List (Sum Char Nat)).length + 1) (s.map Sum.inl : List (Sum Char Nat)) 0).2.2).1.length + 1) (runPass (tryLink eqcT) mkPhT ((runPass (tryDelim1 eqcT hasPhT '`' PhKind.code false) mkPhT ((s.map Sum.inl : List (Sum Char Nat)).length + 1) (s.map Sum.inl : List (Sum Char Nat)) 0).1.length + 1) (runPass (tryDelim1 eqcT hasPhT '`' PhKind.code false) mkPhT ((s.map Sum.inl : List (Sum Char Nat)).length + 1) (s.map Sum.inl : List (Sum Char Nat)) 0).1 (runPass (tryDelim1 eqcT hasPhT '`' PhKind.code false) mkPhT ((s.map Sum.inl : List (Sum Char Nat)).length + 1) (s.map Sum.inl : List (Sum Char Nat)) 0).2.2).1 (runPass (tryLink eqcT) mkPhT ((runPass (tryDelim1 eqcT hasPhT '`' PhKind.code false) mkPhT ((s.map Sum.inl : List (Sum Char Nat)).length + 1) (s.map Sum.inl : List (Sum Char Nat)) 0).1.length + 1) (runPass (tryDelim1 eqcT hasPhT '`' PhKind.code false) mkPhT ((s.map Sum.inl : List (Sum Char Nat)).length + 1) (s.map Sum.inl : List (Sum Char Nat)) 0).1 (runPass (tryDelim1 eqcT hasPhT '`' PhKind.code false) mkPhT ((s.map Sum.inl : List (Sum Char Nat)).length + 1) (s.map Sum.inl : List (Sum Char Nat)) 0).2.2).2.2).2.2).1 (runPass (tryDelim2 eqcT hasPhT '_' PhKind.strong true) mkPhT ((runPass (tryDelim2 eqcT hasPhT '*' PhKind.strong true) mkPhT ((runPass (tryLink eqcT) mkPhT ((runPass (tryDelim1 eqcT hasPhT '`' PhKind.code false) mkPhT ((s.map Sum.inl : List (Sum Char Nat)).length + 1) (s.map Sum.inl : List (Sum Char Nat)) 0).1.length + 1) (runPass (tryDelim1 eqcT hasPhT '`' PhKind.code false) mkPhT ((s.map Sum.inl : List (Sum Char Nat)).length + 1) (s.map Sum.inl : List (Sum Char Nat)) 0).1 (runPass (tryDelim1 eqcT hasPhT '`' PhKind.code false) mkPhT ((s.map Sum.inl : List (Sum Char Nat)).length + 1) (s.map Sum.inl : List (Sum Char Nat)) 0).2.2).1.length + 1) (runPass (tryLink eqcT) mkPhT ((runPass (tryDelim1 eqcT hasPhT '`' PhKind.code false) mkPhT ((s.map Sum.inl : List (Sum Char Nat)).length + 1) (s.map Sum.inl : List (Sum Char Nat)) 0).1.length + 1) (runPass (tryDelim1 eqcT hasPhT '`' PhKind.code false) mkPhT ((s.map Sum.inl : List (Sum Char Nat)).length + 1) (s.map Sum.inl : List (Sum Char Nat)) 0).1 (runPass (tryDelim1 eqcT hasPhT '`' PhKind.code false) mkPhT ((s.map Sum.inl : List (Sum Char Nat)).length + 1) (s.map Sum.inl : List (Sum Char Nat)) 0).2.2).1 (runPass (tryLink eqcT) mkPhT ((runPass (tryDelim1 eqcT hasPhT '`' PhKind.code false) mkPhT ((s.map Sum.inl : List (Sum Char Nat)).length + 1) (s.map Sum.inl : List (Sum Char Nat)) 0).1.length + 1) (runPass (tryDelim1 eqcT hasPhT '`' PhKind.code false) mkPhT ((s.map Sum.inl : List (Sum Char Nat)).length + 1) (s.map Sum.inl : List (Sum Char Nat)) 0).1 (runPass (tryDelim1 eqcT hasPhT '`' PhKind.code false) mkPhT ((s.map Sum.inl : List (Sum Char Nat)).length + 1) (s.map Sum.inl : List (Sum Char Nat)) 0).2.2).2.2).1.length + 1) (runPass (tryDelim2 eqcT hasPhT '*' PhKind.strong true) mkPhT ((runPass (tryLink eqcT) mkPhT ((runPass (tryDelim1 eqcT hasPhT '`' PhKind.code false) mkPhT ((s.map Sum.inl : List (Sum Char Nat)).length + 1) (s.map Sum.inl : List (Sum Char Nat)) 0).1.length + 1) (runPass (tryDelim1 eqcT hasPhT '`' PhKind.code false) mkPhT ((s.map Sum.inl : List (Sum Char Nat)).length + 1) (s.map Sum.inl : List (Sum Char Nat)) 0).1 (runPass (tryDelim1 eqcT hasPhT '`' PhKind.code false) mkPhT ((s.map Sum.inl : List (Sum Char Nat)).length + 1) (s.map Sum.inl : List (Sum Char Nat)) 0).2.2).1.length + 1) (runPass (tryLink eqcT) mkPhT ((runPass (tryDelim1 eqcT hasPhT '`' PhKind.code false) mkPhT ((s.map Sum.inl : List (Sum Char Nat)).length + 1) (s.map Sum.inl : List (Sum Char Nat)) 0).1.length + 1) (runPass (tryDelim1 eqcT hasPhT '`' PhKind.code false) mkPhT ((s.map Sum.inl : List (Sum Char Nat)).length + 1) (s.map Sum.inl : List (Sum Char Nat)) 0).1 (runPass (tryDelim1 eqcT hasPhT '`' PhKind.code false) mkPhT ((s.map Sum.inl : List (Sum Char Nat)).length + 1) (s.map Sum.inl : List (Sum Char Nat)) 0).2.2).1 (runPass (tryLink eqcT) mkPhT ((runPass (tryDelim1 eqcT hasPhT '`' PhKind.code false) mkPhT ((s.map Sum.inl : List (Sum Char Nat)).length + 1) (s.map Sum.inl : List (Sum Char Nat)) 0).1.length + 1) (runPass (tryDelim1 eqcT hasPhT '`' PhKind.code false) mkPhT ((s.map Sum.inl : List (Sum Char Nat)).length + 1) (s.map Sum.inl : List (Sum Char Nat)) 0).1 (runPass (tryDelim1 eqcT hasPhT '`' PhKind.code false) mkPhT ((s.map Sum.inl : List (Sum Char Nat)).length + 1) (s.map Sum.inl : List (Sum Char Nat)) 0).2.2).2.2).1 (runPass (tryDelim2 eqcT hasPhT '*' PhKind.strong true) mkPhT ((runPass (tryLink eqcT) mkPhT ((runPass (tryDelim1 eqcT hasPhT '`' PhKind.code false) mkPhT ((s.map Sum.inl : List (Sum Char Nat)).length + 1) (s.map Sum.inl : List (Sum Char Nat)) 0).1.length + 1) (runPass (tryDelim1 eqcT hasPhT '`' PhKind.code false) mkPhT ((s.map Sum.inl : List (Sum Char Nat)).length + 1) (s.map Sum.inl : List (Sum Char Nat)) 0).1 (runPass (tryDelim1 eqcT hasPhT '`' PhKind.code false) mkPhT ((s.map Sum.inl : List (Sum Char Nat)).length + 1) (s.map Sum.inl : List (Sum Char Nat)) 0).2.2).1.length + 1) (runPass (tryLink eqcT) mkPhT ((runPass (tryDelim1 eqcT hasPhT '`' PhKind.code false) mkPhT ((s.map Sum.inl : List (Sum Char Nat)).length + 1) (s.map Sum.inl : List (Sum Char Nat)) 0).1.length + 1) (runPass (tryDelim1 eqcT hasPhT '`' PhKind.code false) mkPhT ((s.map Sum.inl : List (Sum Char Nat)).length + 1) (s.map Sum.inl : List (Sum Char Nat)) 0).1 (runPass (tryDelim1 eqcT hasPhT '`' PhKind.code false) mkPhT ((s.map Sum.inl : List (Sum Char Nat)).length + 1) (s.map Sum.inl : List (Sum Char Nat)) 0).2.2).1 (runPass (tryLink eqcT) mkPhT ((runPass (tryDelim1 eqcT hasPhT '`' PhKind.code false) mkPhT ((s.map Sum.inl : List (Sum Char Nat)).length + 1) (s.map Sum.inl : List (Sum Char Nat)) 0).1.length + 1) (runPass (tryDelim1 eqcT hasPhT '`' PhKind.code false) mkPhT ((s.map Sum.inl : List (Sum Char Nat)).length + 1) (s.map Sum.inl : List (Sum Char Nat)) 0).1 (runPass (tryDelim1 eqcT hasPhT '`' PhKind.code false) mkPhT ((s.map Sum.inl : List (Sum Char Nat)).length + 1) (s.map Sum.inl : List (Sum Char Nat)) 0).2.2).2.2).2.2).2.2).2.2 hcl5
    (Nat.lt_succ_self _) (Nat.lt_succ_self _)
  simp only [runPassesC, runPassesT]
  rw [e1]
  dsimp only
  rw [e2]
  dsimp only
  rw [e3]
  dsimp only
  rw [e4]
  dsimp only
  rw [e5]
  dsimp only
  rw [e6]
  dsimp only
  simp [List.map_append]

theorem natDigits_all_digits (n : Nat) : ∀ c ∈ natDigits n, c.isDigit = true := by
  intro c hc
  obtain ⟨k, hk, he⟩ := natDigits_mem n c hc
  subst he
  exact decDigit_isDigit k hk

theorem tokAt_phStr (n : Nat) (rest : List Char) :
    tokAt ('\x01' :: ("PLACEHOLDER".toList ++ (natDigits n ++ ('\x01' :: rest)))) =
      some (phStr n, rest) := by
  have hpre : "PLACEHOLDER".toList.isPrefixOf
      ("PLACEHOLDER".toList ++ (natDigits n ++ ('\x01' :: rest))) = true :=
    List.isPrefixOf_iff_prefix.mpr (List.prefix_append _ _)
  simp only [tokAt, hpre, decide_True, Bool.and_true, Bool.true_and, if_true]
  rw [show (11 : Nat) = ("PLACEHOLDER".toList).length from rfl, List.drop_left]
  rw [takeWhile_append_all Char.isDigit (natDigits n) ('\x01' :: rest)
    (natDigits_all_digits n)]
  rw [show ('\x01' :: rest).takeWhile Char.isDigit = [] from by
    simp [List.takeWhile_cons]]
  rw [List.append_nil]
  have hnd : natDigits n ≠ [] := natDigitsGo_ne_nil (n + 1) n (Nat.lt_succ_self n)
  rw [if_neg (by simpa using hnd)]
  rw [List.drop_left]
  simp [phStr, phPrefix]

theorem consTxt_nil (ps : List InPart) : consTxt [] ps = ps := by
  cases ps with
  | nil => rfl
  | cons p ps =>
    cases p with
    | txt l => simp [consTxt]
    | tok l => rfl

theorem partsOfTok_cons_inl (c : Char) (v : List (Sum Char Nat)) :
    partsOfTok (Sum.inl c :: v) = consTxt [c] (partsOfTok v) := by
  cases hp : partsOfTok v with
  | nil => simp [partsOfTok, consTxt, hp]
  | cons p ps =>
    cases p with
    | txt l => simp [partsOfTok, consTxt, hp]
    | tok l => simp [partsOfTok, consTxt, hp]

theorem consTxt_snoc (p : List Char) (c : Char) (ps : List InPart) :
    consTxt (p ++ [c]) ps = consTxt p (consTxt [c] ps) := by
  cases ps with
  | nil => simp [consTxt]
  | cons q qs =>
    cases q with
    | txt l => simp [consTxt]
    | tok l => simp [consTxt]

theorem isEmpty_reverse (l : List Char) : l.reverse.isEmpty = l.isEmpty := by
  cases l with
  | nil => rfl
  | cons c cs => simp [List.isEmpty_iff]

theorem splitGo_render : ∀ (v : List (Sum Char Nat)) (acc : List Char) (f : Nat),
    cleanT v → (∀ c ∈ acc, ¬ c = '\x01') → (renderTok v).length < f →
    splitGo f (renderTok v) acc = consTxt acc.reverse (partsOfTok v) := by
  intro v
  induction v with
  | nil =>
    intro acc f _ hacc hf
    cases f with
    | zero => simp at hf
    | succ f =>
      show (if acc.isEmpty then [] else [InPart.txt acc.reverse]) = consTxt acc.reverse []
      cases hae : acc.isEmpty with
      | true =>
        simp only [if_true]
        rw [show consTxt acc.reverse [] = if acc.reverse.isEmpty then [] else
          [InPart.txt acc.reverse] from rfl]
        rw [isEmpty_reverse, hae]
        rfl
      | false =>
        simp only [Bool.false_eq_true, if_false]
        rw [show consTxt acc.reverse [] = if acc.reverse.isEmpty then [] else
          [InPart.txt acc.reverse] from rfl]
        rw [isEmpty_reverse, hae]
        rfl
  | cons t v2 ih =>
    intro acc f hcl hacc hf
    have hcl2 : cleanT v2 := cleanT_tail hcl
    cases t with
    | inl c =>
      have hr : renderTok (Sum.inl c :: v2) = c :: renderTok v2 := by simp [renderTok]
      rw [hr] at hf ⊢
      cases f with
      | zero => simp at hf
      | succ f =>
        have hcn : ¬ c = '\x01' := hcl c (List.mem_cons_self _ _)
        simp only [splitGo, if_neg hcn]
        rw [ih (c :: acc) f hcl2
          (by intro x hx; rcases List.mem_cons.mp hx with h | h;
              · subst h; exact hcn
              · exact hacc x h)
          (by simp only [List.length_cons] at hf; omega)]
        rw [List.reverse_cons, consTxt_snoc, partsOfTok_cons_inl]
    | inr n =>
      have hr : renderTok (Sum.inr n :: v2) = '\x01' ::
          ("PLACEHOLDER".toList ++ (natDigits n ++ ('\x01' :: renderTok v2))) := by
        simp [renderTok, phStr, phPrefix]
      rw [hr] at hf ⊢
      cases f with
      | zero => simp at hf
      | succ f =>
        simp only [splitGo]
        rw [tokAt_phStr n (renderTok v2)]
        simp only [eq_self_iff_true, if_true]
        rw [ih [] f hcl2 (by intro x hx; cases hx)
          (by simp only [List.length_cons, List.length_append] at hf
              have hph : 0 < (phStr n).length := List.length_pos.mpr (phStr_ne_nil n)
              simp only [phStr, phPrefix, List.length_cons, List.length_append,
                List.length_cons] at hph ⊢
              omega)]
        rw [List.reverse_nil, consTxt_nil]
        rw [show partsOfTok (Sum.inr n :: v2) = InPart.tok (phStr n) :: partsOfTok v2 from rfl]
        rw [show consTxt acc.reverse (InPart.tok (phStr n) :: partsOfTok v2) =
          (if acc.reverse.isEmpty then InPart.tok (phStr n) :: partsOfTok v2 else
            InPart.txt acc.reverse :: InPart.tok (phStr n) :: partsOfTok v2) from rfl]
        rw [isEmpty_reverse]
        cases hae : acc.isEmpty with
        | true => simp
        | false => simp

theorem splitParts_render (v : List (Sum Char Nat)) (hcl : cleanT v) :
    splitParts (renderTok v) = partsOfTok v := by
  rw [splitParts, splitGo_render v [] ((renderTok v).length + 1) hcl
    (by intro x hx; cases hx) (Nat.lt_succ_self _)]
  rw [List.reverse_nil, consTxt_nil]

theorem findEntry_map (es : List (PhEntry (Sum Char Nat))) (n : Nat) :
    findEntry (es.map renderEntryT) (phStr n) =
      Option.map renderEntryT (es.find? (fun e => e.id == n)) := by
  rw [findEntry, List.find?_map]
  have h : ((fun e => phStr e.id == phStr n) ∘ renderEntryT) =
      (fun e : PhEntry (Sum Char Nat) => e.id == n) := by
    funext e
    simp [Function.comp, renderEntryT, phStr_beq]
  rw [h]

theorem partsOfTok_txt_mem : ∀ (v : List (Sum Char Nat)) (l : List Char),
    InPart.txt l ∈ partsOfTok v → l ≠ [] ∧ ∀ c ∈ l, Sum.inl c ∈ v := by
  intro v
  induction v with
  | nil => intro l h; cases h
  | cons t v2 ih =>
    intro l h
    cases t with
    | inr n =>
      rw [show partsOfTok (Sum.inr n :: v2) = InPart.tok (phStr n) :: partsOfTok v2 from rfl] at h
      rcases List.mem_cons.mp h with h1 | h1
      · cases h1
      · obtain ⟨hne, hmem⟩ := ih l h1
        exact ⟨hne, fun c hc => List.mem_cons_of_mem _ (hmem c hc)⟩
    | inl c =>
      rw [partsOfTok_cons_inl] at h
      cases hp : partsOfTok v2 with
      | nil =>
        rw [hp] at h
        simp only [consTxt, List.isEmpty_nil] at h
        rcases List.mem_cons.mp h with h1 | h1
        · injection h1 with h2
          subst h2
          exact ⟨by simp, by intro x hx; simp only [List.mem_singleton] at hx; subst hx
                             exact List.mem_cons_self _ _⟩
        · cases h1
      | cons p ps =>
        rw [hp] at h
        cases p with
        | txt l2 =>
          simp only [consTxt] at h
          rcases List.mem_cons.mp h with h1 | h1
          · injection h1 with h2
            subst h2
            obtain ⟨hne2, hmem2⟩ := ih l2 (hp ▸ List.mem_cons_self _ _)
            refine ⟨by simp, ?_⟩
            intro x hx
            rcases List.mem_cons.mp hx with h3 | h3
            · subst h3; exact List.mem_cons_self _ _
            · exact List.mem_cons_of_mem _ (hmem2 x h3)
          · obtain ⟨hne2, hmem2⟩ := ih l (hp ▸ List.mem_cons_of_mem _ h1)
            exact ⟨hne2, fun c2 hc2 => List.mem_cons_of_mem _ (hmem2 c2 hc2)⟩
        | tok l2 =>
          simp only [consTxt, List.isEmpty_cons] at h
          rcases List.mem_cons.mp h with h1 | h1
          · injection h1 with h2
            subst h2
            exact ⟨by simp, by intro x hx; simp only [List.mem_singleton] at hx; subst hx
                               exact List.mem_cons_self _ _⟩
          · obtain ⟨hne2, hmem2⟩ := ih l (hp ▸ h1)
            exact ⟨hne2, fun c2 hc2 => List.mem_cons_of_mem _ (hmem2 c2 hc2)⟩

theorem nodeOfEntry_text (e : PhEntry Char) :
    ∃ ms, nodeOfEntry e = ADF.text e.text.asString ms := by
  cases hk : e.kind
  · exact ⟨[Mark.code], by simp [nodeOfEntry, hk]⟩
  · exact ⟨[Mark.strong], by simp [nodeOfEntry, hk]⟩
  · exact ⟨[Mark.em], by simp [nodeOfEntry, hk]⟩
  · exact ⟨[Mark.link e.url.asString], by simp [nodeOfEntry, hk]⟩

theorem phPrefix_not_pre (l : List Char) (h : ∀ c ∈ l, ¬ c = '\x01') (hne : l ≠ []) :
    phPrefix.isPrefixOf l = false := by
  cases l with
  | nil => exact absurd rfl hne
  | cons c cs =>
    have hc : ¬ c = '\x01' := h c (List.mem_cons_self _ _)
    simp only [phPrefix, List.isPrefixOf, Bool.and_eq_false_iff]
    left
    simp only [beq_eq_false_iff_ne, ne_eq]
    exact fun he => hc he.symm

theorem concatInline_go (ns : List ADF) : ∀ a : String,
    ns.foldl (fun a n => a ++ (match n with | ADF.text t _ => t | _ => "")) a =
      ⟨a.data ++ flatTextOf ns⟩ := by
  induction ns with
  | nil =>
    intro a
    cases a
    simp [flatTextOf]
  | cons n ns ih =>
    intro a
    rw [List.foldl_cons, ih]
    congr 1
    cases n <;> simp [flatTextOf] <;> rfl

theorem concatInlineText_eq (ns : List ADF) :
    concatInlineText ns = (flatTextOf ns).asString := by
  rw [concatInlineText, concatInline_go]
  rfl

theorem asString_data (l : List Char) : (l.asString).data = l := rfl

theorem buildNodes_consTxt (e : List (PhEntry Char)) (p : List Char) (hne : p ≠ [])
    (hcl : ∀ c ∈ p, ¬ c = '\x01') (ps : List InPart)
    (hps : ∀ l, InPart.txt l ∈ ps → l ≠ [] ∧ ∀ c ∈ l, ¬ c = '\x01') :
    flatTextOf (buildNodes e (consTxt p ps)) = p ++ flatTextOf (buildNodes e ps) := by
  cases ps with
  | nil =>
    simp only [consTxt, List.isEmpty_iff, if_neg hne]
    rw [show buildNodes e [InPart.txt p] =
      if phPrefix.isPrefixOf p then buildNodes e [] else
        ADF.text p.asString [] :: buildNodes e [] from rfl]
    rw [phPrefix_not_pre p hcl hne]
    simp [flatTextOf, buildNodes]
    rfl
  | cons q ps2 =>
    cases q with
    | txt l =>
      obtain ⟨hlne, hlcl⟩ := hps l (List.mem_cons_self _ _)
      simp only [consTxt]
      rw [show buildNodes e (InPart.txt (p ++ l) :: ps2) =
        if phPrefix.isPrefixOf (p ++ l) then buildNodes e ps2 else
          ADF.text (p ++ l).asString [] :: buildNodes e ps2 from rfl]
      rw [show buildNodes e (InPart.txt l :: ps2) =
        if phPrefix.isPrefixOf l then buildNodes e ps2 else
          ADF.text l.asString [] :: buildNodes e ps2 from rfl]
      rw [phPrefix_not_pre (p ++ l)
        (by intro c hc; rcases List.mem_append.mp hc with h | h
            · exact hcl c h
            · exact hlcl c h)
        (by intro hc; exact hne (List.append_eq_nil.mp hc).1)]
      rw [phPrefix_not_pre l hlcl hlne]
      simp only [flatTextOf, Bool.false_eq_true, if_false, List.flatMap_cons]
      rw [show ((p ++ l).asString.toList) = p ++ l from rfl,
        show (l.asString.toList) = l from rfl, List.append_assoc]
    | tok l =>
      simp only [consTxt, List.isEmpty_iff, if_neg hne]
      rw [show buildNodes e (InPart.txt p :: InPart.tok l :: ps2) =
        if phPrefix.isPrefixOf p then buildNodes e (InPart.tok l :: ps2) else
          ADF.text p.asString [] :: buildNodes e (InPart.tok l :: ps2) from rfl]
      rw [phPrefix_not_pre p hcl hne]
      simp [flatTextOf]
      rfl

theorem buildNodes_flat (esT : List (PhEntry (Sum Char Nat))) :
    ∀ v : List (Sum Char Nat), cleanT v →
    flatTextOf (buildNodes (esT.map renderEntryT) (partsOfTok v)) =
      v.flatMap (fun t => match t with
        | Sum.inl c => [c]
        | Sum.inr n => renderTok (lookupTextT esT n)) := by
  intro v
  induction v with
  | nil => simp [partsOfTok, buildNodes, flatTextOf]
  | cons t v2 ih =>
    intro hcl
    have hcl2 : cleanT v2 := cleanT_tail hcl
    cases t with
    | inr n =>
      rw [show partsOfTok (Sum.inr n :: v2) = InPart.tok (phStr n) :: partsOfTok v2 from rfl]
      rw [show buildNodes (esT.map renderEntryT) (InPart.tok (phStr n) :: partsOfTok v2) =
        (match findEntry (esT.map renderEntryT) (phStr n) with
         | some e => nodeOfEntry e :: buildNodes (esT.map renderEntryT) (partsOfTok v2)
         | none => buildNodes (esT.map renderEntryT) (partsOfTok v2)) from rfl]
      rw [findEntry_map]
      cases hfind : esT.find? (fun e => e.id == n) with
      | none =>
        simp only [Option.map_none']
        rw [List.flatMap_cons]
        dsimp only
        rw [show lookupTextT esT n = [] from by simp [lookupTextT, hfind], ih hcl2]
        simp [renderTok]
      | some eT =>
        simp only [Option.map_some']
        obtain ⟨ms, hms⟩ := nodeOfEntry_text (renderEntryT eT)
        rw [hms]
        rw [show flatTextOf (ADF.text (renderEntryT eT).text.asString ms ::
          buildNodes (esT.map renderEntryT) (partsOfTok v2)) =
          (renderEntryT eT).text.asString.toList ++
            flatTextOf (buildNodes (esT.map renderEntryT) (partsOfTok v2)) from by
          simp [flatTextOf]]
        rw [ih hcl2, List.flatMap_cons]
        dsimp only
        rw [show lookupTextT esT n = eT.text from by simp [lookupTextT, hfind]]
        rfl
    | inl c =>
      rw [partsOfTok_cons_inl]
      rw [buildNodes_consTxt (esT.map renderEntryT) [c] (by simp)
        (by intro x hx; simp only [List.mem_singleton] at hx; subst hx
            exact hcl _ (List.mem_cons_self _ _))
        (partsOfTok v2)
        (by intro l hl
            obtain ⟨hlne, hmem⟩ := partsOfTok_txt_mem v2 l hl
            exact ⟨hlne, fun x hx => hcl2 x (hmem x hx)⟩)]
      rw [ih hcl2, List.flatMap_cons]

theorem runPassesT_clean (s : List Char) (h : ∀ c ∈ s, ¬ c = '\x01') :
    cleanT (runPassesT s).1 := by
  have hcl0 : cleanT (s.map Sum.inl : List (Sum Char Nat)) := by
    intro x hx
    rcases List.mem_map.mp hx with ⟨y, hy, he⟩
    injection he with he2
    subst he2
    exact h _ hy
  simp only [runPassesT]
  apply runPass_clean
  apply runPass_clean
  apply runPass_clean
  apply runPass_clean
  apply runPass_clean
  apply runPass_clean
  exact hcl0

theorem runPass_ids (tryT : Sum Char Nat → List (Sum Char Nat) → Option (MRes (Sum Char Nat))) :
    ∀ (f : Nat) (ts : List (Sum Char Nat)) (ctr : Nat),
      ctr ≤ (runPass tryT mkPhT f ts ctr).2.2 ∧
      (∀ e ∈ (runPass tryT mkPhT f ts ctr).2.1,
        ctr ≤ e.id ∧ e.id < (runPass tryT mkPhT f ts ctr).2.2) ∧
      (runPass tryT mkPhT f ts ctr).2.1.Pairwise (fun a b => a.id < b.id) ∧
      (∀ n, Sum.inr n ∈ (runPass tryT mkPhT f ts ctr).1 →
        Sum.inr n ∈ ts ∨ ∃ e ∈ (runPass tryT mkPhT f ts ctr).2.1, e.id = n) := by
  intro f
  induction f with
  | zero =>
    intro ts ctr
    refine ⟨le_refl _, ?_, List.Pairwise.nil, ?_⟩
    · intro e he; cases he
    · intro n hn; exact Or.inl hn
  | succ f ih =>
    intro ts ctr
    cases ts with
    | nil =>
      refine ⟨le_refl _, ?_, List.Pairwise.nil, ?_⟩
      · intro e he; cases he
      · intro n hn; cases hn
    | cons c cs =>
      simp only [runPass]
      cases htry : tryT c cs with
      | none =>
        obtain ⟨h1, h2, h3, h4⟩ := ih cs ctr
        refine ⟨h1, h2, h3, ?_⟩
        intro n hn
        rcases List.mem_cons.mp hn with he | he
        · exact Or.inl (he ▸ List.mem_cons_self _ _)
        · rcases h4 n he with h5 | h5
          · exact Or.inl (List.mem_cons_of_mem _ h5)
          · exact Or.inr h5
      | some m =>
        by_cases hsk : m.skipIt = true
        · simp only [hsk, if_true]
          obtain ⟨h1, h2, h3, h4⟩ := ih (cs.drop m.tailLen) ctr
          refine ⟨h1, h2, h3, ?_⟩
          intro n hn
          rcases List.mem_cons.mp hn with he | he
          · exact Or.inl (he ▸ List.mem_cons_self _ _)
          · rcases List.mem_append.mp he with hm | hm
            · exact Or.inl (List.mem_cons_of_mem _ ((List.take_sublist _ _).subset hm))
            · rcases h4 n hm with h5 | h5
              · exact Or.inl (List.mem_cons_of_mem _ ((List.drop_sublist _ _).subset h5))
              · exact Or.inr h5
        · have hsk2 : m.skipIt = false := by revert hsk; cases m.skipIt <;> simp
          simp only [hsk2, Bool.false_eq_true, if_false]
          obtain ⟨h1, h2, h3, h4⟩ := ih (cs.drop m.tailLen) (ctr + 1)
          refine ⟨by omega, ?_, ?_, ?_⟩
          · intro e he
            rcases List.mem_cons.mp he with he2 | he2
            · subst he2
              exact ⟨le_refl _, by dsimp only; omega⟩
            · have h6 := h2 e he2
              exact ⟨by omega, h6.2⟩
          · exact List.Pairwise.cons (fun b hb => by have := h2 b hb; dsimp only; omega) h3
          · intro n hn
            rcases List.mem_append.mp hn with hm | hm
            · simp only [mkPhT, List.mem_singleton] at hm
              injection hm with hm2
              exact Or.inr ⟨⟨ctr, m.kind, m.textCap, m.urlCap⟩, List.mem_cons_self _ _, hm2.symm⟩
            · rcases h4 n hm with h5 | h5
              · exact Or.inl (List.mem_cons_of_mem _ ((List.drop_sublist _ _).subset h5))
              · obtain ⟨e, he, hei⟩ := h5
                exact Or.inr ⟨e, List.mem_cons_of_mem _ he, hei⟩

theorem runPassesT_ids (s : List Char) :
    (runPassesT s).2.1.Pairwise (fun a b => a.id < b.id) ∧
    (∀ n, Sum.inr n ∈ (runPassesT s).1 → ∃ e ∈ (runPassesT s).2.1, e.id = n) := by
  simp only [runPassesT]
  set r1 := runPass (tryDelim1 eqcT hasPhT '`' PhKind.code false) mkPhT
    ((s.map Sum.inl : List (Sum Char Nat)).length + 1) (s.map Sum.inl : List (Sum Char Nat)) 0
    with hr1
  set r2 := runPass (tryLink eqcT) mkPhT (r1.1.length + 1) r1.1 r1.2.2 with hr2
  set r3 := runPass (tryDelim2 eqcT hasPhT '*' PhKind.strong true) mkPhT
    (r2.1.length + 1) r2.1 r2.2.2 with hr3
  set r4 := runPass (tryDelim2 eqcT hasPhT '_' PhKind.strong true) mkPhT
    (r3.1.length + 1) r3.1 r3.2.2 with hr4
  set r5 := runPass (tryDelim1 eqcT hasPhT '*' PhKind.em true) mkPhT
    (r4.1.length + 1) r4.1 r4.2.2 with hr5
  set r6 := runPass (tryDelim1 eqcT hasPhT '_' PhKind.em true) mkPhT
    (r5.1.length + 1) r5.1 r5.2.2 with hr6
  have I1 := runPass_ids (tryDelim1 eqcT hasPhT '`' PhKind.code false)
    ((s.map Sum.inl : List (Sum Char Nat)).length + 1) (s.map Sum.inl : List (Sum Char Nat)) 0
  rw [← hr1] at I1
  have I2 := runPass_ids (tryLink eqcT) (r1.1.length + 1) r1.1 r1.2.2
  rw [← hr2] at I2
  have I3 := runPass_ids (tryDelim2 eqcT hasPhT '*' PhKind.strong true)
    (r2.1.length + 1) r2.1 r2.2.2
  rw [← hr3] at I3
  have I4 := runPass_ids (tryDelim2 eqcT hasPhT '_' PhKind.strong true)
    (r3.1.length + 1) r3.1 r3.2.2
  rw [← hr4] at I4
  have I5 := runPass_ids (tryDelim1 eqcT hasPhT '*' PhKind.em true)
    (r4.1.length + 1) r4.1 r4.2.2
  rw [← hr5] at I5
  have I6 := runPass_ids (tryDelim1 eqcT hasPhT '_' PhKind.em true)
    (r5.1.length + 1) r5.1 r5.2.2
  rw [← hr6] at I6
  obtain ⟨m1, b1, p1, s1⟩ := I1
  obtain ⟨m2, b2, p2, s2⟩ := I2
  obtain ⟨m3, b3, p3, s3⟩ := I3
  obtain ⟨m4, b4, p4, s4⟩ := I4
  obtain ⟨m5, b5, p5, s5⟩ := I5
  obtain ⟨m6, b6, p6, s6⟩ := I6
  have q6 : ∀ x ∈ r6.2.1, r5.2.2 ≤ x.id := fun x hx => (b6 x hx).1
  have q5 : ∀ x ∈ r5.2.1 ++ r6.2.1, r4.2.2 ≤ x.id := by
    intro x hx
    rcases List.mem_append.mp hx with h | h
    · exact (b5 x h).1
    · exact le_trans m5 (q6 x h)
  have q4 : ∀ x ∈ r4.2.1 ++ (r5.2.1 ++ r6.2.1), r3.2.2 ≤ x.id := by
    intro x hx
    rcases List.mem_append.mp hx with h | h
    · exact (b4 x h).1
    · exact le_trans m4 (q5 x h)
  have q3 : ∀ x ∈ r3.2.1 ++ (r4.2.1 ++ (r5.2.1 ++ r6.2.1)), r2.2.2 ≤ x.id := by
    intro x hx
    rcases List.mem_append.mp hx with h | h
    · exact (b3 x h).1
    · exact le_trans m3 (q4 x h)
  have q2 : ∀ x ∈ r2.2.1 ++ (r3.2.1 ++ (r4.2.1 ++ (r5.2.1 ++ r6.2.1))), r1.2.2 ≤ x.id := by
    intro x hx
    rcases List.mem_append.mp hx with h | h
    · exact (b2 x h).1
    · exact le_trans m2 (q3 x h)
  have P5 : (r5.2.1 ++ r6.2.1).Pairwise (fun a b => a.id < b.id) := by
    rw [List.pairwise_append]
    exact ⟨p5, p6, fun a ha b hb => lt_of_lt_of_le (b5 a ha).2 (q6 b hb)⟩
  have P4 : (r4.2.1 ++ (r5.2.1 ++ r6.2.1)).Pairwise (fun a b => a.id < b.id) := by
    rw [List.pairwise_append]
    exact ⟨p4, P5, fun a ha b hb => lt_of_lt_of_le (b4 a ha).2 (q5 b hb)⟩
  have P3 : (r3.2.1 ++ (r4.2.1 ++ (r5.2.1 ++ r6.2.1))).Pairwise (fun a b => a.id < b.id) := by
    rw [List.pairwise_append]
    exact ⟨p3, P4, fun a ha b hb => lt_of_lt_of_le (b3 a ha).2 (q4 b hb)⟩
  have P2 : (r2.2.1 ++ (r3.2.1 ++ (r4.2.1 ++ (r5.2.1 ++ r6.2.1)))).Pairwise
      (fun a b => a.id < b.id) := by
    rw [List.pairwise_append]
    exact ⟨p2, P3, fun a ha b hb => lt_of_lt_of_le (b2 a ha).2 (q3 b hb)⟩
  have P1 : (r1.2.1 ++ (r2.2.1 ++ (r3.2.1 ++ (r4.2.1 ++ (r5.2.1 ++ r6.2.1))))).Pairwise
      (fun a b => a.id < b.id) := by
    rw [List.pairwise_append]
    exact ⟨p1, P2, fun a ha b hb => lt_of_lt_of_le (b1 a ha).2 (q2 b hb)⟩
  have cov : ∀ n, Sum.inr n ∈ r6.1 →
      ∃ e ∈ r1.2.1 ++ (r2.2.1 ++ (r3.2.1 ++ (r4.2.1 ++ (r5.2.1 ++ r6.2.1)))), e.id = n := by
    intro n hn
    rcases s6 n hn with hn | hfound
    case inr =>
      obtain ⟨e, he, hei⟩ := hfound
      exact ⟨e, List.mem_append.mpr (Or.inr (List.mem_append.mpr (Or.inr (List.mem_append.mpr
        (Or.inr (List.mem_append.mpr (Or.inr (List.mem_append.mpr (Or.inr he))))))))), hei⟩
    rcases s5 n hn with hn | hfound
    case inr =>
      obtain ⟨e, he, hei⟩ := hfound
      exact ⟨e, List.mem_append.mpr (Or.inr (List.mem_append.mpr (Or.inr (List.mem_append.mpr
        (Or.inr (List.mem_append.mpr (Or.inr (List.mem_append.mpr (Or.inl he))))))))), hei⟩
    rcases s4 n hn with hn | hfound
    case inr =>
      obtain ⟨e, he, hei⟩ := hfound
      exact ⟨e, List.mem_append.mpr (Or.inr (List.mem_append.mpr (Or.inr (List.mem_append.mpr
        (Or.inr (List.mem_append.mpr (Or.inl he))))))), hei⟩
    rcases s3 n hn with hn | hfound
    case inr =>
      obtain ⟨e, he, hei⟩ := hfound
      exact ⟨e, List.mem_append.mpr (Or.inr (List.mem_append.mpr (Or.inr (List.mem_append.mpr
        (Or.inl he))))), hei⟩
    rcases s2 n hn with hn | hfound
    case inr =>
      obtain ⟨e, he, hei⟩ := hfound
      exact ⟨e, List.mem_append.mpr (Or.inr (List.mem_append.mpr (Or.inl he))), hei⟩
    rcases s1 n hn with hn | hfound
    case inr =>
      obtain ⟨e, he, hei⟩ := hfound
      exact ⟨e, List.mem_append.mpr (Or.inl he), hei⟩
    rcases List.mem_map.mp hn with ⟨y, hy, he⟩
    simp at he
  simp only [List.append_assoc]
  exact ⟨P1, cov⟩

theorem find_of_exists (es : List (PhEntry (Sum Char Nat))) (n : Nat)
    (h : ∃ e ∈ es, e.id = n) :
    ∃ e, es.find? (fun e => e.id == n) = some e ∧ e.id = n := by
  induction es with
  | nil => obtain ⟨e, he, _⟩ := h; cases he
  | cons a as ih =>
    by_cases ha : (a.id == n) = true
    · exact ⟨a, by simp [List.find?_cons, ha], by simpa using ha⟩
    · have ha2 : (a.id == n) = false := by revert ha; cases (a.id == n) <;> simp
      obtain ⟨e, he, hei⟩ := h
      rcases List.mem_cons.mp he with h1 | h1
      · subst h1
        rw [hei] at ha2
        simp at ha2
      · obtain ⟨e2, hf, hi⟩ := ih ⟨e, h1, hei⟩
        exact ⟨e2, by simp [List.find?_cons, ha2, hf], hi⟩

theorem find_self (es : List (PhEntry (Sum Char Nat)))
    (hP : es.Pairwise (fun a b => a.id < b.id)) (e : PhEntry (Sum Char Nat)) (he : e ∈ es) :
    es.find? (fun x => x.id == e.id) = some e := by
  induction es with
  | nil => cases he
  | cons a as ih =>
    rcases List.mem_cons.mp he with h1 | h1
    · subst h1
      simp [List.find?_cons]
    · have hlt : a.id < e.id := (List.pairwise_cons.mp hP).1 e h1
      have hne : (a.id == e.id) = false := by
        simp only [beq_eq_false_iff_ne, ne_eq]
        omega
      rw [List.find?_cons]
      rw [hne]
      exact ih (List.pairwise_cons.mp hP).2 h1

theorem runPassT_ne_nil (tryT : Sum Char Nat → List (Sum Char Nat) → Option (MRes (Sum Char Nat))) :
    ∀ (f : Nat) (ts : List (Sum Char Nat)) (ctr : Nat), ts ≠ [] →
      (runPass tryT mkPhT f ts ctr).1 ≠ [] := by
  intro f ts ctr hne
  cases f with
  | zero => exact hne
  | succ f =>
    cases ts with
    | nil => exact absurd rfl hne
    | cons c cs =>
      simp only [runPass]
      cases htry : tryT c cs with
      | none => simp
      | some m =>
        by_cases hsk : m.skipIt = true
        · simp [hsk]
        · have h2 : m.skipIt = false := by revert hsk; cases m.skipIt <;> simp
          simp [h2, mkPhT]

theorem runPassesT_ne_nil (s : List Char) (hs : s ≠ []) : (runPassesT s).1 ≠ [] := by
  simp only [runPassesT]
  apply runPassT_ne_nil
  apply runPassT_ne_nil
  apply runPassT_ne_nil
  apply runPassT_ne_nil
  apply runPassT_ne_nil
  apply runPassT_ne_nil
  simpa using hs

theorem buildNodes_parts_ne_nil (esT : List (PhEntry (Sum Char Nat)))
    (v : List (Sum Char Nat)) (hcl : cleanT v) (hv : v ≠ [])
    (hcov : ∀ n, Sum.inr n ∈ v → ∃ e ∈ esT, e.id = n) :
    buildNodes (esT.map renderEntryT) (partsOfTok v) ≠ [] := by
  cases v with
  | nil => exact absurd rfl hv
  | cons t v2 =>
    cases t with
    | inr n =>
      obtain ⟨e1, hf, _⟩ := find_of_exists esT n (hcov n (List.mem_cons_self _ _))
      rw [show partsOfTok (Sum.inr n :: v2) = InPart.tok (phStr n) :: partsOfTok v2 from rfl]
      rw [show buildNodes (esT.map renderEntryT) (InPart.tok (phStr n) :: partsOfTok v2) =
        (match findEntry (esT.map renderEntryT) (phStr n) with
         | some e => nodeOfEntry e :: buildNodes (esT.map renderEntryT) (partsOfTok v2)
         | none => buildNodes (esT.map renderEntryT) (partsOfTok v2)) from rfl]
      rw [findEntry_map, hf]
      simp
    | inl c =>
      rw [partsOfTok_cons_inl]
      intro hbn
      have hfl := buildNodes_consTxt (esT.map renderEntryT) [c] (by simp)
        (by intro x hx; simp only [List.mem_singleton] at hx; subst hx
            exact hcl _ (List.mem_cons_self _ _))
        (partsOfTok v2)
        (by intro l hl
            obtain ⟨hlne, hmem⟩ := partsOfTok_txt_mem v2 l hl
            exact ⟨hlne, fun x hx => (cleanT_tail hcl) x (hmem x hx)⟩)
      rw [hbn] at hfl
      simp [flatTextOf] at hfl

theorem toList_eq_nil (s : String) (hs : s.toList = []) : s = "" := by
  cases s with
  | mk d =>
    rw [show (String.mk d).toList = d from rfl] at hs
    subst hs
    rfl

theorem parseInline_demark (s : String) (h : ∀ c ∈ s.toList, ¬ c = '\x01') :
    concatInlineText (parseInlineFormatting s) = (demarkRef s.toList).asString := by
  by_cases hs : s.toList = []
  · rw [toList_eq_nil s hs]
    rfl
  · have hclV := runPassesT_clean s.toList h
    have hcov := (runPassesT_ids s.toList).2
    have hsim := runPassesC_sim s.toList h
    have hvne : (runPassesT s.toList).1 ≠ [] := runPassesT_ne_nil s.toList hs
    have hbn := buildNodes_parts_ne_nil (runPassesT s.toList).2.1 (runPassesT s.toList).1
      hclV hvne hcov
    simp only [parseInlineFormatting]
    rw [hsim]
    dsimp only
    rw [splitParts_render _ hclV]
    rw [show (buildNodes ((runPassesT s.toList).2.1.map renderEntryT)
        (partsOfTok (runPassesT s.toList).1)).isEmpty = false from by
      simpa [List.isEmpty_iff] using hbn]
    simp only [Bool.false_eq_true, if_false]
    rw [concatInlineText_eq, buildNodes_flat _ _ hclV]
    rfl

theorem sublist_flatMap {α β : Type} (F : α → List β) {a b : List α} (h : List.Sublist a b) :
    List.Sublist (a.flatMap F) (b.flatMap F) := by
  induction h with
  | slnil => exact List.Sublist.refl _
  | cons x h ih =>
    rw [List.flatMap_cons]
    exact List.Sublist.trans ih (List.sublist_append_right _ _)
  | cons₂ x h ih =>
    rw [List.flatMap_cons, List.flatMap_cons]
    exact ih.append_left _

theorem tryDelim1_span {γ : Type} (eqc : γ → Char → Bool) (hasPh : List γ → Bool)
    (d : Char) (k : PhKind) (b : Bool) (c : γ) (cs : List γ) (m : MRes γ)
    (h : tryDelim1 eqc hasPh d k b c cs = some m) :
    List.Sublist m.textCap (c :: cs.take m.tailLen) := by
  by_cases hc : eqc c d = true
  · simp only [tryDelim1, hc, if_true] at h
    by_cases h0 : (cs.takeWhile (fun x => decide ¬(eqc x d = true))).length = 0
    · rw [if_pos h0] at h
      cases h
    · rw [if_neg h0] at h
      cases hdp : cs.drop (cs.takeWhile (fun x => decide ¬(eqc x d = true))).length with
      | nil => rw [hdp] at h; cases h
      | cons x tail =>
        rw [hdp] at h
        dsimp only at h
        by_cases hx : eqc x d = true
        · rw [if_pos hx] at h
          obtain rfl := (Option.some.inj h).symm
          dsimp only
          obtain ⟨suf, hsuf⟩ := List.takeWhile_prefix
            (fun x => decide ¬(eqc x d = true)) (l := cs)
          nth_rewrite 3 [← hsuf]
          rw [List.take_append 1]
          exact List.Sublist.cons _ (List.sublist_append_left _ _)
        · rw [if_neg hx] at h
          cases h
  · rw [tryDelim1_none eqc hasPh d k b c cs (by revert hc; cases eqc c d <;> simp)] at h
    cases h

theorem tryDelim2_span {γ : Type} (eqc : γ → Char → Bool) (hasPh : List γ → Bool)
    (d : Char) (k : PhKind) (b : Bool) (c : γ) (cs : List γ) (m : MRes γ)
    (h : tryDelim2 eqc hasPh d k b c cs = some m) :
    List.Sublist m.textCap (c :: cs.take m.tailLen) := by
  by_cases hc : eqc c d = true
  · simp only [tryDelim2, hc, if_true] at h
    cases cs with
    | nil => cases h
    | cons c2 cs2 =>
      dsimp only at h
      by_cases hc2 : eqc c2 d = true
      · rw [if_pos hc2] at h
        by_cases h0 : (cs2.takeWhile (fun x => decide ¬(eqc x d = true))).length = 0
        · rw [if_pos h0] at h
          cases h
        · rw [if_neg h0] at h
          cases hdp : cs2.drop (cs2.takeWhile (fun x => decide ¬(eqc x d = true))).length with
          | nil => rw [hdp] at h; cases h
          | cons x tail =>
            rw [hdp] at h
            cases tail with
            | nil => dsimp only at h; cases h
            | cons y tail2 =>
              dsimp only at h
              by_cases hxy : (eqc x d && eqc y d) = true
              · rw [if_pos hxy] at h
                obtain rfl := (Option.some.inj h).symm
                dsimp only
                obtain ⟨suf, hsuf⟩ := List.takeWhile_prefix
                  (fun x => decide ¬(eqc x d = true)) (l := cs2)
                rw [show 1 + (cs2.takeWhile (fun x => decide ¬(eqc x d = true))).length + 2 =
                  ((cs2.takeWhile (fun x => decide ¬(eqc x d = true))).length + 2) + 1 by omega]
                rw [List.take_succ_cons]
                nth_rewrite 3 [← hsuf]
                rw [List.take_append 2]
                exact List.Sublist.cons _ (List.Sublist.cons _ (List.sublist_append_left _ _))
              · rw [if_neg hxy] at h
                cases h
      · rw [if_neg hc2] at h
        cases h
  · rw [tryDelim2_none eqc hasPh d k b c cs (by revert hc; cases eqc c d <;> simp)] at h
    cases h

theorem tryLink_span {γ : Type} (eqc : γ → Char → Bool) (c : γ) (cs : List γ) (m : MRes γ)
    (h : tryLink eqc c cs = some m) :
    List.Sublist m.textCap (c :: cs.take m.tailLen) := by
  by_cases hc : eqc c '[' = true
  · simp only [tryLink, hc, if_true] at h
    by_cases h0 : (cs.takeWhile (fun x => decide ¬(eqc x ']' = true))).length = 0
    · rw [if_pos h0] at h
      cases h
    · rw [if_neg h0] at h
      cases hdp : cs.drop (cs.takeWhile (fun x => decide ¬(eqc x ']' = true))).length with
      | nil => rw [hdp] at h; cases h
      | cons x tail =>
        rw [hdp] at h
        cases tail with
        | nil => dsimp only at h; cases h
        | cons y tail2 =>
          dsimp only at h
          by_cases hxy : (eqc x ']' && eqc y '(') = true
          · rw [if_pos hxy] at h
            by_cases h02 : (tail2.takeWhile (fun z => decide ¬(eqc z ')' = true))).length = 0
            · rw [if_pos h02] at h
              cases h
            · rw [if_neg h02] at h
              cases hdp2 : tail2.drop
                  (tail2.takeWhile (fun z => decide ¬(eqc z ')' = true))).length with
              | nil => rw [hdp2] at h; cases h
              | cons q tail3 =>
                rw [hdp2] at h
                dsimp only at h
                by_cases hq : eqc q ')' = true
                · rw [if_pos hq] at h
                  obtain rfl := (Option.some.inj h).symm
                  dsimp only
                  obtain ⟨suf, hsuf⟩ := List.takeWhile_prefix
                    (fun x => decide ¬(eqc x ']' = true)) (l := cs)
                  rw [show (cs.takeWhile (fun x => decide ¬(eqc x ']' = true))).length + 2 +
                      (tail2.takeWhile (fun z => decide ¬(eqc z ')' = true))).length + 1 =
                      (cs.takeWhile (fun x => decide ¬(eqc x ']' = true))).length +
                      (2 + (tail2.takeWhile (fun z => decide ¬(eqc z ')' = true))).length + 1)
                      by omega]
                  nth_rewrite 3 [← hsuf]
                  rw [List.take_append
                    (2 + (tail2.takeWhile (fun z => decide ¬(eqc z ')' = true))).length + 1)]
                  exact List.Sublist.cons _ (List.sublist_append_left _ _)
                · rw [if_neg hq] at h
                  cases h
          · rw [if_neg hxy] at h
            cases h
  · rw [tryLink_none eqc c cs (by revert hc; cases eqc c '[' <;> simp)] at h
    cases h

theorem flatMap_of_phFree (F : Sum Char Nat → List Char) (hFl : ∀ c, F (Sum.inl c) = [c]) :
    ∀ l : List (Sum Char Nat), hasPhT l = false → l.flatMap F = renderTok l := by
  intro l
  induction l with
  | nil => intro _; rfl
  | cons t l2 ih =>
    intro h
    cases t with
    | inl c =>
      have h2 : hasPhT l2 = false := by
        simp only [hasPhT, List.any_cons] at h ⊢
        revert h
        cases l2.any fun t => match t with | Sum.inl _ => false | Sum.inr _ => true <;> simp
      rw [List.flatMap_cons, ih h2, hFl]
      simp [renderTok]
    | inr n =>
      simp [hasPhT] at h
  
theorem runPass_sublist_flat
    (tryT : Sum Char Nat → List (Sum Char Nat) → Option (MRes (Sum Char Nat)))
    (F : Sum Char Nat → List Char)
    (hspan : ∀ c ts m, tryT c ts = some m → List.Sublist m.textCap (c :: ts.take m.tailLen)) :
    ∀ (f : Nat) (ts : List (Sum Char Nat)) (ctr : Nat),
      (∀ e ∈ (runPass tryT mkPhT f ts ctr).2.1,
        List.Sublist (F (Sum.inr e.id)) (e.text.flatMap F)) →
      List.Sublist ((runPass tryT mkPhT f ts ctr).1.flatMap F) (ts.flatMap F) := by
  intro f
  induction f with
  | zero =>
    intro ts ctr _
    exact List.Sublist.refl _
  | succ f ih =>
    intro ts ctr hE
    cases ts with
    | nil => exact List.Sublist.refl _
    | cons c cs =>
      simp only [runPass] at hE ⊢
      cases htry : tryT c cs with
      | none =>
        rw [htry] at hE
        dsimp only at hE
        rw [List.flatMap_cons, List.flatMap_cons]
        exact (ih cs ctr hE).append_left _
      | some m =>
        rw [htry] at hE
        by_cases hsk : m.skipIt = true
        · simp only [hsk, if_true] at hE ⊢
          rw [List.flatMap_cons, List.flatMap_cons, List.flatMap_append]
          nth_rewrite 3 [← List.take_append_drop m.tailLen cs]
          rw [List.flatMap_append]
          exact ((ih (cs.drop m.tailLen) ctr hE).append_left _).append_left _
        · have hsk2 : m.skipIt = false := by revert hsk; cases m.skipIt <;> simp
          simp only [hsk2, Bool.false_eq_true, if_false] at hE ⊢
          rw [List.flatMap_append, List.flatMap_cons]
          nth_rewrite 2 [← List.take_append_drop m.tailLen cs]
          rw [List.flatMap_append]
          have hhead : List.Sublist ((mkPhT ctr).flatMap F) (F c ++ (cs.take m.tailLen).flatMap F) := by
            have h1 := hE ⟨ctr, m.kind, m.textCap, m.urlCap⟩ (List.mem_cons_self _ _)
            dsimp only at h1
            have h2 := sublist_flatMap F (hspan c cs m htry)
            rw [List.flatMap_cons] at h2
            have h3 : (mkPhT ctr).flatMap F = F (Sum.inr ctr) := by simp [mkPhT]
            rw [h3]
            exact List.Sublist.trans h1 h2
          have htail := ih (cs.drop m.tailLen) (ctr + 1)
            (fun e he => hE e (List.mem_cons_of_mem _ he))
          rw [← List.append_assoc]
          exact List.Sublist.append hhead htail

theorem demarkRef_sublist (s : List Char)
    (h2 : ∀ e ∈ (runPassesT s).2.1, hasPhT e.text = false) :
    List.Sublist (demarkRef s) s := by
  have hP := (runPassesT_ids s).1
  simp only [demarkRef]
  simp only [runPassesT] at h2 hP ⊢
  set r1 := runPass (tryDelim1 eqcT hasPhT '`' PhKind.code false) mkPhT
    ((s.map Sum.inl : List (Sum Char Nat)).length + 1) (s.map Sum.inl : List (Sum Char Nat)) 0
    with hr1
  set r2 := runPass (tryLink eqcT) mkPhT (r1.1.length + 1) r1.1 r1.2.2 with hr2
  set r3 := runPass (tryDelim2 eqcT hasPhT '*' PhKind.strong true) mkPhT
    (r2.1.length + 1) r2.1 r2.2.2 with hr3
  set r4 := runPass (tryDelim2 eqcT hasPhT '_' PhKind.strong true) mkPhT
    (r3.1.length + 1) r3.1 r3.2.2 with hr4
  set r5 := runPass (tryDelim1 eqcT hasPhT '*' PhKind.em true) mkPhT
    (r4.1.length + 1) r4.1 r4.2.2 with hr5
  set r6 := runPass (tryDelim1 eqcT hasPhT '_' PhKind.em true) mkPhT
    (r5.1.length + 1) r5.1 r5.2.2 with hr6
  set es := r1.2.1 ++ r2.2.1 ++ r3.2.1 ++ r4.2.1 ++ r5.2.1 ++ r6.2.1 with hes
  set F := expandTok es with hF
  have hFl : ∀ c : Char, F (Sum.inl c) = [c] := fun c => rfl
  have hEall : ∀ e ∈ es, List.Sublist (F (Sum.inr e.id)) (e.text.flatMap F) := by
    intro e he
    have hfind := find_self es hP e he
    have hfree := h2 e he
    have hlk : lookupTextT es e.id = e.text := by
      unfold lookupTextT
      rw [hfind]
    have hFr : F (Sum.inr e.id) = renderTok e.text := by
      rw [hF]
      show renderTok (lookupTextT es e.id) = renderTok e.text
      rw [hlk]
    rw [hFr, ← flatMap_of_phFree F hFl e.text hfree]
  have hm1 : ∀ e ∈ r1.2.1, e ∈ es := by
    intro e he
    rw [hes]
    simp only [List.mem_append]
    tauto
  have hm2 : ∀ e ∈ r2.2.1, e ∈ es := by
    intro e he
    rw [hes]
    simp only [List.mem_append]
    tauto
  have hm3 : ∀ e ∈ r3.2.1, e ∈ es := by
    intro e he
    rw [hes]
    simp only [List.mem_append]
    tauto
  have hm4 : ∀ e ∈ r4.2.1, e ∈ es := by
    intro e he
    rw [hes]
    simp only [List.mem_append]
    tauto
  have hm5 : ∀ e ∈ r5.2.1, e ∈ es := by
    intro e he
    rw [hes]
    simp only [List.mem_append]
    tauto
  have hm6 : ∀ e ∈ r6.2.1, e ∈ es := by
    intro e he
    rw [hes]
    simp only [List.mem_append]
    tauto
  have hbase : ∀ l : List Char, ((l.map Sum.inl : List (Sum Char Nat))).flatMap F = l := by
    intro l
    induction l with
    | nil => rfl
    | cons c cs ih =>
      rw [List.map_cons, List.flatMap_cons, hFl, ih]
      rfl
  have st1 : List.Sublist (r1.1.flatMap F) s := by
    have h0 : List.Sublist (r1.1.flatMap F)
        (((s.map Sum.inl : List (Sum Char Nat))).flatMap F) := by
      rw [hr1]
      exact runPass_sublist_flat _ F
        (fun c ts m h => tryDelim1_span eqcT hasPhT '`' PhKind.code false c ts m h)
        ((s.map Sum.inl : List (Sum Char Nat)).length + 1) (s.map Sum.inl : List (Sum Char Nat)) 0
        (fun e he => hEall e (hm1 e (by rw [hr1]; exact he)))
    rw [hbase s] at h0
    exact h0
  have st2 : List.Sublist (r2.1.flatMap F) (r1.1.flatMap F) := by
    rw [hr2]
    exact runPass_sublist_flat _ F
      (fun c ts m h => tryLink_span eqcT c ts m h)
      (r1.1.length + 1) r1.1 r1.2.2
      (fun e he => hEall e (hm2 e (by rw [hr2]; exact he)))
  have st3 : List.Sublist (r3.1.flatMap F) (r2.1.flatMap F) := by
    rw [hr3]
    exact runPass_sublist_flat _ F
      (fun c ts m h => tryDelim2_span eqcT hasPhT '*' PhKind.strong true c ts m h)
      (r2.1.length + 1) r2.1 r2.2.2
      (fun e he => hEall e (hm3 e (by rw [hr3]; exact he)))
  have st4 : List.Sublist (r4.1.flatMap F) (r3.1.flatMap F) := by
    rw [hr4]
    exact runPass_sublist_flat _ F
      (fun c ts m h => tryDelim2_span eqcT hasPhT '_' PhKind.strong true c ts m h)
      (r3.1.length + 1) r3.1 r3.2.2
      (fun e he => hEall e (hm4 e (by rw [hr4]; exact he)))
  have st5 : List.Sublist (r5.1.flatMap F) (r4.1.flatMap F) := by
    rw [hr5]
    exact runPass_sublist_flat _ F
      (fun c ts m h => tryDelim1_span eqcT hasPhT '*' PhKind.em true c ts m h)
      (r4.1.length + 1) r4.1 r4.2.2
      (fun e he => hEall e (hm5 e (by rw [hr5]; exact he)))
  have st6 : List.Sublist (r6.1.flatMap F) (r5.1.flatMap F) := by
    rw [hr6]
    exact runPass_sublist_flat _ F
      (fun c ts m h => tryDelim1_span eqcT hasPhT '_' PhKind.em true c ts m h)
      (r5.1.length + 1) r5.1 r5.2.2
      (fun e he => hEall e (hm6 e (by rw [hr6]; exact he)))
  exact st6.trans (st5.trans (st4.trans (st3.trans (st2.trans st1))))

/-- C2: Corrected text preservation for `parseInlineFormatting`.  The
returned run sequence is non-empty for every line.  For every line with
no U+0001 character, concatenating the text of the returned runs equals
the line with the matched formatting markers removed, where each matched
span contributes its recorded captured text (`demarkRef`); when
additionally no placeholder is captured inside any recorded span's text,
that marker-removed text is a subsequence of the input line.  (The
original claim, that the concatenation always equals the input minus
markers and in-order, fails: see the counterexample, where a code-span
placeholder is swallowed into a link's text and sentinel characters not
present in the input appear in the output.) -/
theorem c2_text_preservation_amended :
    (∀ t : String, parseInlineFormatting t ≠ []) ∧
    (∀ s : String, (∀ c ∈ s.toList, ¬ c = '\x01') →
      concatInlineText (parseInlineFormatting s) = (demarkRef s.toList).asString ∧
      ((∀ e ∈ (runPassesT s.toList).2.1, hasPhT e.text = false) →
        List.Sublist (demarkRef s.toList) s.toList)) := by
  constructor
  · intro t hcontra
    simp only [parseInlineFormatting] at hcontra
    by_cases hie : (buildNodes (runPassesC t.toList).2.1
        (splitParts (runPassesC t.toList).1)).isEmpty = true
    · rw [if_pos hie] at hcontra
      exact List.cons_ne_nil _ _ hcontra
    · rw [if_neg hie] at hcontra
      rw [hcontra] at hie
      exact hie rfl
  · intro s h
    exact ⟨parseInline_demark s h, fun h2 => demarkRef_sublist s.toList h2⟩

theorem c2_text_preservation_amended_witness :
    parseInlineFormatting "x" ≠ [] ∧
    (∀ c ∈ ("`a` **b** _c_ [d](u)" : String).toList, ¬ c = '\x01') ∧
    concatInlineText (parseInlineFormatting "`a` **b** _c_ [d](u)") =
      (demarkRef ("`a` **b** _c_ [d](u)" : String).toList).asString ∧
    (∀ e ∈ (runPassesT ("`a` **b** _c_ [d](u)" : String).toList).2.1,
      hasPhT e.text = false) ∧
    List.Sublist (demarkRef ("`a` **b** _c_ [d](u)" : String).toList)
      ("`a` **b** _c_ [d](u)" : String).toList := by
  have h1 : ∀ c ∈ ("`a` **b** _c_ [d](u)" : String).toList, ¬ c = '\x01' := by decide
  have h2 : ∀ e ∈ (runPassesT ("`a` **b** _c_ [d](u)" : String).toList).2.1,
      hasPhT e.text = false := by decide
  exact ⟨c2_text_preservation_amended.1 "x", h1,
    (c2_text_preservation_amended.2 "`a` **b** _c_ [d](u)" h1).1, h2,
    (c2_text_preservation_amended.2 "`a` **b** _c_ [d](u)" h1).2 h2⟩
